import Mathlib

/-! SerDes link bring-up and lock polling.

A shallow embedding of the FPD-Link serializer/deserializer driver
(`drivers/gpu/drm/bridge/ti/fpd_dp_ser_drv.c`), of the GMSL DSI driver
(`drivers/gpu/drm/i915/display/intel_dsi_ser_drv.c`), of the MAX96722
deserializer driver (`drivers/media/i2c/max96722.c`) and of the embedded
controller flash driver (`drivers/misc/ec/intel_ec.c`).

The driver code is stateful: it talks to chips over I2C, sleeps, and queues
delayed work.  Every driver function is a state transformer on a driver
state that carries the device on the bus, the chronological trace of what
the driver did (transfers, sleeps, queueing calls) and the fields of the
driver's private struct.  The device is an arbitrary state machine answering
each transfer.  `pr_debug` output is not modelled.
-/

namespace SerDes

/-! ## Bus, device and trace -/

/-- One observable action of a driver, in the order it happened. -/
inductive Event where
  /-- A single-message write transfer: the payload bytes sent to `client`
  and the value `i2c_transfer` returned. -/
  | wr (client : Nat) (payload : List Nat) (ret : Int)
  /-- A two-message read transfer: the address bytes sent to `client`, the
  value `i2c_transfer` returned and the byte stored in the caller's buffer
  (`none`: the buffer was left untouched). -/
  | rd (client : Nat) (addr : List Nat) (ret : Int) (data : Option Nat)
  /-- A call `usleep_range(lo, hi)`. -/
  | sleep (lo hi : Nat)
  /-- A call `queue_delayed_work(.., work, msecs_to_jiffies(ms))`. -/
  | queue (work : Nat) (ms : Nat)
  deriving DecidableEq, Repr

/-- The chips behind the I2C adapter, as a state machine over `σ`.  Clients
are numbered by their index in the driver's client array. -/
structure Device (σ : Type) where
  /-- Answer to a write transfer: the result of `i2c_transfer` (negative
  errno, or the number of messages executed) and the next device state. -/
  write : σ → Nat → List Nat → Int × σ
  /-- Answer to a read transfer: the result of `i2c_transfer`, the byte put
  in the receive buffer if any, and the next device state. -/
  read : σ → Nat → List Nat → (Int × Option Nat) × σ

/-- What the driver is built and run against: the device, the constants of
the header `fpd_dp_ser_drv.h` (which is not part of the sources at hand), and
the indeterminate content of an uninitialised `u8` local. -/
structure Env (σ : Type) where
  dev : Device σ
  /-- Deserializer address constant of the missing header. -/
  FPD_DP_SER_RX_ADD_A : Nat
  FPD4_Strap_Rate_0 : Nat
  FPD4_Strap_Rate_3_375 : Nat
  FPD4_Strap_Rate_6_75 : Nat
  FPD4_Strap_Rate_10_8 : Nat
  FPD4_Strap_Rate_13_5 : Nat
  /-- Content of an uninitialised stack byte. -/
  uninit : Nat

/-- Bitwise complement `~x` on a `u32`. -/
def not32 (x : Nat) : Nat := (x % 2 ^ 32) ^^^ 0xFFFFFFFF

/-- Conversion of a mathematical integer to a C `int` (two's complement,
the kernel is built with wrapping signed arithmetic). -/
def wrap32 (x : Int) : Int := (x + 2 ^ 31) % 2 ^ 32 - 2 ^ 31

def ENODEV : Int := 19

/-- Modelled from the spec: the deferred task scheduler (the kernel workqueue,
which is not part of the sources at hand).  Pending state of a delayed work
after `queue_delayed_work(.., ms)`: work that is already pending keeps its
timer, otherwise it becomes pending with delay `ms`. -/
def keepPending (cur : Option Nat) (ms : Nat) : Option Nat :=
  match cur with
  | some d => some d
  | none => some ms

/-- The spec's read-modify-write formula `new = (old & ~mask) | (value & mask)`
on bytes, `~mask` being the complement within 8 bits. -/
def UpdateMasked (old mask value : Nat) : Nat :=
  (old &&& (mask ^^^ 0xFF)) ||| (value &&& mask)

/-- Content of a one-byte receive buffer after a read transfer: the byte the
transfer stored, or the old content when it stored nothing. -/
def recvByte (data : Option Nat) (old : Nat) : Nat :=
  match data with
  | some x => x % 256
  | none => old

/-! ## FPD-Link driver state -/

/-- The fields of `struct fpd_dp_ser_priv` (declared in the missing header)
that the code uses.  `count` is printed with `%d` and is taken to be an
`int`.  `delay_work` is the pending state of `fpd_dp_priv->delay_work`:
`some ms` when it is queued. -/
structure FpdPriv where
  count : Int
  FPD4_Strap_Rate_P0 : Nat
  FPD4_Strap_Rate_P1 : Nat
  FPDConf : Nat
  delay_work : Option Nat
  deriving DecidableEq, Repr

/-- The global state of the FPD-Link driver: the device, the trace, and
`*fpd_dp_priv`. -/
structure FpdState (σ : Type) where
  dev : σ
  trace : List Event
  priv : FpdPriv

/-- Result of `fpd_dp_ser_read_reg`: the returned `char`, the content of
`*val` afterwards, and the state. -/
structure FpdRead (σ : Type) where
  ret : Int
  val : Nat
  w : FpdState σ

/-- Result of `fpd_dp_ser_write_reg` and of the `bool` stage functions. -/
structure FpdBool (σ : Type) where
  ret : Bool
  w : FpdState σ

/-- Result of an `int` function of the FPD-Link driver. -/
structure FpdInt (σ : Type) where
  ret : Int
  w : FpdState σ

variable {σ : Type}

/-- The call `usleep_range(lo, hi)`. -/
def usleep_range (lo hi : Nat) (w : FpdState σ) : FpdState σ :=
  { w with trace := w.trace ++ [Event.sleep lo hi] }

/-- Modelled from the spec: the deferred task scheduler (the kernel workqueue,
which is not part of the sources at hand).  The call
`queue_delayed_work(fpd_dp_priv->wq, &fpd_dp_priv->delay_work,
msecs_to_jiffies(ms))` is recorded in the trace and makes the work pending;
work that is already pending keeps its timer. -/
def queue_delayed_work (ms : Nat) (w : FpdState σ) : FpdState σ :=
  { w with
    trace := w.trace ++ [Event.queue 0 ms]
    priv.delay_work := keepPending w.priv.delay_work ms }

/-- The C function `fpd_dp_ser_read_reg(client, reg_addr, val)`; the argument `val` is the
content of `*val` before the call.  The result of `i2c_transfer` is dropped
and `ret` stays 0. -/
def fpd_dp_ser_read_reg (E : Env σ) (client reg_addr val : Nat) (w : FpdState σ) :
    FpdRead σ :=
  let buf0 := (reg_addr % 256) &&& 0xff
  let r := E.dev.read w.dev client [buf0]
  let val := recvByte r.1.2 val
  let w := { w with dev := r.2, trace := w.trace ++ [Event.rd client [buf0] r.1.1 r.1.2] }
  let ret : Int := 0
  if ret < 0 then ⟨-ENODEV, val, w⟩ else ⟨0, val, w⟩

/-- The C function `fpd_dp_ser_write_reg(client, reg_addr, val)`. -/
def fpd_dp_ser_write_reg (E : Env σ) (client reg_addr val : Nat) (w : FpdState σ) :
    FpdBool σ :=
  let buf0 := (reg_addr % 2 ^ 32) &&& 0xff
  let buf1 := val % 256
  let r := E.dev.write w.dev client [buf0, buf1]
  let w := { w with dev := r.2, trace := w.trace ++ [Event.wr client [buf0, buf1] r.1] }
  let ret : Int := r.1
  if ret < 0 then ⟨false, w⟩ else ⟨true, w⟩

/-- A run of consecutive statements `fpd_dp_ser_write_reg(client, reg, val);`
whose results are dropped, one `(reg, val)` per statement. -/
def fpd_dp_ser_write_regs (E : Env σ) (client : Nat) :
    List (Nat × Nat) → FpdState σ → FpdState σ
  | [], w => w
  | (reg, val) :: rest, w =>
    fpd_dp_ser_write_regs E client rest (fpd_dp_ser_write_reg E client reg val w).w

/-- The C function `fpd_dp_read_lock(client, reg_addr, mask, expected_value)`. -/
def fpd_dp_read_lock (E : Env σ) (client reg_addr mask expected_value : Nat)
    (w : FpdState σ) : FpdInt σ :=
  let r := fpd_dp_ser_read_reg E client reg_addr (E.uninit % 256) w
  if r.val &&& (mask % 2 ^ 32) = expected_value % 2 ^ 32 then ⟨0, r.w⟩ else ⟨-1, r.w⟩

/-- The C function `fpd_dp_ser_update(client, reg, mask, val)`. -/
def fpd_dp_ser_update (E : Env σ) (client reg mask val : Nat) (w : FpdState σ) :
    FpdState σ :=
  let r := fpd_dp_ser_read_reg E client (reg % 2 ^ 32) (E.uninit % 256) w
  let update_val := ((r.val &&& not32 mask) ||| ((val % 256) &&& (mask % 2 ^ 32))) % 256
  (fpd_dp_ser_write_reg E client (reg % 2 ^ 32) update_val r.w).w

/-- The two assignments `fpd_dp_priv->FPD4_Strap_Rate_P0 = r0;
fpd_dp_priv->FPD4_Strap_Rate_P1 = r1;`. -/
def set_strap_rates (r0 r1 : Nat) (w : FpdState σ) : FpdState σ :=
  { w with priv.FPD4_Strap_Rate_P0 := r0, priv.FPD4_Strap_Rate_P1 := r1 }

/-- The C function `fpd_dp_ser_prepare(client)`. -/
def fpd_dp_ser_prepare (E : Env σ) (client : Nat) (w : FpdState σ) : FpdInt σ :=
  let w := (fpd_dp_ser_write_reg E client 0x70 E.FPD_DP_SER_RX_ADD_A w).w
  let w := (fpd_dp_ser_write_reg E client 0x78 E.FPD_DP_SER_RX_ADD_A w).w
  let w := (fpd_dp_ser_write_reg E client 0x88 0x0 w).w
  let r1 := fpd_dp_ser_read_reg E client 0x27 (E.uninit % 256) w
  let TX_MODE_STS := r1.val
  let r2 := fpd_dp_ser_read_reg E client 0x7 r1.val r1.w
  let GENERAL_CFG := r2.val
  let w := r2.w
  let w :=
    if GENERAL_CFG &&& 0x01 = 1 then
      set_strap_rates 0 0 w
    else
      let w := if TX_MODE_STS &&& 0x0F = 0x0F then
          set_strap_rates E.FPD4_Strap_Rate_0 E.FPD4_Strap_Rate_0 w
        else w
      let w := if TX_MODE_STS &&& 0x0F = 0x08 ∨ TX_MODE_STS &&& 0x0F = 0x09 then
          set_strap_rates E.FPD4_Strap_Rate_10_8 E.FPD4_Strap_Rate_10_8 w
        else w
      let w := if TX_MODE_STS &&& 0x0F = 0x0A ∨ TX_MODE_STS &&& 0x0F = 0x0B then
          set_strap_rates E.FPD4_Strap_Rate_13_5 E.FPD4_Strap_Rate_13_5 w
        else w
      let w := if TX_MODE_STS &&& 0x0F = 0x0C ∨ TX_MODE_STS &&& 0x0F = 0x0D then
          set_strap_rates E.FPD4_Strap_Rate_6_75 E.FPD4_Strap_Rate_6_75 w
        else w
      if TX_MODE_STS &&& 0x0F = 0x0E then
        set_strap_rates E.FPD4_Strap_Rate_3_375 E.FPD4_Strap_Rate_3_375 w
      else w
  ⟨0, { w with priv.FPDConf := 8 }⟩

/-- The C function `fpd_dp_ser_set_config(client)`. -/
def fpd_dp_ser_set_config (E : Env σ) (client : Nat) (w : FpdState σ) : FpdBool σ :=
  ⟨true, fpd_dp_ser_write_regs E client
      [(0x48, 0x1), (0x49, 0x0), (0x4a, 0x0), (0x4b, 0x0), (0x4c, 0x0), (0x4d, 0x0),
       (0x4e, 0x0), (0x49, 0x74), (0x4a, 0x0), (0x4b, 0xa), (0x4c, 0x0), (0x4d, 0x0),
       (0x4e, 0x0), (0x49, 0x70), (0x4a, 0x0), (0x4b, 0x4), (0x4c, 0x0), (0x4d, 0x0),
       (0x4e, 0x0), (0x49, 0x14), (0x4a, 0x2), (0x4b, 0x2), (0x4c, 0x0), (0x4d, 0x0),
       (0x4e, 0x0), (0x49, 0x18), (0x4a, 0x0), (0x4b, 0x14), (0x4c, 0x0), (0x4d, 0x0),
       (0x4e, 0x0), (0x49, 0x0), (0x4a, 0x0), (0x4b, 0x1), (0x4c, 0x0), (0x4d, 0x0),
       (0x4e, 0x0)] w⟩

/-- The C function `fpd_dp_ser_set_port_config(client)`. -/
def fpd_dp_ser_set_port_config (E : Env σ) (client : Nat) (w : FpdState σ) : FpdBool σ :=
  let r1 := fpd_dp_ser_read_reg E client 0x7 (E.uninit % 256) w
  let GENERAL_CFG := r1.val
  let FPD3Mask := 0x01
  let GENERAL_CFG_REG := (GENERAL_CFG ||| FPD3Mask) % 256
  let w := (fpd_dp_ser_write_reg E client 0x07 GENERAL_CFG_REG r1.w).w
  let r2 := fpd_dp_ser_read_reg E client 0x5 r1.val w
  let FPD4_CFG := r2.val
  let TX_MODE_MASK := 0xC3
  let FPD4_CFG_REG := (FPD4_CFG &&& TX_MODE_MASK) % 256
  let w := (fpd_dp_ser_write_reg E client 0x05 FPD4_CFG_REG r2.w).w
  let w := (fpd_dp_ser_write_reg E client 0x59 0x5 w).w
  ⟨true, w⟩

/-- The C function `fpd_dp_ser_prog_plls(client)`. -/
def fpd_dp_ser_prog_plls (E : Env σ) (client : Nat) (w : FpdState σ) : FpdBool σ :=
  let w := fpd_dp_ser_write_regs E client
      [(0x2, 0x11), (0x2, 0xd1), (0x2, 0xd0), (0x40, 0x8), (0x41, 0x4), (0x42, 0x9),
       (0x41, 0x13), (0x42, 0xd0), (0x40, 0xa), (0x41, 0x5), (0x42, 0x60), (0x42, 0x0),
       (0x41, 0x18), (0x42, 0xf4), (0x42, 0xff), (0x42, 0xff), (0x41, 0x1e), (0x42, 0xfd),
       (0x42, 0xff), (0x42, 0x3f), (0x40, 0x8), (0x41, 0x44), (0x42, 0x9), (0x41, 0x53),
       (0x42, 0xd0), (0x40, 0xa), (0x41, 0x45), (0x42, 0x60), (0x42, 0x0), (0x41, 0x58),
       (0x42, 0xf4), (0x42, 0xff), (0x42, 0xff), (0x41, 0x5e), (0x42, 0xfd), (0x42, 0xff),
       (0x42, 0x3f)] w
  let w :=
    if w.priv.FPD4_Strap_Rate_P0 ≠ E.FPD4_Strap_Rate_0 ∨
        w.priv.FPD4_Strap_Rate_P1 ≠ E.FPD4_Strap_Rate_0 then
      fpd_dp_ser_write_regs E client
      [(0x40, 0x4), (0x41, 0x6), (0x42, 0xff), (0x41, 0xd), (0x42, 0x70), (0x41, 0xe),
       (0x42, 0x70), (0x41, 0x26), (0x42, 0xff), (0x41, 0x2d), (0x42, 0x70), (0x41, 0x2e),
       (0x42, 0x70)] w
    else w
  let w := (fpd_dp_ser_write_reg E client 0x1 0x30 w).w
  let w := usleep_range 20000 22000 w
  ⟨true, w⟩

/-- The C function `fpd_dp_ser_enable_I2c_passthrough(client)`. -/
def fpd_dp_ser_enable_I2c_passthrough (E : Env σ) (client : Nat) (w : FpdState σ) :
    FpdBool σ :=
  let r := fpd_dp_ser_read_reg E client 0x7 (E.uninit % 256) w
  let I2C_PASS_THROUGH := r.val
  let I2C_PASS_THROUGH_MASK := 0x08
  let I2C_PASS_THROUGH_REG := (I2C_PASS_THROUGH ||| I2C_PASS_THROUGH_MASK) % 256
  let w := (fpd_dp_ser_write_reg E client 0x07 I2C_PASS_THROUGH_REG r.w).w
  ⟨true, w⟩

/-- The C function `fpd_dp_ser_prog_vp_configs(client)`. -/
def fpd_dp_ser_prog_vp_configs (E : Env σ) (client : Nat) (w : FpdState σ) : FpdBool σ :=
  ⟨true, fpd_dp_ser_write_regs E client
      [(0x40, 0x32), (0x41, 0x1), (0x42, 0xa8), (0x41, 0x2), (0x42, 0x80), (0x42, 0x7),
       (0x41, 0x10), (0x42, 0x80), (0x42, 0x7), (0x42, 0x94), (0x42, 0x0), (0x42, 0x2c),
       (0x42, 0x0), (0x42, 0x98), (0x42, 0x8), (0x42, 0x38), (0x42, 0x4), (0x42, 0x24),
       (0x42, 0x0), (0x42, 0x5), (0x42, 0x0), (0x42, 0x4), (0x42, 0x0), (0x41, 0x27),
       (0x42, 0x0), (0x40, 0x32), (0x41, 0x41), (0x42, 0xa8), (0x41, 0x42), (0x42, 0x80),
       (0x42, 0x7), (0x41, 0x50), (0x42, 0x80), (0x42, 0x7), (0x42, 0x94), (0x42, 0x0),
       (0x42, 0x2c), (0x42, 0x0), (0x42, 0x98), (0x42, 0x8), (0x42, 0x38), (0x42, 0x4),
       (0x42, 0x24), (0x42, 0x0), (0x42, 0x5), (0x42, 0x0), (0x42, 0x4), (0x42, 0x0),
       (0x41, 0x67), (0x42, 0x0)] w⟩

/-- The C function `fpd_dp_ser_enable_vps(client)`. -/
def fpd_dp_ser_enable_vps (E : Env σ) (client : Nat) (w : FpdState σ) : FpdBool σ :=
  ⟨true, fpd_dp_ser_write_regs E client [(0x43, 0x1), (0x44, 0x3)] w⟩

/-- The C function `fpd_dp_ser_stream_mapping(client)`. -/
def fpd_dp_ser_stream_mapping (E : Env σ) (client : Nat) (w : FpdState σ) : FpdBool σ :=
  ⟨true, fpd_dp_ser_write_regs E client
      [(0x2d, 0x1), (0x57, 0x1), (0x2d, 0x12), (0x57, 0x0), (0x5b, 0x2b)] w⟩

/-- The C function `fpd_dp_ser_clear_crc(client)`. -/
def fpd_dp_ser_clear_crc (E : Env σ) (client : Nat) (w : FpdState σ) : FpdBool σ :=
  let r1 := fpd_dp_ser_read_reg E client 0x2 (E.uninit % 256) w
  let Reg_value := (r1.val ||| 0x20) % 256
  let w := (fpd_dp_ser_write_reg E client 0x2 Reg_value r1.w).w
  let r2 := fpd_dp_ser_read_reg E client 0x2 Reg_value w
  let Reg_value := (r2.val &&& 0xdf) % 256
  let w := (fpd_dp_ser_write_reg E client 0x2 Reg_value r2.w).w
  let w := (fpd_dp_ser_write_reg E client 0x2d 0x1 w).w
  let w := usleep_range 20000 22000 w
  ⟨true, w⟩

/-- The C function `fpd_dp_ser_setup(client)`. -/
def fpd_dp_ser_setup (E : Env σ) (client : Nat) (w : FpdState σ) : FpdBool σ :=
  let w := (fpd_dp_ser_set_config E client w).w
  let w := (fpd_dp_ser_set_port_config E client w).w
  let w := (fpd_dp_ser_prog_plls E client w).w
  let w := (fpd_dp_ser_enable_I2c_passthrough E client w).w
  let w := (fpd_dp_ser_prog_vp_configs E client w).w
  let w := (fpd_dp_ser_enable_vps E client w).w
  let w := queue_delayed_work 100 w
  ⟨true, w⟩

/-- The C function `fpd_dp_ser_enable()`; `priv_dp_client[0]` is client 0. -/
def fpd_dp_ser_enable (E : Env σ) (w : FpdState σ) : FpdBool σ :=
  let w := (fpd_dp_ser_prepare E 0 w).w
  let r := fpd_dp_ser_setup E 0 w
  if false = r.ret then ⟨false, r.w⟩ else ⟨true, r.w⟩

/-- The C function `fpd_dp_deser_override_efuse(client)`; `DES_READBACK` only feeds the
debug output. -/
def fpd_dp_deser_override_efuse (E : Env σ) (client : Nat) (w : FpdState σ) : FpdState σ :=
  let r := fpd_dp_ser_read_reg E client 0x0 (E.uninit % 256) w
  let w := fpd_dp_ser_write_regs E client [(0x49, 0xc), (0x4a, 0x0), (0x48, 0x1b)] r.w
  usleep_range 20000 22000 w

/-- The C function `fpd_dp_deser_hold_dtg_reset(client)`. -/
def fpd_dp_deser_hold_dtg_reset (E : Env σ) (client : Nat) (w : FpdState σ) : FpdState σ :=
  fpd_dp_ser_write_regs E client
      [(0x40, 0x50), (0x41, 0x32), (0x42, 0x6), (0x41, 0x62), (0x42, 0x6)] w

/-- The C function `fpd_dp_deser_disalbe_stream_mapping(client)`. -/
def fpd_dp_deser_disalbe_stream_mapping (E : Env σ) (client : Nat) (w : FpdState σ) :
    FpdState σ :=
  fpd_dp_ser_write_regs E client [(0xe, 0x3), (0xd0, 0x0), (0xd7, 0x0)] w

/-- The C function `fpd_dp_deser_force_rate(client)`. -/
def fpd_dp_deser_force_rate (E : Env σ) (client : Nat) (w : FpdState σ) : FpdState σ :=
  fpd_dp_ser_write_regs E client
      [(0x40, 0x2c), (0x41, 0x81), (0x42, 0x60), (0x41, 0x82), (0x42, 0x3), (0x40, 0x2c),
       (0x41, 0x91), (0x42, 0xc), (0x40, 0x30), (0x41, 0xf), (0x42, 0x1), (0x1, 0x40)] w

/-- The C function `fpd_dp_deser_setup_ports(client)`. -/
def fpd_dp_deser_setup_ports (E : Env σ) (client : Nat) (w : FpdState σ) : FpdState σ :=
  fpd_dp_ser_write_regs E client [(0xe, 0x12), (0x46, 0x0), (0xe, 0x1), (0x1, 0x40)] w

/-- The C function `fpd_dp_deser_map_output(client)`. -/
def fpd_dp_deser_map_output (E : Env σ) (client : Nat) (w : FpdState σ) : FpdState σ :=
  fpd_dp_ser_write_regs E client
      [(0xe, 0x3), (0xd0, 0x0), (0xd1, 0x0), (0xd6, 0x0), (0xd7, 0xc), (0xe, 0x1)] w

/-- The C function `fpd_dp_deser_prog_pclk(client)`. -/
def fpd_dp_deser_prog_pclk (E : Env σ) (client : Nat) (w : FpdState σ) : FpdState σ :=
  fpd_dp_ser_write_regs E client
      [(0xe, 0x1), (0xb1, 0x1), (0xb2, 0x14), (0xb3, 0x44), (0xb4, 0x2), (0xb5, 0xc0),
       (0xb6, 0x7a), (0xb7, 0x10), (0xe, 0x1)] w

/-- The C function `fpd_dp_deser_setup_dtg(client)`. -/
def fpd_dp_deser_setup_dtg (E : Env σ) (client : Nat) (w : FpdState σ) : FpdState σ :=
  fpd_dp_ser_write_regs E client
      [(0x40, 0x50), (0x41, 0x20), (0x42, 0x93), (0x41, 0x29), (0x42, 0x80), (0x41, 0x2a),
       (0x42, 0xc0), (0x41, 0x2f), (0x42, 0x40), (0x41, 0x30), (0x42, 0x2c)] w

/-- The C function `fpd_dp_deser_setup_dptx(client)`. -/
def fpd_dp_deser_setup_dptx (E : Env σ) (client : Nat) (w : FpdState σ) : FpdState σ :=
  fpd_dp_ser_write_regs E client
      [(0x48, 0x1), (0x48, 0x1), (0x49, 0xa4), (0x4a, 0x1), (0x4b, 0x20), (0x4c, 0x0),
       (0x4d, 0x0), (0x4e, 0x0), (0x48, 0x1), (0x49, 0xb8), (0x4a, 0x1), (0x4b, 0x4),
       (0x4c, 0x0), (0x4d, 0x0), (0x4e, 0x0), (0x48, 0x1), (0x49, 0xac), (0x4a, 0x1),
       (0x4b, 0x66), (0x4c, 0x46), (0x4d, 0x0), (0x4e, 0x0), (0x48, 0x1), (0x49, 0xb4),
       (0x4a, 0x1), (0x4b, 0x0), (0x4c, 0x80), (0x4d, 0x0), (0x4e, 0x0), (0x48, 0x1),
       (0x49, 0xc8), (0x4a, 0x1), (0x4b, 0x0), (0x4c, 0x0), (0x4d, 0x0), (0x4e, 0x0),
       (0x48, 0x1), (0x49, 0xb0), (0x4a, 0x1), (0x4b, 0x40), (0x4c, 0x0), (0x4d, 0x1a),
       (0x4e, 0x8), (0x48, 0x1), (0x49, 0xc8), (0x4a, 0x0), (0x4b, 0x6), (0x4c, 0x40),
       (0x4d, 0x0), (0x4e, 0x0), (0x48, 0x1), (0x49, 0xbc), (0x4a, 0x1), (0x4b, 0xa0),
       (0x4c, 0x5), (0x4d, 0x0), (0x4e, 0x0), (0x48, 0x1), (0x49, 0xc0), (0x4a, 0x1),
       (0x4b, 0x0), (0x4c, 0x0), (0x4d, 0x0), (0x4e, 0x0), (0x48, 0x1), (0x49, 0xc4),
       (0x4a, 0x1), (0x4b, 0xc), (0x4c, 0x0), (0x4d, 0x0), (0x4e, 0x0)] w

/-- The C function `fpd_dp_deser_release_dtg_reset(client)`. -/
def fpd_dp_deser_release_dtg_reset (E : Env σ) (client : Nat) (w : FpdState σ) :
    FpdState σ :=
  fpd_dp_ser_write_regs E client
      [(0x40, 0x50), (0x41, 0x32), (0x42, 0x4), (0x41, 0x62), (0x42, 0x4), (0x48, 0x1),
       (0x49, 0x80), (0x4a, 0x1), (0x4b, 0x98), (0x4c, 0x8), (0x4d, 0x0), (0x4e, 0x0)] w

/-- The C function `fpd_dp_deser_enable_output(client)`. -/
def fpd_dp_deser_enable_output (E : Env σ) (client : Nat) (w : FpdState σ) : FpdState σ :=
  fpd_dp_ser_write_regs E client
      [(0x48, 0x1), (0x49, 0x84), (0x4a, 0x0), (0x4b, 0x1), (0x4c, 0x0), (0x4d, 0x0),
       (0x4e, 0x0)] w

/-- The C function `fpd_dp_deser_enable()`; `priv_dp_client[0]` is client 0 (the serializer)
and `priv_dp_client[1]` is client 1 (the deserializer). -/
def fpd_dp_deser_enable (E : Env σ) (w : FpdState σ) : FpdState σ :=
  let w := (fpd_dp_ser_write_reg E 0 0x3 0x9a w).w
  let w := fpd_dp_deser_override_efuse E 1 w
  let w := fpd_dp_deser_hold_dtg_reset E 1 w
  let w := fpd_dp_deser_disalbe_stream_mapping E 1 w
  let w := fpd_dp_deser_force_rate E 1 w
  let w := fpd_dp_deser_setup_ports E 1 w
  let w := fpd_dp_deser_map_output E 1 w
  let w := fpd_dp_deser_prog_pclk E 1 w
  let w := fpd_dp_deser_setup_dtg E 1 w
  let w := fpd_dp_deser_setup_dptx E 1 w
  let w := fpd_dp_deser_release_dtg_reset E 1 w
  fpd_dp_deser_enable_output E 1 w

def RETRY_COUNT : Nat := 10

/-- State of one of the two `while` loops of `fpd_poll_training_lock`. -/
structure VpWait (σ : Type) where
  sts : Nat
  retry : Nat
  w : FpdState σ

/-- The loop `while (((VPxsts & 0x01) == 0) && retry < RETRY_COUNT &&
((PATGEN_VPx & 0x01) == 0)) { ... }` of `fpd_poll_training_lock`, for the
status offset `offset` (0x30 for VP0, 0x70 for VP1).  The first argument is
the loop's measure `RETRY_COUNT - retry`: when it is 0 the condition
`retry < RETRY_COUNT` is false and the loop is left. -/
def fpd_vp_sync_wait (E : Env σ) (offset PATGEN : Nat) :
    Nat → Nat → Nat → FpdState σ → VpWait σ
  | 0, sts, retry, w => ⟨sts, retry, w⟩
  | left + 1, sts, retry, w =>
    if sts &&& 0x01 = 0 ∧ retry < RETRY_COUNT ∧ PATGEN &&& 0x01 = 0 then
      let w := usleep_range 20000 22000 w
      let w := (fpd_dp_ser_write_reg E 0 0x41 offset w).w
      let r := fpd_dp_ser_read_reg E 0 0x42 sts w
      fpd_vp_sync_wait E offset PATGEN left r.val (retry + 1) r.w
    else ⟨sts, retry, w⟩

/-- The four status bytes `fpd_poll_training_lock` holds when it decides,
and the state at that point. -/
structure VpStatus (σ : Type) where
  PATGEN_VP0 : Nat
  VP0sts : Nat
  PATGEN_VP1 : Nat
  VP1sts : Nat
  w : FpdState σ

/-- The sampling part of `fpd_poll_training_lock` (from its first line to
the last status message, before the decision `if (((VP0sts & 0x01) == 0) ||
((VP1sts & 0x01) == 0))`). -/
def fpd_poll_vp_status (E : Env σ) (w : FpdState σ) : VpStatus σ :=
  let PATGEN_VP0 := 0
  let VP0sts := 0
  let PATGEN_VP1 := 0
  let VP1sts := 0
  let retry := 0
  let w := usleep_range 20000 22000 w
  let w := (fpd_dp_ser_write_reg E 0 0x40 0x31 w).w
  let w := (fpd_dp_ser_write_reg E 0 0x41 0x28 w).w
  let r := fpd_dp_ser_read_reg E 0 0x42 PATGEN_VP0 w
  let PATGEN_VP0 := r.val
  let w := (fpd_dp_ser_write_reg E 0 0x41 0x30 r.w).w
  let r := fpd_dp_ser_read_reg E 0 0x42 VP0sts w
  let l := fpd_vp_sync_wait E 0x30 PATGEN_VP0 (RETRY_COUNT - retry) r.val retry r.w
  let VP0sts := l.sts
  let retry := 0
  let w := (fpd_dp_ser_write_reg E 0 0x41 0x68 l.w).w
  let r := fpd_dp_ser_read_reg E 0 0x42 PATGEN_VP1 w
  let PATGEN_VP1 := r.val
  let w := (fpd_dp_ser_write_reg E 0 0x41 0x70 r.w).w
  let r := fpd_dp_ser_read_reg E 0 0x42 VP1sts w
  let l := fpd_vp_sync_wait E 0x70 PATGEN_VP1 (RETRY_COUNT - retry) r.val retry r.w
  let VP1sts := l.sts
  ⟨PATGEN_VP0, VP0sts, PATGEN_VP1, VP1sts, l.w⟩

/-- The C function `fpd_poll_training_lock(work)`, the callback of `delay_work`. -/
def fpd_poll_training_lock (E : Env σ) (w : FpdState σ) : FpdState σ :=
  let s := fpd_poll_vp_status E w
  let w := s.w
  if s.VP0sts &&& 0x01 = 0 ∨ s.VP1sts &&& 0x01 = 0 then
    let w := fpd_dp_ser_write_regs E 0
      [(0x49, 0x54), (0x4a, 0x0), (0x4b, 0x1), (0x4c, 0x0), (0x4d, 0x0), (0x4e, 0x0)] w
    let w := { w with priv.count := wrap32 (w.priv.count + 1) }
    if w.priv.count > (RETRY_COUNT : Int) then w
    else queue_delayed_work 100 w
  else
    let w := { w with priv.count := 0 }
    let w := (fpd_dp_ser_stream_mapping E 0 w).w
    let w := (fpd_dp_ser_clear_crc E 0 w).w
    fpd_dp_deser_enable E w

/-- Modelled from the spec: the deferred task scheduler (the kernel workqueue,
which is not part of the sources at hand).  One turn of the worker: when
`delay_work` is pending, its pending state is cleared and the callback
`fpd_poll_training_lock` runs once; otherwise nothing happens. -/
def fpd_worker (E : Env σ) (w : FpdState σ) : FpdState σ :=
  match w.priv.delay_work with
  | none => w
  | some _ => fpd_poll_training_lock E { w with priv.delay_work := none }

/-- The state after `n` turns of the worker. -/
def fpd_worker_run (E : Env σ) : Nat → FpdState σ → FpdState σ
  | 0, w => w
  | n + 1, w => fpd_worker_run E n (fpd_worker E w)

/-! ## GMSL DSI driver (`intel_dsi_ser_drv.c`) -/

def MAX_DSI_SER_PCLK : Nat := 0x102
def MAX_DSI_SER_PCLK_LOCK_MASK : Nat := 0x45 <<< 1
def MAX_DSI_SER_PCLK_LOCK_VAL : Nat := 0x8A
def MAX_DSI_SER_ERR : Nat := 0x3A0
def MAX_DSI_SER_ERR_LOCK_MASK : Nat := 0xFF
def MAX_DSI_SER_ERR_LOCK_VAL : Nat := 0x00
def MAX_DSI_SER_HS_VS : Nat := 0x55D
def MAX_DSI_SER_HS_VS_LOCK_MASK : Nat := 0x73
def MAX_DSI_SER_HS_VS_LOCK_VAL : Nat := 0x73
def MAX_DP_DESER_VID : Nat := 0x1DC
def MAX_DP_DESER_VID_LOCK_MASK : Nat := 1 <<< 0
def MAX_DP_DESER_VID_LOCK_VAL : Nat := 0x1
def MAX_DP_DESER_SS_B0 : Nat := 0x7F0
def MAX_DP_DESER_SS_B0_LOCK_MASK : Nat := 1 <<< 0
def MAX_DP_DESER_SS_B0_LOCK_VAL : Nat := 0x1
def MAX_DP_DESER_SS_B1 : Nat := 0x7F1
def MAX_DP_DESER_SS_B1_LOCK_MASK : Nat := 0xFF
def MAX_DP_DESER_SS_B1_LOCK_VAL : Nat := 0x00

def MAX_MODE_DSI_480 : Int := 0
def MAX_MODE_DSI_768 : Int := 1
def MAX_MODE_DSI_720P : Int := 2
def MAX_MODE_DSI_1080P : Int := 3

/-- The globals of the GMSL driver: `hdisplay` and `vdisplay`, the fields of
`struct max_dsi_ser_priv` the code uses, and the two function-local
`static int count` variables.  `delay_work` and `deser_work` are the pending
states of the two delayed works (`Event.queue 0` and `Event.queue 1` in the
trace). -/
structure MaxPriv where
  hdisplay : Nat
  vdisplay : Nat
  current_mode : Int
  split_mode : Bool
  /-- The `static int count` of `max_poll_gmsl_training_lock`. -/
  training_count : Int
  /-- The `static int count` of `max_poll_gmsl_deser_lock`. -/
  deser_count : Int
  delay_work : Option Nat
  deser_work : Option Nat
  deriving DecidableEq, Repr

/-- The global state of the GMSL driver: the device, the trace and the
driver's globals. -/
structure MaxState (σ : Type) where
  dev : σ
  trace : List Event
  priv : MaxPriv

/-- Result of `max_dsi_ser_read_reg`. -/
structure MaxRead (σ : Type) where
  ret : Int
  val : Nat
  w : MaxState σ

/-- Result of an `int` function of the GMSL driver. -/
structure MaxInt (σ : Type) where
  ret : Int
  w : MaxState σ

/-- Modelled from the spec: the deferred task scheduler, see
`queue_delayed_work`.  The call `queue_delayed_work(max_dsi_priv->wq,
&max_dsi_priv->delay_work, msecs_to_jiffies(ms))`. -/
def max_queue_delay_work (ms : Nat) (w : MaxState σ) : MaxState σ :=
  { w with
    trace := w.trace ++ [Event.queue 0 ms]
    priv.delay_work := keepPending w.priv.delay_work ms }

/-- Modelled from the spec: the deferred task scheduler, see
`queue_delayed_work`.  The call `queue_delayed_work(max_dsi_priv->deser_wq,
&max_dsi_priv->deser_work, msecs_to_jiffies(ms))`. -/
def max_queue_deser_work (ms : Nat) (w : MaxState σ) : MaxState σ :=
  { w with
    trace := w.trace ++ [Event.queue 1 ms]
    priv.deser_work := keepPending w.priv.deser_work ms }

/-- The C function `max_dsi_ser_read_reg(client, reg_addr, val)`; the argument `val` is the
content of `*val` before the call.  The result of `i2c_transfer` is dropped
and `ret` stays 0. -/
def max_dsi_ser_read_reg (E : Env σ) (client reg_addr val : Nat) (w : MaxState σ) :
    MaxRead σ :=
  let buf0 := ((reg_addr % 2 ^ 32) >>> 8) % 256
  let buf1 := (reg_addr % 2 ^ 32) &&& 0xff
  let r := E.dev.read w.dev client [buf0, buf1]
  let val := recvByte r.1.2 val
  let w := { w with dev := r.2,
                    trace := w.trace ++ [Event.rd client [buf0, buf1] r.1.1 r.1.2] }
  let ret : Int := 0
  if ret < 0 then ⟨-ENODEV, val, w⟩ else ⟨0, val, w⟩

/-- The C function `max_dsi_ser_write_reg(client, reg_addr, val)`: after a transfer that did
not fail the register is read back into the local `read_val`, which is not
used. -/
def max_dsi_ser_write_reg (E : Env σ) (client reg_addr val : Nat) (w : MaxState σ) :
    MaxState σ :=
  let buf0 := (((reg_addr % 2 ^ 32) &&& 0xff00) >>> 8) % 256
  let buf1 := (reg_addr % 2 ^ 32) &&& 0xff
  let buf2 := (val % 2 ^ 32) % 256
  let r := E.dev.write w.dev client [buf0, buf1, buf2]
  let w := { w with dev := r.2,
                    trace := w.trace ++ [Event.wr client [buf0, buf1, buf2] r.1] }
  let ret : Int := r.1
  if ret < 0 then w
  else (max_dsi_ser_read_reg E client reg_addr (E.uninit % 256) w).w

/-- A run of consecutive statements `max_dsi_ser_write_reg(client, reg, val);`,
one `(reg, val)` per statement. -/
def max_dsi_ser_write_regs (E : Env σ) (client : Nat) :
    List (Nat × Nat) → MaxState σ → MaxState σ
  | [], w => w
  | (reg, val) :: rest, w =>
    max_dsi_ser_write_regs E client rest (max_dsi_ser_write_reg E client reg val w)

/-- The C function `max_dsi_ser_update(client, reg, mask, val)`. -/
def max_dsi_ser_update (E : Env σ) (client reg mask val : Nat) (w : MaxState σ) :
    MaxState σ :=
  let r := max_dsi_ser_read_reg E client (reg % 2 ^ 32) (E.uninit % 256) w
  let update_val := ((r.val &&& not32 mask) ||| ((val % 256) &&& (mask % 2 ^ 32))) % 256
  max_dsi_ser_write_reg E client (reg % 2 ^ 32) update_val r.w

/-- The C function `max_dsi_ser_prepare()`. -/
def max_dsi_ser_prepare (w : MaxState σ) : MaxInt σ :=
  let w :=
    if w.priv.hdisplay = 640 ∧ w.priv.vdisplay = 480 then
      { w with priv.current_mode := MAX_MODE_DSI_480, priv.split_mode := false }
    else if w.priv.hdisplay = 1280 ∧ w.priv.vdisplay = 480 then
      { w with priv.current_mode := MAX_MODE_DSI_480, priv.split_mode := true }
    else if w.priv.hdisplay = 1280 ∧ w.priv.vdisplay = 720 then
      { w with priv.current_mode := MAX_MODE_DSI_720P, priv.split_mode := false }
    else if w.priv.hdisplay = 2560 ∧ w.priv.vdisplay = 720 then
      { w with priv.current_mode := MAX_MODE_DSI_720P, priv.split_mode := true }
    else if w.priv.hdisplay = 1920 ∧ w.priv.vdisplay = 1080 then
      { w with priv.current_mode := MAX_MODE_DSI_1080P, priv.split_mode := false }
    else if w.priv.hdisplay = 3840 ∧ w.priv.vdisplay = 1080 then
      { w with priv.current_mode := MAX_MODE_DSI_1080P, priv.split_mode := true }
    else w
  ⟨0, w⟩

/-- The C function `max_dsi_ser_setup(client)`. -/
def max_dsi_ser_setup (E : Env σ) (client : Nat) (w : MaxState σ) : MaxInt σ :=
  let w := max_dsi_ser_write_regs E client
      [(0x02, 0x73), (0x53, 0x10), (0x57, 0x21), (0x332, 0x4E), (0x333, 0xE4),
       (0x308, 0x5C), (0x311, 0x03), (0x331, 0x03), (0x330, 0x06), (0x31C, 0x98),
       (0x321, 0x24), (0x31D, 0x98), (0x322, 0x24), (0x32A, 0x07), (0x02, 0x73)] w
  let w :=
    if w.priv.split_mode = true then max_dsi_ser_write_reg E client 0x10 0x23 w
    else max_dsi_ser_write_reg E client 0x10 0x21 w
  ⟨0, w⟩

/-- The C function `max_dsi_deser_setup(client)`: the `switch` on `current_mode`; the case
`MAX_MODE_DSI_1080P` is also the `default`. -/
def max_dsi_deser_setup (E : Env σ) (client : Nat) (w : MaxState σ) : MaxInt σ :=
  let w :=
    if w.priv.current_mode = MAX_MODE_DSI_480 then
      max_dsi_ser_write_regs E client
      [(0xE790, 0x0A), (0xE791, 0x00), (0xE792, 0x04), (0xE793, 0x00), (0xE794, 0x80),
       (0xE795, 0x02), (0xE796, 0x10), (0xE797, 0x00), (0xE798, 0x60), (0xE799, 0x00),
       (0xE79A, 0x30), (0xE79B, 0x00), (0xE79C, 0xE0), (0xE79D, 0x01), (0xE79E, 0x0A),
       (0xE79F, 0x00), (0xE7A0, 0x02), (0xE7A1, 0x00), (0xE7A2, 0x21), (0xE7A3, 0x00),
       (0xE7A4, 0xBC), (0xE7A5, 0x03), (0xE7A6, 0xF2), (0xE7A7, 0x0B), (0xE7A8, 0x00),
       (0xE7A9, 0x80), (0xE7AA, 0x40), (0xE7AB, 0x00), (0xE7AC, 0x01), (0xE7AD, 0x01),
       (0xE7B0, 0x01), (0xE7B1, 0x00), (0x6003, 0x82), (0xE7B2, 0x50), (0xE7B3, 0x00),
       (0xE7B4, 0x00), (0xE7B5, 0x40), (0xE7B6, 0x6C), (0xE7B7, 0x20), (0xE7B8, 0x07),
       (0xE7B9, 0x00), (0xE7BA, 0x01), (0xE7BB, 0x00), (0xE7BC, 0x00), (0xE7BD, 0x00),
       (0xE7BE, 0x52), (0xE7BF, 0x00), (0xE776, 0x02), (0xE777, 0x80)] w
    else if w.priv.current_mode = MAX_MODE_DSI_768 then
      max_dsi_ser_write_regs E client
      [(0xE790, 0x0A), (0xE791, 0x00), (0xE792, 0x04), (0xE793, 0x00), (0xE794, 0x00),
       (0xE795, 0x04), (0xE796, 0x18), (0xE797, 0x00), (0xE798, 0x88), (0xE799, 0x00),
       (0xE79A, 0xA0), (0xE79B, 0x00), (0xE79C, 0x00), (0xE79D, 0x03), (0xE79E, 0x03),
       (0xE79F, 0x00), (0xE7A0, 0x06), (0xE7A1, 0x00), (0xE7A2, 0x1D), (0xE7A3, 0x00),
       (0xE7A4, 0xFC), (0xE7A5, 0x05), (0xE7A6, 0xD0), (0xE7A7, 0x1E), (0xE7A8, 0x00),
       (0xE7A9, 0x80), (0xE7AA, 0x40), (0xE7AB, 0x00), (0xE7AC, 0x00), (0xE7AD, 0x00),
       (0xE7B0, 0x01), (0xE7B1, 0x00), (0x6003, 0x82), (0xE7B2, 0x50), (0xE7B3, 0x00),
       (0xE7B4, 0x00), (0xE7B5, 0x40), (0xE7B6, 0x6C), (0xE7B7, 0x20), (0xE7B8, 0x07),
       (0xE7B9, 0x00), (0xE7BA, 0x01), (0xE7BB, 0x00), (0xE7BC, 0x00), (0xE7BD, 0x00),
       (0xE7BE, 0x52), (0xE7BF, 0x00), (0xE776, 0x02), (0xE777, 0x80)] w
    else if w.priv.current_mode = MAX_MODE_DSI_720P then
      max_dsi_ser_write_regs E client
      [(0xE790, 0x0A), (0xE791, 0x00), (0xE792, 0x04), (0xE793, 0x00), (0xE794, 0x00),
       (0xE795, 0x05), (0xE796, 0x6E), (0xE797, 0x00), (0xE798, 0x1E), (0xE799, 0x00),
       (0xE79A, 0xE6), (0xE79B, 0x00), (0xE79C, 0xD0), (0xE79D, 0x02), (0xE79E, 0x05),
       (0xE79F, 0x00), (0xE7A0, 0x05), (0xE7A1, 0x00), (0xE7A2, 0x14), (0xE7A3, 0x00),
       (0xE7A4, 0x7C), (0xE7A5, 0x07), (0xE7A6, 0x51), (0xE7A7, 0x23), (0xE7A8, 0x00),
       (0xE7A9, 0x80), (0xE7AA, 0x40), (0xE7AB, 0x00), (0xE7AC, 0x00), (0xE7AD, 0x00),
       (0xE7B0, 0x01), (0xE7B1, 0x00), (0x6003, 0x82), (0xE7B2, 0x50), (0xE7B3, 0x00),
       (0xE7B4, 0x00), (0xE7B5, 0x40), (0xE7B6, 0x6C), (0xE7B7, 0x20), (0xE7B8, 0x07),
       (0xE7B9, 0x00), (0xE7BA, 0x01), (0xE7BB, 0x00), (0xE7BC, 0x00), (0xE7BD, 0x00),
       (0xE7BE, 0x52), (0xE7BF, 0x00), (0xE776, 0x02), (0xE777, 0x80)] w
    else
      max_dsi_ser_write_regs E client
      [(0xE790, 0x0A), (0xE791, 0x00), (0xE792, 0x04), (0xE793, 0x00), (0xE794, 0x80),
       (0xE795, 0x07), (0xE796, 0x58), (0xE797, 0x00), (0xE798, 0x2C), (0xE799, 0x00),
       (0xE79A, 0x94), (0xE79B, 0x00), (0xE79C, 0x38), (0xE79D, 0x04), (0xE79E, 0x04),
       (0xE79F, 0x00), (0xE7A0, 0x05), (0xE7A1, 0x00), (0xE7A2, 0x24), (0xE7A3, 0x00),
       (0xE7A4, 0x3C), (0xE7A5, 0x0B), (0xE7A6, 0x66), (0xE7A7, 0x46), (0xE7A8, 0x00),
       (0xE7A9, 0x80), (0xE7AA, 0x40), (0xE7AB, 0x00), (0xE7AC, 0x00), (0xE7AD, 0x00),
       (0xE7B0, 0x01), (0xE7B1, 0x00), (0x6003, 0x82), (0xE7B2, 0x50), (0xE7B3, 0x00),
       (0xE7B4, 0x00), (0xE7B5, 0x40), (0xE7B6, 0x6C), (0xE7B7, 0x20), (0xE7B8, 0x07),
       (0xE7B9, 0x00), (0xE7BA, 0x01), (0xE7BB, 0x00), (0xE7BC, 0x00), (0xE7BD, 0x00),
       (0xE7BE, 0x52), (0xE7BF, 0x00), (0xE776, 0x02), (0xE777, 0x80)] w
  ⟨0, w⟩

/-- The C function `max_read_lock(client, reg_addr, mask, expected_value)`. -/
def max_read_lock (E : Env σ) (client reg_addr mask expected_value : Nat)
    (w : MaxState σ) : MaxInt σ :=
  let r := max_dsi_ser_read_reg E client reg_addr (E.uninit % 256) w
  if r.val &&& (mask % 2 ^ 32) = expected_value % 2 ^ 32 then ⟨0, r.w⟩ else ⟨-1, r.w⟩

/-- The C function `max_dsi_ser_enable()`. -/
def max_dsi_ser_enable (E : Env σ) (w : MaxState σ) : MaxState σ :=
  let w := (max_dsi_ser_prepare w).w
  (max_dsi_ser_setup E 0 w).w

/-- The results of the lock checks of `max_poll_gmsl_deser_lock` when it
decides (`ret2_1 .. ret2_3` keep their initial 0 when `split_mode` is
false), and the state at that point. -/
structure MaxDeserChecks (σ : Type) where
  ret1_1 : Int
  ret1_2 : Int
  ret1_3 : Int
  ret2_1 : Int
  ret2_2 : Int
  ret2_3 : Int
  w : MaxState σ

/-- The sampling part of `max_poll_gmsl_deser_lock`: the three calls of
`max_read_lock` on the first deserializer and, in split mode, the three on
the second one. -/
def max_deser_checks (E : Env σ) (w : MaxState σ) : MaxDeserChecks σ :=
  let ret2_1 : Int := 0
  let ret2_2 : Int := 0
  let ret2_3 : Int := 0
  let r := max_read_lock E 1 MAX_DP_DESER_SS_B0 MAX_DP_DESER_SS_B0_LOCK_MASK
    MAX_DP_DESER_SS_B0_LOCK_VAL w
  let ret1_1 := r.ret
  let r := max_read_lock E 1 MAX_DP_DESER_SS_B1 MAX_DP_DESER_SS_B1_LOCK_MASK
    MAX_DP_DESER_SS_B1_LOCK_VAL r.w
  let ret1_2 := r.ret
  let r := max_read_lock E 1 MAX_DP_DESER_VID MAX_DP_DESER_VID_LOCK_MASK
    MAX_DP_DESER_VID_LOCK_VAL r.w
  let ret1_3 := r.ret
  let w := r.w
  if w.priv.split_mode = true then
    let r := max_read_lock E 2 MAX_DP_DESER_SS_B0 MAX_DP_DESER_SS_B0_LOCK_MASK
      MAX_DP_DESER_SS_B0_LOCK_VAL w
    let ret2_1 := r.ret
    let r := max_read_lock E 2 MAX_DP_DESER_SS_B1 MAX_DP_DESER_SS_B1_LOCK_MASK
      MAX_DP_DESER_SS_B1_LOCK_VAL r.w
    let ret2_2 := r.ret
    let r := max_read_lock E 2 MAX_DP_DESER_VID MAX_DP_DESER_VID_LOCK_MASK
      MAX_DP_DESER_VID_LOCK_VAL r.w
    let ret2_3 := r.ret
    ⟨ret1_1, ret1_2, ret1_3, ret2_1, ret2_2, ret2_3, r.w⟩
  else ⟨ret1_1, ret1_2, ret1_3, ret2_1, ret2_2, ret2_3, w⟩

/-- The C function `max_poll_gmsl_deser_lock(work)`, the callback of `deser_work`. -/
def max_poll_gmsl_deser_lock (E : Env σ) (w : MaxState σ) : MaxState σ :=
  let c := max_deser_checks E w
  let w := c.w
  if w.priv.split_mode = true then
    if c.ret1_1 < 0 ∨ c.ret1_2 < 0 ∨ c.ret1_3 < 0 ∨
        c.ret2_1 < 0 ∨ c.ret2_2 < 0 ∨ c.ret2_3 < 0 then
      let w := { w with priv.deser_count := wrap32 (w.priv.deser_count + 1) }
      max_queue_deser_work 100 w
    else w
  else
    if c.ret1_1 < 0 ∨ c.ret1_2 < 0 ∨ c.ret1_3 < 0 then
      let w := { w with priv.deser_count := wrap32 (w.priv.deser_count + 1) }
      max_queue_deser_work 100 w
    else w

/-- The C function `max_dsi_deser_enable()`. -/
def max_dsi_deser_enable (E : Env σ) (w : MaxState σ) : MaxState σ :=
  let w := max_dsi_ser_write_reg E 1 0x0050 0x00 w
  let w := (max_dsi_deser_setup E 1 w).w
  let w := max_dsi_ser_write_reg E 2 0x0050 0x01 w
  let w := (max_dsi_deser_setup E 2 w).w
  max_queue_deser_work 100 w

/-- The results of the three lock checks of `max_poll_gmsl_training_lock`
when it decides, and the state at that point. -/
structure MaxTrainingChecks (σ : Type) where
  ret1 : Int
  ret2 : Int
  ret3 : Int
  w : MaxState σ

/-- The sampling part of `max_poll_gmsl_training_lock`: its three calls of
`max_read_lock` on the serializer. -/
def max_training_checks (E : Env σ) (w : MaxState σ) : MaxTrainingChecks σ :=
  let r := max_read_lock E 0 MAX_DSI_SER_PCLK MAX_DSI_SER_PCLK_LOCK_MASK
    MAX_DSI_SER_PCLK_LOCK_VAL w
  let ret1 := r.ret
  let r := max_read_lock E 0 MAX_DSI_SER_ERR MAX_DSI_SER_ERR_LOCK_MASK
    MAX_DSI_SER_ERR_LOCK_VAL r.w
  let ret2 := r.ret
  let r := max_read_lock E 0 MAX_DSI_SER_HS_VS MAX_DSI_SER_HS_VS_LOCK_MASK
    MAX_DSI_SER_HS_VS_LOCK_VAL r.w
  let ret3 := r.ret
  ⟨ret1, ret2, ret3, r.w⟩

/-- The C function `max_poll_gmsl_training_lock(work)`, the callback of
`delay_work`. -/
def max_poll_gmsl_training_lock (E : Env σ) (w : MaxState σ) : MaxState σ :=
  let c := max_training_checks E w
  let w := c.w
  if c.ret1 < 0 ∨ c.ret2 < 0 ∨ c.ret3 < 0 then
    let w := { w with priv.training_count := wrap32 (w.priv.training_count + 1) }
    max_queue_delay_work 500 w
  else
    max_dsi_deser_enable E w

/-- The C function `intel_dsi_ser_init()`. -/
def intel_dsi_ser_init (E : Env σ) (w : MaxState σ) : MaxInt σ :=
  let w := max_dsi_ser_enable E w
  let w := max_queue_delay_work 500 w
  ⟨0, w⟩

/-! ## Wire view of a trace, and model devices -/

/-- What a trace entry puts on the bus or asks of the kernel: an `Event`
without the answer of the device. -/
inductive Wire where
  | wr (client : Nat) (payload : List Nat)
  | rd (client : Nat) (addr : List Nat)
  | sleep (lo hi : Nat)
  | queue (work : Nat) (ms : Nat)
  deriving DecidableEq, Repr

def Event.wire : Event → Wire
  | Event.wr c p _ => Wire.wr c p
  | Event.rd c a _ _ => Wire.rd c a
  | Event.sleep lo hi => Wire.sleep lo hi
  | Event.queue k ms => Wire.queue k ms

/-- The wire view of a trace. -/
def wires (t : List Event) : List Wire := t.map Event.wire

/-- A call of `queue_delayed_work`. -/
def Wire.isQueue : Wire → Bool
  | Wire.queue _ _ => true
  | _ => false

/-- A transfer addressed to client `c`. -/
def Wire.toClient (c : Nat) : Wire → Bool
  | Wire.wr c2 _ => c2 = c
  | Wire.rd c2 _ => c2 = c
  | _ => false

/-- The first statement of `fpd_dp_deser_enable`: the write of 0x9a to
register 0x3 of the serializer. -/
def Wire.isDeserEnable : Wire → Bool
  | Wire.wr 0 [0x3, 0x9a] => true
  | _ => false

/-- A write to one of the registers 0x49 .. 0x4e of the serializer with
first payload byte 0x49 and value 0x54: the first statement of the video
input reset of `fpd_poll_training_lock`. -/
def Wire.isVideoInputReset : Wire → Bool
  | Wire.wr 0 [0x49, 0x54] => true
  | _ => false

/-- Number of `queue_delayed_work` calls in a trace. -/
def queueCalls (t : List Event) : Nat := (wires t).countP Wire.isQueue

/-- Number of transfers to client `c` in a trace. -/
def transfersTo (c : Nat) (t : List Event) : Nat := (wires t).countP (Wire.toClient c)

/-- Number of times a trace starts `fpd_dp_deser_enable`. -/
def deserEnableCalls (t : List Event) : Nat := (wires t).countP Wire.isDeserEnable

/-- Number of video input resets in a trace. -/
def videoInputResets (t : List Event) : Nat := (wires t).countP Wire.isVideoInputReset

/-- One pass of a `while` loop of `fpd_poll_training_lock` on the wire. -/
def fpd_vp_retry_wire (offset : Nat) : List Wire :=
  [Wire.sleep 20000 22000, Wire.wr 0 [0x41, offset], Wire.rd 0 [0x42]]

/-- The wire view of one invocation of `fpd_poll_training_lock` in which both
loops run all `RETRY_COUNT` passes and the video input reset is issued, up to
the label `reschedule`. -/
def fpd_poll_unlocked_wire : List Wire :=
  [Wire.sleep 20000 22000, Wire.wr 0 [0x40, 0x31], Wire.wr 0 [0x41, 0x28], Wire.rd 0 [0x42],
   Wire.wr 0 [0x41, 0x30], Wire.rd 0 [0x42]]
  ++ (List.replicate RETRY_COUNT (fpd_vp_retry_wire 0x30)).flatten
  ++ [Wire.wr 0 [0x41, 0x68], Wire.rd 0 [0x42], Wire.wr 0 [0x41, 0x70], Wire.rd 0 [0x42]]
  ++ (List.replicate RETRY_COUNT (fpd_vp_retry_wire 0x70)).flatten
  ++ [Wire.wr 0 [0x49, 0x54], Wire.wr 0 [0x4a, 0x0], Wire.wr 0 [0x4b, 0x1],
      Wire.wr 0 [0x4c, 0x0], Wire.wr 0 [0x4d, 0x0], Wire.wr 0 [0x4e, 0x0]]

/-- State of the model serializer: the last values written to the page
register 0x40 and the offset register 0x41, and how many times a VP sync
status byte has been sampled so far. -/
structure VpModel where
  page : Nat
  offset : Nat
  samples : Nat
  deriving DecidableEq, Repr

/-- A model device for the lock poller.  Every transfer succeeds.  A read
through the data register 0x42 of the serializer returns `patgen` at the
PATGEN offsets 0x28 and 0x68, and at the VP status offsets 0x30 and 0x70 it
returns `sts k`, where `k` counts the status samples taken before.  Every
other read returns 0. -/
def vpDevice (sts : Nat → Nat) (patgen : Nat) : Device VpModel where
  write s client payload :=
    match client, payload with
    | 0, [0x40, v] => (1, { s with page := v })
    | 0, [0x41, v] => (1, { s with offset := v })
    | _, _ => (1, s)
  read s client addr :=
    if client = 0 ∧ addr = [0x42] then
      if s.offset = 0x30 ∨ s.offset = 0x70 then
        ((2, some (sts s.samples)), { s with samples := s.samples + 1 })
      else if s.offset = 0x28 ∨ s.offset = 0x68 then ((2, some patgen), s)
      else ((2, some 0), s)
    else ((2, some 0), s)

/-- The model device with sample values for the header constants. -/
def vpEnv (sts : Nat → Nat) (patgen : Nat) : Env VpModel where
  dev := vpDevice sts patgen
  FPD_DP_SER_RX_ADD_A := 0x30
  FPD4_Strap_Rate_0 := 0
  FPD4_Strap_Rate_3_375 := 1
  FPD4_Strap_Rate_6_75 := 2
  FPD4_Strap_Rate_10_8 := 3
  FPD4_Strap_Rate_13_5 := 4
  uninit := 0

/-- The status stream of a device that reports "not locked" for exactly `N`
samples and "locked" from then on. -/
def lockAfter (N : Nat) : Nat → Nat := fun k => if k < N then 0 else 1

/-- The status stream of a device that never locks. -/
def neverLock : Nat → Nat := fun _ => 0

/-- The driver state right after `fpd_dp_ser_probe` allocated the private
struct (`count = 0`) and `fpd_dp_ser_setup` queued the poller, with an empty
trace. -/
def fpdQueued : FpdState VpModel where
  dev := ⟨0, 0, 0⟩
  trace := []
  priv := { count := 0, FPD4_Strap_Rate_P0 := 0, FPD4_Strap_Rate_P1 := 0, FPDConf := 8,
            delay_work := some 100 }

/-- A device on which every read through the data register 0x42 of the
serializer delivers a byte with bit 0 clear: the VP sync status bits and the
PATGEN bits always read 0. -/
def NeverSynced (E : Env σ) : Prop :=
  ∀ s x, (E.dev.read s 0 [0x42]).1.2 = some x → x % 2 = 0

/-- The wire view of the first `n` turns of the worker against a device that
never reports sync, starting from `count = 0` with the poller queued: each
of the first `RETRY_COUNT` invocations ends with a `queue_delayed_work`
call, the next one does not, and after it nothing runs any more. -/
def fpd_never_synced_wire : Nat → List Wire
  | 0 => []
  | n + 1 =>
    fpd_never_synced_wire n ++
      (if n < RETRY_COUNT then fpd_poll_unlocked_wire ++ [Wire.queue 0 100]
       else if n = RETRY_COUNT then fpd_poll_unlocked_wire
       else [])

/-- A model device that is a read-only register file: every transfer
succeeds, writes are ignored, and a read of client `c` at the address bytes
`a` delivers `f c a`. -/
def regFileDevice (f : Nat → List Nat → Nat) : Device Unit where
  write _ _ _ := (1, ())
  read _ c a := ((2, some (f c a)), ())

/-- The register-file model with sample values for the header constants. -/
def regFileEnv (f : Nat → List Nat → Nat) : Env Unit where
  dev := regFileDevice f
  FPD_DP_SER_RX_ADD_A := 0x30
  FPD4_Strap_Rate_0 := 0
  FPD4_Strap_Rate_3_375 := 1
  FPD4_Strap_Rate_6_75 := 2
  FPD4_Strap_Rate_10_8 := 3
  FPD4_Strap_Rate_13_5 := 4
  uninit := 0

/-- A model device on which every read transfer fails with `-EREMOTEIO`
(-121) and stores nothing, while every write transfer succeeds. -/
def deafDevice : Device Unit where
  write _ _ _ := (1, ())
  read _ _ _ := ((-121, none), ())

/-- The model with failing reads, with sample values for the header
constants and `junk` in uninitialised bytes. -/
def deafEnv (junk : Nat) : Env Unit where
  dev := deafDevice
  FPD_DP_SER_RX_ADD_A := 0x30
  FPD4_Strap_Rate_0 := 0
  FPD4_Strap_Rate_3_375 := 1
  FPD4_Strap_Rate_6_75 := 2
  FPD4_Strap_Rate_10_8 := 3
  FPD4_Strap_Rate_13_5 := 4
  uninit := junk

/-- A state of the FPD-Link driver over the stateless model devices, with an
empty trace. -/
def fpdFresh (count : Int) (p0 p1 : Nat) : FpdState Unit where
  dev := ()
  trace := []
  priv := { count := count, FPD4_Strap_Rate_P0 := p0, FPD4_Strap_Rate_P1 := p1,
            FPDConf := 0, delay_work := none }

/-- A state of the GMSL driver over the stateless model devices, with an
empty trace, nothing queued and both counters at `count`. -/
def maxFresh (count : Int) (split : Bool) : MaxState Unit where
  dev := ()
  trace := []
  priv := { hdisplay := 1920, vdisplay := 1080, current_mode := MAX_MODE_DSI_1080P,
            split_mode := split, training_count := count, deser_count := count,
            delay_work := none, deser_work := none }

/-- The wire view of `fpd_dp_ser_stream_mapping` on the serializer. -/
def fpd_dp_ser_stream_mapping_wire : List Wire :=
  [Wire.wr 0 [0x2d, 0x1], Wire.wr 0 [0x57, 0x1], Wire.wr 0 [0x2d, 0x12],
   Wire.wr 0 [0x57, 0x0], Wire.wr 0 [0x5b, 0x2b]]

/-- The wire view of `fpd_dp_ser_clear_crc` on the serializer when the two
reads of register 0x2 leave `a` and `b` in `Reg_value`. -/
def fpd_dp_ser_clear_crc_wire (a b : Nat) : List Wire :=
  [Wire.rd 0 [0x2], Wire.wr 0 [0x2, (a ||| 0x20) % 256],
   Wire.rd 0 [0x2], Wire.wr 0 [0x2, (b &&& 0xdf) % 256],
   Wire.wr 0 [0x2d, 0x1], Wire.sleep 20000 22000]

/-- The wire view of `fpd_dp_deser_enable`: what it emits against the
register-file model that reads 0 everywhere. -/
def fpd_dp_deser_enable_wire : List Wire :=
  wires (fpd_dp_deser_enable (regFileEnv (fun _ _ => 0)) (fpdFresh 0 0 0)).trace

/-- The claim "the Locked action (count reset and `fpd_dp_deser_enable`) is
reached on exactly the `k`-th invocation of the poll callback, the
invocations before it each ending in a reschedule", for the worker started
in state `w`. -/
def LockedOnInvocation (E : Env σ) (w : FpdState σ) (k : Nat) : Prop :=
  (∀ j, j + 1 < k →
    (fpd_worker_run E (j + 1) w).priv.delay_work = some 100 ∧
    deserEnableCalls (fpd_worker_run E (j + 1) w).trace = deserEnableCalls w.trace) ∧
  (fpd_worker_run E k w).priv.count = 0 ∧
  (fpd_worker_run E k w).priv.delay_work = none ∧
  deserEnableCalls (fpd_worker_run E k w).trace = deserEnableCalls w.trace + 1

/-- The wire view of an invocation of `fpd_poll_training_lock` that finds
VP0 not synced for its first `N` samples and then finds both VPs synced: the
first loop runs `N` passes, the second none, and the Locked action follows
(the two reads of `fpd_dp_ser_clear_crc` deliver 0). -/
def fpd_poll_locked_wire (N : Nat) : List Wire :=
  [Wire.sleep 20000 22000, Wire.wr 0 [0x40, 0x31], Wire.wr 0 [0x41, 0x28], Wire.rd 0 [0x42],
   Wire.wr 0 [0x41, 0x30], Wire.rd 0 [0x42]]
  ++ (List.replicate N (fpd_vp_retry_wire 0x30)).flatten
  ++ [Wire.wr 0 [0x41, 0x68], Wire.rd 0 [0x42], Wire.wr 0 [0x41, 0x70], Wire.rd 0 [0x42]]
  ++ fpd_dp_ser_stream_mapping_wire
  ++ fpd_dp_ser_clear_crc_wire 0 0
  ++ fpd_dp_deser_enable_wire

/-- The state in which the first bring-up against the never-locking model
device ends: the poller has run 11 times and has given up. -/
def fpdExhausted : FpdState VpModel :=
  fpd_worker_run (vpEnv neverLock 0) 11 fpdQueued

/-- The state after a fresh bring-up through `fpd_dp_ser_enable` from the
exhausted state. -/
def fpdRebringup : FpdState VpModel :=
  (fpd_dp_ser_enable (vpEnv neverLock 0) fpdExhausted).w

/-! ## Definitions for the strap table, the bring-up trace and the primitives -/

/-- The strap-rate table of `fpd_dp_ser_prepare` read as a table: the rate a
low nibble selects by exact value match, `none` for a nibble that is not
listed. -/
def strapRateOfNibble (E : Env σ) (nibble : Nat) : Option Nat :=
  if nibble = 0x0F then some E.FPD4_Strap_Rate_0
  else if nibble = 0x08 ∨ nibble = 0x09 then some E.FPD4_Strap_Rate_10_8
  else if nibble = 0x0A ∨ nibble = 0x0B then some E.FPD4_Strap_Rate_13_5
  else if nibble = 0x0C ∨ nibble = 0x0D then some E.FPD4_Strap_Rate_6_75
  else if nibble = 0x0E then some E.FPD4_Strap_Rate_3_375
  else none

/-- A model device on which every write transfer returns `wr`, every read
transfer returns `rd` and stores `data`. -/
def resultDevice (wr rd : Int) (data : Option Nat) : Device Unit where
  write _ _ _ := (wr, ())
  read _ _ _ := ((rd, data), ())

/-- The model with fixed transfer results, with sample values for the header
constants. -/
def resultEnv (wr rd : Int) (data : Option Nat) : Env Unit where
  dev := resultDevice wr rd data
  FPD_DP_SER_RX_ADD_A := 0x30
  FPD4_Strap_Rate_0 := 0
  FPD4_Strap_Rate_3_375 := 1
  FPD4_Strap_Rate_6_75 := 2
  FPD4_Strap_Rate_10_8 := 3
  FPD4_Strap_Rate_13_5 := 4
  uninit := 0

/-- A write transfer. -/
def Wire.isWr : Wire → Bool
  | Wire.wr _ _ => true
  | _ => false

/-- The write transfers of a trace, in order. -/
def writesOf (t : List Event) : List Wire := (wires t).filter Wire.isWr

/-- The display sizes `max_dsi_ser_prepare` recognises. -/
def max_dsi_display_table : List (Nat × Nat) :=
  [(640, 480), (1280, 480), (1280, 720), (2560, 720), (1920, 1080), (3840, 1080)]

/-- A state of the GMSL driver over the stateless model devices with the
display size `h` x `v`, the mode `mode` and the split flag `split`, an empty
trace and nothing queued. -/
def maxSized (h v : Nat) (mode : Int) (split : Bool) : MaxState Unit where
  dev := ()
  trace := []
  priv := { hdisplay := h, vdisplay := v, current_mode := mode, split_mode := split,
            training_count := 0, deser_count := 0, delay_work := none, deser_work := none }

/-- The write transfers of `max_dsi_ser_setup` on the serializer, for the
split flag it finds. -/
def max_dsi_ser_setup_writes (split : Bool) : List Wire :=
  [Wire.wr 0 [0x00, 0x02, 0x73], Wire.wr 0 [0x00, 0x53, 0x10], Wire.wr 0 [0x00, 0x57, 0x21],
   Wire.wr 0 [0x03, 0x32, 0x4E], Wire.wr 0 [0x03, 0x33, 0xE4], Wire.wr 0 [0x03, 0x08, 0x5C],
   Wire.wr 0 [0x03, 0x11, 0x03], Wire.wr 0 [0x03, 0x31, 0x03], Wire.wr 0 [0x03, 0x30, 0x06],
   Wire.wr 0 [0x03, 0x1C, 0x98], Wire.wr 0 [0x03, 0x21, 0x24], Wire.wr 0 [0x03, 0x1D, 0x98],
   Wire.wr 0 [0x03, 0x22, 0x24], Wire.wr 0 [0x03, 0x2A, 0x07], Wire.wr 0 [0x00, 0x02, 0x73],
   Wire.wr 0 [0x00, 0x10, if split = true then 0x23 else 0x21]]

/-- The wire view of `fpd_dp_ser_prepare` on the serializer. -/
def fpd_dp_ser_prepare_wire (E : Env σ) : List Wire :=
  [Wire.wr 0 [0x70, E.FPD_DP_SER_RX_ADD_A % 256], Wire.wr 0 [0x78, E.FPD_DP_SER_RX_ADD_A % 256],
   Wire.wr 0 [0x88, 0x0], Wire.rd 0 [0x27], Wire.rd 0 [0x7]]

/-- The wire view of `fpd_dp_ser_set_config` on the serializer: what it emits
against the register-file model that reads 0 everywhere. -/
def fpd_dp_ser_set_config_wire : List Wire :=
  wires (fpd_dp_ser_set_config (regFileEnv (fun _ _ => 0)) 0 (fpdFresh 0 0 0)).w.trace

/-- The wire view of `fpd_dp_ser_set_port_config` on the serializer when the
reads of registers 0x7 and 0x5 leave `a` and `b` in `read_val`. -/
def fpd_dp_ser_set_port_config_wire (a b : Nat) : List Wire :=
  [Wire.rd 0 [0x7], Wire.wr 0 [0x07, (a ||| 0x01) % 256],
   Wire.rd 0 [0x5], Wire.wr 0 [0x05, (b &&& 0xC3) % 256], Wire.wr 0 [0x59, 0x5]]

/-- The wire view of `fpd_dp_ser_prog_plls` on the serializer: what it emits
against the register-file model, with the block of back-channel settings
when `bc` is true (a strap rate differs from `FPD4_Strap_Rate_0`) and without
it otherwise. -/
def fpd_dp_ser_prog_plls_wire (bc : Bool) : List Wire :=
  wires (fpd_dp_ser_prog_plls (regFileEnv (fun _ _ => 0)) 0
    (fpdFresh 0 (if bc = true then 1 else 0) 0)).w.trace

/-- The wire view of `fpd_dp_ser_enable_I2c_passthrough` on the serializer
when the read of register 0x7 leaves `a` in `read_val`. -/
def fpd_dp_ser_enable_I2c_passthrough_wire (a : Nat) : List Wire :=
  [Wire.rd 0 [0x7], Wire.wr 0 [0x07, (a ||| 0x08) % 256]]

/-- The wire view of `fpd_dp_ser_prog_vp_configs` on the serializer: what it
emits against the register-file model. -/
def fpd_dp_ser_prog_vp_configs_wire : List Wire :=
  wires (fpd_dp_ser_prog_vp_configs (regFileEnv (fun _ _ => 0)) 0 (fpdFresh 0 0 0)).w.trace

/-- The wire view of `fpd_dp_ser_enable_vps` on the serializer. -/
def fpd_dp_ser_enable_vps_wire : List Wire :=
  [Wire.wr 0 [0x43, 0x1], Wire.wr 0 [0x44, 0x3]]

/-- The wire view of `fpd_dp_ser_setup` on the serializer: the six stages in
the order of the source, then the queueing of the lock poller. -/
def fpd_dp_ser_setup_wire (a b c : Nat) (bc : Bool) : List Wire :=
  fpd_dp_ser_set_config_wire ++ fpd_dp_ser_set_port_config_wire a b
  ++ fpd_dp_ser_prog_plls_wire bc ++ fpd_dp_ser_enable_I2c_passthrough_wire c
  ++ fpd_dp_ser_prog_vp_configs_wire ++ fpd_dp_ser_enable_vps_wire
  ++ [Wire.queue 0 100]

/-! ## MAX96722 deserializer driver (`drivers/media/i2c/max96722.c`) -/

/-- One observable action of the MAX96722 driver: a `regmap_write` or
`regmap_read` call with the I2C address of the client at that moment and the
value the call returned, or a call `msleep(ms)`. -/
inductive RegOp where
  | write (addr reg val : Nat) (ret : Int)
  | read (addr reg : Nat) (ret : Int) (val : Option Nat)
  | msleep (ms : Nat)
  deriving DecidableEq, Repr

/-- Modelled from the spec: the register transport (`regmap_write` and
`regmap_read` of the kernel's regmap layer, which is not part of the sources
at hand), as a state machine over `σ`.  A call returns 0 or a negative errno;
a read also yields the value it stored, if any. -/
structure Regmap (σ : Type) where
  write : σ → Nat → Nat → Nat → Int × σ
  read : σ → Nat → Nat → (Int × Option Nat) × σ

/-- The fields of `struct max96722_priv` the register helpers use:
`priv->client->addr`. -/
structure Max96722Priv where
  client_addr : Nat
  deriving DecidableEq, Repr

/-- The state of the MAX96722 driver: the chip behind the regmap, the trace
of register operations, and the private struct. -/
structure Max96722State (σ : Type) where
  dev : σ
  trace : List RegOp
  priv : Max96722Priv

/-- Result of an `int` function of the MAX96722 driver. -/
structure Max96722Int (σ : Type) where
  ret : Int
  w : Max96722State σ

/-- One entry `struct max96722_reg` of a register list. -/
structure max96722_reg where
  address : Nat
  val : Nat
  deriving DecidableEq, Repr

/-- The call `msleep(ms)`. -/
def msleep (ms : Nat) (w : Max96722State σ) : Max96722State σ :=
  { w with trace := w.trace ++ [RegOp.msleep ms] }

/-- The call `regmap_write(priv->regmap16, reg, val)`, issued to the address
the client has at that moment. -/
def regmap_write (R : Regmap σ) (reg val : Nat) (w : Max96722State σ) : Max96722Int σ :=
  let r := R.write w.dev w.priv.client_addr (reg % 2 ^ 32) (val % 2 ^ 32)
  ⟨r.1, { w with dev := r.2,
                 trace := w.trace ++ [RegOp.write w.priv.client_addr (reg % 2 ^ 32)
                   (val % 2 ^ 32) r.1] }⟩

/-- The C function `max96722_write(priv, reg, val)`. -/
def max96722_write (R : Regmap σ) (reg val : Nat) (w : Max96722State σ) : Max96722Int σ :=
  let r := regmap_write R reg val w
  r

/-- The C function `max96722_write_rem(priv, addr, reg, val)`: the write is
issued with the client address set to `addr`, which is then restored. -/
def max96722_write_rem (R : Regmap σ) (addr reg val : Nat) (w : Max96722State σ) :
    Max96722Int σ :=
  let addr_backup := w.priv.client_addr
  let w := { w with priv.client_addr := addr % 2 ^ 16 }
  let r := regmap_write R reg val w
  let w := { r.w with priv.client_addr := addr_backup }
  ⟨r.ret, w⟩

/-- The C function `max96722_write_reg_list(priv, r_list)`; the list is
`r_list->regs[0 .. num_of_regs - 1]` and the recursion is the `for` loop over
the index `i`. -/
def max96722_write_reg_list (R : Regmap σ) :
    List max96722_reg → Max96722State σ → Max96722Int σ
  | [], w => ⟨0, w⟩
  | e :: rest, w =>
    if e.address = 0xffff then
      max96722_write_reg_list R rest (msleep e.val w)
    else
      let r := max96722_write R e.address e.val w
      if r.ret ≠ 0 then ⟨r.ret, r.w⟩
      else max96722_write_reg_list R rest r.w

/-- The C function `max96722_write_rem_reg_list(priv, addr, r_list)`. -/
def max96722_write_rem_reg_list (R : Regmap σ) (addr : Nat) :
    List max96722_reg → Max96722State σ → Max96722Int σ
  | [], w => ⟨0, w⟩
  | e :: rest, w =>
    if e.address = 0xffff then
      max96722_write_rem_reg_list R addr rest (msleep e.val w)
    else
      let r := max96722_write_rem R addr e.address e.val w
      if r.ret ≠ 0 then ⟨r.ret, r.w⟩
      else max96722_write_rem_reg_list R addr rest r.w

/-- What a register-list entry puts on the bus when it is executed with the
client address `addr`: a delay of `val` milliseconds for the address 0xffff,
a write of `val` to the register otherwise; `ret` is the result of the
write. -/
def entryOp (addr : Nat) (e : max96722_reg) (ret : Int) : RegOp :=
  if e.address = 0xffff then RegOp.msleep e.val
  else RegOp.write addr (e.address % 2 ^ 32) (e.val % 2 ^ 32) ret

/-- The result a trace entry carries: the return value of a write or read,
0 for a delay. -/
def RegOp.result : RegOp → Int
  | RegOp.write _ _ _ ret => ret
  | RegOp.read _ _ ret _ => ret
  | RegOp.msleep _ => 0

/-- The trace `t` is the execution of the entries `l` in order with client
address `addr`: entry by entry, a delay for the address 0xffff and one write
otherwise, the writes having the results `t` records. -/
def ExecutesEntries (addr : Nat) : List max96722_reg → List RegOp → Prop
  | [], [] => True
  | e :: l, op :: t => op = entryOp addr e op.result ∧ ExecutesEntries addr l t
  | _, _ => False

/-- A model regmap whose `n`-th write (counted from 0) fails with `-EIO`
(-5) and whose other writes succeed; the state counts the writes. -/
def faultyRegmap (n : Nat) : Regmap Nat where
  write s _ _ _ := (if s = n then -5 else 0, s + 1)
  read s _ _ := ((0, some 0), s)

/-- A state of the MAX96722 driver over the counting model regmap, with an
empty trace and the client at address 0x6b. -/
def max96722Fresh : Max96722State Nat where
  dev := 0
  trace := []
  priv := { client_addr := 0x6b }

/-- The contract of a register-list run that appended the operations `t` to
the trace and returned `ret`, for the list `l` executed with client address
`addr`: `t` is the execution, in order, of the first `t.length` entries of
`l`, and either `ret` is 0, every entry was executed and every write
succeeded, or `ret` is not 0, the last executed entry is a write that returned
`ret`, and every operation before it succeeded. -/
def RegListOutcome (addr : Nat) (l : List max96722_reg) (t : List RegOp) (ret : Int) : Prop :=
  t.length ≤ l.length ∧ ExecutesEntries addr (l.take t.length) t ∧
  ((ret = 0 ∧ t.length = l.length ∧ ∀ op ∈ t, op.result = 0) ∨
   (ret ≠ 0 ∧ ∃ pre e t0, l.take t.length = pre ++ [e] ∧ e.address ≠ 0xffff ∧
      t = t0 ++ [RegOp.write addr (e.address % 2 ^ 32) (e.val % 2 ^ 32) ret] ∧
      ∀ op ∈ t0, op.result = 0))

/-! ## The indirect (paged) register protocol of the FPD-Link chips -/

/-- State of the model chip for the paged protocol: the value last written
to the page-select register 0x40, the current offset (register 0x41) and the
paged memory, indexed by page and offset. -/
structure PagedState where
  select : Nat
  offset : Nat
  mem : Nat → Nat → Nat

/-- The model device for the paged protocol: a write to 0x40 selects the
page, a write to 0x41 sets the offset, and each access through 0x42 uses the
byte at the current offset of the selected page and then increments the
offset.  `pageOf` tells which page a value written to 0x40 selects (the value
also carries control bits).  Writes to other registers are acknowledged and
not stored; every transfer succeeds. -/
def pagedDevice (pageOf : Nat → Nat) : Device PagedState where
  write s _ payload :=
    match payload with
    | [reg, v] =>
      if reg = 0x40 then (1, { s with select := v })
      else if reg = 0x41 then (1, { s with offset := v })
      else if reg = 0x42 then
        (1, { s with
              mem := fun p o => if p = pageOf s.select ∧ o = s.offset then v else s.mem p o
              offset := (s.offset + 1) % 256 })
      else (1, s)
    | _ => (1, s)
  read s _ addr :=
    match addr with
    | [reg] =>
      if reg = 0x42 then
        ((2, some (s.mem (pageOf s.select) s.offset)),
          { s with offset := (s.offset + 1) % 256 })
      else ((2, some 0), s)
    | _ => ((2, some 0), s)

/-- The paged model device with sample values for the header constants. -/
def pagedEnv (pageOf : Nat → Nat) : Env PagedState where
  dev := pagedDevice pageOf
  FPD_DP_SER_RX_ADD_A := 0x30
  FPD4_Strap_Rate_0 := 0
  FPD4_Strap_Rate_3_375 := 1
  FPD4_Strap_Rate_6_75 := 2
  FPD4_Strap_Rate_10_8 := 3
  FPD4_Strap_Rate_13_5 := 4
  uninit := 0

/-- A state of the FPD-Link driver over the paged model device whose memory
holds `fill` everywhere, with an empty trace. -/
def pagedFresh (fill p0 p1 : Nat) : FpdState PagedState where
  dev := { select := 0, offset := 0, mem := fun _ _ => fill }
  trace := []
  priv := (fpdFresh 0 p0 p1).priv

/-- The value of a little-endian byte sequence. -/
def littleEndian : List Nat → Nat
  | [] => 0
  | b :: rest => b + 256 * littleEndian rest

/-- The stores a run of register writes `(reg, val)` makes through the data
register 0x42 of the paged model device, in order, as triples (page-select
value, offset, byte); `sel` and `off` are the page-select value and the
offset before the run. -/
def pagedStores : Nat → Nat → List (Nat × Nat) → List (Nat × Nat × Nat)
  | _, _, [] => []
  | sel, off, (reg, v) :: rest =>
    if reg % 256 = 0x40 then pagedStores (v % 256) off rest
    else if reg % 256 = 0x41 then pagedStores sel (v % 256) rest
    else if reg % 256 = 0x42 then (sel, off, v % 256) :: pagedStores sel ((off + 1) % 256) rest
    else pagedStores sel off rest

/-- The byte at offset `o` of page `p` after the stores of a list, the last
store to the place winning; `cur` is the byte before the stores. -/
def pagedLookup (pageOf : Nat → Nat) (p o : Nat) : List (Nat × Nat × Nat) → Nat → Nat
  | [], cur => cur
  | (sel, off, v) :: rest, cur =>
    pagedLookup pageOf p o rest (if o = off ∧ p = pageOf sel then v else cur)

/-- The values of a byte sequence read as consecutive little-endian 16-bit
numbers. -/
def littleEndian16s : List Nat → List Nat
  | lo :: hi :: rest => littleEndian [lo, hi] :: littleEndian16s rest
  | _ => []

/-- The bytes the paged memory holds at the offsets `offs` of `page`. -/
def pagedBytes (s : PagedState) (page : Nat) (offs : List Nat) : List Nat :=
  offs.map (s.mem page)

/-- A write to the offset register 0x41 with the offset raised by `d`; every
other transfer unchanged. -/
def Wire.shiftOffset (d : Nat) : Wire → Wire
  | Wire.wr c [reg, v] => if reg = 0x41 then Wire.wr c [reg, v + d] else Wire.wr c [reg, v]
  | x => x

/-- What a trace has gained: the wire view of `after` beyond that of
`before`. -/
def newWires (before after : List Event) : List Wire :=
  (wires after).drop (wires before).length

/-- What a driver function remembers about the paged protocol of one chip
while its trace is scanned: the value last written to the page-select
register 0x40 (`none` before the first such write) and whether the data
register 0x42 was accessed since the last write to the offset register
0x41. -/
structure PagedUse where
  select : Option Nat
  accessed : Bool
  deriving DecidableEq, Repr

/-- The start of a scan: no page selected yet, and a pending access to the
data register assumed. -/
def PagedUse.start : PagedUse := { select := none, accessed := true }

/-- An access to the data register 0x42: not allowed before a page is
selected, nor as a second access since the last offset write unless the
auto-increment bit (0x02) of the selected value is set. -/
def PagedUse.access (s : PagedUse) : Option PagedUse :=
  match s.select with
  | none => none
  | some v =>
    if s.accessed = true ∧ v &&& 0x02 = 0 then none
    else some { s with accessed := true }

/-- One transfer of the scan of the paged protocol of client `c`. -/
def pagedStep (c : Nat) (s : PagedUse) : Wire → Option PagedUse
  | Wire.wr c2 [reg, v] =>
    if c2 = c then
      if reg = 0x40 then some { s with select := some v }
      else if reg = 0x41 then some { s with accessed := false }
      else if reg = 0x42 then s.access
      else some s
    else some s
  | Wire.rd c2 [reg] =>
    if c2 = c ∧ reg = 0x42 then s.access else some s
  | _ => some s

/-- The scan of a trace for the paged protocol of client `c`: `none` when
the trace accesses 0x42 before selecting a page, or twice without an offset
write in between while auto-increment is off. -/
def pagedRun (c : Nat) : PagedUse → List Wire → Option PagedUse
  | s, [] => some s
  | s, x :: rest =>
    match pagedStep c s x with
    | none => none
    | some s2 => pagedRun c s2 rest

/-- The paged protocol is respected, on the serializer (client 0) and on the
deserializer (client 1), by what a function added to the trace, whatever
happened before the function was entered. -/
def PagedOk (before after : List Event) : Prop :=
  (pagedRun 0 PagedUse.start (newWires before after)).isSome = true ∧
  (pagedRun 1 PagedUse.start (newWires before after)).isSome = true

/-! ## The GMSL register map (`intel_dsi_ser_drv.h`) -/

def MAX_DSI_SER_TX_ADD : Nat := 0x40
def MAX_DSI_SER_RX_ADD_A : Nat := 0x4A
def MAX_DSI_SER_RX_ADD_B : Nat := 0x48
def MAX_DSI_SER_CTRL3 : Nat := 0x13
def MAX_DSI_SER_CTRL3_LOCK_MASK : Nat := 1 <<< 3
def MAX_DSI_SER_CTRL3_LOCK_VAL : Nat := 1 <<< 3
def MAX_DSI_SER_LCTRL2_A : Nat := 0x2A
def MAX_DSI_SER_LCTRL2_B : Nat := 0x34
def MAX_DSI_SER_LCTRL2_LOCK_MASK : Nat := 1 <<< 0
def MAX_DSI_SER_LCTRL2_LOCK_VAL : Nat := 0x1
def MAX_DSI_SER_VID_TX_MASK : Nat := 1 <<< 0
def MAX_DSI_SER_VID_TX_LINK_MASK : Nat := 3 <<< 1
def MAX_DSI_SER_DPRX_TRAIN : Nat := 0x641A
def MAX_DSI_SER_DPRX_TRAIN_STATE_MASK : Nat := 0xF <<< 4
def MAX_DSI_SER_DPRX_TRAIN_STATE_VAL : Nat := 0xF0
def MAX_DSI_SER_LINK_CTRL_PHY_A : Nat := 0x29
def MAX_DSI_SER_LINK_CTRL_A_MASK : Nat := 1 <<< 0
def MAX_DSI_SER_LINK_CTRL_PHY_B : Nat := 0x33
def MAX_DSI_SER_LINK_CTRL_B_MASK : Nat := 1 <<< 0
def MAX_DSI_SER_VID_TX_X : Nat := 0x100
def MAX_DSI_SER_VID_TX_Y : Nat := 0x110
def MAX_DSI_SER_VID_TX_Z : Nat := 0x120
def MAX_DSI_SER_VID_TX_U : Nat := 0x130

/-- Every `*_MASK` constant of `intel_dsi_ser_drv.h`. -/
def max_mask_constants : List Nat :=
  [MAX_DSI_SER_CTRL3_LOCK_MASK, MAX_DSI_SER_LCTRL2_LOCK_MASK, MAX_DSI_SER_VID_TX_MASK,
   MAX_DSI_SER_VID_TX_LINK_MASK, MAX_DSI_SER_DPRX_TRAIN_STATE_MASK,
   MAX_DSI_SER_LINK_CTRL_A_MASK, MAX_DSI_SER_LINK_CTRL_B_MASK, MAX_DSI_SER_PCLK_LOCK_MASK,
   MAX_DSI_SER_ERR_LOCK_MASK, MAX_DSI_SER_HS_VS_LOCK_MASK, MAX_DP_DESER_VID_LOCK_MASK,
   MAX_DP_DESER_SS_B0_LOCK_MASK, MAX_DP_DESER_SS_B1_LOCK_MASK]

/-- Every address constant of `intel_dsi_ser_drv.h`: the register addresses
and the three chip addresses. -/
def max_address_constants : List Nat :=
  [MAX_DSI_SER_TX_ADD, MAX_DSI_SER_RX_ADD_A, MAX_DSI_SER_RX_ADD_B, MAX_DSI_SER_CTRL3,
   MAX_DSI_SER_LCTRL2_A, MAX_DSI_SER_LCTRL2_B, MAX_DSI_SER_DPRX_TRAIN,
   MAX_DSI_SER_LINK_CTRL_PHY_A, MAX_DSI_SER_LINK_CTRL_PHY_B, MAX_DSI_SER_PCLK,
   MAX_DSI_SER_ERR, MAX_DSI_SER_HS_VS, MAX_DP_DESER_VID, MAX_DP_DESER_SS_B0,
   MAX_DP_DESER_SS_B1, MAX_DSI_SER_VID_TX_X, MAX_DSI_SER_VID_TX_Y, MAX_DSI_SER_VID_TX_Z,
   MAX_DSI_SER_VID_TX_U]

/-- One lock of the register map: the register, the mask and the expected
value. -/
structure MaxLock where
  reg : Nat
  mask : Nat
  val : Nat
  deriving DecidableEq, Repr

/-- Every lock of `intel_dsi_ser_drv.h`: each register that has a mask and
an expected value (`*_LOCK_VAL` or `*_STATE_VAL`). -/
def max_lock_constants : List MaxLock :=
  [⟨MAX_DSI_SER_CTRL3, MAX_DSI_SER_CTRL3_LOCK_MASK, MAX_DSI_SER_CTRL3_LOCK_VAL⟩,
   ⟨MAX_DSI_SER_LCTRL2_A, MAX_DSI_SER_LCTRL2_LOCK_MASK, MAX_DSI_SER_LCTRL2_LOCK_VAL⟩,
   ⟨MAX_DSI_SER_LCTRL2_B, MAX_DSI_SER_LCTRL2_LOCK_MASK, MAX_DSI_SER_LCTRL2_LOCK_VAL⟩,
   ⟨MAX_DSI_SER_DPRX_TRAIN, MAX_DSI_SER_DPRX_TRAIN_STATE_MASK,
     MAX_DSI_SER_DPRX_TRAIN_STATE_VAL⟩,
   ⟨MAX_DSI_SER_PCLK, MAX_DSI_SER_PCLK_LOCK_MASK, MAX_DSI_SER_PCLK_LOCK_VAL⟩,
   ⟨MAX_DSI_SER_ERR, MAX_DSI_SER_ERR_LOCK_MASK, MAX_DSI_SER_ERR_LOCK_VAL⟩,
   ⟨MAX_DSI_SER_HS_VS, MAX_DSI_SER_HS_VS_LOCK_MASK, MAX_DSI_SER_HS_VS_LOCK_VAL⟩,
   ⟨MAX_DP_DESER_VID, MAX_DP_DESER_VID_LOCK_MASK, MAX_DP_DESER_VID_LOCK_VAL⟩,
   ⟨MAX_DP_DESER_SS_B0, MAX_DP_DESER_SS_B0_LOCK_MASK, MAX_DP_DESER_SS_B0_LOCK_VAL⟩,
   ⟨MAX_DP_DESER_SS_B1, MAX_DP_DESER_SS_B1_LOCK_MASK, MAX_DP_DESER_SS_B1_LOCK_VAL⟩]

/-- The lock checks `max_poll_gmsl_training_lock` and
`max_poll_gmsl_deser_lock` pass to `max_read_lock`. -/
def max_poller_lock_checks : List MaxLock :=
  [⟨MAX_DSI_SER_PCLK, MAX_DSI_SER_PCLK_LOCK_MASK, MAX_DSI_SER_PCLK_LOCK_VAL⟩,
   ⟨MAX_DSI_SER_ERR, MAX_DSI_SER_ERR_LOCK_MASK, MAX_DSI_SER_ERR_LOCK_VAL⟩,
   ⟨MAX_DSI_SER_HS_VS, MAX_DSI_SER_HS_VS_LOCK_MASK, MAX_DSI_SER_HS_VS_LOCK_VAL⟩,
   ⟨MAX_DP_DESER_SS_B0, MAX_DP_DESER_SS_B0_LOCK_MASK, MAX_DP_DESER_SS_B0_LOCK_VAL⟩,
   ⟨MAX_DP_DESER_SS_B1, MAX_DP_DESER_SS_B1_LOCK_MASK, MAX_DP_DESER_SS_B1_LOCK_VAL⟩,
   ⟨MAX_DP_DESER_VID, MAX_DP_DESER_VID_LOCK_MASK, MAX_DP_DESER_VID_LOCK_VAL⟩]

/-- The register-file model in which every register of the GMSL chips reads
the expected value of its lock, and every other register reads 0. -/
def maxLockedEnv : Env Unit :=
  regFileEnv (fun _ a =>
    ((max_lock_constants.find? (fun l => a = [l.reg / 256 % 256, l.reg % 256])).map
      MaxLock.val).getD 0)

/-! ## Timings programmed by `max_dsi_deser_setup` -/

/-- The write transfers a trace has gained. -/
def newWrites (before after : List Event) : List Wire :=
  (writesOf after).drop (writesOf before).length

/-- The bytes written to the 16-bit register `reg` of client `c`, in order. -/
def max_reg_written (c reg : Nat) (l : List Wire) : List Nat :=
  l.filterMap (fun x =>
    match x with
    | Wire.wr c2 [hi, lo, v] => if c2 = c ∧ hi = reg / 256 ∧ lo = reg % 256 then some v else none
    | _ => none)

/-- The 16-bit value programmed at `reg` (low byte) and `reg + 1` (high
byte), when each of the two registers is written exactly once. -/
def max_written16 (c reg : Nat) (l : List Wire) : Option Nat :=
  match max_reg_written c reg l, max_reg_written c (reg + 1) l with
  | [lo], [hi] => some (littleEndian [lo, hi])
  | _, _ => none

/-- The state in which `max_dsi_ser_prepare` leaves the driver when it is
called with the globals `hdisplay` and `vdisplay` set to `h` and `v`. -/
def max_prepared (w : MaxState σ) (h v : Nat) : MaxState σ :=
  (max_dsi_ser_prepare { w with priv.hdisplay := h, priv.vdisplay := v }).w

/-! ## Sub-stream words and stream control of the MAX96722 driver (`max96722.c`) -/

/-- The C function `set_sub_stream_fmt(index, code)`.  The array
`max96722_query_sub_stream` is a map from the index to the 64-bit pattern of
the `s64` entry; `code` is a `u32`, or-ed into the word as it is. -/
def set_sub_stream_fmt (q : Nat → Nat) (index code : Nat) : Nat → Nat :=
  Function.update q index
    ((((q index % 2 ^ 64) &&& 0xFFFFFFFFFFFF0000) ||| (code % 2 ^ 32)) % 2 ^ 64)

/-- The C function `set_sub_stream_h(index, height)`. -/
def set_sub_stream_h (q : Nat → Nat) (index height : Nat) : Nat → Nat :=
  let val := (height % 2 ^ 32) &&& 0xFFFF
  Function.update q index
    ((((q index % 2 ^ 64) &&& 0xFFFFFFFF0000FFFF) ||| (val <<< 16)) % 2 ^ 64)

/-- The C function `set_sub_stream_w(index, width)`. -/
def set_sub_stream_w (q : Nat → Nat) (index width : Nat) : Nat → Nat :=
  let val := (width % 2 ^ 32) &&& 0xFFFF
  Function.update q index
    ((((q index % 2 ^ 64) &&& 0xFFFF0000FFFFFFFF) ||| (val <<< 32)) % 2 ^ 64)

/-- The C function `set_sub_stream_dt(index, dt)`. -/
def set_sub_stream_dt (q : Nat → Nat) (index dt : Nat) : Nat → Nat :=
  let val := (dt % 2 ^ 32) &&& 0xFF
  Function.update q index
    ((((q index % 2 ^ 64) &&& 0xFF00FFFFFFFFFFFF) ||| (val <<< 48)) % 2 ^ 64)

/-- The C function `set_sub_stream_vc_id(index, vc_id)`. -/
def set_sub_stream_vc_id (q : Nat → Nat) (index vc_id : Nat) : Nat → Nat :=
  let val := (vc_id % 2 ^ 32) &&& 0xFF
  Function.update q index
    ((((q index % 2 ^ 64) &&& 0x00FFFFFFFFFFFFFF) ||| (val <<< 56)) % 2 ^ 64)

/-- The field of `width` bits that starts at bit `lo` of a packed word. -/
def sub_stream_field (word lo width : Nat) : Nat := (word >>> lo) % 2 ^ width

/-- The frame property of a sub-stream setter that took the array `q` to
`q2` by a call for `index` with the argument `x`, for the field of `width`
bits at bit `lo`: the field holds the argument (cut to the field width),
every bit of the word outside the field is as before, and every other word
is as before. -/
def SetsOnlyField (q q2 : Nat → Nat) (index x lo width : Nat) : Prop :=
  sub_stream_field (q2 index) lo width = x % 2 ^ width ∧
  (∀ i, i < lo ∨ lo + width ≤ i → (q2 index).testBit i = (q index % 2 ^ 64).testBit i) ∧
  (∀ j, j ≠ index → q2 j = q j)

/-- What the MAX96722 driver runs against: the register transport, and the
`s_stream` operation of the remote sensor sub-devices
(`v4l2_subdev_call(sd, video, s_stream, state)` for the source of virtual
channel `vc_id`), which belongs to other drivers and is left arbitrary: it
returns 0 or an error code and may change the device. -/
structure Max96722Env (σ : Type) where
  regmap : Regmap σ
  s_stream : σ → Nat → Nat → Int × σ

/-- The state `max96722_s_stream_vc` and `max96722_s_ctrl` work on: the
register-level state, the fields `bound_sources` and `stream_count` of
`struct max96722_priv`, and the global byte array
`max96722_set_sub_stream`. -/
structure Max96722Streams (σ : Type) where
  w : Max96722State σ
  bound_sources : Nat
  stream_count : Nat
  set_sub_stream : List Nat

/-- Result of an `int` function on the stream state. -/
structure Max96722StreamInt (σ : Type) where
  ret : Int
  p : Max96722Streams σ

def EIO : Int := 5

/-- The kernel's `BIT(nr)`, which is `1UL << nr` with an `unsigned long` of
64 bits.  C defines the shift for `nr` below 64 only; for a larger count the
count is taken modulo 64 here, which is what the shift instruction of the
x86-64 target does. -/
def BIT (nr : Nat) : Nat := 1 <<< (nr % 64)

/-- The C function `max96722_s_stream_vc(priv, vc_id, state)`.  `vc_id` and
`state` are `u8` parameters, `bound_sources` and `stream_count` are
`unsigned int`.  The read of `priv->sources[vc_id].sd` and the call through
it are the environment's `s_stream`, for every index. -/
def max96722_s_stream_vc (V : Max96722Env σ) (vc_id state : Nat) (p : Max96722Streams σ) :
    Max96722StreamInt σ :=
  let vc_id := vc_id % 256
  let state := state % 256
  if (p.bound_sources % 2 ^ 32) &&& BIT vc_id = 0 then ⟨- EIO, p⟩
  else
    let r := V.s_stream p.w.dev vc_id state
    let p := { p with w.dev := r.2 }
    if r.1 ≠ 0 then ⟨r.1, p⟩
    else if state ≠ 0 then
      if p.stream_count ≠ 0 then
        ⟨0, { p with stream_count := (p.stream_count + 1) % 2 ^ 32 }⟩
      else
        let w := (max96722_write V.regmap 0x8a0 0x04 p.w).w
        let w := (max96722_write V.regmap 0x8a0 0x84 w).w
        ⟨0, { p with w := w, stream_count := (p.stream_count + 1) % 2 ^ 32 }⟩
    else
      let p := { p with stream_count := (p.stream_count + 2 ^ 32 - 1) % 2 ^ 32 }
      if p.stream_count ≠ 0 then ⟨0, p⟩
      else ⟨0, { p with w := (max96722_write V.regmap 0x8a0 0x04 p.w).w }⟩

/-- The register writes of a trace, as (register, value) pairs in order. -/
def regWrites (t : List RegOp) : List (Nat × Nat) :=
  t.filterMap (fun op =>
    match op with
    | RegOp.write _ reg val _ => some (reg, val)
    | _ => none)

/-- Result of `max96722_s_ctrl`: the return value, the index of the store
into `max96722_set_sub_stream` when that index is outside the array (`none`
when the store is inside), and the state. -/
structure Max96722Ctrl (σ : Type) where
  ret : Int
  oob : Option Nat
  p : Max96722Streams σ

/-- The case `V4L2_CID_IPU_SET_SUB_STREAM` of the C function
`max96722_s_ctrl(ctrl)`; `p_s64` is `*ctrl->p_new.p_s64`.  A store outside
the array is recorded in `oob`; what it overwrites is outside the model, and
the run continues as the code does. -/
def max96722_s_ctrl (V : Max96722Env σ) (p_s64 : Int) (p : Max96722Streams σ) :
    Max96722Ctrl σ :=
  let val := (p_s64 % 65536).toNat
  let vc_id := ((val >>> 8) &&& 0xff) % 256
  let state := (val &&& 0xff) % 256
  let oob := if vc_id < p.set_sub_stream.length then none else some vc_id
  let p := { p with set_sub_stream := p.set_sub_stream.set vc_id state }
  let r := max96722_s_stream_vc V vc_id state p
  ⟨r.ret, oob, r.p⟩

/-- A model environment for the MAX96722 driver: the counting regmap whose
writes never fail, and sensors whose `s_stream` always succeeds. -/
def max96722OkEnv : Max96722Env Nat where
  regmap := faultyRegmap 1000000
  s_stream s _ _ := (0, s)

/-- A stream state over the model environment with the links `bound` bound,
`count` streams running and a cleared 4-entry `max96722_set_sub_stream`. -/
def max96722StreamsAt (bound count : Nat) : Max96722Streams Nat where
  w := max96722Fresh
  bound_sources := bound
  stream_count := count
  set_sub_stream := [0, 0, 0, 0]

/-! ## Embedded-controller flash driver (`drivers/misc/ec/intel_ec.c`) -/

def EC_STATUS : Nat := 0x66
def EC_CMD : Nat := 0x66
def EC_DATA : Nat := 0x62
def CMD_PAGE_PROGRAM : Nat := 0x02
def CMD_RDSR : Nat := 0x05
def CMD_WREN : Nat := 0x06
def CMD_WRSR : Nat := 0x01
def CMD_EWSR : Nat := 0x50
def CMD_1K_SEC_ERASE : Nat := 0xD7
def EC_IBF : Nat := 0x02
def EC_OBF : Nat := 0x01
def ENTER_FOLLOW_MODE : Nat := 0x01
def EXIT_FOLLOW_MODE : Nat := 0x05
def READ_BYTE : Nat := 0x04
def SEND_CMD : Nat := 0x02
def SEND_BYTE : Nat := 0x03
def BLOCK_SIZE : Nat := 256
def FLASH_SIZE : Nat := 0x20000
def HALF_FLASH_BLOCKS : Nat := 256
def HALF_FLASH_SIZE : Nat := 0x10000
def MAX_DATA_SIZE : Nat := 4096
def EINVAL : Int := 22
def EFAULT : Int := 14

/-- One port access of the EC driver, in the order it happened. -/
inductive PortOp where
  /-- The call `inb(port)` and the byte it returned. -/
  | inb (port val : Nat)
  /-- The call `outb(val, port)`. -/
  | outb (val port : Nat)
  deriving DecidableEq, Repr

/-- The embedded controller behind the I/O ports, as a state machine over
`σ`. -/
structure EcPorts (σ : Type) where
  inb : σ → Nat → Nat × σ
  outb : σ → Nat → Nat → σ

/-- The state of the EC driver: the controller, the trace of port accesses,
and the globals `ec_buffer` (`none` for `NULL`) and `total_write`. -/
structure EcState (σ : Type) where
  dev : σ
  trace : List PortOp
  ec_buffer : Option (List Nat)
  total_write : Int

/-- Outcome of driver code that contains polling loops, run with a bound on
the repeats of each loop: `done` with the returned value when the code
returned, `spin` with the state reached when a loop was still going after
the bound. -/
inductive Run (σ : Type) (α : Type) where
  | done (val : α) (w : EcState σ)
  | spin (w : EcState σ)

/-- The state an outcome carries. -/
def Run.state {α : Type} : Run σ α → EcState σ
  | Run.done _ w => w
  | Run.spin w => w

/-- Whether the code returned. -/
def Run.isDone {α : Type} : Run σ α → Bool
  | Run.done _ _ => true
  | Run.spin _ => false

/-- Sequencing: the rest of the code runs when the first part returned. -/
def Run.andThen {α β : Type} (r : Run σ α) (f : α → EcState σ → Run σ β) : Run σ β :=
  match r with
  | Run.done a w => f a w
  | Run.spin w => Run.spin w

/-- The call `inb(port)`; the result is an `unsigned char`. -/
def inb (D : EcPorts σ) (port : Nat) (w : EcState σ) : Nat × EcState σ :=
  let r := D.inb w.dev port
  (r.1 % 256, { w with dev := r.2, trace := w.trace ++ [PortOp.inb port (r.1 % 256)] })

/-- The call `outb(val, port)`. -/
def outb (D : EcPorts σ) (val port : Nat) (w : EcState σ) : EcState σ :=
  { w with dev := D.outb w.dev (val % 256) port,
           trace := w.trace ++ [PortOp.outb (val % 256) port] }

/-- The loop `while (!(status & EC_OBF)) status = inb(EC_STATUS);` of
`wait_ec_obf`, with at most the given number of repeats. -/
def wait_ec_obf_loop (D : EcPorts σ) : Nat → Nat → EcState σ → Run σ Unit
  | 0, status, w => if status &&& EC_OBF = 0 then Run.spin w else Run.done () w
  | n + 1, status, w =>
    if status &&& EC_OBF = 0 then
      let r := inb D EC_STATUS w
      wait_ec_obf_loop D n r.1 r.2
    else Run.done () w

/-- The C function `wait_ec_obf()`. -/
def wait_ec_obf (D : EcPorts σ) (fuel : Nat) (w : EcState σ) : Run σ Unit :=
  let r := inb D EC_STATUS w
  wait_ec_obf_loop D fuel r.1 r.2

/-- The loop `while (status & EC_IBF) status = inb(EC_STATUS);` of
`wait_ec_ibe`, with at most the given number of repeats. -/
def wait_ec_ibe_loop (D : EcPorts σ) : Nat → Nat → EcState σ → Run σ Unit
  | 0, status, w => if status &&& EC_IBF ≠ 0 then Run.spin w else Run.done () w
  | n + 1, status, w =>
    if status &&& EC_IBF ≠ 0 then
      let r := inb D EC_STATUS w
      wait_ec_ibe_loop D n r.1 r.2
    else Run.done () w

/-- The C function `wait_ec_ibe()`. -/
def wait_ec_ibe (D : EcPorts σ) (fuel : Nat) (w : EcState σ) : Run σ Unit :=
  let r := inb D EC_STATUS w
  wait_ec_ibe_loop D fuel r.1 r.2

/-- The C function `send_cmd_to_pm(cmd)`. -/
def send_cmd_to_pm (D : EcPorts σ) (fuel : Nat) (cmd : Nat) (w : EcState σ) : Run σ Unit :=
  (wait_ec_ibe D fuel w).andThen fun _ w =>
  wait_ec_ibe D fuel (outb D cmd EC_CMD w)

/-- The C function `read_data_from_pm()`. -/
def read_data_from_pm (D : EcPorts σ) (fuel : Nat) (w : EcState σ) : Run σ Nat :=
  (wait_ec_obf D fuel w).andThen fun _ w =>
  let r := inb D EC_DATA w
  Run.done r.1 r.2

/-- The C function `follow_mode(mode)`. -/
def follow_mode (D : EcPorts σ) (fuel : Nat) (mode : Nat) (w : EcState σ) : Run σ Unit :=
  send_cmd_to_pm D fuel mode w

/-- The C function `send_cmd_to_ec(cmd)`. -/
def send_cmd_to_ec (D : EcPorts σ) (fuel : Nat) (cmd : Nat) (w : EcState σ) : Run σ Unit :=
  (send_cmd_to_pm D fuel SEND_CMD w).andThen fun _ w =>
  send_cmd_to_pm D fuel cmd w

/-- The C function `send_byte_to_ec(data)`. -/
def send_byte_to_ec (D : EcPorts σ) (fuel : Nat) (data : Nat) (w : EcState σ) : Run σ Unit :=
  (send_cmd_to_pm D fuel SEND_BYTE w).andThen fun _ w =>
  send_cmd_to_pm D fuel data w

/-- The C function `read_byte_from_ec()`. -/
def read_byte_from_ec (D : EcPorts σ) (fuel : Nat) (w : EcState σ) : Run σ Nat :=
  (send_cmd_to_pm D fuel READ_BYTE w).andThen fun _ w =>
  read_data_from_pm D fuel w

/-- The loop `while (read_byte_from_ec() & 0x01);` of `wait_for_ec_free`,
with at most the given number of repeats. -/
def wait_for_ec_free_loop (D : EcPorts σ) (fuel : Nat) : Nat → EcState σ → Run σ Unit
  | 0, w =>
    (read_byte_from_ec D fuel w).andThen fun b w =>
    if b &&& 0x01 ≠ 0 then Run.spin w else Run.done () w
  | n + 1, w =>
    (read_byte_from_ec D fuel w).andThen fun b w =>
    if b &&& 0x01 ≠ 0 then wait_for_ec_free_loop D fuel n w else Run.done () w

/-- The C function `wait_for_ec_free()`. -/
def wait_for_ec_free (D : EcPorts σ) (fuel : Nat) (w : EcState σ) : Run σ Unit :=
  (follow_mode D fuel ENTER_FOLLOW_MODE w).andThen fun _ w =>
  (send_cmd_to_ec D fuel CMD_RDSR w).andThen fun _ w =>
  (wait_for_ec_free_loop D fuel fuel w).andThen fun _ w =>
  follow_mode D fuel EXIT_FOLLOW_MODE w

/-- The loop `while (!(read_byte_from_ec() & 0x02));` of
`enable_flash_write`, with at most the given number of repeats. -/
def enable_flash_write_loop (D : EcPorts σ) (fuel : Nat) : Nat → EcState σ → Run σ Unit
  | 0, w =>
    (read_byte_from_ec D fuel w).andThen fun b w =>
    if b &&& 0x02 = 0 then Run.spin w else Run.done () w
  | n + 1, w =>
    (read_byte_from_ec D fuel w).andThen fun b w =>
    if b &&& 0x02 = 0 then enable_flash_write_loop D fuel n w else Run.done () w

/-- The C function `enable_flash_write()`. -/
def enable_flash_write (D : EcPorts σ) (fuel : Nat) (w : EcState σ) : Run σ Unit :=
  (wait_for_ec_free D fuel w).andThen fun _ w =>
  (follow_mode D fuel ENTER_FOLLOW_MODE w).andThen fun _ w =>
  (send_cmd_to_ec D fuel CMD_WRSR w).andThen fun _ w =>
  (send_byte_to_ec D fuel 0x00 w).andThen fun _ w =>
  (follow_mode D fuel ENTER_FOLLOW_MODE w).andThen fun _ w =>
  (send_cmd_to_ec D fuel CMD_WREN w).andThen fun _ w =>
  (follow_mode D fuel ENTER_FOLLOW_MODE w).andThen fun _ w =>
  (send_cmd_to_ec D fuel CMD_RDSR w).andThen fun _ w =>
  (enable_flash_write_loop D fuel fuel w).andThen fun _ w =>
  follow_mode D fuel EXIT_FOLLOW_MODE w

/-- The C function `enable_ec_status_reg_write()`. -/
def enable_ec_status_reg_write (D : EcPorts σ) (fuel : Nat) (w : EcState σ) : Run σ Unit :=
  (wait_for_ec_free D fuel w).andThen fun _ w =>
  (follow_mode D fuel ENTER_FOLLOW_MODE w).andThen fun _ w =>
  (send_cmd_to_ec D fuel CMD_WREN w).andThen fun _ w =>
  (follow_mode D fuel ENTER_FOLLOW_MODE w).andThen fun _ w =>
  send_cmd_to_ec D fuel CMD_EWSR w

/-- The C function `block_1k_erase(addr2, addr1, addr0)`. -/
def block_1k_erase (D : EcPorts σ) (fuel : Nat) (addr2 addr1 addr0 : Nat) (w : EcState σ) :
    Run σ Unit :=
  (enable_ec_status_reg_write D fuel w).andThen fun _ w =>
  (enable_flash_write D fuel w).andThen fun _ w =>
  (wait_for_ec_free D fuel w).andThen fun _ w =>
  (follow_mode D fuel ENTER_FOLLOW_MODE w).andThen fun _ w =>
  (send_cmd_to_ec D fuel CMD_1K_SEC_ERASE w).andThen fun _ w =>
  (send_byte_to_ec D fuel addr2 w).andThen fun _ w =>
  (send_byte_to_ec D fuel addr1 w).andThen fun _ w =>
  (send_byte_to_ec D fuel addr0 w).andThen fun _ w =>
  wait_for_ec_free D fuel w

/-- The inner loop `for (j = 0; j < 0x100; j += 0x04) block_1k_erase(i, j,
0x00);` of `ec_erase`, entered with the value `j`, with at most the given
number of repeats.  `j` is an `unsigned char`: the comparison is made on its
value, and `j += 0x04` wraps at 256. -/
def ec_erase_j (D : EcPorts σ) (fuel : Nat) (i : Nat) : Nat → Nat → EcState σ → Run σ Unit
  | 0, j, w => if j < 0x100 then Run.spin w else Run.done () w
  | n + 1, j, w =>
    if j < 0x100 then
      (block_1k_erase D fuel i j 0x00 w).andThen fun _ w =>
      ec_erase_j D fuel i n ((j + 0x04) % 256) w
    else Run.done () w

/-- The outer loop `for (i = 0; i < 0x02; i++)` of `ec_erase`, entered with
the value `i` (an `unsigned char`), with at most the given number of
repeats. -/
def ec_erase_i (D : EcPorts σ) (fuel : Nat) : Nat → Nat → EcState σ → Run σ Unit
  | 0, i, w => if i < 0x02 then Run.spin w else Run.done () w
  | n + 1, i, w =>
    if i < 0x02 then
      (ec_erase_j D fuel i fuel 0 w).andThen fun _ w =>
      ec_erase_i D fuel n ((i + 1) % 256) w
    else Run.done () w

/-- The C function `ec_erase()`. -/
def ec_erase (D : EcPorts σ) (fuel : Nat) (w : EcState σ) : Run σ Unit :=
  ec_erase_i D fuel fuel 0 w

/-- The loop `for (i = 0; i < BLOCK_SIZE; i++) send_byte_to_ec(ec_buffer[cur_pos
+ i]);` of `intel_ec_write`, over the bytes it sends. -/
def ec_send_bytes (D : EcPorts σ) (fuel : Nat) : List Nat → EcState σ → Run σ Unit
  | [], w => Run.done () w
  | b :: rest, w =>
    (send_byte_to_ec D fuel b w).andThen fun _ w => ec_send_bytes D fuel rest w

/-- The bytes `ec_buffer[cur_pos] .. ec_buffer[cur_pos + BLOCK_SIZE - 1]`. -/
def ec_block (buffer : List Nat) (cur_pos : Nat) : List Nat :=
  (List.range BLOCK_SIZE).map (fun i => buffer.getD (cur_pos + i) 0)

/-- The loop `for (block = 0; block < (bytes_write / BLOCK_SIZE); block++)`
of `intel_ec_write`; the first argument is the loop's measure, the number of
blocks still to program, and `pos` is `*ppos`. -/
def intel_ec_write_blocks (D : EcPorts σ) (fuel : Nat) (buffer : List Nat) :
    Nat → Nat → Int → EcState σ → Run σ Int
  | 0, _, pos, w => Run.done pos w
  | left + 1, block, pos, w =>
    let cur_pos := block * BLOCK_SIZE
    (enable_flash_write D fuel w).andThen fun _ w =>
    (wait_for_ec_free D fuel w).andThen fun _ w =>
    (follow_mode D fuel ENTER_FOLLOW_MODE w).andThen fun _ w =>
    (send_cmd_to_ec D fuel CMD_PAGE_PROGRAM w).andThen fun _ w =>
    (send_byte_to_ec D fuel (if w.total_write < HALF_FLASH_SIZE then 0 else 1) w).andThen
      fun _ w =>
    (send_byte_to_ec D fuel
      ((w.total_write / BLOCK_SIZE) % HALF_FLASH_BLOCKS).toNat w).andThen fun _ w =>
    (send_byte_to_ec D fuel 0x00 w).andThen fun _ w =>
    (ec_send_bytes D fuel (ec_block buffer cur_pos) w).andThen fun _ w =>
    let w := { w with total_write := w.total_write + BLOCK_SIZE }
    let pos := pos + BLOCK_SIZE
    (wait_for_ec_free D fuel w).andThen fun _ w =>
    intel_ec_write_blocks D fuel buffer left (block + 1) pos w

/-- Result of `intel_ec_write`: the return value and `*ppos` after the
call. -/
structure EcWritten where
  ret : Int
  pos : Option Int
  deriving DecidableEq, Repr

/-- The C function `intel_ec_write(filp, buf, count, ppos)`.  `pos` is `*ppos`
(`none` for a `NULL` pointer), `count` the `size_t` argument, and `user` the
`count` bytes readable at `buf` (`none` when `copy_from_user` faults). -/
def intel_ec_write (D : EcPorts σ) (fuel : Nat) (user : Option (List Nat)) (count : Nat)
    (pos : Option Int) (w : EcState σ) : Run σ EcWritten :=
  match pos with
  | none => Run.done ⟨-EINVAL, pos⟩ w
  | some p =>
    if p ≥ FLASH_SIZE then Run.done ⟨-EINVAL, pos⟩ w
    else
      let write_count : Int := min count MAX_DATA_SIZE
      let bytes_write : Int := min (FLASH_SIZE - w.total_write) write_count
      if bytes_write = 0 then Run.done ⟨0, pos⟩ w
      else if bytes_write % BLOCK_SIZE ≠ 0 then Run.done ⟨-EINVAL, pos⟩ w
      else
        match w.ec_buffer with
        | none => Run.done ⟨-EFAULT, pos⟩ w
        | some buffer =>
          match user with
          | none => Run.done ⟨-EFAULT, pos⟩ w
          | some data =>
            let buffer := data.take bytes_write.toNat ++ buffer.drop bytes_write.toNat
            let w := { w with ec_buffer := some buffer }
            (intel_ec_write_blocks D fuel buffer (bytes_write / BLOCK_SIZE).toNat 0 p w).andThen
              fun p w => Run.done ⟨bytes_write, some p⟩ w

/-- One call of `intel_ec_write` as a user issues it. -/
structure EcWriteCall where
  user : Option (List Nat)
  count : Nat
  pos : Option Int

/-- A sequence of calls of `intel_ec_write`, each entered when the one before
returned. -/
def intel_ec_writes (D : EcPorts σ) (fuel : Nat) : List EcWriteCall → EcState σ → Run σ Unit
  | [], w => Run.done () w
  | c :: rest, w =>
    (intel_ec_write D fuel c.user c.count c.pos w).andThen fun _ w =>
    intel_ec_writes D fuel rest w

/-- The bytes written to the port `EC_CMD`, in order. -/
def ec_outs (t : List PortOp) : List Nat :=
  t.filterMap (fun op =>
    match op with
    | PortOp.outb val port => if port = EC_CMD then some val else none
    | _ => none)

/-- The address triple `(a2, a1, a0)` when a stream of bytes written to
`EC_CMD` starts `cmd, SEND_BYTE, a2, SEND_BYTE, a1, SEND_BYTE, a0`. -/
def ec_address_at (cmd : Nat) : List Nat → List (Nat × Nat × Nat)
  | c :: s2 :: a2 :: s1 :: a1 :: s0 :: a0 :: _ =>
    if c = cmd ∧ s2 = SEND_BYTE ∧ s1 = SEND_BYTE ∧ s0 = SEND_BYTE then [(a2, a1, a0)]
    else []
  | _ => []

/-- The address triples that follow the flash command `cmd` in a stream of
bytes written to `EC_CMD`: at every place where the stream reads `SEND_CMD,
cmd, SEND_BYTE, a2, SEND_BYTE, a1, SEND_BYTE, a0`, the triple `(a2, a1,
a0)`. -/
def ec_addressed (cmd : Nat) : List Nat → List (Nat × Nat × Nat)
  | [] => []
  | x :: rest =>
    (if x = SEND_CMD then ec_address_at cmd rest else []) ++ ec_addressed cmd rest

/-- A stream of bytes written to `EC_CMD` in which the flash command `cmd`
is not sent: `SEND_CMD` is never followed by `cmd`, and is not the last
byte. -/
def ec_quiet (cmd : Nat) : List Nat → Bool
  | [] => true
  | [x] => decide (x ≠ SEND_CMD)
  | x :: y :: rest => decide (x ≠ SEND_CMD ∨ y ≠ cmd) && ec_quiet cmd (y :: rest)

/-- The bytes `wait_for_ec_free()` writes to `EC_CMD` when its loop reads
the status `k` times. -/
def wait_for_ec_free_outs (k : Nat) : List Nat :=
  [ENTER_FOLLOW_MODE, SEND_CMD, CMD_RDSR] ++ List.replicate k READ_BYTE ++ [EXIT_FOLLOW_MODE]

/-- The bytes `enable_flash_write()` writes to `EC_CMD` when the loop of its
`wait_for_ec_free()` reads the status `k1` times and its own loop `k2`
times. -/
def enable_flash_write_outs (k1 k2 : Nat) : List Nat :=
  wait_for_ec_free_outs k1
  ++ [ENTER_FOLLOW_MODE, SEND_CMD, CMD_WRSR, SEND_BYTE, 0x00,
      ENTER_FOLLOW_MODE, SEND_CMD, CMD_WREN, ENTER_FOLLOW_MODE, SEND_CMD, CMD_RDSR]
  ++ List.replicate k2 READ_BYTE ++ [EXIT_FOLLOW_MODE]

/-- The bytes `enable_ec_status_reg_write()` writes to `EC_CMD`. -/
def enable_ec_status_reg_write_outs (k : Nat) : List Nat :=
  wait_for_ec_free_outs k
  ++ [ENTER_FOLLOW_MODE, SEND_CMD, CMD_WREN, ENTER_FOLLOW_MODE, SEND_CMD, CMD_EWSR]

/-- The bytes a run of `send_byte_to_ec` calls writes to `EC_CMD`. -/
def ec_bytes_outs (l : List Nat) : List Nat :=
  l.flatMap (fun b => [SEND_BYTE, b % 256])

/-- The bytes a trace has gained on the port `EC_CMD`. -/
def newOuts (before after : List PortOp) : List Nat :=
  (ec_outs after).drop (ec_outs before).length

/-- The driver's globals `total_write` and `ec_buffer` are the same in the
two states. -/
def EcFrame (w w2 : EcState σ) : Prop :=
  w2.total_write = w.total_write ∧ w2.ec_buffer = w.ec_buffer

/-- The invariant of `total_write`: a multiple of `BLOCK_SIZE` between 0 and
`FLASH_SIZE`. -/
def EcInv (w : EcState σ) : Prop :=
  w.total_write % BLOCK_SIZE = 0 ∧ 0 ≤ w.total_write ∧ w.total_write ≤ FLASH_SIZE

/-- The flash offset three address bytes (high, middle, low) encode. -/
def ec_offset (a : Nat × Nat × Nat) : Nat := a.1 * 65536 + a.2.1 * 256 + a.2.2

/-- A model controller whose status polls all complete at once: the status
port always reads `EC_OBF` set and `EC_IBF` clear, and the data port always
reads 0x02 (write enabled, not busy). -/
def ecIdle : EcPorts Unit where
  inb _ port := (if port = EC_DATA then 0x02 else 0x01, ())
  outb _ _ _ := ()

/-- A model controller whose input buffer never empties: every port reads
0x02 (`EC_IBF` set). -/
def ecStuck : EcPorts Unit where
  inb _ _ := (0x02, ())
  outb _ _ _ := ()

/-- A state of the EC driver over the model controllers: empty trace, a
zeroed 4096-byte `ec_buffer`, and the given `total_write`. -/
def ecFresh (total_write : Int) : EcState Unit where
  dev := ()
  trace := []
  ec_buffer := some (List.replicate MAX_DATA_SIZE 0)
  total_write := total_write


/-! # Theorems -/

/-! ## Basic facts -/

theorem and_one_eq_mod_two (x : Nat) : x &&& 1 = x % 2 := Nat.and_one_is_mod x

theorem and_255 (x : Nat) : x &&& 255 = x % 256 :=
  Nat.and_pow_two_sub_one_eq_mod x 8

theorem mod32_mod256 (x : Nat) : x % 4294967296 % 256 = x % 256 :=
  Nat.mod_mod_of_dvd x (by norm_num)

theorem wrap32_of_range (x : Int) (h1 : -2 ^ 31 ≤ x) (h2 : x < 2 ^ 31) : wrap32 x = x := by
  unfold wrap32
  have h3 : (x + 2 ^ 31) % 2 ^ 32 = x + 2 ^ 31 := by
    apply Int.emod_eq_of_lt <;> omega
  omega

theorem wires_append (s t : List Event) : wires (s ++ t) = wires s ++ wires t := by
  simp [wires]

theorem wires_nil : wires [] = [] := rfl

theorem wires_singleton (e : Event) : wires [e] = [e.wire] := rfl

/-! ## Primitives of the FPD-Link driver -/

theorem usleep_range_priv (lo hi : Nat) (w : FpdState σ) :
    (usleep_range lo hi w).priv = w.priv := rfl

theorem usleep_range_wires (lo hi : Nat) (w : FpdState σ) :
    wires (usleep_range lo hi w).trace = wires w.trace ++ [Wire.sleep lo hi] := by
  simp [usleep_range, wires, Event.wire]

theorem fpd_read_priv (E : Env σ) (c r v : Nat) (w : FpdState σ) :
    (fpd_dp_ser_read_reg E c r v w).w.priv = w.priv := by
  simp [fpd_dp_ser_read_reg]

theorem fpd_read_wires (E : Env σ) (c r v : Nat) (w : FpdState σ) :
    wires (fpd_dp_ser_read_reg E c r v w).w.trace
      = wires w.trace ++ [Wire.rd c [r % 256]] := by
  simp [fpd_dp_ser_read_reg, wires, Event.wire, and_255]

theorem fpd_read_ret (E : Env σ) (c r v : Nat) (w : FpdState σ) :
    (fpd_dp_ser_read_reg E c r v w).ret = 0 := by
  simp [fpd_dp_ser_read_reg]

theorem fpd_read_val (E : Env σ) (c r v : Nat) (w : FpdState σ) :
    (fpd_dp_ser_read_reg E c r v w).val
      = recvByte (E.dev.read w.dev c [r % 256]).1.2 v := by
  simp [fpd_dp_ser_read_reg, and_255]

theorem fpd_write_priv (E : Env σ) (c r v : Nat) (w : FpdState σ) :
    (fpd_dp_ser_write_reg E c r v w).w.priv = w.priv := by
  unfold fpd_dp_ser_write_reg
  simp only
  split <;> rfl

theorem fpd_write_wires (E : Env σ) (c r v : Nat) (w : FpdState σ) :
    wires (fpd_dp_ser_write_reg E c r v w).w.trace
      = wires w.trace ++ [Wire.wr c [r % 256, v % 256]] := by
  unfold fpd_dp_ser_write_reg
  simp only
  split <;> simp [wires, Event.wire, and_255, mod32_mod256]


theorem queue_delayed_work_wires (ms : Nat) (w : FpdState σ) :
    wires (queue_delayed_work ms w).trace = wires w.trace ++ [Wire.queue 0 ms] := by
  simp [queue_delayed_work, wires, Event.wire]

theorem fpd_write_regs_priv (E : Env σ) (c : Nat) (l : List (Nat × Nat)) :
    ∀ w : FpdState σ, (fpd_dp_ser_write_regs E c l w).priv = w.priv := by
  induction l with
  | nil => intro w; rfl
  | cons rv rest ih =>
    intro w
    obtain ⟨r, v⟩ := rv
    simp only [fpd_dp_ser_write_regs]
    rw [ih, fpd_write_priv]

theorem fpd_write_regs_wires (E : Env σ) (c : Nat) (l : List (Nat × Nat)) :
    ∀ w : FpdState σ, wires (fpd_dp_ser_write_regs E c l w).trace
      = wires w.trace ++ l.map (fun rv => Wire.wr c [rv.1 % 256, rv.2 % 256]) := by
  induction l with
  | nil => intro w; simp [fpd_dp_ser_write_regs]
  | cons rv rest ih =>
    intro w
    obtain ⟨r, v⟩ := rv
    simp only [fpd_dp_ser_write_regs]
    rw [ih, fpd_write_wires]
    simp

/-! ## The lock poller against a device that never reports sync -/

theorem recvByte_even (d : Option Nat) (v : Nat) (hd : ∀ x, d = some x → x % 2 = 0)
    (hv : v % 2 = 0) : recvByte d v % 2 = 0 := by
  unfold recvByte
  split
  · rename_i x
    have := hd x rfl
    omega
  · exact hv

/-- The loop function satisfies the equation of the C `while` loop: started
with the measure `RETRY_COUNT - retry`, it tests the loop condition, and when
the condition holds it runs the body once and continues with the measure of
the new `retry`.  The measure never cuts the loop short. -/
theorem fpd_vp_sync_wait_while (E : Env σ) (off p sts retry : Nat) (w : FpdState σ) :
    fpd_vp_sync_wait E off p (RETRY_COUNT - retry) sts retry w
      = if sts &&& 0x01 = 0 ∧ retry < RETRY_COUNT ∧ p &&& 0x01 = 0 then
          fpd_vp_sync_wait E off p (RETRY_COUNT - (retry + 1))
            (fpd_dp_ser_read_reg E 0 0x42 sts
              (fpd_dp_ser_write_reg E 0 0x41 off (usleep_range 20000 22000 w)).w).val
            (retry + 1)
            (fpd_dp_ser_read_reg E 0 0x42 sts
              (fpd_dp_ser_write_reg E 0 0x41 off (usleep_range 20000 22000 w)).w).w
        else ⟨sts, retry, w⟩ := by
  by_cases h : retry < RETRY_COUNT
  · obtain ⟨n, hn⟩ : ∃ n, RETRY_COUNT - retry = n + 1 := ⟨RETRY_COUNT - retry - 1, by omega⟩
    have hn2 : RETRY_COUNT - (retry + 1) = n := by omega
    rw [hn, hn2]
    simp only [fpd_vp_sync_wait]
  · have h0 : RETRY_COUNT - retry = 0 := by omega
    have hc : ¬ (sts &&& 0x01 = 0 ∧ retry < RETRY_COUNT ∧ p &&& 0x01 = 0) := fun hx => h hx.2.1
    rw [h0, if_neg hc]
    rfl

theorem fpd_vp_sync_wait_priv (E : Env σ) (off p : Nat) :
    ∀ (left sts retry : Nat) (w : FpdState σ),
      (fpd_vp_sync_wait E off p left sts retry w).w.priv = w.priv := by
  intro left
  induction left with
  | zero => intro sts retry w; rfl
  | succ n ih =>
    intro sts retry w
    simp only [fpd_vp_sync_wait]
    split
    · rw [ih, fpd_read_priv, fpd_write_priv, usleep_range_priv]
    · rfl

theorem fpd_vp_sync_wait_never (E : Env σ) (H : NeverSynced E) (off p : Nat)
    (hp : p % 2 = 0) :
    ∀ (left sts retry : Nat) (w : FpdState σ), sts % 2 = 0 → retry + left = RETRY_COUNT →
      (fpd_vp_sync_wait E off p left sts retry w).sts % 2 = 0 ∧
      wires (fpd_vp_sync_wait E off p left sts retry w).w.trace
        = wires w.trace ++ (List.replicate left (fpd_vp_retry_wire (off % 256))).flatten := by
  intro left
  induction left with
  | zero => intro sts retry w hs _; simp [fpd_vp_sync_wait, hs]
  | succ n ih =>
    intro sts retry w hs hr
    have hc : sts &&& 0x01 = 0 ∧ retry < RETRY_COUNT ∧ p &&& 0x01 = 0 := by
      refine ⟨by rw [and_one_eq_mod_two]; exact hs, by omega, by rw [and_one_eq_mod_two]; exact hp⟩
    simp only [fpd_vp_sync_wait, if_pos hc]
    have hv : (fpd_dp_ser_read_reg E 0 0x42 sts
        (fpd_dp_ser_write_reg E 0 0x41 off (usleep_range 20000 22000 w)).w).val % 2 = 0 := by
      rw [fpd_read_val]
      exact recvByte_even _ _ (H _) hs
    obtain ⟨h1, h2⟩ := ih _ (retry + 1) _ hv (by omega)
    refine ⟨h1, ?_⟩
    rw [h2, fpd_read_wires, fpd_write_wires, usleep_range_wires]
    simp [List.replicate_succ, fpd_vp_retry_wire]

theorem fpd_poll_vp_status_priv (E : Env σ) (w : FpdState σ) :
    (fpd_poll_vp_status E w).w.priv = w.priv := by
  simp only [fpd_poll_vp_status, fpd_vp_sync_wait_priv, fpd_read_priv, fpd_write_priv,
    usleep_range_priv]

theorem fpd_poll_vp_status_never (E : Env σ) (H : NeverSynced E) (w : FpdState σ) :
    (fpd_poll_vp_status E w).VP0sts % 2 = 0 ∧
    wires (fpd_poll_vp_status E w).w.trace = wires w.trace ++
      ([Wire.sleep 20000 22000, Wire.wr 0 [0x40, 0x31], Wire.wr 0 [0x41, 0x28],
        Wire.rd 0 [0x42], Wire.wr 0 [0x41, 0x30], Wire.rd 0 [0x42]]
      ++ (List.replicate RETRY_COUNT (fpd_vp_retry_wire 0x30)).flatten
      ++ [Wire.wr 0 [0x41, 0x68], Wire.rd 0 [0x42], Wire.wr 0 [0x41, 0x70], Wire.rd 0 [0x42]]
      ++ (List.replicate RETRY_COUNT (fpd_vp_retry_wire 0x70)).flatten) := by
  have ev : ∀ (s : FpdState σ), (fpd_dp_ser_read_reg E 0 0x42 0 s).val % 2 = 0 := by
    intro s
    rw [fpd_read_val]
    exact recvByte_even _ _ (H _) rfl
  simp only [fpd_poll_vp_status]
  obtain ⟨a1, a2⟩ := fpd_vp_sync_wait_never E H 0x30 _ (ev _) (RETRY_COUNT - 0) _ 0
    (fpd_dp_ser_read_reg E 0 0x42 0 (fpd_dp_ser_write_reg E 0 0x41 0x30
      (fpd_dp_ser_read_reg E 0 0x42 0 (fpd_dp_ser_write_reg E 0 0x41 0x28
        (fpd_dp_ser_write_reg E 0 0x40 0x31 (usleep_range 20000 22000 w)).w).w).w).w).w
    (ev _) (by simp [RETRY_COUNT])
  refine ⟨a1, ?_⟩
  obtain ⟨_, b2⟩ := fpd_vp_sync_wait_never E H 0x70 _ (ev _) (RETRY_COUNT - 0) _ 0
    (fpd_dp_ser_read_reg E 0 0x42 0 (fpd_dp_ser_write_reg E 0 0x41 0x70
      (fpd_dp_ser_read_reg E 0 0x42 0 (fpd_dp_ser_write_reg E 0 0x41 0x68
        (fpd_vp_sync_wait E 0x30 _ (RETRY_COUNT - 0) _ 0 _).w).w).w).w).w
    (ev _) (by simp [RETRY_COUNT])
  rw [b2]
  simp only [fpd_read_wires, fpd_write_wires, a2, usleep_range_wires]
  simp [RETRY_COUNT]

theorem fpd_poll_never (E : Env σ) (H : NeverSynced E) (w : FpdState σ)
    (hc1 : 0 ≤ w.priv.count) (hc2 : w.priv.count < 2 ^ 31 - 1)
    (hp : w.priv.delay_work = none) :
    (fpd_poll_training_lock E w).priv
      = { w.priv with
          count := w.priv.count + 1
          delay_work := if w.priv.count + 1 > 10 then none else some 100 } ∧
    wires (fpd_poll_training_lock E w).trace
      = wires w.trace ++ fpd_poll_unlocked_wire
        ++ (if w.priv.count + 1 > 10 then [] else [Wire.queue 0 100]) := by
  obtain ⟨h0, hw⟩ := fpd_poll_vp_status_never E H w
  have hpriv := fpd_poll_vp_status_priv E w
  have hcond : (fpd_poll_vp_status E w).VP0sts &&& 0x01 = 0 ∨
      (fpd_poll_vp_status E w).VP1sts &&& 0x01 = 0 := by
    left; rw [and_one_eq_mod_two]; exact h0
  have hwrap : wrap32 (w.priv.count + 1) = w.priv.count + 1 :=
    wrap32_of_range _ (by omega) (by omega)
  simp only [fpd_poll_training_lock, if_pos hcond, fpd_write_regs_priv, hpriv, hwrap]
  by_cases hgt : w.priv.count + 1 > 10
  · have hgt2 : w.priv.count + 1 > ((RETRY_COUNT : Nat) : Int) := by simpa [RETRY_COUNT] using hgt
    simp only [if_pos hgt, if_pos hgt2, fpd_write_regs_wires, hw, hp]
    simp [fpd_poll_unlocked_wire]
  · have hgt2 : ¬ w.priv.count + 1 > ((RETRY_COUNT : Nat) : Int) := by simpa [RETRY_COUNT] using hgt
    simp only [if_neg hgt, if_neg hgt2, queue_delayed_work_wires, fpd_write_regs_wires, hw]
    simp [fpd_poll_unlocked_wire, queue_delayed_work, fpd_write_regs_priv, hpriv, hp, keepPending]

theorem fpd_worker_never (E : Env σ) (H : NeverSynced E) (w : FpdState σ) (d : Nat)
    (hc1 : 0 ≤ w.priv.count) (hc2 : w.priv.count < 2 ^ 31 - 1)
    (hp : w.priv.delay_work = some d) :
    (fpd_worker E w).priv
      = { w.priv with
          count := w.priv.count + 1
          delay_work := if w.priv.count + 1 > 10 then none else some 100 } ∧
    wires (fpd_worker E w).trace
      = wires w.trace ++ fpd_poll_unlocked_wire
        ++ (if w.priv.count + 1 > 10 then [] else [Wire.queue 0 100]) := by
  unfold fpd_worker
  rw [hp]
  exact fpd_poll_never E H { w with priv.delay_work := none } hc1 hc2 rfl

theorem fpd_worker_idle (E : Env σ) (w : FpdState σ) (hp : w.priv.delay_work = none) :
    fpd_worker E w = w := by
  unfold fpd_worker
  rw [hp]

theorem fpd_worker_run_succ (E : Env σ) (n : Nat) :
    ∀ w : FpdState σ, fpd_worker_run E (n + 1) w = fpd_worker E (fpd_worker_run E n w) := by
  induction n with
  | zero => intro w; rfl
  | succ k ih =>
    intro w
    calc fpd_worker_run E (k + 1 + 1) w
        = fpd_worker_run E (k + 1) (fpd_worker E w) := rfl
      _ = fpd_worker E (fpd_worker_run E k (fpd_worker E w)) := ih _
      _ = fpd_worker E (fpd_worker_run E (k + 1) w) := rfl

theorem fpd_worker_run_never (E : Env σ) (H : NeverSynced E) (w : FpdState σ)
    (hc : w.priv.count = 0) (hp : w.priv.delay_work = some 100) (n : Nat) :
    (fpd_worker_run E n w).priv
      = { w.priv with
          count := ((min n 11 : Nat) : Int)
          delay_work := if n ≤ 10 then some 100 else none } ∧
    wires (fpd_worker_run E n w).trace = wires w.trace ++ fpd_never_synced_wire n := by
  induction n with
  | zero =>
    refine ⟨?_, by simp [fpd_worker_run, fpd_never_synced_wire]⟩
    simp only [fpd_worker_run]
    cases hw : w.priv
    simp_all
  | succ k ih =>
    obtain ⟨ih1, ih2⟩ := ih
    rw [fpd_worker_run_succ]
    by_cases hk : k ≤ 10
    · have hcount : (fpd_worker_run E k w).priv.count = (k : Int) := by
        rw [ih1]; simp [Nat.min_eq_left (by omega : k ≤ 11)]
      have hpend : (fpd_worker_run E k w).priv.delay_work = some 100 := by
        rw [ih1]; simp [hk]
      obtain ⟨a1, a2⟩ := fpd_worker_never E H (fpd_worker_run E k w) 100
        (by rw [hcount]; omega) (by rw [hcount]; omega) hpend
      rw [a1, a2, ih2, hcount, ih1]
      constructor
      · by_cases hk2 : k + 1 ≤ 10
        · have : ¬ ((k : Int) + 1 > 10) := by omega
          simp [this, hk2, Nat.min_eq_left (by omega : k + 1 ≤ 11)]
        · have : ((k : Int) + 1 > 10) := by omega
          have hk3 : k = 10 := by omega
          subst hk3
          simp
      · by_cases hk2 : k < 10
        · have : ¬ ((k : Int) + 1 > 10) := by omega
          simp [fpd_never_synced_wire, this, hk2, RETRY_COUNT]
        · have hk3 : k = 10 := by omega
          subst hk3
          simp [fpd_never_synced_wire, RETRY_COUNT]
    · have hpend : (fpd_worker_run E k w).priv.delay_work = none := by
        rw [ih1]; simp [hk]
      rw [fpd_worker_idle E _ hpend, ih1, ih2]
      constructor
      · have h1 : ¬ (k + 1 ≤ 10) := by omega
        simp [hk, h1, Nat.min_eq_right (by omega : 11 ≤ k), Nat.min_eq_right (by omega : 11 ≤ k + 1)]
      · have h1 : ¬ (k < RETRY_COUNT) := by simp [RETRY_COUNT]; omega
        have h2 : ¬ (k = RETRY_COUNT) := by simp [RETRY_COUNT]; omega
        simp [fpd_never_synced_wire, h1, h2]

theorem fpd_poll_unlocked_wire_counts :
    fpd_poll_unlocked_wire.countP Wire.isQueue = 0 ∧
    fpd_poll_unlocked_wire.countP Wire.isDeserEnable = 0 ∧
    fpd_poll_unlocked_wire.countP (Wire.toClient 1) = 0 ∧
    fpd_poll_unlocked_wire.countP Wire.isVideoInputReset = 1 := by
  decide

theorem fpd_never_synced_wire_counts (n : Nat) :
    (fpd_never_synced_wire n).countP Wire.isQueue = min n 10 ∧
    (fpd_never_synced_wire n).countP Wire.isDeserEnable = 0 ∧
    (fpd_never_synced_wire n).countP (Wire.toClient 1) = 0 ∧
    (fpd_never_synced_wire n).countP Wire.isVideoInputReset = min n 11 := by
  obtain ⟨c1, c2, c3, c4⟩ := fpd_poll_unlocked_wire_counts
  induction n with
  | zero => simp [fpd_never_synced_wire]
  | succ k ih =>
    obtain ⟨i1, i2, i3, i4⟩ := ih
    simp only [fpd_never_synced_wire, List.countP_append, i1, i2, i3, i4]
    by_cases h1 : k < RETRY_COUNT
    · simp only [if_pos h1, List.countP_append, c1, c2, c3, c4]
      simp only [RETRY_COUNT] at h1
      simp [Wire.isQueue, Wire.isDeserEnable, Wire.toClient, Wire.isVideoInputReset]
      omega
    · by_cases h2 : k = RETRY_COUNT
      · simp only [if_neg h1, if_pos h2, c1, c2, c3, c4]
        simp only [RETRY_COUNT] at h2
        subst h2
        simp
      · simp only [if_neg h1, if_neg h2]
        simp only [RETRY_COUNT] at h1 h2
        simp
        omega

/-- C1: starting from `count = 0` with the poller queued, against a device
whose VP sync status and PATGEN bits always read 0, the first 10 invocations
of `fpd_poll_training_lock` each re-queue the delayed work with 100 ms, the
11th invocation does not re-queue it (after it nothing is pending and `count`
is 11), and `fpd_dp_deser_enable` is never started: no trace entry is its
first write and no transfer ever goes to the deserializer. -/
theorem fpd_poll_never_synced_requeues_ten_times (E : Env σ) (w : FpdState σ)
    (hdev : ∀ s x, (E.dev.read s 0 [0x42]).1.2 = some x → x % 2 = 0)
    (hcount : w.priv.count = 0) (hqueued : w.priv.delay_work = some 100) :
    (∀ n, n ≤ 10 → fpd_worker_run E (n + 1) w
        = fpd_poll_training_lock E { fpd_worker_run E n w with priv.delay_work := none }) ∧
    (∀ n, queueCalls (fpd_worker_run E n w).trace = queueCalls w.trace + min n 10) ∧
    (∀ n, n ≤ 10 → (fpd_worker_run E n w).priv.delay_work = some 100) ∧
    (∀ n, 11 ≤ n → (fpd_worker_run E n w).priv.delay_work = none) ∧
    (∀ n, (fpd_worker_run E n w).priv.count = ((min n 11 : Nat) : Int)) ∧
    (∀ n, deserEnableCalls (fpd_worker_run E n w).trace = deserEnableCalls w.trace) ∧
    (∀ n, transfersTo 1 (fpd_worker_run E n w).trace = transfersTo 1 w.trace) ∧
    (∀ n, wires (fpd_worker_run E n w).trace = wires w.trace ++ fpd_never_synced_wire n) := by
  have key := fpd_worker_run_never E hdev w hcount hqueued
  refine ⟨?_, ?_, ?_, ?_, ?_, ?_, ?_, ?_⟩
  · intro n hn
    rw [fpd_worker_run_succ]
    have hp : (fpd_worker_run E n w).priv.delay_work = some 100 := by
      rw [(key n).1]; simp [hn]
    simp only [fpd_worker, hp]
  · intro n
    simp only [queueCalls, (key n).2, List.countP_append, (fpd_never_synced_wire_counts n).1]
  · intro n hn
    rw [(key n).1]; simp [hn]
  · intro n hn
    have : ¬ n ≤ 10 := by omega
    rw [(key n).1]; simp [this]
  · intro n
    rw [(key n).1]
  · intro n
    simp only [deserEnableCalls, (key n).2, List.countP_append,
      (fpd_never_synced_wire_counts n).2.1, Nat.add_zero]
  · intro n
    simp only [transfersTo, (key n).2, List.countP_append,
      (fpd_never_synced_wire_counts n).2.2.1, Nat.add_zero]
  · intro n
    exact (key n).2

theorem vpEnv_neverLock_neverSynced :
    ∀ s x, ((vpEnv neverLock 0).dev.read s 0 [0x42]).1.2 = some x → x % 2 = 0 := by
  intro s x h
  simp only [vpEnv, vpDevice, neverLock] at h
  split_ifs at h <;> simp at h <;> omega

/-- Witness of C1 on the model device that never locks: after 12 turns of
the worker exactly 10 `queue_delayed_work` calls have been made. -/
theorem fpd_poll_never_synced_requeues_ten_times_witness :
    (∀ s x, ((vpEnv neverLock 0).dev.read s 0 [0x42]).1.2 = some x → x % 2 = 0) ∧
    fpdQueued.priv.count = 0 ∧ fpdQueued.priv.delay_work = some 100 ∧
    queueCalls (fpd_worker_run (vpEnv neverLock 0) 12 fpdQueued).trace
      = queueCalls fpdQueued.trace + min 12 10 :=
  ⟨vpEnv_neverLock_neverSynced, rfl, rfl,
    (fpd_poll_never_synced_requeues_ten_times (vpEnv neverLock 0) fpdQueued
      vpEnv_neverLock_neverSynced rfl rfl).2.1 12⟩

/-! ## The Locked path of the poller -/

theorem fpd_dp_ser_stream_mapping_priv (E : Env σ) (c : Nat) (w : FpdState σ) :
    (fpd_dp_ser_stream_mapping E c w).w.priv = w.priv := by
  simp only [fpd_dp_ser_stream_mapping, fpd_write_regs_priv]

theorem fpd_dp_ser_stream_mapping_wires (E : Env σ) (w : FpdState σ) :
    wires (fpd_dp_ser_stream_mapping E 0 w).w.trace
      = wires w.trace ++ fpd_dp_ser_stream_mapping_wire := by
  simp [fpd_dp_ser_stream_mapping, fpd_write_regs_wires, fpd_dp_ser_stream_mapping_wire]

theorem fpd_dp_ser_clear_crc_priv (E : Env σ) (c : Nat) (w : FpdState σ) :
    (fpd_dp_ser_clear_crc E c w).w.priv = w.priv := by
  simp only [fpd_dp_ser_clear_crc, fpd_write_priv, fpd_read_priv, usleep_range_priv]

theorem fpd_dp_ser_clear_crc_wires (E : Env σ) (w : FpdState σ) :
    ∃ a b, wires (fpd_dp_ser_clear_crc E 0 w).w.trace
      = wires w.trace ++ fpd_dp_ser_clear_crc_wire a b := by
  refine Exists.intro ?a (Exists.intro ?b ?_)
  case a => exact (fpd_dp_ser_read_reg E 0 0x2 (E.uninit % 256) w).val
  case b => exact (fpd_dp_ser_read_reg E 0 0x2
      (((fpd_dp_ser_read_reg E 0 0x2 (E.uninit % 256) w).val ||| 0x20) % 256)
      (fpd_dp_ser_write_reg E 0 0x2
        (((fpd_dp_ser_read_reg E 0 0x2 (E.uninit % 256) w).val ||| 0x20) % 256)
        (fpd_dp_ser_read_reg E 0 0x2 (E.uninit % 256) w).w).w).val
  simp only [fpd_dp_ser_clear_crc, fpd_write_wires, fpd_read_wires, usleep_range_wires,
    fpd_dp_ser_clear_crc_wire, List.append_assoc, List.singleton_append, List.cons_append,
    List.nil_append, Nat.mod_mod, Nat.reduceMod]

theorem fpd_dp_deser_enable_priv (E : Env σ) (w : FpdState σ) :
    (fpd_dp_deser_enable E w).priv = w.priv := by
  simp only [fpd_dp_deser_enable, fpd_dp_deser_override_efuse, fpd_dp_deser_hold_dtg_reset,
    fpd_dp_deser_disalbe_stream_mapping, fpd_dp_deser_force_rate, fpd_dp_deser_setup_ports,
    fpd_dp_deser_map_output, fpd_dp_deser_prog_pclk, fpd_dp_deser_setup_dtg,
    fpd_dp_deser_setup_dptx, fpd_dp_deser_release_dtg_reset, fpd_dp_deser_enable_output,
    fpd_write_regs_priv, fpd_write_priv, fpd_read_priv, usleep_range_priv]

theorem fpd_dp_deser_enable_wires_uniform :
    ∃ L : List Wire, ∀ (τ : Type) (E : Env τ) (w : FpdState τ),
      wires (fpd_dp_deser_enable E w).trace = wires w.trace ++ L := by
  constructor
  intro τ E w
  simp only [fpd_dp_deser_enable, fpd_dp_deser_override_efuse, fpd_dp_deser_hold_dtg_reset,
    fpd_dp_deser_disalbe_stream_mapping, fpd_dp_deser_force_rate, fpd_dp_deser_setup_ports,
    fpd_dp_deser_map_output, fpd_dp_deser_prog_pclk, fpd_dp_deser_setup_dtg,
    fpd_dp_deser_setup_dptx, fpd_dp_deser_release_dtg_reset, fpd_dp_deser_enable_output,
    fpd_write_regs_wires, fpd_write_wires, fpd_read_wires, usleep_range_wires,
    List.append_assoc]
  rfl

theorem fpd_dp_deser_enable_wires (E : Env σ) (w : FpdState σ) :
    wires (fpd_dp_deser_enable E w).trace = wires w.trace ++ fpd_dp_deser_enable_wire := by
  obtain ⟨L, hL⟩ := fpd_dp_deser_enable_wires_uniform
  have h0 : fpd_dp_deser_enable_wire = L := by
    unfold fpd_dp_deser_enable_wire
    rw [hL]
    rfl
  rw [h0, hL]

set_option maxRecDepth 100000 in
theorem fpd_dp_deser_enable_wire_counts :
    fpd_dp_deser_enable_wire.countP Wire.isQueue = 0 ∧
    fpd_dp_deser_enable_wire.countP Wire.isDeserEnable = 1 ∧
    fpd_dp_deser_enable_wire.countP (Wire.toClient 0) = 1 ∧
    fpd_dp_deser_enable_wire.countP (Wire.toClient 1) = 144 ∧
    fpd_dp_deser_enable_wire.length = 146 ∧
    fpd_dp_deser_enable_wire.head? = some (Wire.wr 0 [0x3, 0x9a]) := by
  decide

theorem fpd_vp_sync_wait_queueCalls (E : Env σ) (off p : Nat) :
    ∀ (left sts retry : Nat) (w : FpdState σ),
      List.countP Wire.isQueue (wires (fpd_vp_sync_wait E off p left sts retry w).w.trace)
        = List.countP Wire.isQueue (wires w.trace) := by
  intro left
  induction left with
  | zero => intro sts retry w; rfl
  | succ n ih =>
    intro sts retry w
    simp only [fpd_vp_sync_wait]
    split
    · rw [ih]
      simp [fpd_read_wires, fpd_write_wires, usleep_range_wires, Wire.isQueue]
    · rfl

theorem fpd_poll_vp_status_queueCalls (E : Env σ) (w : FpdState σ) :
    queueCalls (fpd_poll_vp_status E w).w.trace = queueCalls w.trace := by
  simp only [fpd_poll_vp_status, queueCalls, fpd_vp_sync_wait_queueCalls, fpd_read_wires,
    fpd_write_wires, usleep_range_wires, List.countP_append]
  simp [Wire.isQueue]

/-- C4: whenever `fpd_poll_training_lock` holds 1 in bit 0 of both VP sync
status bytes when it decides, then for every prior value of `count`: `count`
is reset to 0 and nothing else of the private struct changes (the delayed
work is not re-queued, and no `queue_delayed_work` call is made), and the
trace that follows the sampling is the stream-mapping writes, then the CRC
error clear, then the deserializer enable sequence, in that order. -/
theorem fpd_poll_locked_action (E : Env σ) (w : FpdState σ)
    (h0 : (fpd_poll_vp_status E w).VP0sts &&& 0x01 = 1)
    (h1 : (fpd_poll_vp_status E w).VP1sts &&& 0x01 = 1) :
    (fpd_poll_training_lock E w).priv = { w.priv with count := 0 } ∧
    fpd_poll_training_lock E w
      = fpd_dp_deser_enable E (fpd_dp_ser_clear_crc E 0 (fpd_dp_ser_stream_mapping E 0
          { (fpd_poll_vp_status E w).w with priv.count := 0 }).w).w ∧
    (∃ a b, wires (fpd_poll_training_lock E w).trace
        = wires (fpd_poll_vp_status E w).w.trace ++ fpd_dp_ser_stream_mapping_wire
          ++ fpd_dp_ser_clear_crc_wire a b ++ fpd_dp_deser_enable_wire) ∧
    queueCalls (fpd_poll_training_lock E w).trace = queueCalls w.trace := by
  have hcond : ¬ ((fpd_poll_vp_status E w).VP0sts &&& 0x01 = 0 ∨
      (fpd_poll_vp_status E w).VP1sts &&& 0x01 = 0) := by
    rw [h0, h1]; decide
  have hred : fpd_poll_training_lock E w
      = fpd_dp_deser_enable E (fpd_dp_ser_clear_crc E 0 (fpd_dp_ser_stream_mapping E 0
          { (fpd_poll_vp_status E w).w with priv.count := 0 }).w).w := by
    simp only [fpd_poll_training_lock, if_neg hcond]
  obtain ⟨a, b, hab⟩ := fpd_dp_ser_clear_crc_wires E (fpd_dp_ser_stream_mapping E 0
          { (fpd_poll_vp_status E w).w with priv.count := 0 }).w
  have hwire : wires (fpd_poll_training_lock E w).trace
        = wires (fpd_poll_vp_status E w).w.trace ++ fpd_dp_ser_stream_mapping_wire
          ++ fpd_dp_ser_clear_crc_wire a b ++ fpd_dp_deser_enable_wire := by
    rw [hred, fpd_dp_deser_enable_wires, hab, fpd_dp_ser_stream_mapping_wires]
  refine ⟨?_, hred, ⟨a, b, hwire⟩, ?_⟩
  · rw [hred, fpd_dp_deser_enable_priv, fpd_dp_ser_clear_crc_priv,
      fpd_dp_ser_stream_mapping_priv]
    simp only [fpd_poll_vp_status_priv]
  · have hq := fpd_poll_vp_status_queueCalls E w
    simp only [queueCalls] at hq ⊢
    rw [hwire]
    simp only [List.countP_append, hq, fpd_dp_deser_enable_wire_counts.1]
    simp [fpd_dp_ser_stream_mapping_wire, fpd_dp_ser_clear_crc_wire, Wire.isQueue]

/-- Witness of C4 on the model device whose VPs are synced from the first
sample on, with `count` at 7 before the invocation. -/
theorem fpd_poll_locked_action_witness :
    (fpd_poll_vp_status (vpEnv (lockAfter 0) 0)
      { fpdQueued with priv.count := 7, priv.delay_work := none }).VP0sts &&& 0x01 = 1 ∧
    (fpd_poll_vp_status (vpEnv (lockAfter 0) 0)
      { fpdQueued with priv.count := 7, priv.delay_work := none }).VP1sts &&& 0x01 = 1 ∧
    (fpd_poll_training_lock (vpEnv (lockAfter 0) 0)
      { fpdQueued with priv.count := 7, priv.delay_work := none }).priv
      = { ({ fpdQueued with priv.count := 7, priv.delay_work := none } :
            FpdState VpModel).priv with count := 0 } :=
  ⟨by decide, by decide,
    (fpd_poll_locked_action (vpEnv (lockAfter 0) 0)
      { fpdQueued with priv.count := 7, priv.delay_work := none } (by decide) (by decide)).1⟩

/-! ## The poller against the sample-counting model device -/

set_option maxRecDepth 1000000 in
theorem fpd_lockAfter_first_turn (N : Nat) (hN : N < 10) :
    (fpd_worker_run (vpEnv (lockAfter N) 0) 1 fpdQueued).priv
      = { fpdQueued.priv with count := 0, delay_work := none } ∧
    wires (fpd_worker_run (vpEnv (lockAfter N) 0) 1 fpdQueued).trace
      = fpd_poll_locked_wire N ∧
    (fpd_worker_run (vpEnv (lockAfter N) 0) 1 fpdQueued).dev.samples = N + 2 := by
  interval_cases N <;> decide

theorem fpd_poll_locked_wire_counts (N : Nat) :
    (fpd_poll_locked_wire N).countP Wire.isQueue = 0 ∧
    (fpd_poll_locked_wire N).countP Wire.isDeserEnable = 1 ∧
    (fpd_poll_locked_wire N).countP Wire.isVideoInputReset = 0 := by
  have hrep : ∀ (p : Wire → Bool), (fpd_vp_retry_wire 0x30).countP p = 0 →
      ((List.replicate N (fpd_vp_retry_wire 0x30)).flatten).countP p = 0 := by
    intro p hp
    induction N with
    | zero => rfl
    | succ k ih => simp [List.replicate_succ, List.countP_append, hp, ih]
  obtain ⟨d1, d2, -, -, -, -⟩ := fpd_dp_deser_enable_wire_counts
  have d3 : fpd_dp_deser_enable_wire.countP Wire.isVideoInputReset = 0 := by
    set_option maxRecDepth 100000 in decide
  have r1 := hrep Wire.isQueue (by decide)
  have r2 := hrep Wire.isDeserEnable (by decide)
  have r3 := hrep Wire.isVideoInputReset (by decide)
  refine ⟨?_, ?_, ?_⟩
  · simp only [fpd_poll_locked_wire, List.countP_append, r1, d1]
    decide
  · simp only [fpd_poll_locked_wire, List.countP_append, r2, d2]
    decide
  · simp only [fpd_poll_locked_wire, List.countP_append, r3, d3]
    decide

/-- C2 (as the code has it): against the model device that reports "not
locked" for exactly `N` status samples and "locked" for every later one, with
`N < 10` and the PATGEN bits 0, the Locked action is reached on the first
invocation of the poll callback: after it `count` is 0, nothing is queued, no
`queue_delayed_work` call and no video input reset was made, and
`fpd_dp_deser_enable` has run once.  The `N` unlocked samples are consumed by
`N` passes of the callback's own VP0 loop; the device has served `N + 2`
status samples in all. -/
theorem fpd_poll_locks_on_first_invocation (N : Nat) (hN : N < 10) :
    LockedOnInvocation (vpEnv (lockAfter N) 0) fpdQueued 1 ∧
    queueCalls (fpd_worker_run (vpEnv (lockAfter N) 0) 1 fpdQueued).trace = 0 ∧
    videoInputResets (fpd_worker_run (vpEnv (lockAfter N) 0) 1 fpdQueued).trace = 0 ∧
    wires (fpd_worker_run (vpEnv (lockAfter N) 0) 1 fpdQueued).trace
      = fpd_poll_locked_wire N ∧
    (fpd_worker_run (vpEnv (lockAfter N) 0) 1 fpdQueued).dev.samples = N + 2 := by
  obtain ⟨hp, hw, hs⟩ := fpd_lockAfter_first_turn N hN
  obtain ⟨c1, c2, c3⟩ := fpd_poll_locked_wire_counts N
  refine ⟨⟨fun j hj => absurd hj (by omega), ?_, ?_, ?_⟩, ?_, ?_, hw, hs⟩
  · rw [hp]
  · rw [hp]
  · simp only [deserEnableCalls, hw, c2]
    rfl
  · simp only [queueCalls, hw, c1]
  · simp only [videoInputResets, hw, c3]

/-- Witness of C2 (as the code has it) for `N = 3`. -/
theorem fpd_poll_locks_on_first_invocation_witness :
    3 < 10 ∧ LockedOnInvocation (vpEnv (lockAfter 3) 0) fpdQueued 1 :=
  ⟨by decide, (fpd_poll_locks_on_first_invocation 3 (by decide)).1⟩

/-- Counterexample to C2 as stated: with `N = 1` unlocked sample the Locked
action is not reached on exactly the second invocation with the first one
ending in a reschedule; the first invocation already locks and leaves nothing
queued. -/
theorem fpd_poll_second_invocation_counterexample :
    ¬ LockedOnInvocation (vpEnv (lockAfter 1) 0) fpdQueued 2 ∧
    (fpd_worker_run (vpEnv (lockAfter 1) 0) 1 fpdQueued).priv.delay_work = none ∧
    deserEnableCalls (fpd_worker_run (vpEnv (lockAfter 1) 0) 1 fpdQueued).trace = 1 := by
  obtain ⟨hp, hw, -⟩ := fpd_lockAfter_first_turn 1 (by decide)
  obtain ⟨-, c2, -⟩ := fpd_poll_locked_wire_counts 1
  refine ⟨?_, by rw [hp], by simp only [deserEnableCalls, hw, c2]⟩
  intro h
  have h2 := (h.1 0 (by decide)).1
  rw [hp] at h2
  exact absurd h2 (by decide)

set_option maxRecDepth 100000 in
/-- C3, the code at the failing input: on the model device whose PATGEN bits
read 1 and whose VP sync status bits read 0, one invocation of
`fpd_poll_training_lock` does not take the Locked path: it skips both loops,
issues the video input reset, increments `count` and re-queues the delayed
work, and `fpd_dp_deser_enable` does not run. -/
theorem fpd_poll_patgen_not_bypassed :
    (fpd_poll_vp_status (vpEnv neverLock 1)
      { fpdQueued with priv.delay_work := none }).PATGEN_VP0 &&& 0x01 = 1 ∧
    (fpd_poll_vp_status (vpEnv neverLock 1)
      { fpdQueued with priv.delay_work := none }).PATGEN_VP1 &&& 0x01 = 1 ∧
    (fpd_worker_run (vpEnv neverLock 1) 1 fpdQueued).priv.count = 1 ∧
    (fpd_worker_run (vpEnv neverLock 1) 1 fpdQueued).priv.delay_work = some 100 ∧
    wires (fpd_worker_run (vpEnv neverLock 1) 1 fpdQueued).trace
      = [Wire.sleep 20000 22000, Wire.wr 0 [0x40, 0x31], Wire.wr 0 [0x41, 0x28],
         Wire.rd 0 [0x42], Wire.wr 0 [0x41, 0x30], Wire.rd 0 [0x42],
         Wire.wr 0 [0x41, 0x68], Wire.rd 0 [0x42], Wire.wr 0 [0x41, 0x70], Wire.rd 0 [0x42],
         Wire.wr 0 [0x49, 0x54], Wire.wr 0 [0x4a, 0x0], Wire.wr 0 [0x4b, 0x1],
         Wire.wr 0 [0x4c, 0x0], Wire.wr 0 [0x4d, 0x0], Wire.wr 0 [0x4e, 0x0],
         Wire.queue 0 100] ∧
    videoInputResets (fpd_worker_run (vpEnv neverLock 1) 1 fpdQueued).trace = 1 ∧
    queueCalls (fpd_worker_run (vpEnv neverLock 1) 1 fpdQueued).trace = 1 ∧
    deserEnableCalls (fpd_worker_run (vpEnv neverLock 1) 1 fpdQueued).trace = 0 := by
  decide

/-! ## Primitives of the GMSL driver -/

theorem max_hi_read (x : Nat) : ((x % 2 ^ 32) >>> 8) % 256 = x / 256 % 256 := by
  rw [Nat.shiftRight_eq_div_pow]
  omega

theorem max_hi_write (x : Nat) : (((x % 2 ^ 32) &&& 0xff00) >>> 8) % 256 = x / 256 % 256 := by
  have e : (0xff00 : Nat) = (2 ^ 8 - 1) <<< 8 := by decide
  have e3 : (256 : Nat) = 2 ^ 8 := by decide
  apply Nat.eq_of_testBit_eq
  intro i
  rw [e, e3, ← Nat.shiftRight_eq_div_pow]
  simp only [Nat.testBit_mod_two_pow, Nat.testBit_shiftRight, Nat.testBit_and,
    Nat.testBit_shiftLeft, Nat.testBit_two_pow_sub_one]
  by_cases h : i < 8
  · have h2 : 8 + i < 32 := by omega
    simp [h, h2]
  · simp [h]

theorem max_lo (x : Nat) : (x % 2 ^ 32) &&& 0xff = x % 256 := by
  rw [and_255]
  omega

theorem max_read_priv (E : Env σ) (c r v : Nat) (w : MaxState σ) :
    (max_dsi_ser_read_reg E c r v w).w.priv = w.priv := by
  simp [max_dsi_ser_read_reg]

theorem max_read_wires (E : Env σ) (c r v : Nat) (w : MaxState σ) :
    wires (max_dsi_ser_read_reg E c r v w).w.trace
      = wires w.trace ++ [Wire.rd c [r / 256 % 256, r % 256]] := by
  simp only [max_dsi_ser_read_reg, max_hi_read, max_lo]
  simp [wires, Event.wire]

theorem max_read_val (E : Env σ) (c r v : Nat) (w : MaxState σ) :
    (max_dsi_ser_read_reg E c r v w).val
      = recvByte (E.dev.read w.dev c [r / 256 % 256, r % 256]).1.2 v := by
  simp only [max_dsi_ser_read_reg, max_hi_read, max_lo]
  simp

theorem max_read_lock_priv (E : Env σ) (c r m x : Nat) (w : MaxState σ) :
    (max_read_lock E c r m x w).w.priv = w.priv := by
  unfold max_read_lock
  simp only
  split <;> simp only [max_read_priv]

theorem max_read_lock_wires (E : Env σ) (c r m x : Nat) (w : MaxState σ) :
    wires (max_read_lock E c r m x w).w.trace
      = wires w.trace ++ [Wire.rd c [r / 256 % 256, r % 256]] := by
  unfold max_read_lock
  simp only
  split <;> simp only [max_read_wires]

theorem max_read_lock_ret (E : Env σ) (c r m x : Nat) (w : MaxState σ) :
    (max_read_lock E c r m x w).ret
      = if recvByte (E.dev.read w.dev c [r / 256 % 256, r % 256]).1.2 (E.uninit % 256)
            &&& (m % 2 ^ 32) = x % 2 ^ 32 then 0 else -1 := by
  unfold max_read_lock
  simp only [max_read_val]
  split <;> rfl

theorem max_queue_delay_work_wires (ms : Nat) (w : MaxState σ) :
    wires (max_queue_delay_work ms w).trace = wires w.trace ++ [Wire.queue 0 ms] := by
  simp [max_queue_delay_work, wires, Event.wire]

theorem max_queue_deser_work_wires (ms : Nat) (w : MaxState σ) :
    wires (max_queue_deser_work ms w).trace = wires w.trace ++ [Wire.queue 1 ms] := by
  simp [max_queue_deser_work, wires, Event.wire]

/-! ## The GMSL pollers when some lock check fails -/

theorem max_training_checks_frame (E : Env σ) (w : MaxState σ) :
    (max_training_checks E w).w.priv = w.priv ∧
    wires (max_training_checks E w).w.trace
      = wires w.trace ++ [Wire.rd 0 [0x01, 0x02], Wire.rd 0 [0x03, 0xA0],
          Wire.rd 0 [0x05, 0x5D]] := by
  constructor
  · simp only [max_training_checks, max_read_lock_priv]
  · simp only [max_training_checks, max_read_lock_wires]
    simp [MAX_DSI_SER_PCLK, MAX_DSI_SER_ERR, MAX_DSI_SER_HS_VS]

theorem max_deser_checks_frame (E : Env σ) (w : MaxState σ) :
    (max_deser_checks E w).w.priv = w.priv ∧
    (w.priv.split_mode = false →
      (max_deser_checks E w).ret2_1 = 0 ∧ (max_deser_checks E w).ret2_2 = 0 ∧
      (max_deser_checks E w).ret2_3 = 0) ∧
    wires (max_deser_checks E w).w.trace
      = wires w.trace ++ [Wire.rd 1 [0x07, 0xF0], Wire.rd 1 [0x07, 0xF1], Wire.rd 1 [0x01, 0xDC]]
        ++ (if w.priv.split_mode = true then
              [Wire.rd 2 [0x07, 0xF0], Wire.rd 2 [0x07, 0xF1], Wire.rd 2 [0x01, 0xDC]]
            else []) := by
  unfold max_deser_checks
  simp only [max_read_lock_priv]
  by_cases hs : w.priv.split_mode = true
  · simp only [if_pos hs, max_read_lock_priv, max_read_lock_wires]
    refine ⟨trivial, ?_, ?_⟩
    · intro h; rw [hs] at h; exact absurd h (by decide)
    · simp [MAX_DP_DESER_SS_B0, MAX_DP_DESER_SS_B1, MAX_DP_DESER_VID]
  · simp only [if_neg hs, max_read_lock_priv, max_read_lock_wires]
    refine ⟨trivial, fun _ => ⟨trivial, trivial, trivial⟩, ?_⟩
    simp [MAX_DP_DESER_SS_B0, MAX_DP_DESER_SS_B1, MAX_DP_DESER_VID]

theorem max_training_requeues (E : Env σ) (w : MaxState σ)
    (h : (max_training_checks E w).ret1 < 0 ∨ (max_training_checks E w).ret2 < 0 ∨
      (max_training_checks E w).ret3 < 0) :
    (max_poll_gmsl_training_lock E w).priv
      = { w.priv with
          training_count := wrap32 (w.priv.training_count + 1)
          delay_work := keepPending w.priv.delay_work 500 } ∧
    wires (max_poll_gmsl_training_lock E w).trace
      = wires w.trace ++ [Wire.rd 0 [0x01, 0x02], Wire.rd 0 [0x03, 0xA0],
          Wire.rd 0 [0x05, 0x5D], Wire.queue 0 500] := by
  obtain ⟨f1, f2⟩ := max_training_checks_frame E w
  simp only [max_poll_gmsl_training_lock, if_pos h]
  constructor
  · simp [max_queue_delay_work, f1]
  · simp only [max_queue_delay_work_wires, f2]
    simp

theorem max_deser_requeues (E : Env σ) (w : MaxState σ)
    (h : (max_deser_checks E w).ret1_1 < 0 ∨ (max_deser_checks E w).ret1_2 < 0 ∨
      (max_deser_checks E w).ret1_3 < 0 ∨ (max_deser_checks E w).ret2_1 < 0 ∨
      (max_deser_checks E w).ret2_2 < 0 ∨ (max_deser_checks E w).ret2_3 < 0) :
    (max_poll_gmsl_deser_lock E w).priv
      = { w.priv with
          deser_count := wrap32 (w.priv.deser_count + 1)
          deser_work := keepPending w.priv.deser_work 100 } ∧
    wires (max_poll_gmsl_deser_lock E w).trace
      = wires w.trace ++ [Wire.rd 1 [0x07, 0xF0], Wire.rd 1 [0x07, 0xF1], Wire.rd 1 [0x01, 0xDC]]
        ++ (if w.priv.split_mode = true then
              [Wire.rd 2 [0x07, 0xF0], Wire.rd 2 [0x07, 0xF1], Wire.rd 2 [0x01, 0xDC]]
            else [])
        ++ [Wire.queue 1 100] := by
  obtain ⟨f1, f2, f3⟩ := max_deser_checks_frame E w
  unfold max_poll_gmsl_deser_lock
  simp only [f1]
  by_cases hs : w.priv.split_mode = true
  · simp only [if_pos hs, if_pos h]
    constructor
    · simp [max_queue_deser_work, f1]
    · simp only [max_queue_deser_work_wires, f3, if_pos hs]
  · have hs2 : w.priv.split_mode = false := by
      cases hb : w.priv.split_mode
      · rfl
      · exact absurd hb hs
    obtain ⟨z1, z2, z3⟩ := f2 hs2
    have h3 : (max_deser_checks E w).ret1_1 < 0 ∨ (max_deser_checks E w).ret1_2 < 0 ∨
        (max_deser_checks E w).ret1_3 < 0 := by
      rw [z1, z2, z3] at h
      rcases h with h | h | h | h | h | h
      · exact Or.inl h
      · exact Or.inr (Or.inl h)
      · exact Or.inr (Or.inr h)
      · exact absurd h (by decide)
      · exact absurd h (by decide)
      · exact absurd h (by decide)
    simp only [if_neg hs, if_pos h3]
    constructor
    · simp [max_queue_deser_work, f1]
    · simp only [max_queue_deser_work_wires, f3, if_neg hs]

/-- C5 (as the code has it): the GMSL pollers have no retry bound.  For
every device and every state, hence whatever value the poller's counter has
reached: an invocation of `max_poll_gmsl_training_lock`, resp. of
`max_poll_gmsl_deser_lock`, in which a lock check fails increments the
counter and calls `queue_delayed_work` (500 ms, resp. 100 ms) as its last
action; the counter is only counted up, never compared with a bound. -/
theorem max_pollers_always_requeue (E : Env σ) (w : MaxState σ) :
    (((max_training_checks E w).ret1 < 0 ∨ (max_training_checks E w).ret2 < 0 ∨
        (max_training_checks E w).ret3 < 0) →
      (max_poll_gmsl_training_lock E w).priv
        = { w.priv with
            training_count := wrap32 (w.priv.training_count + 1)
            delay_work := keepPending w.priv.delay_work 500 } ∧
      queueCalls (max_poll_gmsl_training_lock E w).trace = queueCalls w.trace + 1 ∧
      wires (max_poll_gmsl_training_lock E w).trace
        = wires w.trace ++ [Wire.rd 0 [0x01, 0x02], Wire.rd 0 [0x03, 0xA0],
            Wire.rd 0 [0x05, 0x5D], Wire.queue 0 500]) ∧
    (((max_deser_checks E w).ret1_1 < 0 ∨ (max_deser_checks E w).ret1_2 < 0 ∨
        (max_deser_checks E w).ret1_3 < 0 ∨ (max_deser_checks E w).ret2_1 < 0 ∨
        (max_deser_checks E w).ret2_2 < 0 ∨ (max_deser_checks E w).ret2_3 < 0) →
      (max_poll_gmsl_deser_lock E w).priv
        = { w.priv with
            deser_count := wrap32 (w.priv.deser_count + 1)
            deser_work := keepPending w.priv.deser_work 100 } ∧
      queueCalls (max_poll_gmsl_deser_lock E w).trace = queueCalls w.trace + 1 ∧
      (wires (max_poll_gmsl_deser_lock E w).trace).getLast? = some (Wire.queue 1 100)) := by
  constructor
  · intro h
    obtain ⟨t1, t2⟩ := max_training_requeues E w h
    refine ⟨t1, ?_, t2⟩
    simp only [queueCalls, t2, List.countP_append]
    simp [Wire.isQueue]
  · intro h
    obtain ⟨d1, d2⟩ := max_deser_requeues E w h
    refine ⟨d1, ?_, ?_⟩
    · simp only [queueCalls, d2, List.countP_append]
      split <;> simp [Wire.isQueue]
    · rw [d2]; split <;> simp

theorem regFile_zero_never_locks (count : Int) (split : Bool) :
    (max_training_checks (regFileEnv (fun _ _ => 0)) (maxFresh count split)).ret1 < 0 ∧
    (max_deser_checks (regFileEnv (fun _ _ => 0)) (maxFresh count split)).ret1_1 < 0 := by
  constructor
  · simp [max_training_checks, max_read_lock_ret, regFileEnv, regFileDevice, recvByte,
      MAX_DSI_SER_PCLK_LOCK_MASK, MAX_DSI_SER_PCLK_LOCK_VAL]
  · unfold max_deser_checks
    simp only [max_read_lock_ret]
    split <;> simp [regFileEnv, regFileDevice, recvByte, MAX_DP_DESER_SS_B0_LOCK_MASK,
      MAX_DP_DESER_SS_B0_LOCK_VAL]

/-- Witness of C5 (as the code has it) on the register-file model that reads
0 everywhere, with the counter at 1000: the training poller counts up to
1001 and queues its work. -/
theorem max_pollers_always_requeue_witness :
    ((max_training_checks (regFileEnv (fun _ _ => 0)) (maxFresh 1000 true)).ret1 < 0 ∨
      (max_training_checks (regFileEnv (fun _ _ => 0)) (maxFresh 1000 true)).ret2 < 0 ∨
      (max_training_checks (regFileEnv (fun _ _ => 0)) (maxFresh 1000 true)).ret3 < 0) ∧
    (max_poll_gmsl_training_lock (regFileEnv (fun _ _ => 0)) (maxFresh 1000 true)).priv
      = { (maxFresh 1000 true).priv with
          training_count := wrap32 ((maxFresh 1000 true).priv.training_count + 1)
          delay_work := keepPending (maxFresh 1000 true).priv.delay_work 500 } :=
  ⟨Or.inl (regFile_zero_never_locks 1000 true).1,
    ((max_pollers_always_requeue (regFileEnv (fun _ _ => 0)) (maxFresh 1000 true)).1
      (Or.inl (regFile_zero_never_locks 1000 true).1)).1⟩

/-- Counterexample to C5 as stated: there is no bound on the attempt count
from which on an invocation against a never-locking device stops
re-queueing, for neither poller; the register-file model that reads 0
everywhere never reports lock and is re-queued at every count. -/
theorem max_pollers_no_retry_bound :
    (¬ ∃ max_attempts : Int, ∀ count : Int, max_attempts ≤ count →
      queueCalls (max_poll_gmsl_training_lock (regFileEnv (fun _ _ => 0))
        (maxFresh count false)).trace = 0) ∧
    (¬ ∃ max_attempts : Int, ∀ count : Int, max_attempts ≤ count →
      queueCalls (max_poll_gmsl_deser_lock (regFileEnv (fun _ _ => 0))
        (maxFresh count false)).trace = 0) := by
  constructor
  · rintro ⟨m, h⟩
    have h1 := h m (le_refl m)
    have h2 := (max_training_requeues (regFileEnv (fun _ _ => 0)) (maxFresh m false)
      (Or.inl (regFile_zero_never_locks m false).1)).2
    simp only [queueCalls, h2, List.countP_append] at h1
    simp [Wire.isQueue] at h1
  · rintro ⟨m, h⟩
    have h1 := h m (le_refl m)
    have h2 := (max_deser_requeues (regFileEnv (fun _ _ => 0)) (maxFresh m false)
      (Or.inl (regFile_zero_never_locks m false).2)).2
    simp only [queueCalls, h2, List.countP_append] at h1
    simp [Wire.isQueue] at h1

/-! ## Read-modify-write -/

theorem update_byte (old mask val : Nat) (ho : old < 256) (hv : val < 256) :
    ((old &&& not32 mask) ||| (val &&& (mask % 2 ^ 32))) % 256
      = UpdateMasked old (mask % 256) val := by
  have e1 : (0xFFFFFFFF : Nat) = 2 ^ 32 - 1 := by decide
  have e2 : (0xFF : Nat) = 2 ^ 8 - 1 := by decide
  have e3 : (256 : Nat) = 2 ^ 8 := by decide
  have ho2 : ∀ i, 8 ≤ i → old.testBit i = false := by
    intro i hi
    apply Nat.testBit_lt_two_pow
    calc old < 2 ^ 8 := ho
      _ ≤ 2 ^ i := Nat.pow_le_pow_right (by decide) hi
  have hv2 : ∀ i, 8 ≤ i → val.testBit i = false := by
    intro i hi
    apply Nat.testBit_lt_two_pow
    calc val < 2 ^ 8 := hv
      _ ≤ 2 ^ i := Nat.pow_le_pow_right (by decide) hi
  apply Nat.eq_of_testBit_eq
  intro i
  unfold not32 UpdateMasked
  rw [e1, e2, e3]
  simp only [Nat.testBit_mod_two_pow, Nat.testBit_and, Nat.testBit_or, Nat.testBit_xor,
    Nat.testBit_two_pow_sub_one]
  by_cases h : i < 8
  · have h2 : i < 32 := by omega
    simp [h, h2]
  · simp [h, ho2 i (by omega), hv2 i (by omega)]

theorem UpdateMasked_lt (old mask val : Nat) (ho : old < 256) (hv : val < 256) :
    UpdateMasked old mask val < 256 := by
  unfold UpdateMasked
  have h0 : old &&& (mask ^^^ 0xFF) ≤ old := Nat.and_le_left
  have h1 : old &&& (mask ^^^ 0xFF) < 2 ^ 8 := by omega
  have h2 : val &&& mask ≤ val := Nat.and_le_left
  have h3 : val &&& mask < 2 ^ 8 := by omega
  exact Nat.or_lt_two_pow h1 h3

theorem mod32_div256 (x : Nat) : x % 2 ^ 32 / 256 % 256 = x / 256 % 256 := by omega

theorem mod32_mod256_pow (x : Nat) : x % 2 ^ 32 % 256 = x % 256 := by omega

theorem fpd_update_wires (E : Env σ) (c reg mask val : Nat) (w : FpdState σ) :
    wires (fpd_dp_ser_update E c reg mask val w).trace
      = wires w.trace ++ [Wire.rd c [reg % 256], Wire.wr c [reg % 256,
          ((recvByte (E.dev.read w.dev c [reg % 256]).1.2 (E.uninit % 256) &&& not32 mask)
            ||| ((val % 256) &&& (mask % 2 ^ 32))) % 256]] := by
  simp only [fpd_dp_ser_update, fpd_write_wires, fpd_read_wires, fpd_read_val,
    mod32_mod256_pow, Nat.mod_mod, List.append_assoc, List.singleton_append]

theorem max_write_wires (E : Env σ) (c r v : Nat) (w : MaxState σ) :
    ∃ tail, (tail = [] ∨ tail = [Wire.rd c [r / 256 % 256, r % 256]]) ∧
      wires (max_dsi_ser_write_reg E c r v w).trace
        = wires w.trace ++ [Wire.wr c [r / 256 % 256, r % 256, v % 256]] ++ tail := by
  unfold max_dsi_ser_write_reg
  simp only [max_hi_write, max_lo, mod32_mod256_pow]
  split
  · exact ⟨[], Or.inl rfl, by simp [wires, Event.wire]⟩
  · refine ⟨_, Or.inr rfl, ?_⟩
    rw [max_read_wires]
    simp [wires, Event.wire]

theorem max_write_priv (E : Env σ) (c r v : Nat) (w : MaxState σ) :
    (max_dsi_ser_write_reg E c r v w).priv = w.priv := by
  unfold max_dsi_ser_write_reg
  simp only
  split
  · rfl
  · rw [max_read_priv]

theorem max_update_wires (E : Env σ) (c reg mask val : Nat) (w : MaxState σ) :
    ∃ tail, (tail = [] ∨ tail = [Wire.rd c [reg / 256 % 256, reg % 256]]) ∧
      wires (max_dsi_ser_update E c reg mask val w).trace
        = wires w.trace ++ [Wire.rd c [reg / 256 % 256, reg % 256],
            Wire.wr c [reg / 256 % 256, reg % 256,
              ((recvByte (E.dev.read w.dev c [reg / 256 % 256, reg % 256]).1.2
                  (E.uninit % 256) &&& not32 mask)
                ||| ((val % 256) &&& (mask % 2 ^ 32))) % 256]] ++ tail := by
  unfold max_dsi_ser_update
  simp only
  obtain ⟨tail, ht, hw⟩ := max_write_wires E c (reg % 2 ^ 32)
    (((max_dsi_ser_read_reg E c (reg % 2 ^ 32) (E.uninit % 256) w).val &&& not32 mask
      ||| val % 256 &&& mask % 2 ^ 32) % 256)
    (max_dsi_ser_read_reg E c (reg % 2 ^ 32) (E.uninit % 256) w).w
  refine ⟨tail, ?_, ?_⟩
  · simpa only [mod32_div256, mod32_mod256_pow] using ht
  · rw [hw, max_read_wires, max_read_val]
    simp only [mod32_div256, mod32_mod256_pow, Nat.mod_mod, List.append_assoc,
      List.singleton_append]

theorem recvByte_some (x v : Nat) : recvByte (some x) v = x % 256 := rfl

/-- C7: when the register read delivers the byte `old`, `fpd_dp_ser_update`
and `max_dsi_ser_update` write exactly `(old & ~mask) | (value & mask)` to
the register they read, for all bytes `old` and `value` and every 32-bit
`mask`, of which only the low 8 bits matter; the result is a byte.  (The
GMSL write is followed by the read-back of `max_dsi_ser_write_reg` when the
transfer did not fail.) -/
theorem update_writes_masked_merge (E : Env σ) (client reg mask value old : Nat)
    (wf : FpdState σ) (wm : MaxState σ)
    (hold : old < 256) (hvalue : value < 256)
    (hf : (E.dev.read wf.dev client [reg % 256]).1.2 = some old)
    (hm : (E.dev.read wm.dev client [reg / 256 % 256, reg % 256]).1.2 = some old) :
    wires (fpd_dp_ser_update E client reg mask value wf).trace
      = wires wf.trace ++ [Wire.rd client [reg % 256],
          Wire.wr client [reg % 256, UpdateMasked old (mask % 256) value]] ∧
    (∃ tail, (tail = [] ∨ tail = [Wire.rd client [reg / 256 % 256, reg % 256]]) ∧
      wires (max_dsi_ser_update E client reg mask value wm).trace
        = wires wm.trace ++ [Wire.rd client [reg / 256 % 256, reg % 256],
            Wire.wr client [reg / 256 % 256, reg % 256, UpdateMasked old (mask % 256) value]]
          ++ tail) ∧
    UpdateMasked old (mask % 256) value < 256 ∧
    (mask < 256 → UpdateMasked old (mask % 256) value = UpdateMasked old mask value) := by
  have hb : ((old % 256 &&& not32 mask) ||| ((value % 256) &&& (mask % 2 ^ 32))) % 256
      = UpdateMasked old (mask % 256) value := by
    rw [Nat.mod_eq_of_lt hold, Nat.mod_eq_of_lt hvalue]
    exact update_byte old mask value hold hvalue
  refine ⟨?_, ?_, UpdateMasked_lt _ _ _ hold hvalue, ?_⟩
  · rw [fpd_update_wires, hf, recvByte_some, hb]
  · obtain ⟨tail, ht, hw⟩ := max_update_wires E client reg mask value wm
    refine ⟨tail, ht, ?_⟩
    rw [hw, hm, recvByte_some, hb]
  · intro h
    rw [Nat.mod_eq_of_lt h]

set_option maxRecDepth 100000 in
/-- Witness of C7 on the register-file model in which every register reads
0xA5, for register 0x1234, mask 0xF0F and value 0x3C. -/
theorem update_writes_masked_merge_witness :
    0xA5 < 256 ∧ 0x3C < 256 ∧
    ((regFileEnv (fun _ _ => 0xA5)).dev.read (fpdFresh 0 0 0).dev 0 [0x1234 % 256]).1.2
      = some 0xA5 ∧
    ((regFileEnv (fun _ _ => 0xA5)).dev.read (maxFresh 0 false).dev 0
      [0x1234 / 256 % 256, 0x1234 % 256]).1.2 = some 0xA5 ∧
    wires (fpd_dp_ser_update (regFileEnv (fun _ _ => 0xA5)) 0 0x1234 0xF0F 0x3C
        (fpdFresh 0 0 0)).trace
      = wires (fpdFresh 0 0 0).trace ++ [Wire.rd 0 [0x1234 % 256],
          Wire.wr 0 [0x1234 % 256, UpdateMasked 0xA5 (0xF0F % 256) 0x3C]] :=
  ⟨by decide, by decide, rfl, rfl,
    (update_writes_masked_merge (regFileEnv (fun _ _ => 0xA5)) 0 0x1234 0xF0F 0x3C 0xA5
      (fpdFresh 0 0 0) (maxFresh 0 false) (by decide) (by decide) rfl rfl).1⟩

/-- C8 (as the code has it): `fpd_dp_ser_update` and `max_dsi_ser_update`
always perform the register read before the write, and they issue the write
for every outcome of the read transfer: they are `void`, never look at what
the read returned, and so cannot fail.  (The GMSL write is followed by the
read-back of `max_dsi_ser_write_reg` when the write transfer did not fail.) -/
theorem update_reads_then_always_writes (E : Env σ) (client reg mask value : Nat)
    (wf : FpdState σ) (wm : MaxState σ) :
    (∃ v, wires (fpd_dp_ser_update E client reg mask value wf).trace
      = wires wf.trace ++ [Wire.rd client [reg % 256], Wire.wr client [reg % 256, v]]) ∧
    (∃ v tail, (tail = [] ∨ tail = [Wire.rd client [reg / 256 % 256, reg % 256]]) ∧
      wires (max_dsi_ser_update E client reg mask value wm).trace
        = wires wm.trace ++ [Wire.rd client [reg / 256 % 256, reg % 256],
            Wire.wr client [reg / 256 % 256, reg % 256, v]] ++ tail) ∧
    (fpd_dp_ser_update E client reg mask value wf).priv = wf.priv ∧
    (max_dsi_ser_update E client reg mask value wm).priv = wm.priv := by
  refine ⟨⟨_, fpd_update_wires E client reg mask value wf⟩, ?_, ?_, ?_⟩
  · obtain ⟨tail, ht, hw⟩ := max_update_wires E client reg mask value wm
    exact ⟨_, tail, ht, hw⟩
  · simp only [fpd_dp_ser_update, fpd_write_priv, fpd_read_priv]
  · simp only [max_dsi_ser_update, max_write_priv, max_read_priv]

/-- Counterexample to C8 as stated: on the model device whose read transfers
all fail with -121 and store nothing, both update functions still issue
the write after the failed read; the byte written is computed from the
uninitialised local (0xAB here). -/
theorem update_writes_after_failed_read :
    (fpd_dp_ser_update (deafEnv 0xAB) 0 0x10 0x0F 0x05 (fpdFresh 0 0 0)).trace
      = [Event.rd 0 [0x10] (-121) none, Event.wr 0 [0x10, 0xA5] 1] ∧
    (max_dsi_ser_update (deafEnv 0xAB) 0 0x1234 0x0F 0x05 (maxFresh 0 false)).trace
      = [Event.rd 0 [0x12, 0x34] (-121) none, Event.wr 0 [0x12, 0x34, 0xA5] 1,
         Event.rd 0 [0x12, 0x34] (-121) none] := by
  decide

/-! ## Bring-up of the serializer -/

theorem and_15 (x : Nat) : x &&& 15 = x % 16 := Nat.and_pow_two_sub_one_eq_mod x 4

theorem ite_strap_count (c : Prop) [Decidable c] (r0 r1 : Nat) (v : FpdState σ) :
    (if c then set_strap_rates r0 r1 v else v).priv.count = v.priv.count := by
  split <;> rfl

theorem ite_strap_delay_work (c : Prop) [Decidable c] (r0 r1 : Nat) (v : FpdState σ) :
    (if c then set_strap_rates r0 r1 v else v).priv.delay_work = v.priv.delay_work := by
  split <;> rfl

theorem fpd_dp_ser_prepare_frame (E : Env σ) (c : Nat) (w : FpdState σ) :
    (fpd_dp_ser_prepare E c w).ret = 0 ∧
    (fpd_dp_ser_prepare E c w).w.priv.FPDConf = 8 ∧
    (fpd_dp_ser_prepare E c w).w.priv.count = w.priv.count ∧
    (fpd_dp_ser_prepare E c w).w.priv.delay_work = w.priv.delay_work := by
  refine ⟨rfl, rfl, ?_, ?_⟩
  · unfold fpd_dp_ser_prepare
    simp only
    split
    · simp only [set_strap_rates, fpd_read_priv, fpd_write_priv]
    · simp only [ite_strap_count, fpd_read_priv, fpd_write_priv]
  · unfold fpd_dp_ser_prepare
    simp only
    split
    · simp only [set_strap_rates, fpd_read_priv, fpd_write_priv]
    · simp only [ite_strap_delay_work, fpd_read_priv, fpd_write_priv]

theorem fpd_dp_ser_setup_priv (E : Env σ) (c : Nat) (w : FpdState σ) :
    (fpd_dp_ser_setup E c w).ret = true ∧
    (fpd_dp_ser_setup E c w).w.priv.count = w.priv.count ∧
    (fpd_dp_ser_setup E c w).w.priv.delay_work = keepPending w.priv.delay_work 100 := by
  have hplls : ∀ v : FpdState σ, (fpd_dp_ser_prog_plls E c v).w.priv = v.priv := by
    intro v
    unfold fpd_dp_ser_prog_plls
    simp only
    split_ifs <;> simp only [usleep_range_priv, fpd_write_priv, fpd_write_regs_priv]
  refine ⟨rfl, ?_, ?_⟩ <;>
  simp only [fpd_dp_ser_setup, queue_delayed_work, fpd_dp_ser_enable_vps,
    fpd_dp_ser_prog_vp_configs, fpd_dp_ser_enable_I2c_passthrough, hplls,
    fpd_dp_ser_set_port_config, fpd_dp_ser_set_config, fpd_write_regs_priv, fpd_write_priv,
    fpd_read_priv]

theorem fpd_dp_ser_enable_frame (E : Env σ) (w : FpdState σ) :
    (fpd_dp_ser_enable E w).ret = true ∧
    (fpd_dp_ser_enable E w).w.priv.count = w.priv.count ∧
    (fpd_dp_ser_enable E w).w.priv.delay_work = keepPending w.priv.delay_work 100 := by
  obtain ⟨-, -, p1, p2⟩ := fpd_dp_ser_prepare_frame E 0 w
  obtain ⟨s1, s2, s3⟩ := fpd_dp_ser_setup_priv E 0 (fpd_dp_ser_prepare E 0 w).w
  unfold fpd_dp_ser_enable
  simp only [s1, Bool.false_eq_true, ↓reduceIte]
  exact ⟨trivial, s2.trans p1, by rw [s3, p2]⟩

theorem fpd_worker_run_idle (E : Env σ) (n : Nat) :
    ∀ w : FpdState σ, w.priv.delay_work = none → fpd_worker_run E n w = w := by
  induction n with
  | zero => intro w _; rfl
  | succ k ih =>
    intro w hw
    simp only [fpd_worker_run, fpd_worker_idle E w hw]
    exact ih w hw

theorem fpd_rebringup_gives_up (E : Env σ) (H : NeverSynced E) (w : FpdState σ)
    (hc : w.priv.count = 11) (hp : w.priv.delay_work = none) :
    (fpd_dp_ser_enable E w).w.priv.count = 11 ∧
    (fpd_dp_ser_enable E w).w.priv.delay_work = some 100 ∧
    ∀ n, (fpd_worker_run E (n + 1) (fpd_dp_ser_enable E w).w).priv.count = 12 ∧
      (fpd_worker_run E (n + 1) (fpd_dp_ser_enable E w).w).priv.delay_work = none ∧
      queueCalls (fpd_worker_run E (n + 1) (fpd_dp_ser_enable E w).w).trace
        = queueCalls (fpd_dp_ser_enable E w).w.trace := by
  obtain ⟨-, e1, e2⟩ := fpd_dp_ser_enable_frame E w
  rw [hc] at e1
  rw [hp] at e2
  have e2b : (fpd_dp_ser_enable E w).w.priv.delay_work = some 100 := e2
  refine ⟨e1, e2b, fun n => ?_⟩
  obtain ⟨a1, a2⟩ := fpd_worker_never E H (fpd_dp_ser_enable E w).w 100
    (by rw [e1]; decide) (by rw [e1]; decide) e2b
  have hidle : (fpd_worker E (fpd_dp_ser_enable E w).w).priv.delay_work = none := by
    rw [a1, e1]; rfl
  have hrun : fpd_worker_run E (n + 1) (fpd_dp_ser_enable E w).w
      = fpd_worker E (fpd_dp_ser_enable E w).w := by
    simp only [fpd_worker_run]
    exact fpd_worker_run_idle E n _ hidle
  rw [hrun]
  refine ⟨by rw [a1, e1]; rfl, hidle, ?_⟩
  simp only [queueCalls, a2, e1, List.countP_append, fpd_poll_unlocked_wire_counts.1]
  rfl

/-- C6, the code at the failing input: against the model device that never
locks, the first bring-up ends exhausted with `count = 11` and nothing
queued; a fresh `fpd_dp_ser_enable` queues the poller again but leaves
`count` at 11, so the poller gives up on its first invocation: `count`
becomes 12, nothing is queued, and no `queue_delayed_work` call is ever made
again (0 re-queues, where the first bring-up had 10). -/
theorem fpd_rebringup_after_exhaustion_does_not_retry :
    fpdExhausted.priv.count = 11 ∧ fpdExhausted.priv.delay_work = none ∧
    queueCalls fpdExhausted.trace = 10 ∧
    fpdRebringup.priv.count = 11 ∧ fpdRebringup.priv.delay_work = some 100 ∧
    ∀ n, (fpd_worker_run (vpEnv neverLock 0) (n + 1) fpdRebringup).priv.count = 12 ∧
      (fpd_worker_run (vpEnv neverLock 0) (n + 1) fpdRebringup).priv.delay_work = none ∧
      queueCalls (fpd_worker_run (vpEnv neverLock 0) (n + 1) fpdRebringup).trace
        = queueCalls fpdRebringup.trace := by
  obtain ⟨k1, k2⟩ := fpd_worker_run_never (vpEnv neverLock 0) vpEnv_neverLock_neverSynced
    fpdQueued rfl rfl 11
  have hc : fpdExhausted.priv.count = 11 := by
    unfold fpdExhausted; rw [k1]; rfl
  have hp : fpdExhausted.priv.delay_work = none := by
    unfold fpdExhausted; rw [k1]; rfl
  have hq : queueCalls fpdExhausted.trace = 10 := by
    unfold fpdExhausted
    simp only [queueCalls, k2, List.countP_append, (fpd_never_synced_wire_counts 11).1]
    rfl
  obtain ⟨r1, r2, r3⟩ := fpd_rebringup_gives_up (vpEnv neverLock 0)
    vpEnv_neverLock_neverSynced fpdExhausted hc hp
  exact ⟨hc, hp, hq, r1, r2, r3⟩

/-! ## Mode-strap detection -/

theorem fpd_dp_ser_prepare_vals (E : Env σ) (c tx g : Nat) (w : FpdState σ)
    (h27 : ∀ s, (E.dev.read s c [0x27]).1.2 = some tx)
    (h07 : ∀ s, (E.dev.read s c [0x07]).1.2 = some g) :
    (fpd_dp_ser_read_reg E c 0x27 (E.uninit % 256)
      (fpd_dp_ser_write_reg E c 0x88 0x0
        (fpd_dp_ser_write_reg E c 0x78 E.FPD_DP_SER_RX_ADD_A
          (fpd_dp_ser_write_reg E c 0x70 E.FPD_DP_SER_RX_ADD_A w).w).w).w).val = tx % 256 ∧
    ∀ (v : Nat) (s : FpdState σ), (fpd_dp_ser_read_reg E c 0x7 v s).val = g % 256 := by
  constructor
  · rw [fpd_read_val]
    have := h27 (fpd_dp_ser_write_reg E c 0x88 0x0
        (fpd_dp_ser_write_reg E c 0x78 E.FPD_DP_SER_RX_ADD_A
          (fpd_dp_ser_write_reg E c 0x70 E.FPD_DP_SER_RX_ADD_A w).w).w).w.dev
    simp only [Nat.reduceMod] at this ⊢
    rw [this]; rfl
  · intro v s
    rw [fpd_read_val]
    have := h07 s.dev
    simp only [Nat.reduceMod] at this ⊢
    rw [this]; rfl

/-- C9: in `fpd_dp_ser_prepare`, when register 0x27 reads the strap status
byte `tx` and register 0x07 reads a byte `g` with bit 0 clear, the low nibble
of `tx` selects the strap rate stored in both `FPD4_Strap_Rate_P0` and
`FPD4_Strap_Rate_P1`: 0x0F the default `FPD4_Strap_Rate_0`, 0x08 and 0x09
`FPD4_Strap_Rate_10_8`, 0x0A and 0x0B `FPD4_Strap_Rate_13_5`, 0x0C and 0x0D
`FPD4_Strap_Rate_6_75`, 0x0E `FPD4_Strap_Rate_3_375`; for each of these
nibbles P0 and P1 end up equal. -/
theorem fpd_prepare_decodes_strap_nibble (E : Env σ) (client tx g : Nat) (w : FpdState σ)
    (h27 : ∀ s, (E.dev.read s client [0x27]).1.2 = some tx)
    (h07 : ∀ s, (E.dev.read s client [0x07]).1.2 = some g)
    (hg : g % 2 = 0) :
    (tx % 16 = 0x0F →
      (fpd_dp_ser_prepare E client w).w.priv.FPD4_Strap_Rate_P0 = E.FPD4_Strap_Rate_0 ∧
      (fpd_dp_ser_prepare E client w).w.priv.FPD4_Strap_Rate_P1 = E.FPD4_Strap_Rate_0) ∧
    (tx % 16 = 0x08 ∨ tx % 16 = 0x09 →
      (fpd_dp_ser_prepare E client w).w.priv.FPD4_Strap_Rate_P0 = E.FPD4_Strap_Rate_10_8 ∧
      (fpd_dp_ser_prepare E client w).w.priv.FPD4_Strap_Rate_P1 = E.FPD4_Strap_Rate_10_8) ∧
    (tx % 16 = 0x0A ∨ tx % 16 = 0x0B →
      (fpd_dp_ser_prepare E client w).w.priv.FPD4_Strap_Rate_P0 = E.FPD4_Strap_Rate_13_5 ∧
      (fpd_dp_ser_prepare E client w).w.priv.FPD4_Strap_Rate_P1 = E.FPD4_Strap_Rate_13_5) ∧
    (tx % 16 = 0x0C ∨ tx % 16 = 0x0D →
      (fpd_dp_ser_prepare E client w).w.priv.FPD4_Strap_Rate_P0 = E.FPD4_Strap_Rate_6_75 ∧
      (fpd_dp_ser_prepare E client w).w.priv.FPD4_Strap_Rate_P1 = E.FPD4_Strap_Rate_6_75) ∧
    (tx % 16 = 0x0E →
      (fpd_dp_ser_prepare E client w).w.priv.FPD4_Strap_Rate_P0 = E.FPD4_Strap_Rate_3_375 ∧
      (fpd_dp_ser_prepare E client w).w.priv.FPD4_Strap_Rate_P1 = E.FPD4_Strap_Rate_3_375) ∧
    (8 ≤ tx % 16 →
      (fpd_dp_ser_prepare E client w).w.priv.FPD4_Strap_Rate_P0
        = (fpd_dp_ser_prepare E client w).w.priv.FPD4_Strap_Rate_P1) := by
  obtain ⟨v1, v2⟩ := fpd_dp_ser_prepare_vals E client tx g w h27 h07
  have hgc : ¬ (g % 256 &&& 0x01 = 1) := by
    rw [and_one_eq_mod_two]; omega
  have hn : tx % 256 &&& 0x0F = tx % 16 := by
    rw [and_15]; omega
  unfold fpd_dp_ser_prepare
  simp only [v1, v2, if_neg hgc, hn]
  refine ⟨?_, ?_, ?_, ?_, ?_, ?_⟩
  · intro h
    simp [h, set_strap_rates]
  · intro h
    rcases h with h | h <;> simp [h, set_strap_rates]
  · intro h
    rcases h with h | h <;> simp [h, set_strap_rates]
  · intro h
    rcases h with h | h <;> simp [h, set_strap_rates]
  · intro h
    simp [h, set_strap_rates]
  · intro h
    have h16 : tx % 16 < 16 := Nat.mod_lt _ (by decide)
    interval_cases (tx % 16) <;> simp [set_strap_rates] at h ⊢

/-- Witness of C9 on the register-file model in which register 0x27 reads
0x39 (low nibble 9) and every other register reads 0. -/
theorem fpd_prepare_decodes_strap_nibble_witness :
    (∀ s, ((regFileEnv (fun _ a => if a = [0x27] then 0x39 else 0)).dev.read s 0 [0x27]).1.2
      = some 0x39) ∧
    (∀ s, ((regFileEnv (fun _ a => if a = [0x27] then 0x39 else 0)).dev.read s 0 [0x07]).1.2
      = some 0) ∧
    0 % 2 = 0 ∧
    (0x39 % 16 = 0x08 ∨ 0x39 % 16 = 0x09 →
      (fpd_dp_ser_prepare (regFileEnv (fun _ a => if a = [0x27] then 0x39 else 0)) 0
        (fpdFresh 0 7 9)).w.priv.FPD4_Strap_Rate_P0
        = (regFileEnv (fun _ a => if a = [0x27] then 0x39 else 0)).FPD4_Strap_Rate_10_8 ∧
      (fpd_dp_ser_prepare (regFileEnv (fun _ a => if a = [0x27] then 0x39 else 0)) 0
        (fpdFresh 0 7 9)).w.priv.FPD4_Strap_Rate_P1
        = (regFileEnv (fun _ a => if a = [0x27] then 0x39 else 0)).FPD4_Strap_Rate_10_8) :=
  ⟨fun _ => rfl, fun _ => rfl, rfl,
    (fpd_prepare_decodes_strap_nibble (regFileEnv (fun _ a => if a = [0x27] then 0x39 else 0))
      0 0x39 0 (fpdFresh 0 7 9) (fun _ => rfl) (fun _ => rfl) rfl).2.1⟩

/-- C10: in `fpd_dp_ser_prepare`, when register 0x07 reads a byte with bit 0
clear, every strap status byte whose low nibble is one of 0x0 .. 0x7 (the
zero byte included) leaves `FPD4_Strap_Rate_P0` and `FPD4_Strap_Rate_P1` as
they were, and the function still returns 0 and sets `FPDConf` to 8. -/
theorem fpd_prepare_unlisted_nibble_keeps_rates (E : Env σ) (client tx g : Nat)
    (w : FpdState σ)
    (h27 : ∀ s, (E.dev.read s client [0x27]).1.2 = some tx)
    (h07 : ∀ s, (E.dev.read s client [0x07]).1.2 = some g)
    (hg : g % 2 = 0) (htx : tx % 16 < 8) :
    (fpd_dp_ser_prepare E client w).w.priv.FPD4_Strap_Rate_P0 = w.priv.FPD4_Strap_Rate_P0 ∧
    (fpd_dp_ser_prepare E client w).w.priv.FPD4_Strap_Rate_P1 = w.priv.FPD4_Strap_Rate_P1 ∧
    (fpd_dp_ser_prepare E client w).ret = 0 ∧
    (fpd_dp_ser_prepare E client w).w.priv.FPDConf = 8 := by
  obtain ⟨f1, f2, -, -⟩ := fpd_dp_ser_prepare_frame E client w
  refine ⟨?_, ?_, f1, f2⟩
  all_goals
    obtain ⟨v1, v2⟩ := fpd_dp_ser_prepare_vals E client tx g w h27 h07
    have hgc : ¬ (g % 256 &&& 0x01 = 1) := by
      rw [and_one_eq_mod_two]; omega
    have hn : tx % 256 &&& 0x0F = tx % 16 := by
      rw [and_15]; omega
    unfold fpd_dp_ser_prepare
    simp only [v1, v2, if_neg hgc, hn]
    have c1 : ¬ tx % 16 = 0x0F := by omega
    have c2 : ¬ (tx % 16 = 0x08 ∨ tx % 16 = 0x09) := by omega
    have c3 : ¬ (tx % 16 = 0x0A ∨ tx % 16 = 0x0B) := by omega
    have c4 : ¬ (tx % 16 = 0x0C ∨ tx % 16 = 0x0D) := by omega
    have c5 : ¬ tx % 16 = 0x0E := by omega
    simp only [if_neg c1, if_neg c2, if_neg c3, if_neg c4, if_neg c5, fpd_read_priv,
      fpd_write_priv]

/-- Witness of C10 on the register-file model in which every register reads
0 (the "no device detected" byte), with P0 = 7 and P1 = 9 before the call. -/
theorem fpd_prepare_unlisted_nibble_keeps_rates_witness :
    (∀ s, ((regFileEnv (fun _ _ => 0)).dev.read s 0 [0x27]).1.2 = some 0) ∧
    (∀ s, ((regFileEnv (fun _ _ => 0)).dev.read s 0 [0x07]).1.2 = some 0) ∧
    0 % 2 = 0 ∧ 0 % 16 < 8 ∧
    (fpd_dp_ser_prepare (regFileEnv (fun _ _ => 0)) 0 (fpdFresh 0 7 9)).w.priv.FPD4_Strap_Rate_P0
      = (fpdFresh 0 7 9).priv.FPD4_Strap_Rate_P0 :=
  ⟨fun _ => rfl, fun _ => rfl, rfl, by decide,
    (fpd_prepare_unlisted_nibble_keeps_rates (regFileEnv (fun _ _ => 0)) 0 0 0 (fpdFresh 0 7 9)
      (fun _ => rfl) (fun _ => rfl) rfl (by decide)).1⟩

/-! ## Mode-strap detection: which register selects the rate -/

/-- C11 (as the code has it): in `fpd_dp_ser_prepare`, with register 0x27
(read first) delivering `tx` and register 0x07 (read second) delivering `g`,
the strap rate stored in `FPD4_Strap_Rate_P0` and `FPD4_Strap_Rate_P1` is
selected by the low nibble of the first register read, by exact value match
(an unlisted nibble keeps the previous value), when bit 0 of the second read
is clear, and is 0 when that bit is set; of the second read only bit 0
matters, and a zero first byte is decoded like any other. -/
theorem fpd_prepare_rate_from_first_register (E : Env σ) (client tx g : Nat)
    (w : FpdState σ)
    (h27 : ∀ s, (E.dev.read s client [0x27]).1.2 = some tx)
    (h07 : ∀ s, (E.dev.read s client [0x07]).1.2 = some g) :
    (g % 2 = 1 →
      (fpd_dp_ser_prepare E client w).w.priv.FPD4_Strap_Rate_P0 = 0 ∧
      (fpd_dp_ser_prepare E client w).w.priv.FPD4_Strap_Rate_P1 = 0) ∧
    (g % 2 = 0 →
      (fpd_dp_ser_prepare E client w).w.priv.FPD4_Strap_Rate_P0
        = (strapRateOfNibble E (tx % 16)).getD w.priv.FPD4_Strap_Rate_P0 ∧
      (fpd_dp_ser_prepare E client w).w.priv.FPD4_Strap_Rate_P1
        = (strapRateOfNibble E (tx % 16)).getD w.priv.FPD4_Strap_Rate_P1) := by
  obtain ⟨v1, v2⟩ := fpd_dp_ser_prepare_vals E client tx g w h27 h07
  have hn : tx % 256 &&& 0x0F = tx % 16 := by
    rw [and_15]; omega
  constructor
  · intro hg
    have hgc : g % 256 &&& 0x01 = 1 := by
      rw [and_one_eq_mod_two]; omega
    unfold fpd_dp_ser_prepare
    simp only [v1, v2, if_pos hgc]
    exact ⟨rfl, rfl⟩
  · intro hg
    have hgc : ¬ (g % 256 &&& 0x01 = 1) := by
      rw [and_one_eq_mod_two]; omega
    unfold fpd_dp_ser_prepare
    simp only [v1, v2, if_neg hgc, hn]
    have h16 : tx % 16 < 16 := Nat.mod_lt _ (by decide)
    interval_cases (tx % 16) <;>
      simp [set_strap_rates, strapRateOfNibble, fpd_read_priv, fpd_write_priv]

/-- Witness of C11 (as the code has it) on the register-file model in which
register 0x27 reads 0x09 and every other register reads 0x0E. -/
theorem fpd_prepare_rate_from_first_register_witness :
    (∀ s, ((regFileEnv (fun _ a => if a = [0x27] then 0x09 else 0x0E)).dev.read s 0
      [0x27]).1.2 = some 0x09) ∧
    (∀ s, ((regFileEnv (fun _ a => if a = [0x27] then 0x09 else 0x0E)).dev.read s 0
      [0x07]).1.2 = some 0x0E) ∧
    (0x0E % 2 = 0 →
      (fpd_dp_ser_prepare (regFileEnv (fun _ a => if a = [0x27] then 0x09 else 0x0E)) 0
        (fpdFresh 0 7 9)).w.priv.FPD4_Strap_Rate_P0
        = (strapRateOfNibble (regFileEnv (fun _ a => if a = [0x27] then 0x09 else 0x0E))
            (0x09 % 16)).getD (fpdFresh 0 7 9).priv.FPD4_Strap_Rate_P0 ∧
      (fpd_dp_ser_prepare (regFileEnv (fun _ a => if a = [0x27] then 0x09 else 0x0E)) 0
        (fpdFresh 0 7 9)).w.priv.FPD4_Strap_Rate_P1
        = (strapRateOfNibble (regFileEnv (fun _ a => if a = [0x27] then 0x09 else 0x0E))
            (0x09 % 16)).getD (fpdFresh 0 7 9).priv.FPD4_Strap_Rate_P1) :=
  ⟨fun _ => rfl, fun _ => rfl,
    (fpd_prepare_rate_from_first_register
      (regFileEnv (fun _ a => if a = [0x27] then 0x09 else 0x0E)) 0 0x09 0x0E (fpdFresh 0 7 9)
      (fun _ => rfl) (fun _ => rfl)).2⟩

/-- Counterexample to C11 as stated: with a non-zero first byte 0x09 in
register 0x27 and the byte 0x0E in register 0x07, the rate stored is the one
of nibble 9 of the first register (10.8 Gbps), not the one of nibble 0xE of
the second (3.375 Gbps); and with the same second byte, changing the first
register to 0x0E changes the rate stored. -/
theorem fpd_prepare_second_nibble_counterexample :
    (fpd_dp_ser_prepare (regFileEnv (fun _ a => if a = [0x27] then 0x09 else 0x0E)) 0
        (fpdFresh 0 7 9)).w.priv.FPD4_Strap_Rate_P0
      = (regFileEnv (fun _ a => if a = [0x27] then 0x09 else 0x0E)).FPD4_Strap_Rate_10_8 ∧
    (fpd_dp_ser_prepare (regFileEnv (fun _ a => if a = [0x27] then 0x09 else 0x0E)) 0
        (fpdFresh 0 7 9)).w.priv.FPD4_Strap_Rate_P0
      ≠ (regFileEnv (fun _ a => if a = [0x27] then 0x09 else 0x0E)).FPD4_Strap_Rate_3_375 ∧
    (fpd_dp_ser_prepare (regFileEnv (fun _ _ => 0x0E)) 0 (fpdFresh 0 7 9)).w.priv.FPD4_Strap_Rate_P0
      ≠ (fpd_dp_ser_prepare (regFileEnv (fun _ a => if a = [0x27] then 0x09 else 0x0E)) 0
          (fpdFresh 0 7 9)).w.priv.FPD4_Strap_Rate_P0 := by
  decide

/-! ## Display-mode selection of the GMSL driver -/

/-- C12: `max_dsi_ser_prepare` implements the display-mode table, whatever
the mode and the split flag were before: (640,480) gives `MAX_MODE_DSI_480`
unsplit, (1280,480) `MAX_MODE_DSI_480` split, (1280,720) `MAX_MODE_DSI_720P`
unsplit, (2560,720) `MAX_MODE_DSI_720P` split, (1920,1080)
`MAX_MODE_DSI_1080P` unsplit and (3840,1080) `MAX_MODE_DSI_1080P` split. -/
theorem max_prepare_display_table (w : MaxState σ) :
    ((max_dsi_ser_prepare { w with priv.hdisplay := 640, priv.vdisplay := 480 }).w.priv.current_mode
        = MAX_MODE_DSI_480 ∧
      (max_dsi_ser_prepare { w with priv.hdisplay := 640, priv.vdisplay := 480 }).w.priv.split_mode
        = false) ∧
    ((max_dsi_ser_prepare { w with priv.hdisplay := 1280, priv.vdisplay := 480 }).w.priv.current_mode
        = MAX_MODE_DSI_480 ∧
      (max_dsi_ser_prepare { w with priv.hdisplay := 1280, priv.vdisplay := 480 }).w.priv.split_mode
        = true) ∧
    ((max_dsi_ser_prepare { w with priv.hdisplay := 1280, priv.vdisplay := 720 }).w.priv.current_mode
        = MAX_MODE_DSI_720P ∧
      (max_dsi_ser_prepare { w with priv.hdisplay := 1280, priv.vdisplay := 720 }).w.priv.split_mode
        = false) ∧
    ((max_dsi_ser_prepare { w with priv.hdisplay := 2560, priv.vdisplay := 720 }).w.priv.current_mode
        = MAX_MODE_DSI_720P ∧
      (max_dsi_ser_prepare { w with priv.hdisplay := 2560, priv.vdisplay := 720 }).w.priv.split_mode
        = true) ∧
    ((max_dsi_ser_prepare { w with priv.hdisplay := 1920, priv.vdisplay := 1080 }).w.priv.current_mode
        = MAX_MODE_DSI_1080P ∧
      (max_dsi_ser_prepare { w with priv.hdisplay := 1920, priv.vdisplay := 1080 }).w.priv.split_mode
        = false) ∧
    ((max_dsi_ser_prepare { w with priv.hdisplay := 3840, priv.vdisplay := 1080 }).w.priv.current_mode
        = MAX_MODE_DSI_1080P ∧
      (max_dsi_ser_prepare { w with priv.hdisplay := 3840, priv.vdisplay := 1080 }).w.priv.split_mode
        = true) := by
  refine ⟨?_, ?_, ?_, ?_, ?_, ?_⟩ <;> simp [max_dsi_ser_prepare]

theorem max_prepare_unrecognized (w : MaxState σ)
    (h : (w.priv.hdisplay, w.priv.vdisplay) ∉ max_dsi_display_table) :
    max_dsi_ser_prepare w = ⟨0, w⟩ := by
  simp only [max_dsi_display_table, List.mem_cons, Prod.mk.injEq, List.mem_singleton,
    List.not_mem_nil, or_false, not_or] at h
  obtain ⟨h1, h2, h3, h4, h5, h6⟩ := h
  simp only [max_dsi_ser_prepare, if_neg h1, if_neg h2, if_neg h3, if_neg h4, if_neg h5,
    if_neg h6]

/-- C13: for every (hdisplay, vdisplay) that is not one of the six table
entries, `max_dsi_ser_prepare` leaves `current_mode` and `split_mode` (and
the rest of the driver state) exactly as they were. -/
theorem max_prepare_unrecognized_keeps_mode (w : MaxState σ)
    (h : (w.priv.hdisplay, w.priv.vdisplay) ∉ max_dsi_display_table) :
    (max_dsi_ser_prepare w).w.priv.current_mode = w.priv.current_mode ∧
    (max_dsi_ser_prepare w).w.priv.split_mode = w.priv.split_mode ∧
    (max_dsi_ser_prepare w).w.priv = w.priv := by
  rw [max_prepare_unrecognized w h]
  exact ⟨rfl, rfl, rfl⟩

/-- Witness of C13 for the size 800 x 600, with the mode `MAX_MODE_DSI_768`
and the split flag set before the call. -/
theorem max_prepare_unrecognized_keeps_mode_witness :
    ((maxSized 800 600 MAX_MODE_DSI_768 true).priv.hdisplay,
      (maxSized 800 600 MAX_MODE_DSI_768 true).priv.vdisplay) ∉ max_dsi_display_table ∧
    (max_dsi_ser_prepare (maxSized 800 600 MAX_MODE_DSI_768 true)).w.priv.current_mode
      = (maxSized 800 600 MAX_MODE_DSI_768 true).priv.current_mode :=
  ⟨by decide, (max_prepare_unrecognized_keeps_mode (maxSized 800 600 MAX_MODE_DSI_768 true)
    (by decide)).1⟩

theorem max_write_writesOf (E : Env σ) (c r v : Nat) (w : MaxState σ) :
    writesOf (max_dsi_ser_write_reg E c r v w).trace
      = writesOf w.trace ++ [Wire.wr c [r / 256 % 256, r % 256, v % 256]] := by
  obtain ⟨tail, ht, hw⟩ := max_write_wires E c r v w
  simp only [writesOf, hw, List.filter_append]
  rcases ht with ht | ht <;> subst ht <;> simp [Wire.isWr]

theorem max_write_regs_priv (E : Env σ) (c : Nat) (l : List (Nat × Nat)) :
    ∀ w : MaxState σ, (max_dsi_ser_write_regs E c l w).priv = w.priv := by
  induction l with
  | nil => intro w; rfl
  | cons rv rest ih =>
    intro w
    obtain ⟨r, v⟩ := rv
    simp only [max_dsi_ser_write_regs]
    rw [ih, max_write_priv]

theorem max_write_regs_writesOf (E : Env σ) (c : Nat) (l : List (Nat × Nat)) :
    ∀ w : MaxState σ, writesOf (max_dsi_ser_write_regs E c l w).trace
      = writesOf w.trace
        ++ l.map (fun rv => Wire.wr c [rv.1 / 256 % 256, rv.1 % 256, rv.2 % 256]) := by
  induction l with
  | nil => intro w; simp [max_dsi_ser_write_regs]
  | cons rv rest ih =>
    intro w
    obtain ⟨r, v⟩ := rv
    simp only [max_dsi_ser_write_regs]
    rw [ih, max_write_writesOf]
    simp

theorem max_setup_writesOf (E : Env σ) (w : MaxState σ) :
    (max_dsi_ser_setup E 0 w).ret = 0 ∧
    (max_dsi_ser_setup E 0 w).w.priv = w.priv ∧
    writesOf (max_dsi_ser_setup E 0 w).w.trace
      = writesOf w.trace ++ max_dsi_ser_setup_writes w.priv.split_mode := by
  refine ⟨rfl, ?_, ?_⟩
  · unfold max_dsi_ser_setup
    simp only [max_write_regs_priv]
    split <;> simp only [max_write_priv, max_write_regs_priv]
  · unfold max_dsi_ser_setup
    simp only [max_write_regs_priv]
    split
    · rename_i hs
      simp only [max_write_writesOf, max_write_regs_writesOf, hs]
      simp [max_dsi_ser_setup_writes]
    · rename_i hs
      simp only [max_write_writesOf, max_write_regs_writesOf]
      simp [max_dsi_ser_setup_writes, hs]

/-- C14 (as the code has it): an unrecognised display timing is not surfaced
as a failure.  For every (hdisplay, vdisplay) outside the six-entry table,
`max_dsi_ser_prepare` returns 0 and changes nothing, and `max_dsi_ser_enable`
(a `void` function that does not look at that result) goes on to issue all
16 serializer setup writes of `max_dsi_ser_setup`, with the split flag left
over from before. -/
theorem max_enable_ignores_unrecognized_timing (E : Env σ) (w : MaxState σ)
    (h : (w.priv.hdisplay, w.priv.vdisplay) ∉ max_dsi_display_table) :
    (max_dsi_ser_prepare w).ret = 0 ∧
    (max_dsi_ser_prepare w).w.priv = w.priv ∧
    (max_dsi_ser_enable E w).priv = w.priv ∧
    writesOf (max_dsi_ser_enable E w).trace
      = writesOf w.trace ++ max_dsi_ser_setup_writes w.priv.split_mode := by
  obtain ⟨-, s2, s3⟩ := max_setup_writesOf E w
  refine ⟨by rw [max_prepare_unrecognized w h], by rw [max_prepare_unrecognized w h], ?_, ?_⟩
  · simp only [max_dsi_ser_enable, max_prepare_unrecognized w h, s2]
  · simp only [max_dsi_ser_enable, max_prepare_unrecognized w h, s3]

/-- Witness of C14 (as the code has it) for the size 800 x 600 on the
register-file model that reads 0 everywhere. -/
theorem max_enable_ignores_unrecognized_timing_witness :
    ((maxSized 800 600 MAX_MODE_DSI_768 true).priv.hdisplay,
      (maxSized 800 600 MAX_MODE_DSI_768 true).priv.vdisplay) ∉ max_dsi_display_table ∧
    (max_dsi_ser_prepare (maxSized 800 600 MAX_MODE_DSI_768 true)).ret = 0 :=
  ⟨by decide, (max_enable_ignores_unrecognized_timing (regFileEnv (fun _ _ => 0))
    (maxSized 800 600 MAX_MODE_DSI_768 true) (by decide)).1⟩

set_option maxRecDepth 100000 in
/-- Counterexample to C14 as stated: for the size 800 x 600, which is not in
the table, `max_dsi_ser_prepare` returns 0 rather than a failure, and
`max_dsi_ser_enable` issues the 16 setup writes. -/
theorem max_unrecognized_timing_counterexample :
    (800, 600) ∉ max_dsi_display_table ∧
    (max_dsi_ser_prepare (maxSized 800 600 MAX_MODE_DSI_768 true)).ret = 0 ∧
    writesOf (max_dsi_ser_enable (regFileEnv (fun _ _ => 0))
      (maxSized 800 600 MAX_MODE_DSI_768 true)).trace = max_dsi_ser_setup_writes true ∧
    (writesOf (max_dsi_ser_enable (regFileEnv (fun _ _ => 0))
      (maxSized 800 600 MAX_MODE_DSI_768 true)).trace).length = 16 := by
  decide

/-! ## The wire trace of the serializer bring-up -/

theorem ite_strap_trace (c : Prop) [Decidable c] (r0 r1 : Nat) (v : FpdState σ) :
    (if c then set_strap_rates r0 r1 v else v).trace = v.trace := by
  split <;> rfl

theorem fpd_dp_ser_prepare_wires (E : Env σ) (w : FpdState σ) :
    wires (fpd_dp_ser_prepare E 0 w).w.trace = wires w.trace ++ fpd_dp_ser_prepare_wire E := by
  have key : (fpd_dp_ser_prepare E 0 w).w.trace
      = (fpd_dp_ser_read_reg E 0 0x7
          (fpd_dp_ser_read_reg E 0 0x27 (E.uninit % 256)
            (fpd_dp_ser_write_reg E 0 0x88 0x0
              (fpd_dp_ser_write_reg E 0 0x78 E.FPD_DP_SER_RX_ADD_A
                (fpd_dp_ser_write_reg E 0 0x70 E.FPD_DP_SER_RX_ADD_A w).w).w).w).val
          (fpd_dp_ser_read_reg E 0 0x27 (E.uninit % 256)
            (fpd_dp_ser_write_reg E 0 0x88 0x0
              (fpd_dp_ser_write_reg E 0 0x78 E.FPD_DP_SER_RX_ADD_A
                (fpd_dp_ser_write_reg E 0 0x70 E.FPD_DP_SER_RX_ADD_A w).w).w).w).w).w.trace := by
    unfold fpd_dp_ser_prepare
    simp only
    split
    · rfl
    · simp only [ite_strap_trace]
  rw [key]
  simp only [fpd_read_wires, fpd_write_wires, fpd_dp_ser_prepare_wire, List.append_assoc,
    List.singleton_append, List.cons_append, List.nil_append, Nat.reduceMod]

theorem fpd_dp_ser_set_config_wires (E : Env σ) (w : FpdState σ) :
    wires (fpd_dp_ser_set_config E 0 w).w.trace
      = wires w.trace ++ fpd_dp_ser_set_config_wire := by
  simp only [fpd_dp_ser_set_config_wire, fpd_dp_ser_set_config, fpd_write_regs_wires]
  rfl

theorem fpd_dp_ser_set_port_config_wires (E : Env σ) (w : FpdState σ) :
    ∃ a b, wires (fpd_dp_ser_set_port_config E 0 w).w.trace
      = wires w.trace ++ fpd_dp_ser_set_port_config_wire a b := by
  refine Exists.intro ?a (Exists.intro ?b ?_)
  case a => exact (fpd_dp_ser_read_reg E 0 0x7 (E.uninit % 256) w).val
  case b => exact (fpd_dp_ser_read_reg E 0 0x5
      (fpd_dp_ser_read_reg E 0 0x7 (E.uninit % 256) w).val
      (fpd_dp_ser_write_reg E 0 0x07
        (((fpd_dp_ser_read_reg E 0 0x7 (E.uninit % 256) w).val ||| 0x01) % 256)
        (fpd_dp_ser_read_reg E 0 0x7 (E.uninit % 256) w).w).w).val
  simp only [fpd_dp_ser_set_port_config, fpd_write_wires, fpd_read_wires,
    fpd_dp_ser_set_port_config_wire, List.append_assoc, List.singleton_append,
    List.cons_append, List.nil_append, Nat.mod_mod, Nat.reduceMod]

theorem fpd_dp_ser_prog_plls_uniform_pos :
    ∃ L : List Wire, ∀ (τ : Type) (E : Env τ) (w : FpdState τ),
      (w.priv.FPD4_Strap_Rate_P0 ≠ E.FPD4_Strap_Rate_0 ∨
        w.priv.FPD4_Strap_Rate_P1 ≠ E.FPD4_Strap_Rate_0) →
      wires (fpd_dp_ser_prog_plls E 0 w).w.trace = wires w.trace ++ L := by
  constructor
  intro τ E w hc
  simp only [fpd_dp_ser_prog_plls, fpd_write_regs_priv, if_pos hc, usleep_range_wires,
    fpd_write_wires, fpd_write_regs_wires, List.append_assoc]
  rfl

theorem fpd_dp_ser_prog_plls_uniform_neg :
    ∃ L : List Wire, ∀ (τ : Type) (E : Env τ) (w : FpdState τ),
      ¬ (w.priv.FPD4_Strap_Rate_P0 ≠ E.FPD4_Strap_Rate_0 ∨
        w.priv.FPD4_Strap_Rate_P1 ≠ E.FPD4_Strap_Rate_0) →
      wires (fpd_dp_ser_prog_plls E 0 w).w.trace = wires w.trace ++ L := by
  constructor
  intro τ E w hc
  simp only [fpd_dp_ser_prog_plls, fpd_write_regs_priv, if_neg hc, usleep_range_wires,
    fpd_write_wires, fpd_write_regs_wires, List.append_assoc]
  rfl

theorem fpd_dp_ser_prog_plls_wires (E : Env σ) (w : FpdState σ) :
    wires (fpd_dp_ser_prog_plls E 0 w).w.trace
      = wires w.trace ++ fpd_dp_ser_prog_plls_wire
          (decide (w.priv.FPD4_Strap_Rate_P0 ≠ E.FPD4_Strap_Rate_0 ∨
            w.priv.FPD4_Strap_Rate_P1 ≠ E.FPD4_Strap_Rate_0)) := by
  by_cases hc : w.priv.FPD4_Strap_Rate_P0 ≠ E.FPD4_Strap_Rate_0 ∨
      w.priv.FPD4_Strap_Rate_P1 ≠ E.FPD4_Strap_Rate_0
  · obtain ⟨L, hL⟩ := fpd_dp_ser_prog_plls_uniform_pos
    have hm : fpd_dp_ser_prog_plls_wire true = L :=
      hL Unit (regFileEnv (fun _ _ => 0)) (fpdFresh 0 1 0) (by decide)
    rw [decide_eq_true hc, hm]
    exact hL σ E w hc
  · obtain ⟨L, hL⟩ := fpd_dp_ser_prog_plls_uniform_neg
    have hm : fpd_dp_ser_prog_plls_wire false = L :=
      hL Unit (regFileEnv (fun _ _ => 0)) (fpdFresh 0 0 0) (by decide)
    rw [decide_eq_false hc, hm]
    exact hL σ E w hc

theorem fpd_dp_ser_enable_I2c_passthrough_wires (E : Env σ) (w : FpdState σ) :
    ∃ a, wires (fpd_dp_ser_enable_I2c_passthrough E 0 w).w.trace
      = wires w.trace ++ fpd_dp_ser_enable_I2c_passthrough_wire a := by
  refine ⟨(fpd_dp_ser_read_reg E 0 0x7 (E.uninit % 256) w).val, ?_⟩
  simp only [fpd_dp_ser_enable_I2c_passthrough, fpd_write_wires, fpd_read_wires,
    fpd_dp_ser_enable_I2c_passthrough_wire, List.append_assoc, List.singleton_append,
    Nat.mod_mod, Nat.reduceMod]

theorem fpd_dp_ser_prog_vp_configs_wires (E : Env σ) (w : FpdState σ) :
    wires (fpd_dp_ser_prog_vp_configs E 0 w).w.trace
      = wires w.trace ++ fpd_dp_ser_prog_vp_configs_wire := by
  simp only [fpd_dp_ser_prog_vp_configs_wire, fpd_dp_ser_prog_vp_configs, fpd_write_regs_wires]
  rfl

theorem fpd_dp_ser_enable_vps_wires (E : Env σ) (w : FpdState σ) :
    wires (fpd_dp_ser_enable_vps E 0 w).w.trace
      = wires w.trace ++ fpd_dp_ser_enable_vps_wire := by
  simp [fpd_dp_ser_enable_vps_wire, fpd_dp_ser_enable_vps, fpd_write_regs_wires]

theorem fpd_stage_privs (E : Env σ) (w : FpdState σ) :
    (fpd_dp_ser_set_config E 0 w).w.priv = w.priv ∧
    (fpd_dp_ser_set_port_config E 0 w).w.priv = w.priv := by
  constructor
  · simp only [fpd_dp_ser_set_config, fpd_write_regs_priv]
  · simp only [fpd_dp_ser_set_port_config, fpd_write_priv, fpd_read_priv]

theorem fpd_dp_ser_setup_wires (E : Env σ) (w : FpdState σ) :
    ∃ a b c, wires (fpd_dp_ser_setup E 0 w).w.trace
      = wires w.trace ++ fpd_dp_ser_setup_wire a b c
          (decide (w.priv.FPD4_Strap_Rate_P0 ≠ E.FPD4_Strap_Rate_0 ∨
            w.priv.FPD4_Strap_Rate_P1 ≠ E.FPD4_Strap_Rate_0)) := by
  obtain ⟨a, b, h2⟩ := fpd_dp_ser_set_port_config_wires E (fpd_dp_ser_set_config E 0 w).w
  obtain ⟨c, h4⟩ := fpd_dp_ser_enable_I2c_passthrough_wires E
    (fpd_dp_ser_prog_plls E 0
      (fpd_dp_ser_set_port_config E 0 (fpd_dp_ser_set_config E 0 w).w).w).w
  refine ⟨a, b, c, ?_⟩
  unfold fpd_dp_ser_setup
  simp only [queue_delayed_work_wires, fpd_dp_ser_enable_vps_wires,
    fpd_dp_ser_prog_vp_configs_wires, h4, fpd_dp_ser_prog_plls_wires, h2,
    fpd_dp_ser_set_config_wires, (fpd_stage_privs E _).1, (fpd_stage_privs E _).2,
    fpd_dp_ser_setup_wire, List.append_assoc]

theorem fpd_dp_ser_enable_wires (E : Env σ) (w : FpdState σ) :
    ∃ a b c, wires (fpd_dp_ser_enable E w).w.trace
      = wires w.trace ++ fpd_dp_ser_prepare_wire E ++ fpd_dp_ser_setup_wire a b c
          (decide ((fpd_dp_ser_prepare E 0 w).w.priv.FPD4_Strap_Rate_P0 ≠ E.FPD4_Strap_Rate_0 ∨
            (fpd_dp_ser_prepare E 0 w).w.priv.FPD4_Strap_Rate_P1 ≠ E.FPD4_Strap_Rate_0)) := by
  obtain ⟨a, b, c, h⟩ := fpd_dp_ser_setup_wires E (fpd_dp_ser_prepare E 0 w).w
  refine ⟨a, b, c, ?_⟩
  have hr : (fpd_dp_ser_enable E w).w = (fpd_dp_ser_setup E 0 (fpd_dp_ser_prepare E 0 w).w).w := by
    unfold fpd_dp_ser_enable
    simp only
    split <;> rfl
  rw [hr, h, fpd_dp_ser_prepare_wires]

set_option maxRecDepth 100000 in
theorem fpd_dp_ser_setup_wire_counts (a b c : Nat) (bc : Bool) :
    (fpd_dp_ser_setup_wire a b c bc).countP Wire.isQueue = 1 ∧
    (fpd_dp_ser_setup_wire a b c bc).getLast? = some (Wire.queue 0 100) ∧
    fpd_dp_ser_set_config_wire.length = 37 ∧
    fpd_dp_ser_prog_vp_configs_wire.length = 50 ∧
    (fpd_dp_ser_prog_plls_wire false).length = 39 ∧
    (fpd_dp_ser_prog_plls_wire true).length = 52 := by
  have h1 : fpd_dp_ser_set_config_wire.countP Wire.isQueue = 0 := by decide
  have h2 : fpd_dp_ser_prog_vp_configs_wire.countP Wire.isQueue = 0 := by decide
  have h3 : (fpd_dp_ser_prog_plls_wire bc).countP Wire.isQueue = 0 := by
    cases bc <;> decide
  refine ⟨?_, ?_, by decide, by decide, by decide, by decide⟩
  · simp only [fpd_dp_ser_setup_wire, List.countP_append, h1, h2, h3]
    simp [fpd_dp_ser_set_port_config_wire, fpd_dp_ser_enable_I2c_passthrough_wire,
      fpd_dp_ser_enable_vps_wire, Wire.isQueue]
  · simp [fpd_dp_ser_setup_wire]

/-- C15: for every device, the trace of `fpd_dp_ser_enable` is the mode-strap
detection of `fpd_dp_ser_prepare` followed by the traces of the six
serializer stages in the order config, port-config, PLLs, I2C passthrough,
video-processor config, enable video-processors, each exactly once, followed
by one `queue_delayed_work` call with 100 ms: the only queueing call of the
bring-up.  (The bytes `a`, `b`, `c` are what the three register reads of the
stages leave in their buffers; the PLL stage has its back-channel block when
a strap rate differs from `FPD4_Strap_Rate_0`.) -/
theorem fpd_enable_runs_stages_in_order (E : Env σ) (w : FpdState σ) :
    (fpd_dp_ser_enable E w).ret = true ∧
    (fpd_dp_ser_enable E w).w
      = queue_delayed_work 100
          (fpd_dp_ser_enable_vps E 0
            (fpd_dp_ser_prog_vp_configs E 0
              (fpd_dp_ser_enable_I2c_passthrough E 0
                (fpd_dp_ser_prog_plls E 0
                  (fpd_dp_ser_set_port_config E 0
                    (fpd_dp_ser_set_config E 0
                      (fpd_dp_ser_prepare E 0 w).w).w).w).w).w).w).w ∧
    (∃ a b c, wires (fpd_dp_ser_enable E w).w.trace
      = wires w.trace ++ fpd_dp_ser_prepare_wire E
        ++ fpd_dp_ser_set_config_wire
        ++ fpd_dp_ser_set_port_config_wire a b
        ++ fpd_dp_ser_prog_plls_wire
            (decide ((fpd_dp_ser_prepare E 0 w).w.priv.FPD4_Strap_Rate_P0
                ≠ E.FPD4_Strap_Rate_0 ∨
              (fpd_dp_ser_prepare E 0 w).w.priv.FPD4_Strap_Rate_P1 ≠ E.FPD4_Strap_Rate_0))
        ++ fpd_dp_ser_enable_I2c_passthrough_wire c
        ++ fpd_dp_ser_prog_vp_configs_wire
        ++ fpd_dp_ser_enable_vps_wire
        ++ [Wire.queue 0 100]) ∧
    queueCalls (fpd_dp_ser_enable E w).w.trace = queueCalls w.trace + 1 := by
  obtain ⟨a, b, c, h⟩ := fpd_dp_ser_enable_wires E w
  refine ⟨(fpd_dp_ser_enable_frame E w).1, ?_, ⟨a, b, c, ?_⟩, ?_⟩
  · unfold fpd_dp_ser_enable
    simp only
    split <;> rfl
  · rw [h]
    simp only [fpd_dp_ser_setup_wire, List.append_assoc]
  · simp only [queueCalls, h, List.countP_append, (fpd_dp_ser_setup_wire_counts a b c _).1]
    simp [fpd_dp_ser_prepare_wire, Wire.isQueue]

/-- C16 (as the code has it): a failed register write does not stop the
FPD-Link bring-up.  For every device, hence whatever transfers fail:
`fpd_dp_ser_set_config` issues all 37 of its writes and returns true,
`fpd_dp_ser_setup` issues the complete trace of the six stages, queues the
lock poller and returns true, and `fpd_dp_ser_enable` returns true; every
stage drops the result of `fpd_dp_ser_write_reg`. -/
theorem fpd_bringup_continues_after_failed_write (E : Env σ) (w : FpdState σ) :
    (fpd_dp_ser_set_config E 0 w).ret = true ∧
    wires (fpd_dp_ser_set_config E 0 w).w.trace
      = wires w.trace ++ fpd_dp_ser_set_config_wire ∧
    fpd_dp_ser_set_config_wire.length = 37 ∧
    (fpd_dp_ser_setup E 0 w).ret = true ∧
    (∃ a b c, wires (fpd_dp_ser_setup E 0 w).w.trace
      = wires w.trace ++ fpd_dp_ser_setup_wire a b c
          (decide (w.priv.FPD4_Strap_Rate_P0 ≠ E.FPD4_Strap_Rate_0 ∨
            w.priv.FPD4_Strap_Rate_P1 ≠ E.FPD4_Strap_Rate_0))) ∧
    (fpd_dp_ser_setup E 0 w).w.priv.delay_work = keepPending w.priv.delay_work 100 ∧
    (fpd_dp_ser_enable E w).ret = true :=
  ⟨rfl, fpd_dp_ser_set_config_wires E w, (fpd_dp_ser_setup_wire_counts 0 0 0 false).2.2.1,
    rfl, fpd_dp_ser_setup_wires E w, (fpd_dp_ser_setup_priv E 0 w).2.2,
    (fpd_dp_ser_enable_frame E w).1⟩

set_option maxRecDepth 100000 in
/-- Counterexample to C16 as stated: on the model device whose write
transfers all fail with -121, the very first write of the bring-up fails, yet
`fpd_dp_ser_enable` issues all 134 writes of its six stages and of the strap
detection, queues the lock poller and returns true. -/
theorem fpd_bringup_failed_write_counterexample :
    (fpd_dp_ser_enable (resultEnv (-121) 2 (some 0)) (fpdFresh 0 0 0)).w.trace.head?
      = some (Event.wr 0 [0x70, 0x30] (-121)) ∧
    (fpd_dp_ser_write_reg (resultEnv (-121) 2 (some 0)) 0 0x70 0x30 (fpdFresh 0 0 0)).ret
      = false ∧
    (writesOf (fpd_dp_ser_enable (resultEnv (-121) 2 (some 0)) (fpdFresh 0 0 0)).w.trace).length
      = 134 ∧
    wires (fpd_dp_ser_enable (resultEnv (-121) 2 (some 0)) (fpdFresh 0 0 0)).w.trace
      = fpd_dp_ser_prepare_wire (resultEnv (-121) 2 (some 0))
        ++ fpd_dp_ser_setup_wire 0 0 0 false ∧
    (fpd_dp_ser_enable (resultEnv (-121) 2 (some 0)) (fpdFresh 0 0 0)).w.priv.delay_work
      = some 100 ∧
    (fpd_dp_ser_enable (resultEnv (-121) 2 (some 0)) (fpdFresh 0 0 0)).ret = true := by
  decide

/-! ## Register lists of the MAX96722 driver -/

theorem RegListOutcome_nil (addr : Nat) : RegListOutcome addr [] [] 0 :=
  ⟨Nat.le_refl _, trivial, Or.inl ⟨rfl, rfl, fun _ h => by cases h⟩⟩

theorem RegListOutcome_fail (addr : Nat) (e : max96722_reg) (rest : List max96722_reg)
    (ret : Int) (he : e.address ≠ 0xffff) (hr : ret ≠ 0) :
    RegListOutcome addr (e :: rest)
      [RegOp.write addr (e.address % 2 ^ 32) (e.val % 2 ^ 32) ret] ret := by
  refine ⟨by simp, ?_, Or.inr ⟨hr, [], e, [], by simp, he, by simp, fun _ h => by cases h⟩⟩
  simp [ExecutesEntries, entryOp, he, RegOp.result]

theorem RegListOutcome_cons (addr : Nat) (e : max96722_reg) (rest : List max96722_reg)
    (op : RegOp) (t : List RegOp) (ret : Int)
    (hop : op = entryOp addr e op.result) (h0 : op.result = 0)
    (h : RegListOutcome addr rest t ret) :
    RegListOutcome addr (e :: rest) (op :: t) ret := by
  obtain ⟨hlen, hex, hcase⟩ := h
  refine ⟨by simpa using hlen, ?_, ?_⟩
  · simp only [List.length_cons, List.take_succ_cons, ExecutesEntries]
    exact ⟨hop, hex⟩
  · rcases hcase with ⟨hz, hl, hall⟩ | ⟨hnz, pre, e1, t0, htake, he1, ht, hall⟩
    · refine Or.inl ⟨hz, by simp [hl], ?_⟩
      intro o ho
      rcases List.mem_cons.1 ho with rfl | ho
      · exact h0
      · exact hall o ho
    · refine Or.inr ⟨hnz, e :: pre, e1, op :: t0, ?_, he1, ?_, ?_⟩
      · simp [htake]
      · simp [ht]
      · intro o ho
        rcases List.mem_cons.1 ho with rfl | ho
        · exact h0
        · exact hall o ho

theorem max96722_write_reg_list_outcome (R : Regmap σ) (l : List max96722_reg)
    (w : Max96722State σ) :
    ∃ t, (max96722_write_reg_list R l w).w.trace = w.trace ++ t ∧
      (max96722_write_reg_list R l w).w.priv = w.priv ∧
      RegListOutcome w.priv.client_addr l t (max96722_write_reg_list R l w).ret := by
  induction l generalizing w with
  | nil => exact ⟨[], by simp [max96722_write_reg_list], rfl, RegListOutcome_nil _⟩
  | cons e rest ih =>
    by_cases he : e.address = 0xffff
    · obtain ⟨t, ht, hp, ho⟩ := ih (msleep e.val w)
      refine ⟨RegOp.msleep e.val :: t, ?_, ?_, ?_⟩
      · simp only [max96722_write_reg_list, if_pos he, ht]
        simp [msleep]
      · simp only [max96722_write_reg_list, if_pos he, hp]
        rfl
      · simp only [max96722_write_reg_list, if_pos he]
        exact RegListOutcome_cons _ e rest _ t _ (by simp [entryOp, he]) rfl ho
    · by_cases hr : (max96722_write R e.address e.val w).ret ≠ 0
      · refine ⟨[RegOp.write w.priv.client_addr (e.address % 2 ^ 32) (e.val % 2 ^ 32)
          (max96722_write R e.address e.val w).ret], ?_, ?_, ?_⟩
        · simp only [max96722_write_reg_list, if_neg he, if_pos hr]
          rfl
        · simp only [max96722_write_reg_list, if_neg he, if_pos hr]
          rfl
        · simp only [max96722_write_reg_list, if_neg he, if_pos hr]
          exact RegListOutcome_fail _ e rest _ he hr
      · obtain ⟨t, ht, hp, ho⟩ := ih (max96722_write R e.address e.val w).w
        have hr0 : (max96722_write R e.address e.val w).ret = 0 := not_not.1 hr
        refine ⟨RegOp.write w.priv.client_addr (e.address % 2 ^ 32) (e.val % 2 ^ 32)
          (max96722_write R e.address e.val w).ret :: t, ?_, ?_, ?_⟩
        · simp only [max96722_write_reg_list, if_neg he, if_neg hr, ht]
          simp [max96722_write, regmap_write]
        · simp only [max96722_write_reg_list, if_neg he, if_neg hr, hp]
          rfl
        · simp only [max96722_write_reg_list, if_neg he, if_neg hr]
          exact RegListOutcome_cons _ e rest _ t _ (by simp [entryOp, he, RegOp.result])
            hr0 ho

theorem max96722_write_rem_reg_list_outcome (R : Regmap σ) (addr : Nat)
    (l : List max96722_reg) (w : Max96722State σ) :
    ∃ t, (max96722_write_rem_reg_list R addr l w).w.trace = w.trace ++ t ∧
      (max96722_write_rem_reg_list R addr l w).w.priv = w.priv ∧
      RegListOutcome (addr % 2 ^ 16) l t (max96722_write_rem_reg_list R addr l w).ret := by
  induction l generalizing w with
  | nil => exact ⟨[], by simp [max96722_write_rem_reg_list], rfl, RegListOutcome_nil _⟩
  | cons e rest ih =>
    by_cases he : e.address = 0xffff
    · obtain ⟨t, ht, hp, ho⟩ := ih (msleep e.val w)
      refine ⟨RegOp.msleep e.val :: t, ?_, ?_, ?_⟩
      · simp only [max96722_write_rem_reg_list, if_pos he, ht]
        simp [msleep]
      · simp only [max96722_write_rem_reg_list, if_pos he, hp]
        rfl
      · simp only [max96722_write_rem_reg_list, if_pos he]
        exact RegListOutcome_cons _ e rest _ t _ (by simp [entryOp, he]) rfl ho
    · by_cases hr : (max96722_write_rem R addr e.address e.val w).ret ≠ 0
      · refine ⟨[RegOp.write (addr % 2 ^ 16) (e.address % 2 ^ 32) (e.val % 2 ^ 32)
          (max96722_write_rem R addr e.address e.val w).ret], ?_, ?_, ?_⟩
        · simp only [max96722_write_rem_reg_list, if_neg he, if_pos hr]
          rfl
        · simp only [max96722_write_rem_reg_list, if_neg he, if_pos hr]
          rfl
        · simp only [max96722_write_rem_reg_list, if_neg he, if_pos hr]
          exact RegListOutcome_fail _ e rest _ he hr
      · obtain ⟨t, ht, hp, ho⟩ := ih (max96722_write_rem R addr e.address e.val w).w
        have hr0 : (max96722_write_rem R addr e.address e.val w).ret = 0 := not_not.1 hr
        refine ⟨RegOp.write (addr % 2 ^ 16) (e.address % 2 ^ 32) (e.val % 2 ^ 32)
          (max96722_write_rem R addr e.address e.val w).ret :: t, ?_, ?_, ?_⟩
        · simp only [max96722_write_rem_reg_list, if_neg he, if_neg hr, ht]
          simp [max96722_write_rem, regmap_write]
        · simp only [max96722_write_rem_reg_list, if_neg he, if_neg hr, hp]
          rfl
        · simp only [max96722_write_rem_reg_list, if_neg he, if_neg hr]
          exact RegListOutcome_cons _ e rest _ t _ (by simp [entryOp, he, RegOp.result])
            hr0 ho

/-- C17: for every regmap (hence every fault position), every register list
and every state, `max96722_write_reg_list` and `max96722_write_rem_reg_list`
return, and what they append to the trace is the execution of the entries in
the order of the list (a delay of `val` ms and no write for the address
0xffff, one write otherwise) up to and including the first write that fails;
they return that write's error code then and execute no later entry, and
return 0 after executing every entry when no write fails.  The remote
variant issues its writes at `addr` and leaves the client address as it
was. -/
theorem max96722_reg_lists_execute_in_order (R : Regmap σ) (addr : Nat)
    (l : List max96722_reg) (w : Max96722State σ) :
    (∃ t, (max96722_write_reg_list R l w).w.trace = w.trace ++ t ∧
      RegListOutcome w.priv.client_addr l t (max96722_write_reg_list R l w).ret) ∧
    (∃ t, (max96722_write_rem_reg_list R addr l w).w.trace = w.trace ++ t ∧
      RegListOutcome (addr % 2 ^ 16) l t (max96722_write_rem_reg_list R addr l w).ret) ∧
    (max96722_write_rem_reg_list R addr l w).w.priv = w.priv := by
  obtain ⟨t, ht, _, ho⟩ := max96722_write_reg_list_outcome R l w
  obtain ⟨t2, ht2, hp2, ho2⟩ := max96722_write_rem_reg_list_outcome R addr l w
  exact ⟨⟨t, ht, ho⟩, ⟨t2, ht2, ho2⟩, hp2⟩

/-- A run of `max96722_write_reg_list` over a regmap whose second write
fails: the delay and the two writes before the fault are executed, the fourth
entry is not, and the error -5 is returned. -/
theorem max96722_write_reg_list_fault_example :
    (max96722_write_reg_list (faultyRegmap 1)
        [⟨0x0013, 0x75⟩, ⟨0xffff, 10⟩, ⟨0x040b, 0x00⟩, ⟨0x0006, 0xff⟩] max96722Fresh).ret = -5 ∧
    (max96722_write_reg_list (faultyRegmap 1)
        [⟨0x0013, 0x75⟩, ⟨0xffff, 10⟩, ⟨0x040b, 0x00⟩, ⟨0x0006, 0xff⟩] max96722Fresh).w.trace
      = [RegOp.write 0x6b 0x0013 0x75 0, RegOp.msleep 10, RegOp.write 0x6b 0x040b 0x00 (-5)] ∧
    (max96722_write_rem_reg_list (faultyRegmap 7) 0x40
        [⟨0x0013, 0x75⟩, ⟨0xffff, 10⟩, ⟨0x040b, 0x00⟩] max96722Fresh).ret = 0 ∧
    (max96722_write_rem_reg_list (faultyRegmap 7) 0x40
        [⟨0x0013, 0x75⟩, ⟨0xffff, 10⟩, ⟨0x040b, 0x00⟩] max96722Fresh).w.trace
      = [RegOp.write 0x40 0x0013 0x75 0, RegOp.msleep 10, RegOp.write 0x40 0x040b 0x00 0] := by
  decide

/-! ## Results of the register primitives -/

/-- C18 (as the code has it): the two read primitives `fpd_dp_ser_read_reg`
and `max_dsi_ser_read_reg` return 0 for every result of the i2c transfer,
a negative one included; `fpd_dp_ser_write_reg` returns true exactly when the
result of its transfer is not negative, so a failed write is reported. -/
theorem read_primitives_hide_transfer_failure (E : Env σ) (client reg_addr val : Nat)
    (w : FpdState σ) (m : MaxState σ) :
    (fpd_dp_ser_read_reg E client reg_addr val w).ret = 0 ∧
    (max_dsi_ser_read_reg E client reg_addr val m).ret = 0 ∧
    ((fpd_dp_ser_write_reg E client reg_addr val w).ret = true
      ↔ 0 ≤ (E.dev.write w.dev client [reg_addr % 256, val % 256]).1) := by
  refine ⟨by simp [fpd_dp_ser_read_reg], by simp [max_dsi_ser_read_reg], ?_⟩
  unfold fpd_dp_ser_write_reg
  simp only [max_lo]
  by_cases h : (E.dev.write w.dev client [reg_addr % 256, val % 256]).1 < 0
  · simp only [if_pos h]
    constructor
    · intro hh
      cases hh
    · intro hh
      omega
  · simp only [if_neg h]
    exact ⟨fun _ => by omega, fun _ => trivial⟩

/-- Counterexample to C18 as stated: when the i2c transfer fails with -121,
`fpd_dp_ser_write_reg` returns false, not its success value (the two read
primitives return 0 on the same device). -/
theorem write_primitive_reports_failure_counterexample :
    (resultEnv (-121) (-121) none).dev.write () 0 [0x70, 0x30] = (-121, ()) ∧
    (fpd_dp_ser_write_reg (resultEnv (-121) (-121) none) 0 0x70 0x30 (fpdFresh 0 0 0)).ret
      = false ∧
    (fpd_dp_ser_read_reg (resultEnv (-121) (-121) none) 0 0x27 0 (fpdFresh 0 0 0)).ret = 0 ∧
    (max_dsi_ser_read_reg (resultEnv (-121) (-121) none) 0 0x13 0 (maxFresh 0 false)).ret = 0 := by
  decide

/-- C19 (as the code has it): `fpd_dp_ser_write_reg` compares the transfer
result with 0, not with the number of messages: it returns false for every
negative result and true for every other one, the result 0 (no message
completed) included; `fpd_dp_ser_read_reg` returns 0 when the transfer
completed fewer than its two messages (results 0 and 1). -/
theorem primitives_do_not_count_messages (E : Env σ) (client reg_addr val : Nat)
    (w : FpdState σ) :
    ((E.dev.write w.dev client [reg_addr % 256, val % 256]).1 < 0 →
      (fpd_dp_ser_write_reg E client reg_addr val w).ret = false) ∧
    (0 ≤ (E.dev.write w.dev client [reg_addr % 256, val % 256]).1 →
      (fpd_dp_ser_write_reg E client reg_addr val w).ret = true) ∧
    (0 ≤ (E.dev.read w.dev client [reg_addr % 256]).1.1 →
      (E.dev.read w.dev client [reg_addr % 256]).1.1 < 2 →
      (fpd_dp_ser_read_reg E client reg_addr val w).ret = 0) := by
  refine ⟨?_, ?_, fun _ _ => by simp [fpd_dp_ser_read_reg]⟩
  · intro h
    unfold fpd_dp_ser_write_reg
    simp only [max_lo, if_pos h]
  · intro h
    unfold fpd_dp_ser_write_reg
    simp only [max_lo, if_neg (not_lt.2 h)]

/-- Witness for C19: a device whose write transfers fail with -121, and the
device whose write transfers complete no message (result 0) and whose read
transfers complete one message (result 1). -/
theorem primitives_do_not_count_messages_witness :
    (((resultEnv (-121) 1 none).dev.write (fpdFresh 0 0 0).dev 0 [0x70 % 256, 0x30 % 256]).1 < 0 ∧
      (fpd_dp_ser_write_reg (resultEnv (-121) 1 none) 0 0x70 0x30 (fpdFresh 0 0 0)).ret
        = false) ∧
    (0 ≤ ((resultEnv 0 1 none).dev.write (fpdFresh 0 0 0).dev 0 [0x70 % 256, 0x30 % 256]).1 ∧
      (fpd_dp_ser_write_reg (resultEnv 0 1 none) 0 0x70 0x30 (fpdFresh 0 0 0)).ret = true) ∧
    (0 ≤ ((resultEnv 0 1 none).dev.read (fpdFresh 0 0 0).dev 0 [0x70 % 256]).1.1 ∧
      ((resultEnv 0 1 none).dev.read (fpdFresh 0 0 0).dev 0 [0x70 % 256]).1.1 < 2 ∧
      (fpd_dp_ser_read_reg (resultEnv 0 1 none) 0 0x70 0x30 (fpdFresh 0 0 0)).ret = 0) :=
  ⟨⟨by decide,
      (primitives_do_not_count_messages (resultEnv (-121) 1 none) 0 0x70 0x30
        (fpdFresh 0 0 0)).1 (by decide)⟩,
    ⟨by decide,
      (primitives_do_not_count_messages (resultEnv 0 1 none) 0 0x70 0x30
        (fpdFresh 0 0 0)).2.1 (by decide)⟩,
    ⟨by decide, by decide,
      (primitives_do_not_count_messages (resultEnv 0 1 none) 0 0x70 0x30
        (fpdFresh 0 0 0)).2.2 (by decide) (by decide)⟩⟩

/-- Counterexample to C19 as stated: a write transfer that completes no
message (result 0, below 1) makes `fpd_dp_ser_write_reg` return true, and a
read transfer that completes one message of two (result 1, below 2) makes
`fpd_dp_ser_read_reg` return 0, not an error. -/
theorem short_transfer_not_reported_counterexample :
    (resultEnv 0 1 none).dev.write () 0 [0x01, 0x30] = (0, ()) ∧
    (fpd_dp_ser_write_reg (resultEnv 0 1 none) 0 0x01 0x30 (fpdFresh 0 0 0)).ret = true ∧
    ((resultEnv 0 1 none).dev.read () 0 [0x0c]).1.1 = 1 ∧
    (fpd_dp_ser_read_reg (resultEnv 0 1 none) 0 0x0c 0 (fpdFresh 0 0 0)).ret = 0 := by
  decide

/-! ## Register-primitive encoding of the GMSL serializer -/

theorem addr16_round_trip (a : Nat) (ha : a < 65536) :
    a >>> 8 = a / 256 % 256 ∧ a &&& 0xff = a % 256 ∧ (a >>> 8) * 256 + (a &&& 0xff) = a := by
  rw [Nat.shiftRight_eq_div_pow, and_255]
  omega

/-- C20: for every 16-bit register address `a` and byte `v`,
`max_dsi_ser_write_reg` sends the 3-byte payload `[a >> 8, a & 0xff, v]`
(then reads the register back when the write did not fail) and
`max_dsi_ser_read_reg` sends the read transaction with the 2-byte address
`[a >> 8, a & 0xff]`; the address round-trips, `(a >> 8) * 256 + (a & 0xff) = a`;
and for every `reg_addr` (taken as a 32-bit value) the write and the read
encode the same two address bytes. -/
theorem max_register_encoding (E : Env σ) (client a v old : Nat) (w : MaxState σ)
    (ha : a < 65536) (hv : v < 256) :
    (∃ tail, (tail = [] ∨ tail = [Wire.rd client [a >>> 8, a &&& 0xff]]) ∧
      wires (max_dsi_ser_write_reg E client a v w).trace
        = wires w.trace ++ [Wire.wr client [a >>> 8, a &&& 0xff, v]] ++ tail) ∧
    wires (max_dsi_ser_read_reg E client a old w).w.trace
      = wires w.trace ++ [Wire.rd client [a >>> 8, a &&& 0xff]] ∧
    (a >>> 8) * 256 + (a &&& 0xff) = a ∧
    (∀ reg_addr x : Nat, ∃ hi lo tail,
      wires (max_dsi_ser_write_reg E client reg_addr x w).trace
        = wires w.trace ++ [Wire.wr client [hi, lo, x % 256]] ++ tail ∧
      wires (max_dsi_ser_read_reg E client reg_addr old w).w.trace
        = wires w.trace ++ [Wire.rd client [hi, lo]] ∧
      hi = ((reg_addr % 2 ^ 32) >>> 8) % 256 ∧ lo = (reg_addr % 2 ^ 32) &&& 0xff) := by
  obtain ⟨h1, h2, h3⟩ := addr16_round_trip a ha
  have hv2 : v % 256 = v := Nat.mod_eq_of_lt hv
  refine ⟨?_, ?_, h3, ?_⟩
  · obtain ⟨tail, ht, hw⟩ := max_write_wires E client a v w
    refine ⟨tail, ?_, ?_⟩
    · rw [h1, h2]
      exact ht
    · rw [h1, h2, hw, hv2]
  · rw [h1, h2]
    exact max_read_wires E client a old w
  · intro r x
    obtain ⟨tail, _, hw⟩ := max_write_wires E client r x w
    exact ⟨r / 256 % 256, r % 256, tail, hw, max_read_wires E client r old w,
      (max_hi_read r).symm, (max_lo r).symm⟩

/-- Witness for C20: the write of 0x43 to the register 0x0331, and the read
of that register, on the model device whose transfers all fail. -/
theorem max_register_encoding_witness :
    (0x0331 < 65536 ∧ 0x43 < 256) ∧
    ((∃ tail, (tail = [] ∨ tail = [Wire.rd 0 [0x0331 >>> 8, 0x0331 &&& 0xff]]) ∧
      wires (max_dsi_ser_write_reg (resultEnv (-121) (-121) none) 0 0x0331 0x43 (maxFresh 0 false)).trace
        = wires (maxFresh 0 false).trace
          ++ [Wire.wr 0 [0x0331 >>> 8, 0x0331 &&& 0xff, 0x43]] ++ tail) ∧
    wires (max_dsi_ser_read_reg (resultEnv (-121) (-121) none) 0 0x0331 0 (maxFresh 0 false)).w.trace
      = wires (maxFresh 0 false).trace ++ [Wire.rd 0 [0x0331 >>> 8, 0x0331 &&& 0xff]] ∧
    (0x0331 >>> 8) * 256 + (0x0331 &&& 0xff) = 0x0331 ∧
    (∀ reg_addr x : Nat, ∃ hi lo tail,
      wires (max_dsi_ser_write_reg (resultEnv (-121) (-121) none) 0 reg_addr x (maxFresh 0 false)).trace
        = wires (maxFresh 0 false).trace ++ [Wire.wr 0 [hi, lo, x % 256]] ++ tail ∧
      wires (max_dsi_ser_read_reg (resultEnv (-121) (-121) none) 0 reg_addr 0 (maxFresh 0 false)).w.trace
        = wires (maxFresh 0 false).trace ++ [Wire.rd 0 [hi, lo]] ∧
      hi = ((reg_addr % 2 ^ 32) >>> 8) % 256 ∧ lo = (reg_addr % 2 ^ 32) &&& 0xff)) :=
  ⟨⟨by decide, by decide⟩,
    max_register_encoding (resultEnv (-121) (-121) none) 0 0x0331 0x43 0 (maxFresh 0 false) (by decide) (by decide)⟩

/-! ## Values stored through the paged protocol -/

theorem fpd_write_dev (E : Env σ) (c r v : Nat) (w : FpdState σ) :
    (fpd_dp_ser_write_reg E c r v w).w.dev = (E.dev.write w.dev c [r % 256, v % 256]).2 := by
  unfold fpd_dp_ser_write_reg
  simp only [max_lo]
  split <;> rfl

theorem fpd_write_regs_dev (E : Env σ) (c : Nat) (l : List (Nat × Nat)) :
    ∀ w : FpdState σ, (fpd_dp_ser_write_regs E c l w).dev
      = l.foldl (fun s rv => (E.dev.write s c [rv.1 % 256, rv.2 % 256]).2) w.dev := by
  induction l with
  | nil => intro w; rfl
  | cons rv rest ih =>
    intro w
    obtain ⟨r, v⟩ := rv
    simp only [fpd_dp_ser_write_regs, List.foldl_cons]
    rw [ih, fpd_write_dev]

theorem usleep_range_dev (lo hi : Nat) (w : FpdState σ) :
    (usleep_range lo hi w).dev = w.dev := rfl

theorem paged_foldl_mem (pageOf : Nat → Nat) (c : Nat) (l : List (Nat × Nat)) :
    ∀ (s : PagedState) (p o : Nat),
      (l.foldl (fun s rv => ((pagedDevice pageOf).write s c [rv.1 % 256, rv.2 % 256]).2) s).mem
          p o
        = pagedLookup pageOf p o (pagedStores s.select s.offset l) (s.mem p o) := by
  induction l with
  | nil => intro s p o; rfl
  | cons rv rest ih =>
    intro s p o
    obtain ⟨r, v⟩ := rv
    simp only [List.foldl_cons, pagedStores]
    rw [ih]
    by_cases h0 : r % 256 = 0x40
    · simp [pagedDevice, h0]
    · by_cases h1 : r % 256 = 0x41
      · simp [pagedDevice, h0, h1]
      · by_cases h2 : r % 256 = 0x42
        · simp only [pagedDevice, h0, h1, h2, if_false, if_true, pagedLookup]
          congr 1
          by_cases hq : o = s.offset ∧ p = pageOf s.select
          · simp [hq.1, hq.2]
          · have hq2 : ¬ (p = pageOf s.select ∧ o = s.offset) := fun h => hq ⟨h.2, h.1⟩
            simp [hq, hq2]
        · simp [pagedDevice, h0, h1, h2]

theorem fpd_write_dev_foldl (E : Env σ) (c r v : Nat) (w : FpdState σ) :
    (fpd_dp_ser_write_reg E c r v w).w.dev
      = [(r, v)].foldl (fun s rv => (E.dev.write s c [rv.1 % 256, rv.2 % 256]).2) w.dev := by
  rw [fpd_write_dev]
  rfl

/-- C21: against the model device of the paged protocol (for every reading
`pageOf` of the page-select value under which the back-channel page 0x04 is
not the PLL page 0x0a, every initial content of the device and every strap
rate), `fpd_dp_ser_prog_plls` leaves in the PLL page the little-endian values
Ndiv = 96 at offsets 0x05..0x06, denominator = 16777204 at 0x18..0x1a and
numerator = 4194301 at 0x1e..0x20 for port 0, and the same three values at
0x45..0x46, 0x58..0x5a and 0x5e..0x60 for port 1. -/
theorem fpd_prog_plls_stores_pll_values (pageOf : Nat → Nat) (E : Env PagedState)
    (client : Nat) (w : FpdState PagedState)
    (hE : E.dev = pagedDevice pageOf) (hp : pageOf 0x04 ≠ pageOf 0x0a) :
    littleEndian (pagedBytes (fpd_dp_ser_prog_plls E client w).w.dev (pageOf 0x0a)
      [0x05, 0x06]) = 96 ∧
    littleEndian (pagedBytes (fpd_dp_ser_prog_plls E client w).w.dev (pageOf 0x0a)
      [0x18, 0x19, 0x1a]) = 16777204 ∧
    littleEndian (pagedBytes (fpd_dp_ser_prog_plls E client w).w.dev (pageOf 0x0a)
      [0x1e, 0x1f, 0x20]) = 4194301 ∧
    littleEndian (pagedBytes (fpd_dp_ser_prog_plls E client w).w.dev (pageOf 0x0a)
      [0x45, 0x46]) = 96 ∧
    littleEndian (pagedBytes (fpd_dp_ser_prog_plls E client w).w.dev (pageOf 0x0a)
      [0x58, 0x59, 0x5a]) = 16777204 ∧
    littleEndian (pagedBytes (fpd_dp_ser_prog_plls E client w).w.dev (pageOf 0x0a)
      [0x5e, 0x5f, 0x60]) = 4194301 := by
  have hp2 : ¬ (pageOf 10 = pageOf 4) := fun h => hp h.symm
  by_cases hc : w.priv.FPD4_Strap_Rate_P0 ≠ E.FPD4_Strap_Rate_0 ∨
      w.priv.FPD4_Strap_Rate_P1 ≠ E.FPD4_Strap_Rate_0
  · simp only [fpd_dp_ser_prog_plls, fpd_write_regs_priv, if_pos hc, usleep_range_dev,
      fpd_write_dev_foldl, fpd_write_regs_dev, ← List.foldl_append, hE, pagedBytes,
      List.map_cons, List.map_nil, paged_foldl_mem]
    simp [pagedStores, pagedLookup, littleEndian, hp2]
  · simp only [fpd_dp_ser_prog_plls, fpd_write_regs_priv, if_neg hc, usleep_range_dev,
      fpd_write_dev_foldl, fpd_write_regs_dev, ← List.foldl_append, hE, pagedBytes,
      List.map_cons, List.map_nil, paged_foldl_mem]
    simp [pagedStores, pagedLookup, littleEndian]

/-- Witness of C21 on the paged model device that takes bits 2 and up of the
page-select value as the page, filled with 0xEE, with a strap rate that makes
the back-channel block run. -/
theorem fpd_prog_plls_stores_pll_values_witness :
    ((pagedEnv (fun v => v / 4)).dev = pagedDevice (fun v => v / 4) ∧
      (fun v => v / 4) 0x04 ≠ (fun v => v / 4) 0x0a) ∧
    littleEndian (pagedBytes
      (fpd_dp_ser_prog_plls (pagedEnv (fun v => v / 4)) 0 (pagedFresh 0xEE 3 3)).w.dev
      ((fun v => v / 4) 0x0a) [0x05, 0x06]) = 96 :=
  ⟨⟨rfl, by decide⟩,
    (fpd_prog_plls_stores_pll_values (fun v => v / 4) (pagedEnv (fun v => v / 4)) 0
      (pagedFresh 0xEE 3 3) rfl (by decide)).1⟩

/-- C22: against the model device of the paged protocol (every reading of
the page-select value, every initial content), the bytes
`fpd_dp_ser_prog_vp_configs` leaves at offsets 0x10..0x1f of the page it
selects decode, as consecutive little-endian 16-bit values, to horizontal
active 1920, back porch 148, sync 44, total 2200, vertical active 1080, back
porch 36, sync 5 and front porch 4, with 2200 = 1920 + 148 + 44 + 88; and on
every device the function emits 50 writes of which the last 25 (VP1) are the
first 25 (VP0) with every offset written to 0x41 raised by 0x40. -/
theorem fpd_prog_vp_configs_stores_timings (pageOf : Nat → Nat) (E : Env PagedState)
    (w : FpdState PagedState) (hE : E.dev = pagedDevice pageOf) :
    littleEndian16s (pagedBytes (fpd_dp_ser_prog_vp_configs E 0 w).w.dev (pageOf 0x32)
        [0x10, 0x11, 0x12, 0x13, 0x14, 0x15, 0x16, 0x17, 0x18, 0x19, 0x1a, 0x1b, 0x1c, 0x1d,
         0x1e, 0x1f])
      = [1920, 148, 44, 2200, 1080, 36, 5, 4] ∧
    1920 + 148 + 44 + 88 = 2200 ∧
    wires (fpd_dp_ser_prog_vp_configs E 0 w).w.trace
      = wires w.trace ++ fpd_dp_ser_prog_vp_configs_wire ∧
    fpd_dp_ser_prog_vp_configs_wire.length = 50 ∧
    fpd_dp_ser_prog_vp_configs_wire.drop 25
      = (fpd_dp_ser_prog_vp_configs_wire.take 25).map (Wire.shiftOffset 0x40) := by
  refine ⟨?_, by decide, fpd_dp_ser_prog_vp_configs_wires E w, by decide, by decide⟩
  simp only [fpd_dp_ser_prog_vp_configs, fpd_write_regs_dev, hE, pagedBytes,
    List.map_cons, List.map_nil, paged_foldl_mem]
  simp [pagedStores, pagedLookup, littleEndian, littleEndian16s]

/-- Witness of C22 on the paged model device that uses the page-select value
itself as the page, filled with 0xEE. -/
theorem fpd_prog_vp_configs_stores_timings_witness :
    (pagedEnv id).dev = pagedDevice id ∧
    littleEndian16s (pagedBytes
        (fpd_dp_ser_prog_vp_configs (pagedEnv id) 0 (pagedFresh 0xEE 0 0)).w.dev (id 0x32)
        [0x10, 0x11, 0x12, 0x13, 0x14, 0x15, 0x16, 0x17, 0x18, 0x19, 0x1a, 0x1b, 0x1c, 0x1d,
         0x1e, 0x1f])
      = [1920, 148, 44, 2200, 1080, 36, 5, 4] :=
  ⟨rfl, (fpd_prog_vp_configs_stores_timings id (pagedEnv id) (pagedFresh 0xEE 0 0) rfl).1⟩

/-! ## The GMSL register map -/

theorem max_read_lock_of_byte (E : Env σ) (c r m v b : Nat) (w : MaxState σ)
    (h : (E.dev.read w.dev c [r / 256 % 256, r % 256]).1.2 = some b)
    (hb : b % 256 &&& (m % 2 ^ 32) = v % 2 ^ 32) :
    (max_read_lock E c r m v w).ret = 0 := by
  unfold max_read_lock
  simp only [max_read_val, h, recvByte, hb, if_true]

/-- C23: the GMSL register map of `intel_dsi_ser_drv.h` is valid: every
`*_MASK` constant is non-zero, every address constant is at most 0xFFFF,
every lock's expected value is a byte with no bit outside its mask, the lock
checks of the two pollers are locks of the map, and for each of them
`max_read_lock` returns 0 on every device that delivers the expected value as
the register byte; on the register file in which every lock register reads
its expected value all checks of both pollers return 0. -/
theorem max_register_map_valid :
    (∀ m ∈ max_mask_constants, m ≠ 0) ∧
    (∀ a ∈ max_address_constants, a ≤ 0xFFFF) ∧
    (∀ l ∈ max_lock_constants, l.val &&& l.mask = l.val ∧ l.val < 256) ∧
    (∀ l ∈ max_poller_lock_checks, l ∈ max_lock_constants) ∧
    (∀ l ∈ max_poller_lock_checks, ∀ (τ : Type) (E : Env τ) (client : Nat) (w : MaxState τ),
      (E.dev.read w.dev client [l.reg / 256 % 256, l.reg % 256]).1.2 = some l.val →
      (max_read_lock E client l.reg l.mask l.val w).ret = 0) ∧
    ((max_training_checks maxLockedEnv (maxFresh 0 true)).ret1 = 0 ∧
      (max_training_checks maxLockedEnv (maxFresh 0 true)).ret2 = 0 ∧
      (max_training_checks maxLockedEnv (maxFresh 0 true)).ret3 = 0) ∧
    ((max_deser_checks maxLockedEnv (maxFresh 0 true)).ret1_1 = 0 ∧
      (max_deser_checks maxLockedEnv (maxFresh 0 true)).ret1_2 = 0 ∧
      (max_deser_checks maxLockedEnv (maxFresh 0 true)).ret1_3 = 0 ∧
      (max_deser_checks maxLockedEnv (maxFresh 0 true)).ret2_1 = 0 ∧
      (max_deser_checks maxLockedEnv (maxFresh 0 true)).ret2_2 = 0 ∧
      (max_deser_checks maxLockedEnv (maxFresh 0 true)).ret2_3 = 0) := by
  refine ⟨by decide, by decide, by decide, by decide, ?_, by decide, by decide⟩
  have key : ∀ l ∈ max_poller_lock_checks,
      l.val % 256 &&& (l.mask % 2 ^ 32) = l.val % 2 ^ 32 := by decide
  intro l hl τ E client w h
  exact max_read_lock_of_byte E client l.reg l.mask l.val l.val w h (key l hl)

/-- Witness of C23: the check of `MAX_DSI_SER_PCLK` on the register file in
which every lock register reads its expected value. -/
theorem max_register_map_valid_witness :
    (⟨MAX_DSI_SER_PCLK, MAX_DSI_SER_PCLK_LOCK_MASK, MAX_DSI_SER_PCLK_LOCK_VAL⟩ : MaxLock)
      ∈ max_poller_lock_checks ∧
    (maxLockedEnv.dev.read (maxFresh 0 false).dev 0
      [MAX_DSI_SER_PCLK / 256 % 256, MAX_DSI_SER_PCLK % 256]).1.2
      = some MAX_DSI_SER_PCLK_LOCK_VAL ∧
    (max_read_lock maxLockedEnv 0 MAX_DSI_SER_PCLK MAX_DSI_SER_PCLK_LOCK_MASK
      MAX_DSI_SER_PCLK_LOCK_VAL (maxFresh 0 false)).ret = 0 :=
  ⟨by decide, by decide,
    max_register_map_valid.2.2.2.2.1
      ⟨MAX_DSI_SER_PCLK, MAX_DSI_SER_PCLK_LOCK_MASK, MAX_DSI_SER_PCLK_LOCK_VAL⟩ (by decide)
      Unit maxLockedEnv 0 (maxFresh 0 false) (by decide)⟩

/-! ## Display mode and programmed timings -/

theorem newWrites_append (before after : List Event) (l : List Wire)
    (h : writesOf after = writesOf before ++ l) : newWrites before after = l := by
  simp [newWrites, h]

theorem max_write_regs_newWrites (E : Env σ) (c : Nat) (l : List (Nat × Nat))
    (w : MaxState σ) :
    newWrites w.trace (max_dsi_ser_write_regs E c l w).trace
      = l.map (fun rv => Wire.wr c [rv.1 / 256 % 256, rv.1 % 256, rv.2 % 256]) :=
  newWrites_append _ _ _ (max_write_regs_writesOf E c l w)

theorem max_deser_setup_timing (E : Env σ) (c : Nat) (w : MaxState σ) :
    (w.priv.current_mode = MAX_MODE_DSI_480 →
      max_written16 c 0xE794 (newWrites w.trace (max_dsi_deser_setup E c w).w.trace)
        = some 640 ∧
      max_written16 c 0xE79C (newWrites w.trace (max_dsi_deser_setup E c w).w.trace)
        = some 480) ∧
    (w.priv.current_mode = MAX_MODE_DSI_720P →
      max_written16 c 0xE794 (newWrites w.trace (max_dsi_deser_setup E c w).w.trace)
        = some 1280 ∧
      max_written16 c 0xE79C (newWrites w.trace (max_dsi_deser_setup E c w).w.trace)
        = some 720) ∧
    (w.priv.current_mode = MAX_MODE_DSI_1080P →
      max_written16 c 0xE794 (newWrites w.trace (max_dsi_deser_setup E c w).w.trace)
        = some 1920 ∧
      max_written16 c 0xE79C (newWrites w.trace (max_dsi_deser_setup E c w).w.trace)
        = some 1080) := by
  refine ⟨?_, ?_, ?_⟩
  · intro h
    simp only [max_dsi_deser_setup, h, if_true, max_write_regs_newWrites]
    constructor <;> simp [max_written16, max_reg_written, littleEndian]
  · intro h
    have h1 : ¬ (MAX_MODE_DSI_720P = MAX_MODE_DSI_480) := by decide
    have h2 : ¬ (MAX_MODE_DSI_720P = MAX_MODE_DSI_768) := by decide
    simp only [max_dsi_deser_setup, h, if_true, if_neg h1, if_neg h2, max_write_regs_newWrites]
    constructor <;> simp [max_written16, max_reg_written, littleEndian]
  · intro h
    have h1 : ¬ (MAX_MODE_DSI_1080P = MAX_MODE_DSI_480) := by decide
    have h2 : ¬ (MAX_MODE_DSI_1080P = MAX_MODE_DSI_768) := by decide
    have h3 : ¬ (MAX_MODE_DSI_1080P = MAX_MODE_DSI_720P) := by decide
    simp only [max_dsi_deser_setup, h, if_true, if_neg h1, if_neg h2, if_neg h3,
      max_write_regs_newWrites]
    constructor <;> simp [max_written16, max_reg_written, littleEndian]

/-- C25: the mode chosen by `max_dsi_ser_prepare` and the timings programmed
by `max_dsi_deser_setup` agree.  For each of the six recognised display sizes,
on every device and for either deserializer client: the mode selected is not
`MAX_MODE_DSI_768`, the horizontal resolution written for it (registers
0xE794 low and 0xE795 high) is `hdisplay` without split and `hdisplay / 2`
with split, and the vertical resolution written (0xE79C low, 0xE79D high) is
`vdisplay`. -/
theorem max_prepare_and_deser_setup_agree (E : Env σ) (client : Nat) (w : MaxState σ) :
    ∀ hv ∈ max_dsi_display_table,
      (max_prepared w hv.1 hv.2).priv.current_mode ≠ MAX_MODE_DSI_768 ∧
      max_written16 client 0xE794
          (newWrites (max_prepared w hv.1 hv.2).trace
            (max_dsi_deser_setup E client (max_prepared w hv.1 hv.2)).w.trace)
        = some (if (max_prepared w hv.1 hv.2).priv.split_mode = true then hv.1 / 2 else hv.1) ∧
      max_written16 client 0xE79C
          (newWrites (max_prepared w hv.1 hv.2).trace
            (max_dsi_deser_setup E client (max_prepared w hv.1 hv.2)).w.trace)
        = some hv.2 := by
  intro hv hmem
  simp only [max_dsi_display_table, List.mem_cons, List.mem_singleton, List.not_mem_nil,
    or_false] at hmem
  rcases hmem with rfl | rfl | rfl | rfl | rfl | rfl
  · have hm : (max_prepared w 640 480).priv.current_mode = MAX_MODE_DSI_480 := by
      simp [max_prepared, max_dsi_ser_prepare]
    have hs : (max_prepared w 640 480).priv.split_mode = false := by
      simp [max_prepared, max_dsi_ser_prepare]
    obtain ⟨t1, t2⟩ := (max_deser_setup_timing E client (max_prepared w 640 480)).1 hm
    refine ⟨by rw [hm]; decide, ?_, t2⟩
    rw [t1, hs]
    rfl
  · have hm : (max_prepared w 1280 480).priv.current_mode = MAX_MODE_DSI_480 := by
      simp [max_prepared, max_dsi_ser_prepare]
    have hs : (max_prepared w 1280 480).priv.split_mode = true := by
      simp [max_prepared, max_dsi_ser_prepare]
    obtain ⟨t1, t2⟩ := (max_deser_setup_timing E client (max_prepared w 1280 480)).1 hm
    refine ⟨by rw [hm]; decide, ?_, t2⟩
    rw [t1, hs]
    rfl
  · have hm : (max_prepared w 1280 720).priv.current_mode = MAX_MODE_DSI_720P := by
      simp [max_prepared, max_dsi_ser_prepare]
    have hs : (max_prepared w 1280 720).priv.split_mode = false := by
      simp [max_prepared, max_dsi_ser_prepare]
    obtain ⟨t1, t2⟩ := (max_deser_setup_timing E client (max_prepared w 1280 720)).2.1 hm
    refine ⟨by rw [hm]; decide, ?_, t2⟩
    rw [t1, hs]
    rfl
  · have hm : (max_prepared w 2560 720).priv.current_mode = MAX_MODE_DSI_720P := by
      simp [max_prepared, max_dsi_ser_prepare]
    have hs : (max_prepared w 2560 720).priv.split_mode = true := by
      simp [max_prepared, max_dsi_ser_prepare]
    obtain ⟨t1, t2⟩ := (max_deser_setup_timing E client (max_prepared w 2560 720)).2.1 hm
    refine ⟨by rw [hm]; decide, ?_, t2⟩
    rw [t1, hs]
    rfl
  · have hm : (max_prepared w 1920 1080).priv.current_mode = MAX_MODE_DSI_1080P := by
      simp [max_prepared, max_dsi_ser_prepare]
    have hs : (max_prepared w 1920 1080).priv.split_mode = false := by
      simp [max_prepared, max_dsi_ser_prepare]
    obtain ⟨t1, t2⟩ := (max_deser_setup_timing E client (max_prepared w 1920 1080)).2.2 hm
    refine ⟨by rw [hm]; decide, ?_, t2⟩
    rw [t1, hs]
    rfl
  · have hm : (max_prepared w 3840 1080).priv.current_mode = MAX_MODE_DSI_1080P := by
      simp [max_prepared, max_dsi_ser_prepare]
    have hs : (max_prepared w 3840 1080).priv.split_mode = true := by
      simp [max_prepared, max_dsi_ser_prepare]
    obtain ⟨t1, t2⟩ := (max_deser_setup_timing E client (max_prepared w 3840 1080)).2.2 hm
    refine ⟨by rw [hm]; decide, ?_, t2⟩
    rw [t1, hs]
    rfl

/-- Witness of C25 for the size 2560 x 720 on the register file that reads 0
everywhere, for the first deserializer. -/
theorem max_prepare_and_deser_setup_agree_witness :
    (2560, 720) ∈ max_dsi_display_table ∧
    max_written16 1 0xE794
        (newWrites (max_prepared (maxFresh 0 false) 2560 720).trace
          (max_dsi_deser_setup (regFileEnv (fun _ _ => 0)) 1
            (max_prepared (maxFresh 0 false) 2560 720)).w.trace)
      = some 1280 :=
  ⟨by decide,
    (max_prepare_and_deser_setup_agree (regFileEnv (fun _ _ => 0)) 1 (maxFresh 0 false)
      (2560, 720) (by decide)).2.1⟩

/-! ## The paged protocol in the FPD-Link traces -/

theorem newWires_append (before after : List Event) (l : List Wire)
    (h : wires after = wires before ++ l) : newWires before after = l := by
  simp [newWires, h]

theorem fpd_write_regs_newWires (E : Env σ) (c : Nat) (l : List (Nat × Nat))
    (w : FpdState σ) :
    newWires w.trace (fpd_dp_ser_write_regs E c l w).trace
      = l.map (fun rv => Wire.wr c [rv.1 % 256, rv.2 % 256]) :=
  newWires_append _ _ _ (fpd_write_regs_wires E c l w)

theorem pagedRun_append (c : Nat) (l1 l2 : List Wire) :
    ∀ s, pagedRun c s (l1 ++ l2) = (pagedRun c s l1).bind (fun s2 => pagedRun c s2 l2) := by
  induction l1 with
  | nil => intro s; rfl
  | cons x rest ih =>
    intro s
    simp only [List.cons_append, pagedRun]
    cases pagedStep c s x with
    | none => rfl
    | some s2 => exact ih s2

theorem PagedUse.access_mono (a b a2 : PagedUse)
    (hs : a.select = none ∨ a.select = b.select)
    (ha : b.accessed = true → a.accessed = true) (h : a.access = some a2) :
    ∃ b2, b.access = some b2 ∧ (a2.select = none ∨ a2.select = b2.select) ∧
      (b2.accessed = true → a2.accessed = true) := by
  obtain ⟨asel, aacc⟩ := a
  obtain ⟨bsel, bacc⟩ := b
  cases asel with
  | none => simp [PagedUse.access] at h
  | some v =>
    have hs2 : bsel = some v := by
      rcases hs with hs | hs
      · cases hs
      · exact hs.symm
    subst hs2
    simp only [PagedUse.access] at h ⊢
    split at h
    · cases h
    · rename_i hc
      simp only [Option.some.injEq] at h
      subst h
      have hc2 : ¬ (bacc = true ∧ v &&& 0x02 = 0) := fun hx => hc ⟨ha hx.1, hx.2⟩
      rw [if_neg hc2]
      exact ⟨_, rfl, Or.inr rfl, fun _ => rfl⟩

theorem pagedStep_mono (c : Nat) (x : Wire) (a b a2 : PagedUse)
    (hs : a.select = none ∨ a.select = b.select)
    (ha : b.accessed = true → a.accessed = true) (h : pagedStep c a x = some a2) :
    ∃ b2, pagedStep c b x = some b2 ∧ (a2.select = none ∨ a2.select = b2.select) ∧
      (b2.accessed = true → a2.accessed = true) := by
  have keep : pagedStep c a x = some a → pagedStep c b x = some b →
      ∃ b2, pagedStep c b x = some b2 ∧ (a.select = none ∨ a.select = b2.select) ∧
        (b2.accessed = true → a.accessed = true) := fun _ hb => ⟨b, hb, hs, ha⟩
  cases x with
  | wr c2 p =>
    rcases p with _ | ⟨reg, _ | ⟨v, _ | ⟨z, rest⟩⟩⟩
    · simp only [pagedStep, Option.some.injEq] at h ⊢; subst h; exact ⟨b, rfl, hs, ha⟩
    · simp only [pagedStep, Option.some.injEq] at h ⊢; subst h; exact ⟨b, rfl, hs, ha⟩
    · simp only [pagedStep] at h ⊢
      by_cases hc : c2 = c
      · simp only [hc, if_true] at h ⊢
        by_cases h0 : reg = 0x40
        · simp only [h0, if_true, Option.some.injEq] at h ⊢
          subst h
          exact ⟨_, rfl, Or.inr rfl, ha⟩
        · simp only [h0, if_false] at h ⊢
          by_cases h1 : reg = 0x41
          · simp only [h1, if_true, Option.some.injEq] at h ⊢
            subst h
            exact ⟨_, rfl, hs, fun hx => by cases hx⟩
          · simp only [h1, if_false] at h ⊢
            by_cases h2 : reg = 0x42
            · simp only [h2, if_true] at h ⊢
              exact PagedUse.access_mono a b a2 hs ha h
            · simp only [h2, if_false, Option.some.injEq] at h ⊢
              subst h
              exact ⟨b, rfl, hs, ha⟩
      · simp only [hc, if_false, Option.some.injEq] at h ⊢
        subst h
        exact ⟨b, rfl, hs, ha⟩
    · simp only [pagedStep, Option.some.injEq] at h ⊢; subst h; exact ⟨b, rfl, hs, ha⟩
  | rd c2 p =>
    rcases p with _ | ⟨reg, _ | ⟨z, rest⟩⟩
    · simp only [pagedStep, Option.some.injEq] at h ⊢; subst h; exact ⟨b, rfl, hs, ha⟩
    · simp only [pagedStep] at h ⊢
      by_cases hc : c2 = c ∧ reg = 0x42
      · simp only [hc, and_self, if_true] at h ⊢
        exact PagedUse.access_mono a b a2 hs ha h
      · simp only [hc, if_false, Option.some.injEq] at h ⊢
        subst h
        exact ⟨b, rfl, hs, ha⟩
    · simp only [pagedStep, Option.some.injEq] at h ⊢; subst h; exact ⟨b, rfl, hs, ha⟩
  | sleep lo hi =>
    simp only [pagedStep, Option.some.injEq] at h ⊢; subst h; exact ⟨b, rfl, hs, ha⟩
  | queue k ms =>
    simp only [pagedStep, Option.some.injEq] at h ⊢; subst h; exact ⟨b, rfl, hs, ha⟩

theorem pagedRun_mono (c : Nat) (l : List Wire) :
    ∀ (a b a2 : PagedUse), (a.select = none ∨ a.select = b.select) →
      (b.accessed = true → a.accessed = true) → pagedRun c a l = some a2 →
      ∃ b2, pagedRun c b l = some b2 ∧ (a2.select = none ∨ a2.select = b2.select) ∧
        (b2.accessed = true → a2.accessed = true) := by
  induction l with
  | nil =>
    intro a b a2 hs ha h
    simp only [pagedRun, Option.some.injEq] at h
    subst h
    exact ⟨b, rfl, hs, ha⟩
  | cons x rest ih =>
    intro a b a2 hs ha h
    simp only [pagedRun] at h ⊢
    cases hstep : pagedStep c a x with
    | none => rw [hstep] at h; cases h
    | some a1 =>
      rw [hstep] at h
      obtain ⟨b1, hb1, hs1, ha1⟩ := pagedStep_mono c x a b a1 hs ha hstep
      rw [hb1]
      exact ih a1 b1 a2 hs1 ha1 h

/-- A trace that respects the paged protocol from the start of a scan
respects it from every state. -/
theorem pagedRun_of_start (c : Nat) (l : List Wire)
    (h : (pagedRun c PagedUse.start l).isSome = true) (s : PagedUse) :
    (pagedRun c s l).isSome = true := by
  obtain ⟨a2, ha2⟩ := Option.isSome_iff_exists.1 h
  obtain ⟨b2, hb2, -, -⟩ := pagedRun_mono c l PagedUse.start s a2 (Or.inl rfl)
    (fun _ => rfl) ha2
  rw [hb2]
  rfl

theorem pagedRun_append_of_start (c : Nat) (l1 l2 : List Wire) (s : PagedUse)
    (h1 : (pagedRun c s l1).isSome = true)
    (h2 : (pagedRun c PagedUse.start l2).isSome = true) :
    (pagedRun c s (l1 ++ l2)).isSome = true := by
  rw [pagedRun_append]
  obtain ⟨s2, hs2⟩ := Option.isSome_iff_exists.1 h1
  rw [hs2]
  exact pagedRun_of_start c l2 h2 s2

theorem pagedOk_of_wires (before after : List Event) (l : List Wire)
    (h : wires after = wires before ++ l)
    (h0 : (pagedRun 0 PagedUse.start l).isSome = true)
    (h1 : (pagedRun 1 PagedUse.start l).isSome = true) : PagedOk before after := by
  unfold PagedOk
  rw [newWires_append before after l h]
  exact ⟨h0, h1⟩

theorem paged_prog_plls (E : Env σ) (w : FpdState σ) :
    PagedOk w.trace (fpd_dp_ser_prog_plls E 0 w).w.trace := by
  have h : ∀ bc, (pagedRun 0 PagedUse.start (fpd_dp_ser_prog_plls_wire bc)).isSome = true ∧
      (pagedRun 1 PagedUse.start (fpd_dp_ser_prog_plls_wire bc)).isSome = true := by decide
  exact pagedOk_of_wires _ _ _ (fpd_dp_ser_prog_plls_wires E w) (h _).1 (h _).2

theorem paged_prog_vp_configs (E : Env σ) (w : FpdState σ) :
    PagedOk w.trace (fpd_dp_ser_prog_vp_configs E 0 w).w.trace :=
  pagedOk_of_wires _ _ _ (fpd_dp_ser_prog_vp_configs_wires E w) (by decide) (by decide)

theorem paged_deser_stages (E : Env σ) (w : FpdState σ) :
    PagedOk w.trace (fpd_dp_deser_hold_dtg_reset E 1 w).trace ∧
    PagedOk w.trace (fpd_dp_deser_force_rate E 1 w).trace ∧
    PagedOk w.trace (fpd_dp_deser_setup_dtg E 1 w).trace ∧
    PagedOk w.trace (fpd_dp_deser_release_dtg_reset E 1 w).trace := by
  refine ⟨?_, ?_, ?_, ?_⟩
  · exact pagedOk_of_wires _ _ _ (fpd_write_regs_wires E 1 _ w) (by decide) (by decide)
  · exact pagedOk_of_wires _ _ _ (fpd_write_regs_wires E 1 _ w) (by decide) (by decide)
  · exact pagedOk_of_wires _ _ _ (fpd_write_regs_wires E 1 _ w) (by decide) (by decide)
  · exact pagedOk_of_wires _ _ _ (fpd_write_regs_wires E 1 _ w) (by decide) (by decide)

theorem paged_setup_wire (k : Nat) (hk : k = 0 ∨ k = 1) (a b c : Nat) (bc : Bool) :
    (pagedRun k PagedUse.start (fpd_dp_ser_setup_wire a b c bc)).isSome = true := by
  have h1 : (pagedRun k PagedUse.start fpd_dp_ser_set_config_wire).isSome = true := by
    rcases hk with rfl | rfl <;> decide
  have h2 : (pagedRun k PagedUse.start (fpd_dp_ser_set_port_config_wire a b)).isSome
      = true := by
    rcases hk with rfl | rfl <;>
      simp [fpd_dp_ser_set_port_config_wire, pagedRun, pagedStep]
  have h3 : (pagedRun k PagedUse.start (fpd_dp_ser_prog_plls_wire bc)).isSome = true := by
    rcases hk with rfl | rfl <;> cases bc <;> decide
  have h4 : (pagedRun k PagedUse.start (fpd_dp_ser_enable_I2c_passthrough_wire c)).isSome
      = true := by
    rcases hk with rfl | rfl <;>
      simp [fpd_dp_ser_enable_I2c_passthrough_wire, pagedRun, pagedStep]
  have h5 : (pagedRun k PagedUse.start fpd_dp_ser_prog_vp_configs_wire).isSome = true := by
    rcases hk with rfl | rfl <;> decide
  have h6 : (pagedRun k PagedUse.start fpd_dp_ser_enable_vps_wire).isSome = true := by
    rcases hk with rfl | rfl <;> decide
  have h7 : (pagedRun k PagedUse.start [Wire.queue 0 100]).isSome = true := rfl
  unfold fpd_dp_ser_setup_wire
  exact pagedRun_append_of_start k _ _ _
    (pagedRun_append_of_start k _ _ _
      (pagedRun_append_of_start k _ _ _
        (pagedRun_append_of_start k _ _ _
          (pagedRun_append_of_start k _ _ _
            (pagedRun_append_of_start k _ _ _ h1 h2) h3) h4) h5) h6) h7

theorem paged_enable (E : Env σ) (w : FpdState σ) :
    PagedOk w.trace (fpd_dp_ser_enable E w).w.trace := by
  obtain ⟨a, b, c, h⟩ := fpd_dp_ser_enable_wires E w
  rw [List.append_assoc] at h
  have hp : ∀ k, k = 0 ∨ k = 1 →
      (pagedRun k PagedUse.start (fpd_dp_ser_prepare_wire E)).isSome = true := by
    intro k hk
    rcases hk with rfl | rfl <;> simp [fpd_dp_ser_prepare_wire, pagedRun, pagedStep]
  exact pagedOk_of_wires _ _ _ h
    (pagedRun_append_of_start 0 _ _ _ (hp 0 (Or.inl rfl)) (paged_setup_wire 0 (Or.inl rfl) _ _ _ _))
    (pagedRun_append_of_start 1 _ _ _ (hp 1 (Or.inr rfl)) (paged_setup_wire 1 (Or.inr rfl) _ _ _ _))

set_option maxRecDepth 100000 in
theorem paged_deser_enable (E : Env σ) (w : FpdState σ) :
    PagedOk w.trace (fpd_dp_deser_enable E w).trace :=
  pagedOk_of_wires _ _ _ (fpd_dp_deser_enable_wires E w) (by decide) (by decide)

theorem paged_vp_sync_wait (E : Env σ) (off p : Nat) :
    ∀ (left sts retry : Nat) (w : FpdState σ),
      ∃ l, wires (fpd_vp_sync_wait E off p left sts retry w).w.trace = wires w.trace ++ l ∧
        (∀ s v, s.select = some v → ∃ s2, pagedRun 0 s l = some s2 ∧ s2.select = some v) ∧
        (∀ s, pagedRun 1 s l = some s) := by
  intro left
  induction left with
  | zero =>
    intro sts retry w
    exact ⟨[], by simp [fpd_vp_sync_wait], fun s v hv => ⟨s, rfl, hv⟩, fun s => rfl⟩
  | succ n ih =>
    intro sts retry w
    simp only [fpd_vp_sync_wait]
    split
    · obtain ⟨l, hl, h0, h1⟩ := ih
        (fpd_dp_ser_read_reg E 0 0x42 sts
          (fpd_dp_ser_write_reg E 0 0x41 off (usleep_range 20000 22000 w)).w).val
        (retry + 1)
        (fpd_dp_ser_read_reg E 0 0x42 sts
          (fpd_dp_ser_write_reg E 0 0x41 off (usleep_range 20000 22000 w)).w).w
      refine ⟨fpd_vp_retry_wire (off % 256) ++ l, ?_, ?_, ?_⟩
      · rw [hl, fpd_read_wires, fpd_write_wires, usleep_range_wires]
        simp [fpd_vp_retry_wire]
      · intro s v hv
        obtain ⟨s2, hs2, hv2⟩ := h0 { select := some v, accessed := true } v rfl
        refine ⟨s2, ?_, hv2⟩
        rw [pagedRun_append]
        have hstep : pagedRun 0 s (fpd_vp_retry_wire (off % 256))
            = some { select := some v, accessed := true } := by
          obtain ⟨ssel, sacc⟩ := s
          simp only at hv
          subst hv
          simp [fpd_vp_retry_wire, pagedRun, pagedStep, PagedUse.access]
        rw [hstep]
        exact hs2
      · intro s
        rw [pagedRun_append]
        have hstep : pagedRun 1 s (fpd_vp_retry_wire (off % 256)) = some s := by
          simp [fpd_vp_retry_wire, pagedRun, pagedStep]
        rw [hstep]
        exact h1 s
    · exact ⟨[], by simp, fun s v hv => ⟨s, rfl, hv⟩, fun s => rfl⟩

theorem paged_poll_vp_status (E : Env σ) (w : FpdState σ) :
    ∃ l, wires (fpd_poll_vp_status E w).w.trace = wires w.trace ++ l ∧
      (pagedRun 0 PagedUse.start l).isSome = true ∧
      (pagedRun 1 PagedUse.start l).isSome = true := by
  unfold fpd_poll_vp_status
  simp only
  generalize hwA : (fpd_dp_ser_read_reg E 0 0x42 0
    (fpd_dp_ser_write_reg E 0 0x41 0x30
      (fpd_dp_ser_read_reg E 0 0x42 0
        (fpd_dp_ser_write_reg E 0 0x41 0x28
          (fpd_dp_ser_write_reg E 0 0x40 0x31 (usleep_range 20000 22000 w)).w).w).w).w) = rA
  have hA : wires rA.w.trace = wires w.trace ++
      [Wire.sleep 20000 22000, Wire.wr 0 [0x40, 0x31], Wire.wr 0 [0x41, 0x28],
       Wire.rd 0 [0x42], Wire.wr 0 [0x41, 0x30], Wire.rd 0 [0x42]] := by
    rw [← hwA]
    simp [fpd_read_wires, fpd_write_wires, usleep_range_wires]
  generalize hp0 : (fpd_dp_ser_read_reg E 0 0x42 0
        (fpd_dp_ser_write_reg E 0 0x41 0x28
          (fpd_dp_ser_write_reg E 0 0x40 0x31 (usleep_range 20000 22000 w)).w).w).val = p0
  obtain ⟨l1, hl1, a1, b1⟩ := paged_vp_sync_wait E 0x30 p0 (RETRY_COUNT - 0) rA.val 0 rA.w
  generalize hw1 : fpd_vp_sync_wait E 0x30 p0 (RETRY_COUNT - 0) rA.val 0 rA.w = r1 at hl1
  generalize hwB : (fpd_dp_ser_read_reg E 0 0x42 0
    (fpd_dp_ser_write_reg E 0 0x41 0x70
      (fpd_dp_ser_read_reg E 0 0x42 0
        (fpd_dp_ser_write_reg E 0 0x41 0x68 r1.w).w).w).w) = rB
  have hB : wires rB.w.trace = wires r1.w.trace ++
      [Wire.wr 0 [0x41, 0x68], Wire.rd 0 [0x42], Wire.wr 0 [0x41, 0x70], Wire.rd 0 [0x42]] := by
    rw [← hwB]
    simp [fpd_read_wires, fpd_write_wires]
  generalize hp1 : (fpd_dp_ser_read_reg E 0 0x42 0
        (fpd_dp_ser_write_reg E 0 0x41 0x68 r1.w).w).val = p1
  obtain ⟨l2, hl2, a2, b2⟩ := paged_vp_sync_wait E 0x70 p1 (RETRY_COUNT - 0) rB.val 0 rB.w
  refine ⟨[Wire.sleep 20000 22000, Wire.wr 0 [0x40, 0x31], Wire.wr 0 [0x41, 0x28],
       Wire.rd 0 [0x42], Wire.wr 0 [0x41, 0x30], Wire.rd 0 [0x42]] ++ l1 ++
      [Wire.wr 0 [0x41, 0x68], Wire.rd 0 [0x42], Wire.wr 0 [0x41, 0x70], Wire.rd 0 [0x42]]
      ++ l2, ?_, ?_, ?_⟩
  · rw [hl2, hB, hl1, hA]
    simp only [List.append_assoc]
  · obtain ⟨s1, hs1, hv1⟩ := a1 { select := some 0x31, accessed := true } 0x31 rfl
    have hmid : pagedRun 0 s1
        [Wire.wr 0 [0x41, 0x68], Wire.rd 0 [0x42], Wire.wr 0 [0x41, 0x70], Wire.rd 0 [0x42]]
        = some { select := some 0x31, accessed := true } := by
      obtain ⟨ssel, sacc⟩ := s1
      simp only at hv1
      subst hv1
      simp [pagedRun, pagedStep, PagedUse.access]
    obtain ⟨s2, hs2, -⟩ := a2 { select := some 0x31, accessed := true } 0x31 rfl
    have hfirst : pagedRun 0 PagedUse.start
        [Wire.sleep 20000 22000, Wire.wr 0 [0x40, 0x31], Wire.wr 0 [0x41, 0x28],
         Wire.rd 0 [0x42], Wire.wr 0 [0x41, 0x30], Wire.rd 0 [0x42]]
        = some { select := some 0x31, accessed := true } := by decide
    simp only [pagedRun_append, hfirst, Option.some_bind, hs1, hmid, hs2, Option.isSome_some]
  · have hfirst : pagedRun 1 PagedUse.start
        [Wire.sleep 20000 22000, Wire.wr 0 [0x40, 0x31], Wire.wr 0 [0x41, 0x28],
         Wire.rd 0 [0x42], Wire.wr 0 [0x41, 0x30], Wire.rd 0 [0x42]]
        = some PagedUse.start := by decide
    have hmid : pagedRun 1 PagedUse.start
        [Wire.wr 0 [0x41, 0x68], Wire.rd 0 [0x42], Wire.wr 0 [0x41, 0x70], Wire.rd 0 [0x42]]
        = some PagedUse.start := by decide
    simp only [pagedRun_append, hfirst, Option.some_bind, b1, hmid, b2, Option.isSome_some]

theorem paged_poll_tail_unlocked (c : Nat) (hc : c = 0 ∨ c = 1) (l : List Wire)
    (h : l = [] ∨ l = [Wire.queue 0 100]) :
    (pagedRun c PagedUse.start
      ([(0x49, 0x54), (0x4a, 0x0), (0x4b, 0x1), (0x4c, 0x0), (0x4d, 0x0), (0x4e, 0x0)].map
        (fun rv : Nat × Nat => Wire.wr 0 [rv.1 % 256, rv.2 % 256]) ++ l)).isSome = true := by
  rcases hc with rfl | rfl <;> rcases h with rfl | rfl <;> decide

set_option maxRecDepth 100000 in
theorem paged_poll_tail_locked (c : Nat) (hc : c = 0 ∨ c = 1) (a b : Nat) :
    (pagedRun c PagedUse.start
      (fpd_dp_ser_stream_mapping_wire ++ fpd_dp_ser_clear_crc_wire a b
        ++ fpd_dp_deser_enable_wire)).isSome = true := by
  have h1 : (pagedRun c PagedUse.start fpd_dp_ser_stream_mapping_wire).isSome = true := by
    rcases hc with rfl | rfl <;> decide
  have h2 : (pagedRun c PagedUse.start (fpd_dp_ser_clear_crc_wire a b)).isSome = true := by
    rcases hc with rfl | rfl <;> simp [fpd_dp_ser_clear_crc_wire, pagedRun, pagedStep]
  have h3 : (pagedRun c PagedUse.start fpd_dp_deser_enable_wire).isSome = true := by
    rcases hc with rfl | rfl <;> decide
  exact pagedRun_append_of_start c _ _ _ (pagedRun_append_of_start c _ _ _ h1 h2) h3

theorem paged_poll_training_lock (E : Env σ) (w : FpdState σ) :
    PagedOk w.trace (fpd_poll_training_lock E w).trace := by
  obtain ⟨l, hl, p0, p1⟩ := paged_poll_vp_status E w
  unfold fpd_poll_training_lock
  simp only
  split
  · split
    · refine pagedOk_of_wires _ _ (l ++ ([(0x49, 0x54), (0x4a, 0x0), (0x4b, 0x1), (0x4c, 0x0),
          (0x4d, 0x0), (0x4e, 0x0)].map
          (fun rv : Nat × Nat => Wire.wr 0 [rv.1 % 256, rv.2 % 256]) ++ [])) ?_ ?_ ?_
      · show wires (fpd_dp_ser_write_regs E 0 _ (fpd_poll_vp_status E w).w).trace = _
        rw [fpd_write_regs_wires, hl]
        simp
      · exact pagedRun_append_of_start 0 _ _ _ p0
          (paged_poll_tail_unlocked 0 (Or.inl rfl) [] (Or.inl rfl))
      · exact pagedRun_append_of_start 1 _ _ _ p1
          (paged_poll_tail_unlocked 1 (Or.inr rfl) [] (Or.inl rfl))
    · refine pagedOk_of_wires _ _ (l ++ ([(0x49, 0x54), (0x4a, 0x0), (0x4b, 0x1), (0x4c, 0x0),
          (0x4d, 0x0), (0x4e, 0x0)].map
          (fun rv : Nat × Nat => Wire.wr 0 [rv.1 % 256, rv.2 % 256])
          ++ [Wire.queue 0 100])) ?_ ?_ ?_
      · rw [queue_delayed_work_wires]
        show wires (fpd_dp_ser_write_regs E 0 _ (fpd_poll_vp_status E w).w).trace ++ _ = _
        rw [fpd_write_regs_wires, hl]
        simp
      · exact pagedRun_append_of_start 0 _ _ _ p0
          (paged_poll_tail_unlocked 0 (Or.inl rfl) _ (Or.inr rfl))
      · exact pagedRun_append_of_start 1 _ _ _ p1
          (paged_poll_tail_unlocked 1 (Or.inr rfl) _ (Or.inr rfl))
  · obtain ⟨a, b, hcrc⟩ := fpd_dp_ser_clear_crc_wires E
      (fpd_dp_ser_stream_mapping E 0
        { (fpd_poll_vp_status E w).w with priv.count := 0 }).w
    refine pagedOk_of_wires _ _ (l ++ (fpd_dp_ser_stream_mapping_wire
      ++ fpd_dp_ser_clear_crc_wire a b ++ fpd_dp_deser_enable_wire)) ?_ ?_ ?_
    · rw [fpd_dp_deser_enable_wires, hcrc, fpd_dp_ser_stream_mapping_wires]
      show (wires (fpd_poll_vp_status E w).w.trace ++ _ ++ _) ++ _ = _
      rw [hl]
      simp only [List.append_assoc]
    · exact pagedRun_append_of_start 0 _ _ _ p0 (paged_poll_tail_locked 0 (Or.inl rfl) a b)
    · exact pagedRun_append_of_start 1 _ _ _ p1 (paged_poll_tail_locked 1 (Or.inr rfl) a b)

/-- C24: throughout the FPD-Link register traces the paged protocol is used
consistently, on every device and from every state.  What each function that
accesses the data register 0x42 adds to the trace (the serializer stages
`fpd_dp_ser_prog_plls` and `fpd_dp_ser_prog_vp_configs`, the deserializer
stages hold-DTG-reset, force-rate, setup-DTG and release-DTG-reset, and the
poller `fpd_poll_training_lock`), and what the whole serializer bring-up
`fpd_dp_ser_enable` and the whole deserializer bring-up `fpd_dp_deser_enable`
add, passes the scan `PagedOk` of both chips: no access to 0x42 comes before
the function's own write of the page-select register 0x40, and two accesses
to 0x42 with no write to 0x41 between them only occur while the value last
written to 0x40 has bit 1 (0x02) set. -/
theorem fpd_paged_protocol_consistent (E : Env σ) (w : FpdState σ) :
    PagedOk w.trace (fpd_dp_ser_prog_plls E 0 w).w.trace ∧
    PagedOk w.trace (fpd_dp_ser_prog_vp_configs E 0 w).w.trace ∧
    PagedOk w.trace (fpd_dp_deser_hold_dtg_reset E 1 w).trace ∧
    PagedOk w.trace (fpd_dp_deser_force_rate E 1 w).trace ∧
    PagedOk w.trace (fpd_dp_deser_setup_dtg E 1 w).trace ∧
    PagedOk w.trace (fpd_dp_deser_release_dtg_reset E 1 w).trace ∧
    PagedOk w.trace (fpd_poll_training_lock E w).trace ∧
    PagedOk w.trace (fpd_dp_ser_enable E w).w.trace ∧
    PagedOk w.trace (fpd_dp_deser_enable E w).trace :=
  ⟨paged_prog_plls E w, paged_prog_vp_configs E w, (paged_deser_stages E w).1,
    (paged_deser_stages E w).2.1, (paged_deser_stages E w).2.2.1,
    (paged_deser_stages E w).2.2.2, paged_poll_training_lock E w, paged_enable E w,
    paged_deser_enable E w⟩

/-- The scan rejects a trace that reads the data register before any page is
selected, and one that accesses it twice after one offset write while
auto-increment is off; it accepts the second when the auto-increment bit is
set. -/
theorem pagedRun_rejects_examples :
    pagedRun 0 PagedUse.start [Wire.wr 0 [0x41, 0x30], Wire.rd 0 [0x42]] = none ∧
    pagedRun 0 PagedUse.start
      [Wire.wr 0 [0x40, 0x08], Wire.wr 0 [0x41, 0x05], Wire.wr 0 [0x42, 0x60],
       Wire.wr 0 [0x42, 0x00]] = none ∧
    (pagedRun 0 PagedUse.start
      [Wire.wr 0 [0x40, 0x0a], Wire.wr 0 [0x41, 0x05], Wire.wr 0 [0x42, 0x60],
       Wire.wr 0 [0x42, 0x00]]).isSome = true := by
  decide

/-! ## Sub-stream setters of the MAX96722 driver -/

theorem testBit_of_lt_two_pow_64 (Q i : Nat) (hQ : Q < 2 ^ 64) (hi : 64 ≤ i) :
    Q.testBit i = false :=
  Nat.testBit_eq_false_of_lt (lt_of_lt_of_le hQ (Nat.pow_le_pow_right (by decide) hi))

theorem setfield_testBit (Q x lo width : Nat) (hQ : Q < 2 ^ 64) (hw : lo + width ≤ 64)
    (i : Nat) :
    (((Q &&& ((2 ^ lo - 1) ||| ((2 ^ (64 - (lo + width)) - 1) <<< (lo + width))))
        ||| ((x % 2 ^ width) <<< lo)) % 2 ^ 64).testBit i
      = if lo ≤ i ∧ i < lo + width then x.testBit (i - lo) else Q.testBit i := by
  simp only [Nat.testBit_mod_two_pow, Nat.testBit_or, Nat.testBit_and, Nat.testBit_shiftLeft,
    Nat.testBit_two_pow_sub_one]
  by_cases h64 : i < 64
  · by_cases h1 : i < lo
    · have h2 : ¬ (lo ≤ i ∧ i < lo + width) := by omega
      have h3 : ¬ (i ≥ lo + width) := by omega
      have h4 : ¬ (i ≥ lo) := by omega
      simp [h64, h1, h2, h3, h4]
    · by_cases h2 : i < lo + width
      · have h3 : lo ≤ i ∧ i < lo + width := ⟨by omega, h2⟩
        have h4 : ¬ (i ≥ lo + width) := by omega
        have h5 : i ≥ lo := by omega
        have h6 : i - lo < width := by omega
        simp [h64, h1, h3, h4, h5, h6]
      · have h3 : ¬ (lo ≤ i ∧ i < lo + width) := by omega
        have h4 : i ≥ lo + width := by omega
        have h5 : i ≥ lo := by omega
        have h6 : ¬ (i - lo < width) := by omega
        have h7 : i - (lo + width) < 64 - (lo + width) := by omega
        simp [h64, h1, h2, h3, h4, h5, h6, h7]
  · have h0 : Q.testBit i = false := testBit_of_lt_two_pow_64 Q i hQ (by omega)
    have h3 : ¬ (lo ≤ i ∧ i < lo + width) := by omega
    simp [h64, h0, h3]

theorem setfield_frame (q : Nat → Nat) (index x lo width W : Nat) (hw : lo + width ≤ 64)
    (hW : W = (((q index % 2 ^ 64) &&&
        ((2 ^ lo - 1) ||| ((2 ^ (64 - (lo + width)) - 1) <<< (lo + width))))
        ||| ((x % 2 ^ width) <<< lo)) % 2 ^ 64) :
    SetsOnlyField q (Function.update q index W) index x lo width := by
  have hQ : q index % 2 ^ 64 < 2 ^ 64 := Nat.mod_lt _ (by decide)
  have hb := setfield_testBit (q index % 2 ^ 64) x lo width hQ hw
  rw [← hW] at hb
  refine ⟨?_, ?_, ?_⟩
  · rw [Function.update_same]
    apply Nat.eq_of_testBit_eq
    intro i
    simp only [sub_stream_field, Nat.testBit_mod_two_pow, Nat.testBit_shiftRight, hb]
    by_cases hi : i < width
    · have h1 : lo ≤ lo + i ∧ lo + i < lo + width := ⟨by omega, by omega⟩
      simp [hi, h1]
    · simp [hi]
  · intro i hi
    rw [Function.update_same, hb]
    have h1 : ¬ (lo ≤ i ∧ i < lo + width) := by omega
    rw [if_neg h1]
  · intro j hj
    exact Function.update_noteq hj _ _

theorem mod32_and_ffff (x : Nat) : (x % 2 ^ 32) &&& 0xFFFF = x % 2 ^ 16 := by
  have e : (0xFFFF : Nat) = 2 ^ 16 - 1 := by decide
  rw [e, Nat.and_pow_two_sub_one_eq_mod]
  omega

theorem mod32_and_ff (x : Nat) : (x % 2 ^ 32) &&& 0xFF = x % 2 ^ 8 := by
  have e : (0xFF : Nat) = 2 ^ 8 - 1 := by decide
  rw [e, Nat.and_pow_two_sub_one_eq_mod]
  omega

theorem set_sub_stream_h_frame (q : Nat → Nat) (index x : Nat) :
    SetsOnlyField q (set_sub_stream_h q index x) index x 16 16 := by
  apply setfield_frame q index x 16 16 _ (by decide)
  simp only [mod32_and_ffff]
  rfl

theorem set_sub_stream_w_frame (q : Nat → Nat) (index x : Nat) :
    SetsOnlyField q (set_sub_stream_w q index x) index x 32 16 := by
  apply setfield_frame q index x 32 16 _ (by decide)
  simp only [mod32_and_ffff]
  rfl

theorem set_sub_stream_dt_frame (q : Nat → Nat) (index x : Nat) :
    SetsOnlyField q (set_sub_stream_dt q index x) index x 48 8 := by
  apply setfield_frame q index x 48 8 _ (by decide)
  simp only [mod32_and_ff]
  rfl

theorem set_sub_stream_vc_id_frame (q : Nat → Nat) (index x : Nat) :
    SetsOnlyField q (set_sub_stream_vc_id q index x) index x 56 8 := by
  apply setfield_frame q index x 56 8 _ (by decide)
  simp only [mod32_and_ff]
  rfl

theorem set_sub_stream_fmt_frame (q : Nat → Nat) (index code : Nat)
    (h : code % 2 ^ 32 < 2 ^ 16) :
    SetsOnlyField q (set_sub_stream_fmt q index code) index code 0 16 := by
  apply setfield_frame q index code 0 16 _ (by decide)
  have e : code % 2 ^ 32 = code % 2 ^ 16 := by omega
  simp only [Nat.shiftLeft_zero, ← e]
  rfl

theorem set_sub_stream_fmt_height (q : Nat → Nat) (index code : Nat) :
    sub_stream_field (set_sub_stream_fmt q index code index) 16 16
      = sub_stream_field (q index % 2 ^ 64) 16 16 ||| (code % 2 ^ 32) >>> 16 := by
  have e : (0xFFFFFFFFFFFF0000 : Nat) = (2 ^ 48 - 1) <<< 16 := by decide
  have hc : code % 2 ^ 32 < 2 ^ 32 := Nat.mod_lt _ (by decide)
  apply Nat.eq_of_testBit_eq
  intro i
  simp only [set_sub_stream_fmt, Function.update_same, sub_stream_field, e,
    Nat.testBit_mod_two_pow, Nat.testBit_shiftRight, Nat.testBit_or, Nat.testBit_and,
    Nat.testBit_shiftLeft, Nat.testBit_two_pow_sub_one]
  by_cases hi : i < 16
  · have h1 : 16 + i < 64 := by omega
    have h2 : 16 + i ≥ 16 := by omega
    have h3 : 16 + i - 16 < 48 := by omega
    have h4 : i < 48 := by omega
    simp [hi, h1, h2, h3, h4]
  · have h0 : ¬ (16 + i < 32) := by omega
    simp [hi, h0]

/-- C28 (what the code does): the four setters `set_sub_stream_h`, `_w`,
`_dt` and `_vc_id` change only their own field of the packed word (bits
16-31, 32-47, 48-55 and 56-63), for every argument and every prior array;
`set_sub_stream_fmt` does so only for a code below 0x10000: it or-s the
unmasked 32-bit code into the word, so the height field (bits 16-31) comes
out or-ed with the upper half of the code, and for the code 0x10000 on a
zero word the height field changes from 0 to 1. -/
theorem set_sub_stream_fmt_spills_into_height :
    (∀ (q : Nat → Nat) (index x : Nat),
      SetsOnlyField q (set_sub_stream_h q index x) index x 16 16 ∧
      SetsOnlyField q (set_sub_stream_w q index x) index x 32 16 ∧
      SetsOnlyField q (set_sub_stream_dt q index x) index x 48 8 ∧
      SetsOnlyField q (set_sub_stream_vc_id q index x) index x 56 8) ∧
    (∀ (q : Nat → Nat) (index code : Nat), code % 2 ^ 32 < 2 ^ 16 →
      SetsOnlyField q (set_sub_stream_fmt q index code) index code 0 16) ∧
    (∀ (q : Nat → Nat) (index code : Nat),
      sub_stream_field (set_sub_stream_fmt q index code index) 16 16
        = sub_stream_field (q index % 2 ^ 64) 16 16 ||| (code % 2 ^ 32) >>> 16) ∧
    sub_stream_field ((fun _ => 0) 0) 16 16 = 0 ∧
    sub_stream_field (set_sub_stream_fmt (fun _ => 0) 0 0x10000 0) 16 16 = 1 ∧
    ¬ SetsOnlyField (fun _ => 0) (set_sub_stream_fmt (fun _ => 0) 0 0x10000) 0 0x10000 0 16 := by
  refine ⟨fun q index x => ⟨set_sub_stream_h_frame q index x, set_sub_stream_w_frame q index x,
    set_sub_stream_dt_frame q index x, set_sub_stream_vc_id_frame q index x⟩,
    set_sub_stream_fmt_frame, set_sub_stream_fmt_height, by decide, by decide, ?_⟩
  intro h
  have h16 := h.2.1 16 (Or.inr (by decide))
  revert h16
  decide

/-- Witness of the masked case of C28: the code 0x2008 set into a word that
is all ones. -/
theorem set_sub_stream_fmt_spills_into_height_witness :
    0x2008 % 2 ^ 32 < 2 ^ 16 ∧
    SetsOnlyField (fun _ => 0xFFFFFFFFFFFFFFFF)
      (set_sub_stream_fmt (fun _ => 0xFFFFFFFFFFFFFFFF) 1 0x2008) 1 0x2008 0 16 :=
  ⟨by decide, set_sub_stream_fmt_spills_into_height.2.1 (fun _ => 0xFFFFFFFFFFFFFFFF) 1 0x2008
    (by decide)⟩

/-! ## Stream reference count of the MAX96722 driver -/

theorem regWrites_append (a b : List RegOp) : regWrites (a ++ b) = regWrites a ++ regWrites b := by
  simp [regWrites]

theorem max96722_write_regWrites (R : Regmap σ) (reg val : Nat) (w : Max96722State σ) :
    regWrites (max96722_write R reg val w).w.trace
      = regWrites w.trace ++ [(reg % 2 ^ 32, val % 2 ^ 32)] := by
  simp [max96722_write, regmap_write, regWrites]

theorem max96722_s_stream_vc_unbound (V : Max96722Env σ) (vc_id state : Nat)
    (p : Max96722Streams σ) (hv : vc_id < 256)
    (h : (p.bound_sources % 2 ^ 32) &&& BIT vc_id = 0) :
    max96722_s_stream_vc V vc_id state p = ⟨- EIO, p⟩ := by
  simp only [max96722_s_stream_vc, Nat.mod_eq_of_lt hv, if_pos h]

theorem max96722_s_stream_vc_enable (V : Max96722Env σ) (vc_id state : Nat)
    (p : Max96722Streams σ) (hv : vc_id < 256) (hst : state < 256)
    (hb : (p.bound_sources % 2 ^ 32) &&& BIT vc_id ≠ 0)
    (hcall : (V.s_stream p.w.dev vc_id state).1 = 0) (hs : state ≠ 0) :
    (max96722_s_stream_vc V vc_id state p).ret = 0 ∧
    (max96722_s_stream_vc V vc_id state p).p.bound_sources = p.bound_sources ∧
    (max96722_s_stream_vc V vc_id state p).p.stream_count = (p.stream_count + 1) % 2 ^ 32 ∧
    regWrites (max96722_s_stream_vc V vc_id state p).p.w.trace
      = regWrites p.w.trace
        ++ (if p.stream_count = 0 then [(0x8a0, 0x04), (0x8a0, 0x84)] else []) := by
  have hc : ¬ ((V.s_stream p.w.dev vc_id state).1 ≠ 0) := fun h => h hcall
  by_cases h0 : p.stream_count = 0
  · have h1 : ¬ (p.stream_count ≠ 0) := fun h => h h0
    simp only [max96722_s_stream_vc, Nat.mod_eq_of_lt hv, Nat.mod_eq_of_lt hst, if_neg hb,
      if_neg hc, if_pos hs, if_neg h1, if_pos h0, max96722_write_regWrites]
    simp
  · have h1 : p.stream_count ≠ 0 := h0
    simp only [max96722_s_stream_vc, Nat.mod_eq_of_lt hv, Nat.mod_eq_of_lt hst, if_neg hb,
      if_neg hc, if_pos hs, if_pos h1, if_neg h0]
    simp

theorem max96722_s_stream_vc_disable (V : Max96722Env σ) (vc_id : Nat)
    (p : Max96722Streams σ) (hsc : p.stream_count < 2 ^ 32) (hv : vc_id < 256)
    (hb : (p.bound_sources % 2 ^ 32) &&& BIT vc_id ≠ 0)
    (hcall : (V.s_stream p.w.dev vc_id 0).1 = 0) :
    (max96722_s_stream_vc V vc_id 0 p).ret = 0 ∧
    (max96722_s_stream_vc V vc_id 0 p).p.bound_sources = p.bound_sources ∧
    (max96722_s_stream_vc V vc_id 0 p).p.stream_count
      = (p.stream_count + 2 ^ 32 - 1) % 2 ^ 32 ∧
    regWrites (max96722_s_stream_vc V vc_id 0 p).p.w.trace
      = regWrites p.w.trace ++ (if p.stream_count = 1 then [(0x8a0, 0x04)] else []) := by
  have hc : ¬ ((V.s_stream p.w.dev vc_id 0).1 ≠ 0) := fun h => h hcall
  have hs : ¬ ((0 : Nat) ≠ 0) := fun h => h rfl
  by_cases h1 : p.stream_count = 1
  · have h2 : ¬ ((p.stream_count + 2 ^ 32 - 1) % 2 ^ 32 ≠ 0) := by
      rw [h1]; decide
    simp only [max96722_s_stream_vc, Nat.mod_eq_of_lt hv, Nat.zero_mod, if_neg hb, if_neg hc,
      if_neg hs, if_neg h2, if_pos h1, max96722_write_regWrites]
    simp
  · have h2 : (p.stream_count + 2 ^ 32 - 1) % 2 ^ 32 ≠ 0 := by omega
    simp only [max96722_s_stream_vc, Nat.mod_eq_of_lt hv, Nat.zero_mod, if_neg hb, if_neg hc,
      if_neg hs, if_pos h2, if_neg h1]
    simp

/-- For an index of 64 or more the test of `bound_sources` looks at bit
`vc_id mod 64`: a call for index 64 with link 0 bound passes the test and
reaches the sub-device call, and does not return `-EIO`. -/
theorem max96722_s_stream_vc_index_64_example :
    BIT 64 = 1 ∧
    (max96722_s_stream_vc max96722OkEnv 64 1 (max96722StreamsAt 1 0)).ret ≠ - EIO ∧
    (max96722_s_stream_vc max96722OkEnv 64 1 (max96722StreamsAt 2 0)).ret = - EIO := by
  decide

/-- C29: `max96722_s_stream_vc` keeps `stream_count` as a reference count.
For every environment and state (with `stream_count` an `unsigned int`),
every channel index `vc_id` below 64, the range in which C defines the shift
of `BIT(vc_id)`, and every `u8` value `state`: a call for an unbound channel
returns `-EIO` and leaves the whole state as it was (no write); for a bound
channel whose sub-device call succeeds, an enable
returns 0, raises `stream_count` by one and issues the power-on writes
0x8a0 <- 0x04, 0x8a0 <- 0x84 exactly when the count was 0 (so goes 0 to 1); a
disable returns 0, lowers the count by one and issues the power-off write
0x8a0 <- 0x04 exactly when the count was 1 (so goes 1 to 0); and an enable
followed by a disable, both succeeding, restores `stream_count`. -/
theorem max96722_stream_count_is_refcount (V : Max96722Env σ) (vc_id state : Nat)
    (p : Max96722Streams σ) (hsc : p.stream_count < 2 ^ 32) (hvc : vc_id < 64)
    (hst : state < 256) :
    ((p.bound_sources % 2 ^ 32) &&& BIT vc_id = 0 →
      (max96722_s_stream_vc V vc_id state p).ret = - EIO ∧
      (max96722_s_stream_vc V vc_id state p).p = p) ∧
    ((p.bound_sources % 2 ^ 32) &&& BIT vc_id ≠ 0 →
      (V.s_stream p.w.dev vc_id state).1 = 0 → state ≠ 0 →
      (max96722_s_stream_vc V vc_id state p).ret = 0 ∧
      (max96722_s_stream_vc V vc_id state p).p.stream_count = (p.stream_count + 1) % 2 ^ 32 ∧
      regWrites (max96722_s_stream_vc V vc_id state p).p.w.trace
        = regWrites p.w.trace
          ++ (if p.stream_count = 0 then [(0x8a0, 0x04), (0x8a0, 0x84)] else [])) ∧
    ((p.bound_sources % 2 ^ 32) &&& BIT vc_id ≠ 0 →
      (V.s_stream p.w.dev vc_id 0).1 = 0 →
      (max96722_s_stream_vc V vc_id 0 p).ret = 0 ∧
      (max96722_s_stream_vc V vc_id 0 p).p.stream_count
        = (p.stream_count + 2 ^ 32 - 1) % 2 ^ 32 ∧
      regWrites (max96722_s_stream_vc V vc_id 0 p).p.w.trace
        = regWrites p.w.trace ++ (if p.stream_count = 1 then [(0x8a0, 0x04)] else [])) ∧
    ((p.bound_sources % 2 ^ 32) &&& BIT vc_id ≠ 0 →
      (V.s_stream p.w.dev vc_id state).1 = 0 → state ≠ 0 →
      (V.s_stream (max96722_s_stream_vc V vc_id state p).p.w.dev vc_id 0).1 = 0 →
      (max96722_s_stream_vc V vc_id 0 (max96722_s_stream_vc V vc_id state p).p).ret = 0 ∧
      (max96722_s_stream_vc V vc_id 0 (max96722_s_stream_vc V vc_id state p).p).p.stream_count
        = p.stream_count) := by
  have hv : vc_id < 256 := by omega
  refine ⟨?_, ?_, ?_, ?_⟩
  · intro h
    rw [max96722_s_stream_vc_unbound V vc_id state p hv h]
    exact ⟨rfl, rfl⟩
  · intro hb hcall hs
    obtain ⟨r1, -, r3, r4⟩ := max96722_s_stream_vc_enable V vc_id state p hv hst hb hcall hs
    exact ⟨r1, r3, r4⟩
  · intro hb hcall
    obtain ⟨r1, -, r3, r4⟩ := max96722_s_stream_vc_disable V vc_id p hsc hv hb hcall
    exact ⟨r1, r3, r4⟩
  · intro hb hcall hs hcall2
    obtain ⟨-, e2, e3, -⟩ := max96722_s_stream_vc_enable V vc_id state p hv hst hb hcall hs
    have hsc2 : (max96722_s_stream_vc V vc_id state p).p.stream_count < 2 ^ 32 := by
      rw [e3]; exact Nat.mod_lt _ (by decide)
    have hb2 : ((max96722_s_stream_vc V vc_id state p).p.bound_sources % 2 ^ 32)
        &&& BIT vc_id ≠ 0 := by rw [e2]; exact hb
    obtain ⟨d1, -, d3, -⟩ := max96722_s_stream_vc_disable V vc_id
      (max96722_s_stream_vc V vc_id state p).p hsc2 hv hb2 hcall2
    refine ⟨d1, ?_⟩
    rw [d3, e3]
    omega

/-- Witness of C29 on the model environment with link 1 bound: an enable
from count 0, a disable from count 1, their composition, and a call for the
unbound link 0. -/
theorem max96722_stream_count_is_refcount_witness :
    ((max96722StreamsAt 2 0).stream_count < 2 ^ 32 ∧ (1 : Nat) < 64 ∧ (1 : Nat) < 256 ∧
      ((max96722StreamsAt 2 0).bound_sources % 2 ^ 32) &&& BIT 1 ≠ 0 ∧
      (max96722OkEnv.s_stream (max96722StreamsAt 2 0).w.dev 1 1).1 = 0 ∧ (1 : Nat) ≠ 0 ∧
      regWrites (max96722_s_stream_vc max96722OkEnv 1 1 (max96722StreamsAt 2 0)).p.w.trace
        = [(0x8a0, 0x04), (0x8a0, 0x84)]) ∧
    ((max96722StreamsAt 2 1).stream_count < 2 ^ 32 ∧
      regWrites (max96722_s_stream_vc max96722OkEnv 1 0 (max96722StreamsAt 2 1)).p.w.trace
        = [(0x8a0, 0x04)]) ∧
    (max96722_s_stream_vc max96722OkEnv 1 0
      (max96722_s_stream_vc max96722OkEnv 1 1 (max96722StreamsAt 2 0)).p).p.stream_count = 0 ∧
    (((max96722StreamsAt 2 0).bound_sources % 2 ^ 32) &&& BIT 0 = 0 ∧
      (max96722_s_stream_vc max96722OkEnv 0 1 (max96722StreamsAt 2 0)).ret = - EIO) :=
  ⟨⟨by decide, by decide, by decide, by decide, rfl, by decide,
      ((max96722_stream_count_is_refcount max96722OkEnv 1 1 (max96722StreamsAt 2 0)
        (by decide) (by decide) (by decide)).2.1 (by decide) rfl (by decide)).2.2⟩,
    ⟨by decide,
      ((max96722_stream_count_is_refcount max96722OkEnv 1 0 (max96722StreamsAt 2 1)
        (by decide) (by decide) (by decide)).2.2.1 (by decide) rfl).2.2⟩,
    ((max96722_stream_count_is_refcount max96722OkEnv 1 1 (max96722StreamsAt 2 0)
      (by decide) (by decide) (by decide)).2.2.2 (by decide) rfl (by decide) rfl).2,
    ⟨by decide,
      ((max96722_stream_count_is_refcount max96722OkEnv 0 1 (max96722StreamsAt 2 0)
        (by decide) (by decide) (by decide)).1 (by decide)).1⟩⟩

/-! ## The index `max96722_s_ctrl` stores at -/

/-- C30 (what the code does): `max96722_s_ctrl` stores into
`max96722_set_sub_stream` at the index taken from bits 8-15 of the control
value before any check, so the store is outside the array whenever that
index is not below the array length: for the 4-entry array and the value
0x0401 of the declared range the store goes to index 4, and only afterwards
does `max96722_s_stream_vc` return `-EIO`. -/
theorem max96722_s_ctrl_stores_before_checking (V : Max96722Env σ) (p_s64 : Int)
    (p : Max96722Streams σ) :
    (max96722_s_ctrl V p_s64 p).oob
      = (if (p_s64 % 65536).toNat / 256 < p.set_sub_stream.length then none
         else some ((p_s64 % 65536).toNat / 256)) ∧
    (max96722_s_ctrl max96722OkEnv 0x0401 (max96722StreamsAt 0xF 0)).oob = some 4 ∧
    (max96722_s_ctrl max96722OkEnv 0xff01 (max96722StreamsAt 0xF 0)).oob = some 255 ∧
    (max96722_s_ctrl max96722OkEnv 0x0401 (max96722StreamsAt 0xF 0)).ret = - EIO ∧
    (max96722StreamsAt 0xF 0).set_sub_stream.length = 4 := by
  refine ⟨?_, by decide, by decide, by decide, rfl⟩
  have hv : (p_s64 % 65536).toNat < 65536 := by
    have h1 : 0 ≤ p_s64 % 65536 := Int.emod_nonneg _ (by decide)
    have h2 : p_s64 % 65536 < 65536 := Int.emod_lt_of_pos _ (by decide)
    omega
  have hx : (((p_s64 % 65536).toNat >>> 8) &&& 0xff) % 256 = (p_s64 % 65536).toNat / 256 := by
    rw [and_255, Nat.shiftRight_eq_div_pow]
    omega
  simp only [max96722_s_ctrl, hx]

/-! ## Outcomes of the EC driver code -/

theorem Run.andThen_done {α β : Type} (r : Run σ α) (f : α → EcState σ → Run σ β)
    (b : β) (w2 : EcState σ) (h : r.andThen f = Run.done b w2) :
    ∃ a w1, r = Run.done a w1 ∧ f a w1 = Run.done b w2 := by
  cases r with
  | done a w1 => exact ⟨a, w1, rfl, h⟩
  | spin w1 => cases h

theorem Run.andThen_not_done {α β : Type} (r : Run σ α) (f : α → EcState σ → Run σ β)
    (h : r.isDone = false) : (r.andThen f).isDone = false := by
  cases r with
  | done a w1 => cases h
  | spin w1 => rfl

theorem Run.isDone_iff {α : Type} (r : Run σ α) :
    r.isDone = true ↔ ∃ a w, r = Run.done a w := by
  cases r with
  | done a w => exact ⟨fun _ => ⟨a, w, rfl⟩, fun _ => rfl⟩
  | spin w =>
    constructor
    · intro h
      cases h
    · intro h
      obtain ⟨a, w2, h2⟩ := h
      cases h2

/-- A property of the state that every step keeps is kept by a sequence,
whether it returns or not. -/
theorem Run.andThen_keeps {α β : Type} (P : EcState σ → Prop) (r : Run σ α)
    (f : α → EcState σ → Run σ β) (hr : P r.state)
    (hf : ∀ a w1, P w1 → P (f a w1).state) : P (r.andThen f).state := by
  cases r with
  | done a w1 => exact hf a w1 hr
  | spin w1 => exact hr

/-! ## Frame: the port helpers do not touch the globals -/

theorem EcFrame.refl (w : EcState σ) : EcFrame w w := ⟨rfl, rfl⟩

theorem EcFrame.trans {w1 w2 w3 : EcState σ} (h1 : EcFrame w1 w2) (h2 : EcFrame w2 w3) :
    EcFrame w1 w3 := ⟨h2.1.trans h1.1, h2.2.trans h1.2⟩

theorem EcFrame.andThen {α β : Type} (w : EcState σ) (r : Run σ α)
    (f : α → EcState σ → Run σ β) (hr : EcFrame w r.state)
    (hf : ∀ a w1, EcFrame w1 (f a w1).state) : EcFrame w (r.andThen f).state :=
  Run.andThen_keeps (fun s => EcFrame w s) r f hr (fun a w1 h => h.trans (hf a w1))

theorem inb_frame (D : EcPorts σ) (port : Nat) (w : EcState σ) : EcFrame w (inb D port w).2 :=
  ⟨rfl, rfl⟩

theorem outb_frame (D : EcPorts σ) (v port : Nat) (w : EcState σ) :
    EcFrame w (outb D v port w) := ⟨rfl, rfl⟩

theorem wait_ec_ibe_loop_frame (D : EcPorts σ) :
    ∀ (n status : Nat) (w : EcState σ), EcFrame w (wait_ec_ibe_loop D n status w).state := by
  intro n
  induction n with
  | zero =>
    intro status w
    simp only [wait_ec_ibe_loop]
    split <;> exact EcFrame.refl w
  | succ n ih =>
    intro status w
    simp only [wait_ec_ibe_loop]
    split
    · exact (inb_frame D EC_STATUS w).trans (ih _ _)
    · exact EcFrame.refl w

theorem wait_ec_obf_loop_frame (D : EcPorts σ) :
    ∀ (n status : Nat) (w : EcState σ), EcFrame w (wait_ec_obf_loop D n status w).state := by
  intro n
  induction n with
  | zero =>
    intro status w
    simp only [wait_ec_obf_loop]
    split <;> exact EcFrame.refl w
  | succ n ih =>
    intro status w
    simp only [wait_ec_obf_loop]
    split
    · exact (inb_frame D EC_STATUS w).trans (ih _ _)
    · exact EcFrame.refl w

theorem wait_ec_ibe_frame (D : EcPorts σ) (fuel : Nat) (w : EcState σ) :
    EcFrame w (wait_ec_ibe D fuel w).state :=
  (inb_frame D EC_STATUS w).trans (wait_ec_ibe_loop_frame D _ _ _)

theorem wait_ec_obf_frame (D : EcPorts σ) (fuel : Nat) (w : EcState σ) :
    EcFrame w (wait_ec_obf D fuel w).state :=
  (inb_frame D EC_STATUS w).trans (wait_ec_obf_loop_frame D _ _ _)

theorem send_cmd_to_pm_frame (D : EcPorts σ) (fuel cmd : Nat) (w : EcState σ) :
    EcFrame w (send_cmd_to_pm D fuel cmd w).state :=
  EcFrame.andThen w _ _ (wait_ec_ibe_frame D fuel w)
    (fun _ w1 => (outb_frame D cmd EC_CMD w1).trans (wait_ec_ibe_frame D fuel _))

theorem read_data_from_pm_frame (D : EcPorts σ) (fuel : Nat) (w : EcState σ) :
    EcFrame w (read_data_from_pm D fuel w).state :=
  EcFrame.andThen w _ _ (wait_ec_obf_frame D fuel w) (fun _ w1 => inb_frame D EC_DATA w1)

theorem follow_mode_frame (D : EcPorts σ) (fuel m : Nat) (w : EcState σ) :
    EcFrame w (follow_mode D fuel m w).state := send_cmd_to_pm_frame D fuel m w

theorem send_cmd_to_ec_frame (D : EcPorts σ) (fuel cmd : Nat) (w : EcState σ) :
    EcFrame w (send_cmd_to_ec D fuel cmd w).state :=
  EcFrame.andThen w _ _ (send_cmd_to_pm_frame D fuel _ w)
    (fun _ w1 => send_cmd_to_pm_frame D fuel cmd w1)

theorem send_byte_to_ec_frame (D : EcPorts σ) (fuel b : Nat) (w : EcState σ) :
    EcFrame w (send_byte_to_ec D fuel b w).state :=
  EcFrame.andThen w _ _ (send_cmd_to_pm_frame D fuel _ w)
    (fun _ w1 => send_cmd_to_pm_frame D fuel b w1)

theorem read_byte_from_ec_frame (D : EcPorts σ) (fuel : Nat) (w : EcState σ) :
    EcFrame w (read_byte_from_ec D fuel w).state :=
  EcFrame.andThen w _ _ (send_cmd_to_pm_frame D fuel _ w)
    (fun _ w1 => read_data_from_pm_frame D fuel w1)

theorem wait_for_ec_free_loop_frame (D : EcPorts σ) (fuel : Nat) :
    ∀ (n : Nat) (w : EcState σ), EcFrame w (wait_for_ec_free_loop D fuel n w).state := by
  intro n
  induction n with
  | zero =>
    intro w
    simp only [wait_for_ec_free_loop]
    refine EcFrame.andThen w _ _ (read_byte_from_ec_frame D fuel w) (fun b w1 => ?_)
    split <;> exact EcFrame.refl w1
  | succ n ih =>
    intro w
    simp only [wait_for_ec_free_loop]
    refine EcFrame.andThen w _ _ (read_byte_from_ec_frame D fuel w) (fun b w1 => ?_)
    split
    · exact ih w1
    · exact EcFrame.refl w1

theorem enable_flash_write_loop_frame (D : EcPorts σ) (fuel : Nat) :
    ∀ (n : Nat) (w : EcState σ), EcFrame w (enable_flash_write_loop D fuel n w).state := by
  intro n
  induction n with
  | zero =>
    intro w
    simp only [enable_flash_write_loop]
    refine EcFrame.andThen w _ _ (read_byte_from_ec_frame D fuel w) (fun b w1 => ?_)
    split <;> exact EcFrame.refl w1
  | succ n ih =>
    intro w
    simp only [enable_flash_write_loop]
    refine EcFrame.andThen w _ _ (read_byte_from_ec_frame D fuel w) (fun b w1 => ?_)
    split
    · exact ih w1
    · exact EcFrame.refl w1

theorem wait_for_ec_free_frame (D : EcPorts σ) (fuel : Nat) (w : EcState σ) :
    EcFrame w (wait_for_ec_free D fuel w).state :=
  EcFrame.andThen w _ _ (follow_mode_frame D fuel _ w) fun _ w1 =>
  EcFrame.andThen w1 _ _ (send_cmd_to_ec_frame D fuel _ w1) fun _ w2 =>
  EcFrame.andThen w2 _ _ (wait_for_ec_free_loop_frame D fuel _ w2) fun _ w3 =>
  follow_mode_frame D fuel _ w3

theorem enable_flash_write_frame (D : EcPorts σ) (fuel : Nat) (w : EcState σ) :
    EcFrame w (enable_flash_write D fuel w).state :=
  EcFrame.andThen w _ _ (wait_for_ec_free_frame D fuel w) fun _ w1 =>
  EcFrame.andThen w1 _ _ (follow_mode_frame D fuel _ w1) fun _ w2 =>
  EcFrame.andThen w2 _ _ (send_cmd_to_ec_frame D fuel _ w2) fun _ w3 =>
  EcFrame.andThen w3 _ _ (send_byte_to_ec_frame D fuel _ w3) fun _ w4 =>
  EcFrame.andThen w4 _ _ (follow_mode_frame D fuel _ w4) fun _ w5 =>
  EcFrame.andThen w5 _ _ (send_cmd_to_ec_frame D fuel _ w5) fun _ w6 =>
  EcFrame.andThen w6 _ _ (follow_mode_frame D fuel _ w6) fun _ w7 =>
  EcFrame.andThen w7 _ _ (send_cmd_to_ec_frame D fuel _ w7) fun _ w8 =>
  EcFrame.andThen w8 _ _ (enable_flash_write_loop_frame D fuel _ w8) fun _ w9 =>
  follow_mode_frame D fuel _ w9

theorem ec_send_bytes_frame (D : EcPorts σ) (fuel : Nat) (l : List Nat) :
    ∀ w : EcState σ, EcFrame w (ec_send_bytes D fuel l w).state := by
  induction l with
  | nil => intro w; exact EcFrame.refl w
  | cons b rest ih =>
    intro w
    exact EcFrame.andThen w _ _ (send_byte_to_ec_frame D fuel b w) (fun _ w1 => ih w1)

/-! ## The byte stream of the EC helpers -/

theorem ec_outs_append (a b : List PortOp) : ec_outs (a ++ b) = ec_outs a ++ ec_outs b := by
  simp [ec_outs]

theorem inb_outs (D : EcPorts σ) (port : Nat) (w : EcState σ) :
    ec_outs (inb D port w).2.trace = ec_outs w.trace := by
  simp [inb, ec_outs]

theorem outb_outs (D : EcPorts σ) (v : Nat) (w : EcState σ) :
    ec_outs (outb D v EC_CMD w).trace = ec_outs w.trace ++ [v % 256] := by
  simp [outb, ec_outs]

theorem wait_ec_ibe_loop_outs (D : EcPorts σ) :
    ∀ (n status : Nat) (w : EcState σ),
      ec_outs (wait_ec_ibe_loop D n status w).state.trace = ec_outs w.trace := by
  intro n
  induction n with
  | zero =>
    intro status w
    simp only [wait_ec_ibe_loop]
    split <;> rfl
  | succ n ih =>
    intro status w
    simp only [wait_ec_ibe_loop]
    split
    · rw [ih, inb_outs]
    · rfl

theorem wait_ec_obf_loop_outs (D : EcPorts σ) :
    ∀ (n status : Nat) (w : EcState σ),
      ec_outs (wait_ec_obf_loop D n status w).state.trace = ec_outs w.trace := by
  intro n
  induction n with
  | zero =>
    intro status w
    simp only [wait_ec_obf_loop]
    split <;> rfl
  | succ n ih =>
    intro status w
    simp only [wait_ec_obf_loop]
    split
    · rw [ih, inb_outs]
    · rfl

theorem wait_ec_ibe_outs (D : EcPorts σ) (fuel : Nat) (w : EcState σ) :
    ec_outs (wait_ec_ibe D fuel w).state.trace = ec_outs w.trace := by
  simp only [wait_ec_ibe, wait_ec_ibe_loop_outs, inb_outs]

theorem wait_ec_obf_outs (D : EcPorts σ) (fuel : Nat) (w : EcState σ) :
    ec_outs (wait_ec_obf D fuel w).state.trace = ec_outs w.trace := by
  simp only [wait_ec_obf, wait_ec_obf_loop_outs, inb_outs]

/-- What a step that returned has added to the byte stream. -/
theorem send_cmd_to_pm_outs (D : EcPorts σ) (fuel cmd : Nat) (w w2 : EcState σ) (u : Unit)
    (h : send_cmd_to_pm D fuel cmd w = Run.done u w2) :
    ec_outs w2.trace = ec_outs w.trace ++ [cmd % 256] := by
  obtain ⟨a, w1, h1, h2⟩ := Run.andThen_done _ _ _ _ h
  have e1 := wait_ec_ibe_outs D fuel w
  rw [h1] at e1
  have e2 := wait_ec_ibe_outs D fuel (outb D cmd EC_CMD w1)
  rw [h2] at e2
  simp only [Run.state] at e1 e2
  rw [e2, outb_outs, e1]

theorem read_data_from_pm_outs (D : EcPorts σ) (fuel : Nat) (w w2 : EcState σ) (b : Nat)
    (h : read_data_from_pm D fuel w = Run.done b w2) :
    ec_outs w2.trace = ec_outs w.trace := by
  obtain ⟨a, w1, h1, h2⟩ := Run.andThen_done _ _ _ _ h
  have e1 := wait_ec_obf_outs D fuel w
  rw [h1] at e1
  simp only [Run.state] at e1
  simp only [Run.done.injEq] at h2
  rw [← h2.2, inb_outs, e1]

theorem send_cmd_to_ec_outs (D : EcPorts σ) (fuel cmd : Nat) (w w2 : EcState σ) (u : Unit)
    (h : send_cmd_to_ec D fuel cmd w = Run.done u w2) :
    ec_outs w2.trace = ec_outs w.trace ++ [SEND_CMD, cmd % 256] := by
  obtain ⟨a, w1, h1, h2⟩ := Run.andThen_done _ _ _ _ h
  rw [send_cmd_to_pm_outs D fuel _ _ _ _ h2, send_cmd_to_pm_outs D fuel _ _ _ _ h1]
  simp [SEND_CMD]

theorem send_byte_to_ec_outs (D : EcPorts σ) (fuel b : Nat) (w w2 : EcState σ) (u : Unit)
    (h : send_byte_to_ec D fuel b w = Run.done u w2) :
    ec_outs w2.trace = ec_outs w.trace ++ [SEND_BYTE, b % 256] := by
  obtain ⟨a, w1, h1, h2⟩ := Run.andThen_done _ _ _ _ h
  rw [send_cmd_to_pm_outs D fuel _ _ _ _ h2, send_cmd_to_pm_outs D fuel _ _ _ _ h1]
  simp [SEND_BYTE]

theorem read_byte_from_ec_outs (D : EcPorts σ) (fuel : Nat) (w w2 : EcState σ) (b : Nat)
    (h : read_byte_from_ec D fuel w = Run.done b w2) :
    ec_outs w2.trace = ec_outs w.trace ++ [READ_BYTE] := by
  obtain ⟨a, w1, h1, h2⟩ := Run.andThen_done _ _ _ _ h
  rw [read_data_from_pm_outs D fuel _ _ _ h2, send_cmd_to_pm_outs D fuel _ _ _ _ h1]
  simp [READ_BYTE]

/-! ## Streams that do not send a flash command -/

theorem ec_quiet_cons (cmd x : Nat) (l : List Nat) (hx : x ≠ SEND_CMD)
    (h : ec_quiet cmd l = true) : ec_quiet cmd (x :: l) = true := by
  cases l with
  | nil => simp [ec_quiet, hx]
  | cons y rest => simp [ec_quiet, hx, h]

theorem ec_quiet_append (cmd : Nat) (a b : List Nat) (ha : ec_quiet cmd a = true)
    (hb : ec_quiet cmd b = true) : ec_quiet cmd (a ++ b) = true := by
  induction a with
  | nil => exact hb
  | cons x rest ih =>
    cases rest with
    | nil =>
      simp only [ec_quiet, decide_eq_true_eq] at ha
      exact ec_quiet_cons cmd x b ha hb
    | cons y rest2 =>
      simp only [ec_quiet, Bool.and_eq_true, decide_eq_true_eq] at ha
      have h2 := ih ha.2
      simp only [List.cons_append] at h2 ⊢
      simp only [ec_quiet, Bool.and_eq_true, decide_eq_true_eq]
      exact ⟨ha.1, h2⟩

theorem ec_quiet_replicate (cmd x n : Nat) (hx : x ≠ SEND_CMD) :
    ec_quiet cmd (List.replicate n x) = true := by
  induction n with
  | zero => rfl
  | succ n ih => exact ec_quiet_cons cmd x _ hx ih

theorem ec_address_at_other (cmd : Nat) (l : List Nat) (h : l.head? ≠ some cmd) :
    ec_address_at cmd l = [] := by
  unfold ec_address_at
  split
  · rename_i c s2 a2 s1 a1 s0 a0 tl
    have hc : ¬ (c = cmd ∧ s2 = SEND_BYTE ∧ s1 = SEND_BYTE ∧ s0 = SEND_BYTE) := by
      intro hh
      apply h
      simp [hh.1]
    simp [hc]
  · rfl

theorem ec_addressed_skip (cmd x : Nat) (l : List Nat)
    (h : x ≠ SEND_CMD ∨ l.head? ≠ some cmd) :
    ec_addressed cmd (x :: l) = ec_addressed cmd l := by
  simp only [ec_addressed]
  rcases h with h | h
  · simp [h]
  · simp [ec_address_at_other cmd l h]

theorem ec_addressed_quiet (cmd : Nat) (a b : List Nat) (ha : ec_quiet cmd a = true) :
    ec_addressed cmd (a ++ b) = ec_addressed cmd b := by
  induction a with
  | nil => rfl
  | cons x rest ih =>
    cases rest with
    | nil =>
      simp only [ec_quiet, decide_eq_true_eq] at ha
      exact ec_addressed_skip cmd x b (Or.inl ha)
    | cons y rest2 =>
      simp only [ec_quiet, Bool.and_eq_true, decide_eq_true_eq] at ha
      have h2 := ih ha.2
      simp only [List.cons_append] at h2 ⊢
      rw [ec_addressed_skip cmd x _ (by
        rcases ha.1 with h | h
        · exact Or.inl h
        · exact Or.inr (by simpa using h)), h2]

/-- The address bytes that follow a flash command are decoded, and only
they. -/
theorem ec_addressed_command (cmd a2 a1 a0 : Nat) (t rest : List Nat)
    (ht : ec_quiet cmd ([cmd, SEND_BYTE, a2, SEND_BYTE, a1, SEND_BYTE, a0] ++ t) = true) :
    ec_addressed cmd
        ([SEND_CMD, cmd, SEND_BYTE, a2, SEND_BYTE, a1, SEND_BYTE, a0] ++ t ++ rest)
      = (a2, a1, a0) :: ec_addressed cmd rest := by
  have e : [SEND_CMD, cmd, SEND_BYTE, a2, SEND_BYTE, a1, SEND_BYTE, a0] ++ t ++ rest
      = SEND_CMD :: (([cmd, SEND_BYTE, a2, SEND_BYTE, a1, SEND_BYTE, a0] ++ t) ++ rest) := by
    simp
  have step : ∀ l : List Nat, ec_addressed cmd (SEND_CMD :: l)
      = ec_address_at cmd l ++ ec_addressed cmd l := by
    intro l
    simp [ec_addressed]
  rw [e, step, ec_addressed_quiet cmd _ rest ht]
  simp [ec_address_at]

theorem ec_quiet_bytes (cmd : Nat) (l : List Nat) (y : Nat) (tl : List Nat)
    (h3 : cmd ≠ SEND_BYTE) (hy : y ≠ cmd) (hA : ec_quiet cmd (y :: tl) = true) :
    ec_quiet cmd (ec_bytes_outs l ++ y :: tl) = true ∧
    (ec_bytes_outs l ++ y :: tl).head? ≠ some cmd := by
  induction l with
  | nil =>
    refine ⟨hA, ?_⟩
    show (y :: tl).head? ≠ some cmd
    simpa using hy
  | cons b rest ih =>
    obtain ⟨q, hh⟩ := ih
    have e : ec_bytes_outs (b :: rest) ++ y :: tl
        = SEND_BYTE :: (b % 256) :: (ec_bytes_outs rest ++ y :: tl) := by
      simp [ec_bytes_outs]
    rw [e]
    refine ⟨?_, by simpa using fun h => h3 h.symm⟩
    obtain ⟨z, tz, hz⟩ : ∃ z tz, ec_bytes_outs rest ++ y :: tl = z :: tz := by
      cases hl : ec_bytes_outs rest ++ y :: tl with
      | nil => simp at hl
      | cons z tz => exact ⟨z, tz, rfl⟩
    rw [hz] at q hh ⊢
    have hzc : z ≠ cmd := by simpa using hh
    simp only [ec_quiet, Bool.and_eq_true, decide_eq_true_eq]
    exact ⟨Or.inl (by decide), Or.inr hzc, q⟩

theorem ec_quiet_exit (cmd : Nat) : ec_quiet cmd [EXIT_FOLLOW_MODE] = true := by
  simp [ec_quiet, EXIT_FOLLOW_MODE, SEND_CMD]

theorem wait_for_ec_free_outs_quiet (cmd k : Nat) (hc : cmd ≠ CMD_RDSR) :
    ec_quiet cmd (wait_for_ec_free_outs k) = true := by
  unfold wait_for_ec_free_outs
  refine ec_quiet_append cmd _ _ (ec_quiet_append cmd _ _ ?_
    (ec_quiet_replicate cmd READ_BYTE k (by decide))) (ec_quiet_exit cmd)
  simp only [ec_quiet, Bool.and_eq_true, decide_eq_true_eq]
  exact ⟨Or.inl (by decide), Or.inr (fun h => hc h.symm), by decide⟩

theorem enable_flash_write_outs_quiet (cmd k1 k2 : Nat) (h1 : cmd ≠ CMD_RDSR)
    (h2 : cmd ≠ CMD_WRSR) (h3 : cmd ≠ CMD_WREN) :
    ec_quiet cmd (enable_flash_write_outs k1 k2) = true := by
  unfold enable_flash_write_outs
  refine ec_quiet_append cmd _ _ (ec_quiet_append cmd _ _
    (ec_quiet_append cmd _ _ (wait_for_ec_free_outs_quiet cmd k1 h1) ?_)
    (ec_quiet_replicate cmd READ_BYTE k2 (by decide))) (ec_quiet_exit cmd)
  simp only [ec_quiet, Bool.and_eq_true, decide_eq_true_eq]
  exact ⟨Or.inl (by decide), Or.inr (fun h => h2 h.symm), Or.inl (by decide),
    Or.inl (by decide), Or.inl (by decide), Or.inl (by decide),
    Or.inr (fun h => h3 h.symm), Or.inl (by decide), Or.inl (by decide),
    Or.inr (fun h => h1 h.symm), by decide⟩

theorem enable_ec_status_reg_write_outs_quiet (cmd k : Nat) (h1 : cmd ≠ CMD_RDSR)
    (h3 : cmd ≠ CMD_WREN) (h4 : cmd ≠ CMD_EWSR) :
    ec_quiet cmd (enable_ec_status_reg_write_outs k) = true := by
  unfold enable_ec_status_reg_write_outs
  refine ec_quiet_append cmd _ _ (wait_for_ec_free_outs_quiet cmd k h1) ?_
  simp only [ec_quiet, Bool.and_eq_true, decide_eq_true_eq]
  exact ⟨Or.inl (by decide), Or.inr (fun h => h3 h.symm), Or.inl (by decide),
    Or.inl (by decide), Or.inr (fun h => h4 h.symm), by decide⟩

/-! ## The byte stream of the composite EC functions, when they return -/

theorem wait_for_ec_free_loop_outs (D : EcPorts σ) (fuel : Nat) :
    ∀ (n : Nat) (w w2 : EcState σ) (u : Unit),
      wait_for_ec_free_loop D fuel n w = Run.done u w2 →
      ∃ k, ec_outs w2.trace = ec_outs w.trace ++ List.replicate k READ_BYTE := by
  intro n
  induction n with
  | zero =>
    intro w w2 u h
    simp only [wait_for_ec_free_loop] at h
    obtain ⟨b, w1, h1, h2⟩ := Run.andThen_done _ _ _ _ h
    split at h2
    · cases h2
    · simp only [Run.done.injEq] at h2
      rw [← h2.2]
      exact ⟨1, read_byte_from_ec_outs D fuel _ _ _ h1⟩
  | succ n ih =>
    intro w w2 u h
    simp only [wait_for_ec_free_loop] at h
    obtain ⟨b, w1, h1, h2⟩ := Run.andThen_done _ _ _ _ h
    split at h2
    · obtain ⟨k, hk⟩ := ih _ _ _ h2
      refine ⟨k + 1, ?_⟩
      rw [hk, read_byte_from_ec_outs D fuel _ _ _ h1, List.replicate_succ]
      simp
    · simp only [Run.done.injEq] at h2
      rw [← h2.2]
      exact ⟨1, read_byte_from_ec_outs D fuel _ _ _ h1⟩

theorem enable_flash_write_loop_outs (D : EcPorts σ) (fuel : Nat) :
    ∀ (n : Nat) (w w2 : EcState σ) (u : Unit),
      enable_flash_write_loop D fuel n w = Run.done u w2 →
      ∃ k, ec_outs w2.trace = ec_outs w.trace ++ List.replicate k READ_BYTE := by
  intro n
  induction n with
  | zero =>
    intro w w2 u h
    simp only [enable_flash_write_loop] at h
    obtain ⟨b, w1, h1, h2⟩ := Run.andThen_done _ _ _ _ h
    split at h2
    · cases h2
    · simp only [Run.done.injEq] at h2
      rw [← h2.2]
      exact ⟨1, read_byte_from_ec_outs D fuel _ _ _ h1⟩
  | succ n ih =>
    intro w w2 u h
    simp only [enable_flash_write_loop] at h
    obtain ⟨b, w1, h1, h2⟩ := Run.andThen_done _ _ _ _ h
    split at h2
    · obtain ⟨k, hk⟩ := ih _ _ _ h2
      refine ⟨k + 1, ?_⟩
      rw [hk, read_byte_from_ec_outs D fuel _ _ _ h1, List.replicate_succ]
      simp
    · simp only [Run.done.injEq] at h2
      rw [← h2.2]
      exact ⟨1, read_byte_from_ec_outs D fuel _ _ _ h1⟩

theorem follow_mode_outs (D : EcPorts σ) (fuel m : Nat) (w w2 : EcState σ) (u : Unit)
    (h : follow_mode D fuel m w = Run.done u w2) :
    ec_outs w2.trace = ec_outs w.trace ++ [m % 256] :=
  send_cmd_to_pm_outs D fuel m w w2 u h

theorem wait_for_ec_free_done_outs (D : EcPorts σ) (fuel : Nat) (w w2 : EcState σ) (u : Unit)
    (h : wait_for_ec_free D fuel w = Run.done u w2) :
    ∃ k, ec_outs w2.trace = ec_outs w.trace ++ wait_for_ec_free_outs k := by
  obtain ⟨_, w1, h1, h⟩ := Run.andThen_done _ _ _ _ h
  obtain ⟨_, w3, h3, h⟩ := Run.andThen_done _ _ _ _ h
  obtain ⟨_, w4, h4, h⟩ := Run.andThen_done _ _ _ _ h
  obtain ⟨k, hk⟩ := wait_for_ec_free_loop_outs D fuel _ _ _ _ h4
  refine ⟨k, ?_⟩
  rw [follow_mode_outs D fuel _ _ _ _ h, hk, send_cmd_to_ec_outs D fuel _ _ _ _ h3,
    follow_mode_outs D fuel _ _ _ _ h1]
  simp [wait_for_ec_free_outs, ENTER_FOLLOW_MODE, EXIT_FOLLOW_MODE, CMD_RDSR]

theorem enable_flash_write_done_outs (D : EcPorts σ) (fuel : Nat) (w w2 : EcState σ)
    (u : Unit) (h : enable_flash_write D fuel w = Run.done u w2) :
    ∃ k1 k2, ec_outs w2.trace = ec_outs w.trace ++ enable_flash_write_outs k1 k2 := by
  obtain ⟨_, w1, h1, h⟩ := Run.andThen_done _ _ _ _ h
  obtain ⟨_, w3, h3, h⟩ := Run.andThen_done _ _ _ _ h
  obtain ⟨_, w4, h4, h⟩ := Run.andThen_done _ _ _ _ h
  obtain ⟨_, w5, h5, h⟩ := Run.andThen_done _ _ _ _ h
  obtain ⟨_, w6, h6, h⟩ := Run.andThen_done _ _ _ _ h
  obtain ⟨_, w7, h7, h⟩ := Run.andThen_done _ _ _ _ h
  obtain ⟨_, w8, h8, h⟩ := Run.andThen_done _ _ _ _ h
  obtain ⟨_, w9, h9, h⟩ := Run.andThen_done _ _ _ _ h
  obtain ⟨_, w10, h10, h⟩ := Run.andThen_done _ _ _ _ h
  obtain ⟨k1, hk1⟩ := wait_for_ec_free_done_outs D fuel _ _ _ h1
  obtain ⟨k2, hk2⟩ := enable_flash_write_loop_outs D fuel _ _ _ _ h10
  refine ⟨k1, k2, ?_⟩
  rw [follow_mode_outs D fuel _ _ _ _ h, hk2, send_cmd_to_ec_outs D fuel _ _ _ _ h9,
    follow_mode_outs D fuel _ _ _ _ h8, send_cmd_to_ec_outs D fuel _ _ _ _ h7,
    follow_mode_outs D fuel _ _ _ _ h6, send_byte_to_ec_outs D fuel _ _ _ _ h5,
    send_cmd_to_ec_outs D fuel _ _ _ _ h4, follow_mode_outs D fuel _ _ _ _ h3, hk1]
  simp [enable_flash_write_outs, ENTER_FOLLOW_MODE, EXIT_FOLLOW_MODE, CMD_RDSR, CMD_WRSR,
    CMD_WREN]

theorem enable_ec_status_reg_write_done_outs (D : EcPorts σ) (fuel : Nat) (w w2 : EcState σ)
    (u : Unit) (h : enable_ec_status_reg_write D fuel w = Run.done u w2) :
    ∃ k, ec_outs w2.trace = ec_outs w.trace ++ enable_ec_status_reg_write_outs k := by
  obtain ⟨_, w1, h1, h⟩ := Run.andThen_done _ _ _ _ h
  obtain ⟨_, w3, h3, h⟩ := Run.andThen_done _ _ _ _ h
  obtain ⟨_, w4, h4, h⟩ := Run.andThen_done _ _ _ _ h
  obtain ⟨_, w5, h5, h⟩ := Run.andThen_done _ _ _ _ h
  obtain ⟨k1, hk1⟩ := wait_for_ec_free_done_outs D fuel _ _ _ h1
  refine ⟨k1, ?_⟩
  rw [send_cmd_to_ec_outs D fuel _ _ _ _ h, follow_mode_outs D fuel _ _ _ _ h5,
    send_cmd_to_ec_outs D fuel _ _ _ _ h4, follow_mode_outs D fuel _ _ _ _ h3, hk1]
  simp [enable_ec_status_reg_write_outs, ENTER_FOLLOW_MODE, CMD_WREN, CMD_EWSR]

theorem ec_send_bytes_done_outs (D : EcPorts σ) (fuel : Nat) (l : List Nat) :
    ∀ (w w2 : EcState σ) (u : Unit), ec_send_bytes D fuel l w = Run.done u w2 →
      ec_outs w2.trace = ec_outs w.trace ++ ec_bytes_outs l := by
  induction l with
  | nil =>
    intro w w2 u h
    simp only [ec_send_bytes, Run.done.injEq] at h
    rw [← h.2]
    simp [ec_bytes_outs]
  | cons b rest ih =>
    intro w w2 u h
    simp only [ec_send_bytes] at h
    obtain ⟨_, w1, h1, h⟩ := Run.andThen_done _ _ _ _ h
    rw [ih _ _ _ h, send_byte_to_ec_outs D fuel _ _ _ _ h1]
    simp [ec_bytes_outs]

/-! ## `ec_erase` -/

theorem ec_quiet_after_command (cmd a2 a1 a0 : Nat) (t : List Nat) (h3 : cmd ≠ SEND_BYTE)
    (ht : ec_quiet cmd t = true) (hh : t.head? ≠ some cmd) (hne : t ≠ []) :
    ec_quiet cmd ([cmd, SEND_BYTE, a2, SEND_BYTE, a1, SEND_BYTE, a0] ++ t) = true := by
  cases t with
  | nil => exact absurd rfl hne
  | cons y tl =>
    have hy : y ≠ cmd := by simpa using hh
    have h3b : SEND_BYTE ≠ cmd := fun h => h3 h.symm
    simp only [List.cons_append, List.nil_append, ec_quiet, Bool.and_eq_true,
      decide_eq_true_eq]
    exact ⟨Or.inr h3b, Or.inl (by decide), Or.inr h3b, Or.inl (by decide), Or.inr h3b,
      Or.inl (by decide), Or.inr hy, ht⟩

theorem wait_for_ec_free_outs_head (cmd k : Nat) (hc : cmd ≠ ENTER_FOLLOW_MODE) :
    (wait_for_ec_free_outs k).head? ≠ some cmd ∧ wait_for_ec_free_outs k ≠ [] := by
  constructor
  · simp only [wait_for_ec_free_outs, List.cons_append, List.head?_cons, ne_eq,
      Option.some.injEq]
    exact fun h => hc h.symm
  · simp [wait_for_ec_free_outs]

/-- What `block_1k_erase` has written to `EC_CMD` when it returns, on every
controller: one sector-erase command, with the three address bytes. -/
theorem block_1k_erase_done_outs (D : EcPorts σ) (fuel a2 a1 a0 : Nat) (w w2 : EcState σ)
    (u : Unit) (h : block_1k_erase D fuel a2 a1 a0 w = Run.done u w2) :
    ∃ s, ec_outs w2.trace = ec_outs w.trace ++ s ∧
      ∀ rest, ec_addressed CMD_1K_SEC_ERASE (s ++ rest)
        = (a2 % 256, a1 % 256, a0 % 256) :: ec_addressed CMD_1K_SEC_ERASE rest := by
  obtain ⟨_, w1, h1, h⟩ := Run.andThen_done _ _ _ _ h
  obtain ⟨_, w3, h3, h⟩ := Run.andThen_done _ _ _ _ h
  obtain ⟨_, w4, h4, h⟩ := Run.andThen_done _ _ _ _ h
  obtain ⟨_, w5, h5, h⟩ := Run.andThen_done _ _ _ _ h
  obtain ⟨_, w6, h6, h⟩ := Run.andThen_done _ _ _ _ h
  obtain ⟨_, w7, h7, h⟩ := Run.andThen_done _ _ _ _ h
  obtain ⟨_, w8, h8, h⟩ := Run.andThen_done _ _ _ _ h
  obtain ⟨_, w9, h9, h⟩ := Run.andThen_done _ _ _ _ h
  obtain ⟨k1, e1⟩ := enable_ec_status_reg_write_done_outs D fuel _ _ _ h1
  obtain ⟨k2, k3, e3⟩ := enable_flash_write_done_outs D fuel _ _ _ h3
  obtain ⟨k4, e4⟩ := wait_for_ec_free_done_outs D fuel _ _ _ h4
  obtain ⟨k5, e9⟩ := wait_for_ec_free_done_outs D fuel _ _ _ h
  refine ⟨(enable_ec_status_reg_write_outs k1 ++ enable_flash_write_outs k2 k3
      ++ wait_for_ec_free_outs k4 ++ [ENTER_FOLLOW_MODE])
    ++ ([SEND_CMD, CMD_1K_SEC_ERASE, SEND_BYTE, a2 % 256, SEND_BYTE, a1 % 256, SEND_BYTE,
          a0 % 256] ++ wait_for_ec_free_outs k5), ?_, ?_⟩
  · rw [e9, send_byte_to_ec_outs D fuel _ _ _ _ h9, send_byte_to_ec_outs D fuel _ _ _ _ h8,
      send_byte_to_ec_outs D fuel _ _ _ _ h7, send_cmd_to_ec_outs D fuel _ _ _ _ h6,
      follow_mode_outs D fuel _ _ _ _ h5, e4, e3, e1]
    simp [ENTER_FOLLOW_MODE, CMD_1K_SEC_ERASE]
  · intro rest
    have hq : ec_quiet CMD_1K_SEC_ERASE (enable_ec_status_reg_write_outs k1
        ++ enable_flash_write_outs k2 k3 ++ wait_for_ec_free_outs k4 ++ [ENTER_FOLLOW_MODE])
        = true :=
      ec_quiet_append _ _ _ (ec_quiet_append _ _ _ (ec_quiet_append _ _ _
        (enable_ec_status_reg_write_outs_quiet _ k1 (by decide) (by decide) (by decide))
        (enable_flash_write_outs_quiet _ k2 k3 (by decide) (by decide) (by decide)))
        (wait_for_ec_free_outs_quiet _ k4 (by decide))) (by decide)
    rw [List.append_assoc, ec_addressed_quiet _ _ _ hq]
    exact ec_addressed_command _ _ _ _ _ rest
      (ec_quiet_after_command _ _ _ _ _ (by decide)
        (wait_for_ec_free_outs_quiet _ k5 (by decide))
        (wait_for_ec_free_outs_head CMD_1K_SEC_ERASE k5 (by decide)).1
        (wait_for_ec_free_outs_head CMD_1K_SEC_ERASE k5 (by decide)).2)

theorem ec_erase_j_not_done (D : EcPorts σ) (fuel i : Nat) :
    ∀ (n j : Nat) (w : EcState σ), j < 256 → (ec_erase_j D fuel i n j w).isDone = false := by
  intro n
  induction n with
  | zero =>
    intro j w hj
    simp only [ec_erase_j, if_pos hj]
    rfl
  | succ n ih =>
    intro j w hj
    simp only [ec_erase_j, if_pos hj]
    cases hb : block_1k_erase D fuel i j 0x00 w with
    | done a w1 => exact ih _ w1 (Nat.mod_lt _ (by decide))
    | spin w1 => rfl

theorem ec_erase_not_done (D : EcPorts σ) (fuel : Nat) (w : EcState σ) :
    (ec_erase D fuel w).isDone = false := by
  unfold ec_erase
  cases fuel with
  | zero => rfl
  | succ n =>
    simp only [ec_erase_i, show (0 : Nat) < 0x02 by decide, if_true]
    exact Run.andThen_not_done _ _ (ec_erase_j_not_done D (n + 1) 0 (n + 1) 0 w (by decide))

theorem ec_erase_j_outs (D : EcPorts σ) (fuel i : Nat)
    (H : ∀ (a1 : Nat) (w1 : EcState σ), (block_1k_erase D fuel i a1 0x00 w1).isDone = true) :
    ∀ (n j : Nat) (w : EcState σ), j < 256 →
      ∃ s, ec_outs (ec_erase_j D fuel i n j w).state.trace = ec_outs w.trace ++ s ∧
        ec_addressed CMD_1K_SEC_ERASE s
          = (List.range n).map (fun k => (i % 256, (j + 4 * k) % 256, 0)) := by
  intro n
  induction n with
  | zero =>
    intro j w hj
    simp only [ec_erase_j, if_pos hj]
    exact ⟨[], by simp [Run.state], rfl⟩
  | succ n ih =>
    intro j w hj
    simp only [ec_erase_j, if_pos hj]
    obtain ⟨u, w1, hb⟩ := (Run.isDone_iff _).1 (H j w)
    rw [hb]
    obtain ⟨s1, e1, d1⟩ := block_1k_erase_done_outs D fuel i j 0x00 w w1 u hb
    obtain ⟨s2, e2, d2⟩ := ih ((j + 0x04) % 256) w1 (Nat.mod_lt _ (by decide))
    refine ⟨s1 ++ s2, ?_, ?_⟩
    · simp only [Run.andThen]
      rw [e2, e1, List.append_assoc]
    · rw [d1, d2, List.range_succ_eq_map]
      simp only [List.map_cons, List.map_map]
      have hj2 : j % 256 = j := Nat.mod_eq_of_lt hj
      rw [hj2]
      simp only [Nat.zero_mod, Nat.mul_zero, Nat.add_zero, List.cons.injEq, true_and,
        List.map_inj_left, Function.comp, Prod.mk.injEq, and_true]
      refine ⟨hj2.symm, ?_⟩
      intro a _
      omega

theorem Run.andThen_state_of_not_done {α β : Type} (r : Run σ α)
    (f : α → EcState σ → Run σ β) (h : r.isDone = false) :
    (r.andThen f).state = r.state := by
  cases r with
  | done a w1 => cases h
  | spin w1 => rfl

theorem Run.andThen_isDone {α β : Type} (r : Run σ α) (f : α → EcState σ → Run σ β)
    (hr : r.isDone = true) (hf : ∀ a w1, (f a w1).isDone = true) :
    (r.andThen f).isDone = true := by
  cases r with
  | done a w1 => exact hf a w1
  | spin w1 => cases hr

theorem newOuts_append (before after : List PortOp) (s : List Nat)
    (h : ec_outs after = ec_outs before ++ s) : newOuts before after = s := by
  simp [newOuts, h]

/-! ## The model controller whose polls complete at once -/

theorem idle_wait_ec_ibe (fuel : Nat) (w : EcState Unit) :
    (wait_ec_ibe ecIdle fuel w).isDone = true := by
  cases fuel <;>
    simp [wait_ec_ibe, wait_ec_ibe_loop, inb, ecIdle, EC_STATUS, EC_DATA, EC_IBF, Run.isDone]

theorem idle_wait_ec_obf (fuel : Nat) (w : EcState Unit) :
    (wait_ec_obf ecIdle fuel w).isDone = true := by
  cases fuel <;>
    simp [wait_ec_obf, wait_ec_obf_loop, inb, ecIdle, EC_STATUS, EC_DATA, EC_OBF, Run.isDone]

theorem idle_send_cmd_to_pm (fuel cmd : Nat) (w : EcState Unit) :
    (send_cmd_to_pm ecIdle fuel cmd w).isDone = true :=
  Run.andThen_isDone _ _ (idle_wait_ec_ibe fuel w) (fun _ _ => idle_wait_ec_ibe fuel _)

theorem idle_send_cmd_to_ec (fuel cmd : Nat) (w : EcState Unit) :
    (send_cmd_to_ec ecIdle fuel cmd w).isDone = true :=
  Run.andThen_isDone _ _ (idle_send_cmd_to_pm fuel _ w) (fun _ w1 => idle_send_cmd_to_pm fuel _ w1)

theorem idle_send_byte_to_ec (fuel b : Nat) (w : EcState Unit) :
    (send_byte_to_ec ecIdle fuel b w).isDone = true :=
  Run.andThen_isDone _ _ (idle_send_cmd_to_pm fuel _ w) (fun _ w1 => idle_send_cmd_to_pm fuel _ w1)

theorem idle_read_data_from_pm (fuel : Nat) (w : EcState Unit) :
    ∃ w2, read_data_from_pm ecIdle fuel w = Run.done 2 w2 := by
  obtain ⟨u, w1, h1⟩ := (Run.isDone_iff _).1 (idle_wait_ec_obf fuel w)
  unfold read_data_from_pm
  rw [h1]
  refine ⟨(inb ecIdle EC_DATA w1).2, ?_⟩
  simp [Run.andThen, inb, ecIdle, EC_DATA]

theorem idle_read_byte_from_ec (fuel : Nat) (w : EcState Unit) :
    ∃ w2, read_byte_from_ec ecIdle fuel w = Run.done 2 w2 := by
  obtain ⟨u, w1, h1⟩ := (Run.isDone_iff _).1 (idle_send_cmd_to_pm fuel READ_BYTE w)
  obtain ⟨w2, h2⟩ := idle_read_data_from_pm fuel w1
  refine ⟨w2, ?_⟩
  unfold read_byte_from_ec
  rw [h1]
  exact h2

theorem idle_wait_for_ec_free_loop (fuel n : Nat) (w : EcState Unit) :
    (wait_for_ec_free_loop ecIdle fuel n w).isDone = true := by
  obtain ⟨w2, h2⟩ := idle_read_byte_from_ec fuel w
  cases n <;> simp only [wait_for_ec_free_loop, h2, Run.andThen] <;> rfl

theorem idle_enable_flash_write_loop (fuel n : Nat) (w : EcState Unit) :
    (enable_flash_write_loop ecIdle fuel n w).isDone = true := by
  obtain ⟨w2, h2⟩ := idle_read_byte_from_ec fuel w
  cases n <;> simp only [enable_flash_write_loop, h2, Run.andThen] <;> rfl

theorem idle_wait_for_ec_free (fuel : Nat) (w : EcState Unit) :
    (wait_for_ec_free ecIdle fuel w).isDone = true :=
  Run.andThen_isDone _ _ (idle_send_cmd_to_pm fuel _ w) fun _ w1 =>
  Run.andThen_isDone _ _ (idle_send_cmd_to_ec fuel _ w1) fun _ w2 =>
  Run.andThen_isDone _ _ (idle_wait_for_ec_free_loop fuel _ w2) fun _ w3 =>
  idle_send_cmd_to_pm fuel _ w3

theorem idle_enable_flash_write (fuel : Nat) (w : EcState Unit) :
    (enable_flash_write ecIdle fuel w).isDone = true :=
  Run.andThen_isDone _ _ (idle_wait_for_ec_free fuel w) fun _ w1 =>
  Run.andThen_isDone _ _ (idle_send_cmd_to_pm fuel _ w1) fun _ w2 =>
  Run.andThen_isDone _ _ (idle_send_cmd_to_ec fuel _ w2) fun _ w3 =>
  Run.andThen_isDone _ _ (idle_send_byte_to_ec fuel _ w3) fun _ w4 =>
  Run.andThen_isDone _ _ (idle_send_cmd_to_pm fuel _ w4) fun _ w5 =>
  Run.andThen_isDone _ _ (idle_send_cmd_to_ec fuel _ w5) fun _ w6 =>
  Run.andThen_isDone _ _ (idle_send_cmd_to_pm fuel _ w6) fun _ w7 =>
  Run.andThen_isDone _ _ (idle_send_cmd_to_ec fuel _ w7) fun _ w8 =>
  Run.andThen_isDone _ _ (idle_enable_flash_write_loop fuel _ w8) fun _ w9 =>
  idle_send_cmd_to_pm fuel _ w9

theorem idle_enable_ec_status_reg_write (fuel : Nat) (w : EcState Unit) :
    (enable_ec_status_reg_write ecIdle fuel w).isDone = true :=
  Run.andThen_isDone _ _ (idle_wait_for_ec_free fuel w) fun _ w1 =>
  Run.andThen_isDone _ _ (idle_send_cmd_to_pm fuel _ w1) fun _ w2 =>
  Run.andThen_isDone _ _ (idle_send_cmd_to_ec fuel _ w2) fun _ w3 =>
  Run.andThen_isDone _ _ (idle_send_cmd_to_pm fuel _ w3) fun _ w4 =>
  idle_send_cmd_to_ec fuel _ w4

theorem idle_block_1k_erase (fuel a2 a1 a0 : Nat) (w : EcState Unit) :
    (block_1k_erase ecIdle fuel a2 a1 a0 w).isDone = true :=
  Run.andThen_isDone _ _ (idle_enable_ec_status_reg_write fuel w) fun _ w1 =>
  Run.andThen_isDone _ _ (idle_enable_flash_write fuel w1) fun _ w2 =>
  Run.andThen_isDone _ _ (idle_wait_for_ec_free fuel w2) fun _ w3 =>
  Run.andThen_isDone _ _ (idle_send_cmd_to_pm fuel _ w3) fun _ w4 =>
  Run.andThen_isDone _ _ (idle_send_cmd_to_ec fuel _ w4) fun _ w5 =>
  Run.andThen_isDone _ _ (idle_send_byte_to_ec fuel _ w5) fun _ w6 =>
  Run.andThen_isDone _ _ (idle_send_byte_to_ec fuel _ w6) fun _ w7 =>
  Run.andThen_isDone _ _ (idle_send_byte_to_ec fuel _ w7) fun _ w8 =>
  idle_wait_for_ec_free fuel w8

theorem idle_ec_send_bytes (fuel : Nat) (l : List Nat) :
    ∀ w : EcState Unit, (ec_send_bytes ecIdle fuel l w).isDone = true := by
  induction l with
  | nil => intro w; rfl
  | cons b rest ih =>
    intro w
    exact Run.andThen_isDone _ _ (idle_send_byte_to_ec fuel b w) (fun _ w1 => ih w1)

/-- C26 (what the code does): `ec_erase` never returns, on any controller
and with any bound on its loops, because the inner loop counter `j` is an
`unsigned char`, always below 0x100; and when every `block_1k_erase` call
returns (every status poll completes), the sector-erase commands issued
within `fuel` repeats of the inner loop are the `fuel` addresses
`(0, 4k mod 256, 0)`, `k = 0 .. fuel - 1`: after the 64 sectors of the lower
half the loop starts over at `(0, 0, 0)`, it passes 128 calls, and no sector
of the upper half (`addr2 = 1`) is erased. -/
theorem ec_erase_never_terminates (D : EcPorts σ) (fuel : Nat) (w : EcState σ) :
    (ec_erase D fuel w).isDone = false ∧
    ((∀ (a1 : Nat) (w1 : EcState σ), (block_1k_erase D fuel 0 a1 0x00 w1).isDone = true) →
      ec_addressed CMD_1K_SEC_ERASE (newOuts w.trace (ec_erase D fuel w).state.trace)
        = (List.range fuel).map (fun k => (0, (4 * k) % 256, 0))) := by
  refine ⟨ec_erase_not_done D fuel w, ?_⟩
  intro H
  unfold ec_erase
  cases fuel with
  | zero => simp [ec_erase_i, Run.state, newOuts, ec_addressed]
  | succ n =>
    simp only [ec_erase_i, show (0 : Nat) < 0x02 by decide, if_true]
    rw [Run.andThen_state_of_not_done _ _
      (ec_erase_j_not_done D (n + 1) 0 (n + 1) 0 w (by decide))]
    obtain ⟨s, e, d⟩ := ec_erase_j_outs D (n + 1) 0 H (n + 1) 0 w (by decide)
    rw [newOuts_append _ _ s e, d]
    simp

/-- Witness for C26: on the model controller whose polls complete at once,
130 repeats of the inner loop issue 130 sector-erase commands, the 65th of
them `(0, 0, 0)` again, and `ec_erase` has not returned. -/
theorem ec_erase_never_terminates_witness :
    (∀ (a1 : Nat) (w1 : EcState Unit),
      (block_1k_erase ecIdle 130 0 a1 0x00 w1).isDone = true) ∧
    (ec_erase ecIdle 130 (ecFresh 0)).isDone = false ∧
    ec_addressed CMD_1K_SEC_ERASE
        (newOuts (ecFresh 0).trace (ec_erase ecIdle 130 (ecFresh 0)).state.trace)
      = (List.range 130).map (fun k => (0, (4 * k) % 256, 0)) ∧
    ((List.range 130).map (fun k => (0, (4 * k) % 256, 0))).get? 64 = some (0, 0, 0) :=
  ⟨fun a1 w1 => idle_block_1k_erase 130 0 a1 0 w1,
    (ec_erase_never_terminates ecIdle 130 (ecFresh 0)).1,
    (ec_erase_never_terminates ecIdle 130 (ecFresh 0)).2
      (fun a1 w1 => idle_block_1k_erase 130 0 a1 0 w1),
    by decide⟩

/-! ## `intel_ec_write`: the invariant of `total_write` -/

theorem Run.andThen_keeps2 {α β : Type} (P R : EcState σ → Prop) (r : Run σ α)
    (f : α → EcState σ → Run σ β) (hr : P r.state) (hPR : ∀ s, P s → R s)
    (hf : ∀ a w1, P w1 → R (f a w1).state) : R (r.andThen f).state := by
  cases r with
  | done a w1 => exact hf a w1 hr
  | spin w1 => exact hPR _ hr

theorem intel_ec_write_blocks_inv (D : EcPorts σ) (fuel : Nat) (buffer : List Nat) :
    ∀ (left block : Nat) (pos : Int) (w : EcState σ), w.total_write % 256 = 0 →
      (intel_ec_write_blocks D fuel buffer left block pos w).state.total_write % 256 = 0 ∧
      w.total_write ≤ (intel_ec_write_blocks D fuel buffer left block pos w).state.total_write ∧
      (intel_ec_write_blocks D fuel buffer left block pos w).state.total_write
        ≤ w.total_write + 256 * left ∧
      (intel_ec_write_blocks D fuel buffer left block pos w).state.ec_buffer = w.ec_buffer := by
  intro left
  induction left with
  | zero =>
    intro block pos w h
    have e : intel_ec_write_blocks D fuel buffer 0 block pos w = Run.done pos w := rfl
    rw [e]
    exact ⟨h, le_refl _, by simp [Run.state], rfl⟩
  | succ n ih =>
    intro block pos w h
    have base : ∀ s : EcState σ, EcFrame w s →
        s.total_write % 256 = 0 ∧ w.total_write ≤ s.total_write ∧
        s.total_write ≤ w.total_write + 256 * ((n + 1 : Nat) : Int) ∧
        s.ec_buffer = w.ec_buffer := by
      intro s hs
      rw [hs.1, hs.2]
      exact ⟨h, le_refl _, by push_cast; omega, rfl⟩
    simp only [intel_ec_write_blocks]
    refine Run.andThen_keeps2 (EcFrame w) _ _ _ (enable_flash_write_frame D fuel w) base ?_
    intro _ w1 p1
    refine Run.andThen_keeps2 (EcFrame w) _ _ _
      (p1.trans (wait_for_ec_free_frame D fuel w1)) base ?_
    intro _ w2 p2
    refine Run.andThen_keeps2 (EcFrame w) _ _ _
      (p2.trans (follow_mode_frame D fuel _ w2)) base ?_
    intro _ w3 p3
    refine Run.andThen_keeps2 (EcFrame w) _ _ _
      (p3.trans (send_cmd_to_ec_frame D fuel _ w3)) base ?_
    intro _ w4 p4
    refine Run.andThen_keeps2 (EcFrame w) _ _ _
      (p4.trans (send_byte_to_ec_frame D fuel _ w4)) base ?_
    intro _ w5 p5
    refine Run.andThen_keeps2 (EcFrame w) _ _ _
      (p5.trans (send_byte_to_ec_frame D fuel _ w5)) base ?_
    intro _ w6 p6
    refine Run.andThen_keeps2 (EcFrame w) _ _ _
      (p6.trans (send_byte_to_ec_frame D fuel _ w6)) base ?_
    intro _ w7 p7
    refine Run.andThen_keeps2 (EcFrame w) _ _ _
      (p7.trans (ec_send_bytes_frame D fuel _ w7)) base ?_
    intro _ w8 p8
    have base2 : ∀ s : EcState σ,
        (s.total_write = w.total_write + 256 ∧ s.ec_buffer = w.ec_buffer) →
        s.total_write % 256 = 0 ∧ w.total_write ≤ s.total_write ∧
        s.total_write ≤ w.total_write + 256 * ((n + 1 : Nat) : Int) ∧
        s.ec_buffer = w.ec_buffer := by
      intro s hs
      rw [hs.1, hs.2]
      refine ⟨by omega, by omega, by push_cast; omega, rfl⟩
    refine Run.andThen_keeps2
      (fun s => s.total_write = w.total_write + 256 ∧ s.ec_buffer = w.ec_buffer) _ _ _ ?_
      base2 ?_
    · have hf := wait_for_ec_free_frame D fuel
        { w8 with total_write := w8.total_write + BLOCK_SIZE }
      refine ⟨?_, ?_⟩
      · rw [hf.1]
        simp only [BLOCK_SIZE, p8.1]
        norm_num
      · rw [hf.2]
        exact p8.2
    · intro _ w9 p9
      obtain ⟨i1, i2, i3, i4⟩ := ih (block + 1) (pos + BLOCK_SIZE) w9 (by rw [p9.1]; omega)
      rw [p9.1] at i2 i3
      rw [p9.2] at i4
      exact ⟨i1, by omega, by push_cast; omega, i4⟩

theorem intel_ec_write_inv (D : EcPorts σ) (fuel : Nat) (user : Option (List Nat))
    (count : Nat) (pos : Option Int) (w : EcState σ) (h : EcInv w) :
    EcInv (intel_ec_write D fuel user count pos w).state ∧
    w.total_write ≤ (intel_ec_write D fuel user count pos w).state.total_write := by
  have keep : EcInv w ∧ w.total_write ≤ w.total_write := ⟨h, le_refl _⟩
  obtain ⟨h1, h2, h3⟩ := h
  simp only [BLOCK_SIZE, FLASH_SIZE, Nat.cast_ofNat] at h1 h3
  unfold intel_ec_write
  cases pos with
  | none => exact keep
  | some p =>
    simp only
    split
    · exact keep
    · split
      · exact keep
      · split
        · exact keep
        · rename_i hz hm
          cases hb : w.ec_buffer with
          | none => exact keep
          | some buffer =>
            simp only
            cases user with
            | none => exact keep
            | some data =>
              simp only
              simp only [BLOCK_SIZE, FLASH_SIZE, MAX_DATA_SIZE, Nat.cast_ofNat, ne_eq,
                not_not] at hz hm ⊢
              generalize hbw : min ((131072 : Int) - w.total_write)
                (min (count : Int) (4096 : Int)) = bw at hz hm ⊢
              have hbw1 : bw ≤ 131072 - w.total_write := by
                rw [← hbw]; exact min_le_left _ _
              have hbw0 : 0 ≤ bw := by
                rw [← hbw]
                exact le_min (by omega) (le_min (by omega) (by norm_num))
              obtain ⟨i1, i2, i3, -⟩ := intel_ec_write_blocks_inv D fuel
                (List.take bw.toNat data ++ List.drop bw.toNat buffer)
                (bw / 256).toNat 0 p
                { w with ec_buffer := some (List.take bw.toNat data ++ List.drop bw.toNat buffer) }
                h1
              have hstate : ∀ (r : Run σ Int),
                  (r.andThen fun p w => Run.done (⟨bw, some p⟩ : EcWritten) w).state = r.state := by
                intro r
                cases r <;> rfl
              rw [hstate]
              simp only at i2 i3
              have hn : ((bw / 256).toNat : Int) = bw / 256 := by
                omega
              rw [hn] at i3
              refine ⟨⟨?_, ?_, ?_⟩, i2⟩
              · simpa [BLOCK_SIZE] using i1
              · omega
              · simp only [FLASH_SIZE, Nat.cast_ofNat]
                omega

/-! ## `intel_ec_write`: the address bytes of the page-program commands -/

theorem Run.frame_of_done {α : Type} (r : Run σ α) (w w2 : EcState σ) (a : α)
    (hf : EcFrame w r.state) (h : r = Run.done a w2) : EcFrame w w2 := by
  subst h
  exact hf

theorem ec_page_address_offset (tw : Int) (h1 : tw % 256 = 0) (h2 : 0 ≤ tw)
    (h3 : tw < 131072) :
    ec_offset ((if tw < HALF_FLASH_SIZE then 0 else 1) % 256,
      ((tw / BLOCK_SIZE) % HALF_FLASH_BLOCKS).toNat % 256, 0x00 % 256) = tw.toNat := by
  simp only [ec_offset, HALF_FLASH_SIZE, BLOCK_SIZE, HALF_FLASH_BLOCKS, Nat.cast_ofNat]
  split <;> omega

/-- What one pass of the block loop of `intel_ec_write` has written to
`EC_CMD` when it reaches the increment of `total_write`: one page-program
command, with the three address bytes computed from `total_write`. -/
theorem intel_ec_write_blocks_done (D : EcPorts σ) (fuel : Nat) (buffer : List Nat) :
    ∀ (left block : Nat) (pos p : Int) (w w2 : EcState σ),
      w.total_write % 256 = 0 → 0 ≤ w.total_write → w.total_write + 256 * left ≤ 131072 →
      intel_ec_write_blocks D fuel buffer left block pos w = Run.done p w2 →
      w2.total_write = w.total_write + 256 * left ∧
      ∃ s A, ec_outs w2.trace = ec_outs w.trace ++ s ∧
        (∀ rest, ec_addressed CMD_PAGE_PROGRAM (s ++ rest)
          = A ++ ec_addressed CMD_PAGE_PROGRAM rest) ∧
        A.map ec_offset = (List.range left).map (fun k => w.total_write.toNat + 256 * k) := by
  intro left
  induction left with
  | zero =>
    intro block pos p w w2 _ _ _ h
    have e : intel_ec_write_blocks D fuel buffer 0 block pos w = Run.done pos w := rfl
    rw [e] at h
    simp only [Run.done.injEq] at h
    rw [← h.2]
    exact ⟨by simp, [], [], by simp, fun rest => rfl, rfl⟩
  | succ n ih =>
    intro block pos p w wf m1 m2 m3 h
    simp only [intel_ec_write_blocks] at h
    obtain ⟨_, w1, h1, h⟩ := Run.andThen_done _ _ _ _ h
    obtain ⟨_, w2, h2, h⟩ := Run.andThen_done _ _ _ _ h
    obtain ⟨_, w3, h3, h⟩ := Run.andThen_done _ _ _ _ h
    obtain ⟨_, w4, h4, h⟩ := Run.andThen_done _ _ _ _ h
    obtain ⟨_, w5, h5, h⟩ := Run.andThen_done _ _ _ _ h
    obtain ⟨_, w6, h6, h⟩ := Run.andThen_done _ _ _ _ h
    obtain ⟨_, w7, h7, h⟩ := Run.andThen_done _ _ _ _ h
    obtain ⟨_, w8, h8, h⟩ := Run.andThen_done _ _ _ _ h
    obtain ⟨_, w9, h9, h⟩ := Run.andThen_done _ _ _ _ h
    have f1 := Run.frame_of_done _ _ _ _ (enable_flash_write_frame D fuel w) h1
    have f2 := f1.trans (Run.frame_of_done _ _ _ _ (wait_for_ec_free_frame D fuel w1) h2)
    have f3 := f2.trans (Run.frame_of_done _ _ _ _ (follow_mode_frame D fuel _ w2) h3)
    have f4 := f3.trans (Run.frame_of_done _ _ _ _ (send_cmd_to_ec_frame D fuel _ w3) h4)
    have f5 := f4.trans (Run.frame_of_done _ _ _ _ (send_byte_to_ec_frame D fuel _ w4) h5)
    have f6 := f5.trans (Run.frame_of_done _ _ _ _ (send_byte_to_ec_frame D fuel _ w5) h6)
    have f7 := f6.trans (Run.frame_of_done _ _ _ _ (send_byte_to_ec_frame D fuel _ w6) h7)
    have f8 := f7.trans (Run.frame_of_done _ _ _ _ (ec_send_bytes_frame D fuel _ w7) h8)
    have f9 := Run.frame_of_done _ _ _ _ (wait_for_ec_free_frame D fuel _) h9
    have t9 : w9.total_write = w.total_write + 256 := by
      rw [f9.1]
      simp only [BLOCK_SIZE, f8.1]
      norm_num
    rw [f4.1] at h5
    rw [f5.1] at h6
    obtain ⟨tf, s2, A2, e2, d2, o2⟩ := ih (block + 1) _ p w9 wf
      (by rw [t9]; omega) (by rw [t9]; omega) (by rw [t9]; push_cast at m3; omega) h
    obtain ⟨k1, k2, e1⟩ := enable_flash_write_done_outs D fuel _ _ _ h1
    obtain ⟨k3, e3⟩ := wait_for_ec_free_done_outs D fuel _ _ _ h2
    obtain ⟨k4, e9⟩ := wait_for_ec_free_done_outs D fuel _ _ _ h9
    refine ⟨by rw [tf, t9]; push_cast; ring, ?_⟩
    refine ⟨((enable_flash_write_outs k1 k2 ++ wait_for_ec_free_outs k3 ++ [ENTER_FOLLOW_MODE])
        ++ ([SEND_CMD, CMD_PAGE_PROGRAM, SEND_BYTE,
              (if w.total_write < HALF_FLASH_SIZE then 0 else 1) % 256, SEND_BYTE,
              ((w.total_write / BLOCK_SIZE) % HALF_FLASH_BLOCKS).toNat % 256, SEND_BYTE,
              0x00 % 256]
            ++ (ec_bytes_outs (ec_block buffer (block * BLOCK_SIZE))
              ++ wait_for_ec_free_outs k4))) ++ s2,
      ((if w.total_write < HALF_FLASH_SIZE then 0 else 1) % 256,
        ((w.total_write / BLOCK_SIZE) % HALF_FLASH_BLOCKS).toNat % 256, 0x00 % 256) :: A2,
      ?_, ?_, ?_⟩
    · have e9b : ec_outs w9.trace = ec_outs w8.trace ++ wait_for_ec_free_outs k4 := e9
      rw [e2, e9b, ec_send_bytes_done_outs D fuel _ _ _ _ h8,
        send_byte_to_ec_outs D fuel _ _ _ _ h7, send_byte_to_ec_outs D fuel _ _ _ _ h6,
        send_byte_to_ec_outs D fuel _ _ _ _ h5, send_cmd_to_ec_outs D fuel _ _ _ _ h4,
        follow_mode_outs D fuel _ _ _ _ h3, e3, e1]
      simp [ENTER_FOLLOW_MODE, CMD_PAGE_PROGRAM]
    · intro rest
      have hq : ec_quiet CMD_PAGE_PROGRAM (enable_flash_write_outs k1 k2
          ++ wait_for_ec_free_outs k3 ++ [ENTER_FOLLOW_MODE]) = true :=
        ec_quiet_append _ _ _ (ec_quiet_append _ _ _
          (enable_flash_write_outs_quiet _ k1 k2 (by decide) (by decide) (by decide))
          (wait_for_ec_free_outs_quiet _ k3 (by decide))) (by decide)
      have hw : wait_for_ec_free_outs k4 = ENTER_FOLLOW_MODE ::
          ([SEND_CMD, CMD_RDSR] ++ List.replicate k4 READ_BYTE ++ [EXIT_FOLLOW_MODE]) := rfl
      have hb := ec_quiet_bytes CMD_PAGE_PROGRAM (ec_block buffer (block * BLOCK_SIZE))
        ENTER_FOLLOW_MODE ([SEND_CMD, CMD_RDSR] ++ List.replicate k4 READ_BYTE
          ++ [EXIT_FOLLOW_MODE]) (by decide) (by decide)
        (by rw [← hw]; exact wait_for_ec_free_outs_quiet _ k4 (by decide))
      rw [← hw] at hb
      have assoc : ∀ P C T s r : List Nat,
          (P ++ (C ++ T)) ++ s ++ r = P ++ (C ++ T ++ (s ++ r)) := by
        intro P C T s r
        simp only [List.append_assoc]
      rw [assoc, ec_addressed_quiet _ _ _ hq, ec_addressed_command _ _ _ _ _ (s2 ++ rest)
          (ec_quiet_after_command _ _ _ _ _ (by decide) hb.1 hb.2 (by rw [hw]; simp)), d2]
      rfl
    · rw [List.range_succ_eq_map]
      simp only [List.map_cons, List.map_map]
      rw [ec_page_address_offset _ m1 m2 (by push_cast at m3; omega), o2, t9]
      simp only [Nat.mul_zero, Nat.add_zero, List.cons.injEq, true_and, List.map_inj_left,
        Function.comp]
      intro a _
      omega

/-- What a call of `intel_ec_write` that returns has written to `EC_CMD`:
some number `n` of page-program commands, at the offsets `total_write`,
`total_write + 256`, ..., and `total_write` has grown by `256 * n`. -/
theorem intel_ec_write_done (D : EcPorts σ) (fuel : Nat) (user : Option (List Nat))
    (count : Nat) (pos : Option Int) (w w2 : EcState σ) (r : EcWritten) (hI : EcInv w)
    (h : intel_ec_write D fuel user count pos w = Run.done r w2) :
    ∃ n : Nat, w2.total_write = w.total_write + 256 * n ∧
      ∃ s A, ec_outs w2.trace = ec_outs w.trace ++ s ∧
        (∀ rest, ec_addressed CMD_PAGE_PROGRAM (s ++ rest)
          = A ++ ec_addressed CMD_PAGE_PROGRAM rest) ∧
        A.map ec_offset = (List.range n).map (fun k => w.total_write.toNat + 256 * k) := by
  have keep : ∀ (r0 : EcWritten), (Run.done r0 w : Run σ EcWritten) = Run.done r w2 →
      ∃ n : Nat, w2.total_write = w.total_write + 256 * n ∧
        ∃ s A, ec_outs w2.trace = ec_outs w.trace ++ s ∧
          (∀ rest, ec_addressed CMD_PAGE_PROGRAM (s ++ rest)
            = A ++ ec_addressed CMD_PAGE_PROGRAM rest) ∧
          A.map ec_offset = (List.range n).map (fun k => w.total_write.toNat + 256 * k) := by
    intro r0 e
    simp only [Run.done.injEq] at e
    rw [← e.2]
    exact ⟨0, by simp, [], [], by simp, fun rest => rfl, rfl⟩
  obtain ⟨h1, h2, h3⟩ := hI
  simp only [BLOCK_SIZE, FLASH_SIZE, Nat.cast_ofNat] at h1 h3
  unfold intel_ec_write at h
  cases pos with
  | none => exact keep _ h
  | some p =>
    simp only at h
    split at h
    · exact keep _ h
    · split at h
      · exact keep _ h
      · split at h
        · exact keep _ h
        · rename_i hz hm
          cases hb : w.ec_buffer with
          | none =>
            rw [hb] at h
            exact keep _ h
          | some buffer =>
            rw [hb] at h
            simp only at h
            cases user with
            | none => exact keep _ h
            | some data =>
              simp only at h
              simp only [BLOCK_SIZE, FLASH_SIZE, MAX_DATA_SIZE, Nat.cast_ofNat, ne_eq,
                not_not] at hz hm h
              generalize hbw : min ((131072 : Int) - w.total_write)
                (min (count : Int) (4096 : Int)) = bw at hz hm h
              have hbw1 : bw ≤ 131072 - w.total_write := by
                rw [← hbw]; exact min_le_left _ _
              have hbw0 : 0 ≤ bw := by
                rw [← hbw]
                exact le_min (by omega) (le_min (by omega) (by norm_num))
              obtain ⟨p2, w3, hblocks, hfin⟩ := Run.andThen_done _ _ _ _ h
              simp only [Run.done.injEq] at hfin
              rw [← hfin.2]
              have hn : ((bw / 256).toNat : Int) = bw / 256 := by
                omega
              obtain ⟨tf, s, A, e, d, o⟩ := intel_ec_write_blocks_done D fuel _ _ _ _ _ _ w3
                (by exact h1) (by exact h2) (by simp only; rw [hn]; omega) hblocks
              exact ⟨(bw / 256).toNat, tf, s, A, e, d, o⟩

theorem intel_ec_writes_inv (D : EcPorts σ) (fuel : Nat) :
    ∀ (calls : List EcWriteCall) (w : EcState σ), EcInv w →
      EcInv (intel_ec_writes D fuel calls w).state := by
  intro calls
  induction calls with
  | nil => intro w h; exact h
  | cons c rest ih =>
    intro w h
    simp only [intel_ec_writes]
    have h1 := (intel_ec_write_inv D fuel c.user c.count c.pos w h).1
    cases hr : intel_ec_write D fuel c.user c.count c.pos w with
    | done a w1 =>
      rw [hr] at h1
      exact ih w1 h1
    | spin w1 =>
      rw [hr] at h1
      exact h1

theorem intel_ec_writes_done (D : EcPorts σ) (fuel : Nat) :
    ∀ (calls : List EcWriteCall) (w w2 : EcState σ) (u : Unit), EcInv w →
      intel_ec_writes D fuel calls w = Run.done u w2 →
      ∃ n : Nat, w2.total_write = w.total_write + 256 * n ∧
        ∃ s A, ec_outs w2.trace = ec_outs w.trace ++ s ∧
          (∀ rest, ec_addressed CMD_PAGE_PROGRAM (s ++ rest)
            = A ++ ec_addressed CMD_PAGE_PROGRAM rest) ∧
          A.map ec_offset = (List.range n).map (fun k => w.total_write.toNat + 256 * k) := by
  intro calls
  induction calls with
  | nil =>
    intro w w2 u _ h
    simp only [intel_ec_writes, Run.done.injEq] at h
    rw [← h.2]
    exact ⟨0, by simp, [], [], by simp, fun rest => rfl, rfl⟩
  | cons c rest ih =>
    intro w w2 u hI h
    simp only [intel_ec_writes] at h
    obtain ⟨r1, w1, h1, h⟩ := Run.andThen_done _ _ _ _ h
    have hI1 := (intel_ec_write_inv D fuel c.user c.count c.pos w hI).1
    rw [h1] at hI1
    obtain ⟨n1, t1, s1, A1, e1, d1, o1⟩ := intel_ec_write_done D fuel _ _ _ _ _ _ hI h1
    obtain ⟨n2, t2, s2, A2, e2, d2, o2⟩ := ih w1 w2 u hI1 h
    refine ⟨n1 + n2, by rw [t2, t1]; push_cast; ring, s1 ++ s2, A1 ++ A2, ?_, ?_, ?_⟩
    · rw [e2, e1, List.append_assoc]
    · intro tl
      rw [List.append_assoc, d1, d2, List.append_assoc]
    · rw [List.map_append, o1, o2, t1, List.range_add, List.map_append, List.map_map]
      congr 1
      apply List.map_congr_left
      intro a _
      have := hI.2.1
      simp only [Function.comp]
      omega

/-! ## `intel_ec_write` on the model controller whose polls complete at once -/

theorem idle_intel_ec_write_blocks (fuel : Nat) (buffer : List Nat) :
    ∀ (left block : Nat) (pos : Int) (w : EcState Unit),
      (intel_ec_write_blocks ecIdle fuel buffer left block pos w).isDone = true := by
  intro left
  induction left with
  | zero => intro block pos w; rfl
  | succ n ih =>
    intro block pos w
    exact
      Run.andThen_isDone _ _ (idle_enable_flash_write fuel w) fun _ w1 =>
      Run.andThen_isDone _ _ (idle_wait_for_ec_free fuel w1) fun _ w2 =>
      Run.andThen_isDone _ _ (idle_send_cmd_to_pm fuel _ w2) fun _ w3 =>
      Run.andThen_isDone _ _ (idle_send_cmd_to_ec fuel _ w3) fun _ w4 =>
      Run.andThen_isDone _ _ (idle_send_byte_to_ec fuel _ w4) fun _ w5 =>
      Run.andThen_isDone _ _ (idle_send_byte_to_ec fuel _ w5) fun _ w6 =>
      Run.andThen_isDone _ _ (idle_send_byte_to_ec fuel _ w6) fun _ w7 =>
      Run.andThen_isDone _ _ (idle_ec_send_bytes fuel _ w7) fun _ w8 =>
      Run.andThen_isDone _ _ (idle_wait_for_ec_free fuel _) fun _ w9 =>
      ih _ _ w9

theorem idle_intel_ec_write (fuel : Nat) (user : Option (List Nat)) (count : Nat)
    (pos : Option Int) (w : EcState Unit) :
    (intel_ec_write ecIdle fuel user count pos w).isDone = true := by
  unfold intel_ec_write
  cases pos with
  | none => rfl
  | some p =>
    simp only
    split
    · rfl
    · split
      · rfl
      · split
        · rfl
        · cases w.ec_buffer with
          | none => rfl
          | some buffer =>
            cases user with
            | none => rfl
            | some data =>
              exact Run.andThen_isDone _ _ (idle_intel_ec_write_blocks fuel _ _ _ _ _)
                (fun _ _ => rfl)

theorem idle_intel_ec_writes (fuel : Nat) :
    ∀ (calls : List EcWriteCall) (w : EcState Unit),
      (intel_ec_writes ecIdle fuel calls w).isDone = true := by
  intro calls
  induction calls with
  | nil => intro w; rfl
  | cons c rest ih =>
    intro w
    exact Run.andThen_isDone _ _ (idle_intel_ec_write fuel _ _ _ w) (fun _ w1 => ih w1)

/-- On the model controller whose input buffer never empties the first poll
of `intel_ec_write` uses up its repeats: the call does not return, and
`total_write` is as it was. -/
theorem intel_ec_write_stuck_example :
    (intel_ec_write ecStuck 3 (some (List.replicate 256 0xAB)) 256 (some 0)
      (ecFresh 0)).isDone = false ∧
    (intel_ec_write ecStuck 3 (some (List.replicate 256 0xAB)) 256 (some 0)
      (ecFresh 0)).state.total_write = 0 := by
  decide

/-- C27: over any sequence of `intel_ec_write` calls entered with
`total_write = 0`, on any controller and with any bound on the polling loops,
`total_write` is a multiple of 256 between 0 and `FLASH_SIZE` in the state the
sequence ends in (returned, or stuck in a poll), and when the sequence has
returned, the address bytes sent after the `CMD_PAGE_PROGRAM` commands encode,
as `high * 65536 + middle * 256 + low`, the offsets 0, 256, 512, ... up to
the final `total_write`: each block carries the value `total_write` had when
it was written. -/
theorem intel_ec_write_addresses_encode_total_write (D : EcPorts σ) (fuel : Nat)
    (calls : List EcWriteCall) (w : EcState σ) (h0 : w.total_write = 0) :
    EcInv (intel_ec_writes D fuel calls w).state ∧
    ((intel_ec_writes D fuel calls w).isDone = true →
      (ec_addressed CMD_PAGE_PROGRAM
          (newOuts w.trace (intel_ec_writes D fuel calls w).state.trace)).map ec_offset
        = (List.range ((intel_ec_writes D fuel calls w).state.total_write
            / BLOCK_SIZE).toNat).map (fun k => BLOCK_SIZE * k)) := by
  have hI : EcInv w := by
    refine ⟨?_, ?_, ?_⟩ <;> rw [h0] <;> simp [FLASH_SIZE]
  refine ⟨intel_ec_writes_inv D fuel calls w hI, ?_⟩
  intro hd
  obtain ⟨u, w2, hr⟩ := (Run.isDone_iff _).1 hd
  rw [hr]
  obtain ⟨n, t, s, A, e, d, o⟩ := intel_ec_writes_done D fuel calls w w2 u hI hr
  have hA := d []
  simp only [List.append_nil, ec_addressed] at hA
  simp only [Run.state]
  rw [newOuts_append _ _ s e, hA, o, t, h0]
  simp only [BLOCK_SIZE, Nat.cast_ofNat, Int.toNat_zero, Nat.zero_add, zero_add]
  congr 2
  omega

set_option maxRecDepth 100000 in
/-- Witness for C27: on the model controller whose polls complete at once,
a 512-byte write followed by a 256-byte write, entered with `total_write =
0`, returns with `total_write = 768` after page-program commands at the
offsets 0, 256 and 512. -/
theorem intel_ec_write_addresses_encode_total_write_witness :
    (ecFresh 0).total_write = 0 ∧
    (intel_ec_writes ecIdle 1
      [⟨some (List.replicate 512 0xAB), 512, some 0⟩, ⟨some (List.replicate 256 0x01), 256, some 512⟩]
      (ecFresh 0)).isDone = true ∧
    (intel_ec_writes ecIdle 1
      [⟨some (List.replicate 512 0xAB), 512, some 0⟩, ⟨some (List.replicate 256 0x01), 256, some 512⟩]
      (ecFresh 0)).state.total_write = 768 ∧
    EcInv (intel_ec_writes ecIdle 1
      [⟨some (List.replicate 512 0xAB), 512, some 0⟩, ⟨some (List.replicate 256 0x01), 256, some 512⟩]
      (ecFresh 0)).state ∧
    (ec_addressed CMD_PAGE_PROGRAM
        (newOuts (ecFresh 0).trace (intel_ec_writes ecIdle 1
          [⟨some (List.replicate 512 0xAB), 512, some 0⟩,
            ⟨some (List.replicate 256 0x01), 256, some 512⟩]
          (ecFresh 0)).state.trace)).map ec_offset
      = (List.range ((intel_ec_writes ecIdle 1
          [⟨some (List.replicate 512 0xAB), 512, some 0⟩,
            ⟨some (List.replicate 256 0x01), 256, some 512⟩]
          (ecFresh 0)).state.total_write / BLOCK_SIZE).toNat).map (fun k => BLOCK_SIZE * k) :=
  ⟨rfl, idle_intel_ec_writes 1 _ _, by decide,
    (intel_ec_write_addresses_encode_total_write ecIdle 1 _ (ecFresh 0) rfl).1,
    (intel_ec_write_addresses_encode_total_write ecIdle 1 _ (ecFresh 0) rfl).2
      (idle_intel_ec_writes 1 _ _)⟩


end SerDes
